import Mathlib

/-!
Verification development for the recursive call-graph analysis engine of the
reqgen repository (flow analyzer).  The definitions below are a shallow
embedding of the TypeScript sources:

* `CodeFlowAnalyzer` (analyzer module): `analyzeMethod`, `analyzeMethodFlow` /
  `runRecursiveFlowAnalysis`, `analyzeMethodRecursively`,
  `processMethodCallsRecursively`, `parseLLMResponse`,
  `extractMethodCallsFromBlock`, `buildMethodCallSummary`,
  `followLLMSuggestions`, `extractLLMSuggestions`, `addMethodToLinearFlow`,
  `integrateInnerAnalysis`, `createPlaceholderAnalysis`, helpers;
* `InMemoryMethodCache` (cache module): `get`, `set`, eviction and expiry;
* `PersistentAnalysisCache` (persistent cache module): `get`, `set`,
  `cleanupCache`.

Modelling conventions:

* JavaScript `Map` objects are association lists in insertion order
  (`mapGet` / `mapSet` / `mapDelete` mirror `Map.get` / `Map.set` /
  `Map.delete`; `mapSet` keeps the position of an existing key, as `Map.set`
  does).
* `Date.now()` is the field `now` of the analyzer state.  No operation of the
  analyzer advances the clock, i.e. a run is modelled as instantaneous; the
  age checks (`isExpired`, `MAX_CACHE_AGE_MS`) are embedded faithfully and
  compare against this clock.
* The language-model oracle (`model.sendRequest` plus the surrounding
  timeout `Promise.race`) is an environment function returning either the
  complete response text or a thrown error message (e.g. the
  "Analysis timeout" rejection).  Every invocation is recorded in
  `oracleLog`.
* The md5 / sha256 content hashes are embedded as injective taggings of the
  hashed text; the analyzer only ever compares hashes for equality.
* Exceptions are `Except`; the `try`/`catch` blocks of the source become
  `match` on the `Except` value.
* String scanning replaces the JavaScript regular expressions.  Each lazy
  regex of the source is implemented by explicit first-occurrence scanning
  over the character list (the lazy groups of the source patterns are
  delimited by the literal markers that follow them, so first-occurrence
  scanning matches the regex behaviour on texts where the markers occur in
  order).  Scanning loops carry a fuel argument bounded by the text length
  so that all definitions are structurally recursive and kernel-reducible.
* TypeScript string-literal union types (`AnalysisStatus`, block types) are
  runtime strings and are embedded as `String`; `StepInDecision` and
  `LinearStepType` are closed enums produced only by the analyzer itself and
  are embedded as inductives.
-/

namespace ReqGen

/-- Analysis status: runtime value of the TS union
`'complete' | 'partial' | 'error' | 'external'`, kept as a string. -/
abbrev AnalysisStatus := String

/-- Step-in decision for method calls (closed enum `StepInDecision`). -/
inductive StepInDecision where
  | stepInto
  | objectLookup
  | external
  | notFound
  deriving DecidableEq, Repr, BEq

/-- Step types of the linear execution flow (`LinearStepType`). -/
inductive LinearStepType where
  | methodStart
  | execution
  | methodCall
  | methodReturn
  | conditional
  | methodEnd
  deriving DecidableEq, Repr, BEq

/-- A method call within an execution block (`MethodCall`).  The field
`conditionalExecution` of the source is never assigned by the analyzer and is
omitted. -/
structure MethodCall where
  className : String
  methodName : String
  parameters : String
  stepInDecision : StepInDecision
  reasoning : String
  expectedBehavior : String
  executionOrder : Nat
  deriving DecidableEq, Repr, BEq

/-- A semantic execution block (`ExecutionBlock`).  The block type is the
runtime string produced by `type.toLowerCase()` (the source casts it
uncheckedly with `as any`).  `conditionalExecution` is never assigned and is
omitted. -/
structure ExecutionBlock where
  blockId : String
  blockType : String
  description : String
  executionFlow : String
  methodCalls : List MethodCall
  nextBlocks : List String
  deriving DecidableEq, Repr, BEq

/-- The four-bucket call classification summary of a `MethodAnalysis`. -/
structure MethodCallSummary where
  stepInto : List MethodCall
  objectLookup : List MethodCall
  external : List MethodCall
  notFound : List MethodCall
  deriving DecidableEq, Repr, BEq

/-- Complete analysis of a single method (`MethodAnalysis`), the unit of
memoization. -/
structure MethodAnalysis where
  className : String
  methodName : String
  language : String
  analysisStatus : AnalysisStatus
  executionBlocks : List ExecutionBlock
  methodCallSummary : MethodCallSummary
  analysisTimestamp : Nat
  contentHash : String
  errorMessage : Option String
  inheritedFrom : Option String
  deriving DecidableEq, Repr, BEq

/-- Entry of the in-memory cache (`CacheEntry`). -/
structure CacheEntry where
  key : String
  analysis : MethodAnalysis
  timestamp : Nat
  accessCount : Nat
  contentHash : String
  deriving DecidableEq, Repr, BEq

/-- Statistics counters of the in-memory cache (`CacheStats`).  `totalEntries`
is the size of the map and `hitRate` is a derived floating-point ratio; only
the integer counters are carried. -/
structure MemStats where
  hitCount : Nat
  missCount : Nat
  evictionCount : Nat
  deriving DecidableEq, Repr, BEq

/-- Entry of the persistent cache (`PersistentCacheEntry`): the analysis plus
its validation metadata. -/
structure PEntry where
  analysis : MethodAnalysis
  contentHash : String
  modelName : String
  timestamp : Nat
  filePath : String
  version : String
  deriving DecidableEq, Repr, BEq

/-- A single step of the linear execution flow (`LinearExecutionStep`). -/
structure LinearStep where
  stepNumber : Nat
  depth : Nat
  sourceMethod : String
  description : String
  stepType : LinearStepType
  originalBlockId : Option String
  deriving DecidableEq, Repr, BEq

/-- The linear execution flow (`LinearExecutionFlow`). -/
structure LinearFlow where
  steps : List LinearStep
  methodReferences : List (String × MethodAnalysis)
  totalSteps : Nat
  rootMethod : String
  deriving DecidableEq, Repr, BEq

/-- Call stack entry (`CallStackEntry`); `insertionPoint` is always `null`
in the source and is omitted, the execution context is the single
`isConditional` flag (always created `false`). -/
structure CallStackEntry where
  className : String
  methodName : String
  depth : Nat
  isConditional : Bool
  deriving DecidableEq, Repr, BEq

/-- Analysis configuration (`AnalysisConfig`): the fields actually read by
the recursion controller.  `maxAnalysisTimeMs` only feeds the oracle timeout,
which the environment models by returning a thrown message;
`stepIntoStrategy`, `enableCaching` and `cacheExpiryMs` are never read by the
analyzer. -/
structure AnalysisConfig where
  maxCallStackDepth : Nat
  maxTotalMethods : Nat
  deriving DecidableEq, Repr, BEq

/-- A source file as provided by the workspace (`findClassOrSymbol` /
`readFileContent` / `detectLanguage` combined). -/
structure SrcFile where
  filePath : String
  content : String
  language : String
  deriving DecidableEq, Repr, BEq

/-- Workspace file information (`FileInfo`) as built by `getFileInfo`. -/
structure FileInfo where
  className : String
  filePath : String
  content : String
  language : String
  contentHash : String
  lastModified : Nat
  deriving DecidableEq, Repr, BEq

/-- A class suggestion extracted from an oracle response
(`extractLLMSuggestions` result element). -/
structure Suggestion where
  className : String
  reason : String
  deriving DecidableEq, Repr, BEq

/-- Result of parsing an oracle response (`ParsedMethodAnalysis`). -/
structure ParsedResponse where
  executionBlocks : List ExecutionBlock
  methodCalls : List MethodCall
  analysisStatus : AnalysisStatus
  errorMessage : Option String
  deriving DecidableEq, Repr, BEq

/-- The environment: everything outside the analyzer core.  `files` is the
workspace (`findClassOrSymbol` + `readFileContent`), `oracle` the language
model request (class name, method name, file content ↦ response text or
thrown message), `modelName` the display name of the single available model,
`persistentEnabled` whether a workspace persistent cache was constructed, and
`sfuel` bounds the `followLLMSuggestions` ↔ `performMethodAnalysis` recursion
(which the source does not bound; a run that would recurse deeper than
`sfuel` is not modelled). -/
structure Env where
  files : String → Option SrcFile
  oracle : String → String → String → Except String String
  modelName : String
  persistentEnabled : Bool
  sfuel : Nat

/-- Analyzer-plus-session state: the mutable fields of `CodeFlowAnalyzer`
(`cache`, `persistentCache.entries`, `selectedModel`, `linearFlow`) together
with the mutable fields of the `AnalysisSession` and the log of oracle
invocations. -/
structure AState where
  now : Nat
  mem : List (String × CacheEntry)
  stats : MemStats
  pc : List (String × PEntry)
  selectedModel : Option String
  oracleLog : List (String × String)
  visited : List String
  totalAnalyzed : Nat
  callStack : List CallStackEntry
  flow : Option LinearFlow
  deriving Repr

/-! ### JavaScript `Map` as an association list -/

/-- `Map.get`. -/
def mapGet {α : Type} : List (String × α) → String → Option α
  | [], _ => none
  | (k', v) :: t, k => if k' = k then some v else mapGet t k

/-- `Map.set`: replace in place if the key is present, else append. -/
def mapSet {α : Type} : List (String × α) → String → α → List (String × α)
  | [], k, v => [(k, v)]
  | (k', v') :: t, k, v =>
      if k' = k then (k', v) :: t else (k', v') :: mapSet t k v

/-- `Map.delete`. -/
def mapDelete {α : Type} : List (String × α) → String → List (String × α)
  | [], _ => []
  | (k', v') :: t, k => if k' = k then t else (k', v') :: mapDelete t k

/-! ### String scanning utilities -/

/-- Whether `pat` is a prefix of `s` (on character lists). -/
def isPrefixCL : List Char → List Char → Bool
  | [], _ => true
  | _ :: _, [] => false
  | p :: ps, c :: cs => p = c && isPrefixCL ps cs

/-- First-occurrence split: `splitFirstCL pat s = some (before, after)` where
`s = before ++ pat ++ after` at the first occurrence of `pat`. -/
def splitFirstCL (pat : List Char) : List Char → Option (List Char × List Char)
  | [] => if pat.isEmpty then some ([], []) else none
  | c :: cs =>
      if isPrefixCL pat (c :: cs) then some ([], (c :: cs).drop pat.length)
      else match splitFirstCL pat cs with
        | some (a, b) => some (c :: a, b)
        | none => none

/-- First-occurrence split on strings. -/
def splitFirst (s pat : String) : Option (String × String) :=
  match splitFirstCL pat.data s.data with
  | some (a, b) => some (String.mk a, String.mk b)
  | none => none

/-- Substring containment (`String.prototype.includes`). -/
def strContains (s pat : String) : Bool :=
  (splitFirstCL pat.data s.data).isSome

/-- Lower-casing of one character (`String.prototype.toLowerCase`,
restricted to ASCII; the non-ASCII characters appearing in the embedded
marker strings are unaffected by Unicode lower-casing). -/
def charLower (c : Char) : Char :=
  if 65 ≤ c.toNat && c.toNat ≤ 90 then Char.ofNat (c.toNat + 32) else c

/-- Lower-casing of a string. -/
def lowerStr (s : String) : String :=
  String.mk (s.data.map charLower)

/-- Case-insensitive containment, as in
`text.toLowerCase().includes(ind.toLowerCase())`. -/
def containsCI (s pat : String) : Bool :=
  strContains (lowerStr s) (lowerStr pat)

/-- ASCII identifier start character, `[A-Za-z_]`. -/
def isIdentStart (c : Char) : Bool :=
  (97 ≤ c.toNat && c.toNat ≤ 122) || (65 ≤ c.toNat && c.toNat ≤ 90) || c = '_'

/-- ASCII identifier character, `[A-Za-z0-9_]`. -/
def isIdentChar (c : Char) : Bool :=
  isIdentStart c || (48 ≤ c.toNat && c.toNat ≤ 57)

/-- JavaScript `\s` whitespace (on the characters that occur here). -/
def isWsChar (c : Char) : Bool :=
  c = ' ' || c = '\t' || c = '\n' || c = '\r'

/-- `isValidIdentifier`: `/^[A-Za-z_][A-Za-z0-9_]*$/.test(id) && id.length < 100`. -/
def isValidIdentifier (s : String) : Bool :=
  (match s.data with
   | [] => false
   | c :: cs => isIdentStart c && cs.all isIdentChar) && s.length < 100

/-- `String.prototype.trim` (JavaScript trims whitespace at both ends). -/
def trimStr (s : String) : String :=
  String.mk (((s.data.dropWhile isWsChar).reverse.dropWhile isWsChar).reverse)

/-- JavaScript `substring(0, n)` (code-unit counts only differ from character
counts outside the texts handled here). -/
def takeStr (s : String) (n : Nat) : String :=
  String.mk (s.data.take n)

/-! ### Oracle response parser (`parseLLMResponse` and helpers) -/

/-- The content-hash function of the cache module (`generateContentHash`,
md5): embedded as an injective tagging of the content, since the analyzer
only compares hashes for equality. -/
def generateContentHash (content : String) : String :=
  "md5:" ++ content

/-- The content-hash function of the persistent cache
(`calculateContentHash`, sha256): embedded as an injective tagging. -/
def sha256Hash (content : String) : String :=
  "sha256:" ++ content

/-- `parseMethodCall`: parse `Class.method(params)` or `method(params)`
after stripping backticks and trimming; returns
`(className, methodName, parameters)` or `none` for unparsable citations. -/
def parseMethodCall (fullCall : String) : Option (String × String × String) :=
  let cleanCall := trimStr (String.mk (fullCall.data.filter (· ≠ '`')))
  let cs := cleanCall.data
  -- /^([A-Za-z_][A-Za-z0-9_]*)\s*\.\s*([A-Za-z_][A-Za-z0-9_]*)\s*\(([^)]*)\)\s*$/
  let ident : List Char → Option (List Char × List Char) := fun l =>
    match l with
    | c :: t => if isIdentStart c then
        some (c :: t.takeWhile isIdentChar, t.dropWhile isIdentChar)
      else none
    | [] => none
  let finishParams : List Char → List Char → Option (List Char × List Char) :=
    fun name rest =>
      match rest.dropWhile isWsChar with
      | '(' :: r1 =>
          let params := r1.takeWhile (· ≠ ')')
          (match r1.dropWhile (· ≠ ')') with
           | ')' :: r2 => if (r2.dropWhile isWsChar).isEmpty then
               some (name, params) else none
           | _ => none)
      | _ => none
  match ident cs with
  | none => none
  | some (name1, rest1) =>
    match rest1.dropWhile isWsChar with
    | '.' :: r2 =>
        (match ident (r2.dropWhile isWsChar) with
         | some (name2, rest2) =>
             (match finishParams name2 rest2 with
              | some (m, params) =>
                  some (trimStr (String.mk name1), trimStr (String.mk m),
                        trimStr (String.mk params))
              | none => none)
         | none => none)
    | _ =>
        -- standalone /^([A-Za-z_][A-Za-z0-9_]*)\s*\(([^)]*)\)\s*$/
        (match finishParams name1 rest1 with
         | some (m, params) =>
             some ("Unknown", trimStr (String.mk m), trimStr (String.mk params))
         | none => none)

/-- The classification-phrase mapping of `extractMethodCallsFromBlock`
(lines mapping `classification.toLowerCase().trim()` to a
`StepInDecision`, with the legacy `Step Into: Yes/No` fallback). -/
def classifyDecision (classification : String) : StepInDecision :=
  let cl := trimStr (lowerStr classification)
  if strContains cl "step into" then .stepInto
  else if strContains cl "object lookup" then .objectLookup
  else if strContains cl "external" then .external
  else if strContains cl "yes" then .stepInto
  else .external

/-- One match step of the call-citation pattern of
`extractMethodCallsFromBlock` (dash, `**Call**:`, backtick-quoted lazy
capture, newline, lazy gap, dash, `**Classification**:`, lazy capture,
parenthesised lazy capture; flags `gs`): returns the captures
`(fullCall, classification, reasoning)` and the rest of the text after the
match. -/
def nextCallCitation (s : String) :
    Option (String × String × String × String) :=
  match splitFirst s "- **Call**: `" with
  | none => none
  | some (_, r1) =>
    match splitFirst r1 "`\n" with
    | none => none
    | some (fullCall, r2) =>
      if fullCall.data.isEmpty then none
      else match splitFirst r2 "- **Classification**: " with
      | none => none
      | some (_, r3) =>
        match splitFirst r3 " (" with
        | none => none
        | some (classification, r4) =>
          if classification.data.isEmpty then none
          else match splitFirst r4 ")" with
          | none => none
          | some (reasoning, r5) =>
            if reasoning.data.isEmpty then none
            else some (fullCall, classification, reasoning, r5)

/-- Scanning loop of `extractMethodCallsFromBlock`: parsed citations become
`MethodCall`s (with `executionOrder` the running call index), unparsable
citations are dropped without incrementing the index. -/
def extractCallsLoop : Nat → String → Nat → List MethodCall
  | 0, _, _ => []
  | fuel + 1, s, callIndex =>
    match nextCallCitation s with
    | none => []
    | some (fullCall, classification, reasoning, rest) =>
      match parseMethodCall fullCall with
      | some (cls, mth, params) =>
          { className := cls
            methodName := mth
            parameters := params
            stepInDecision := classifyDecision classification
            reasoning := trimStr reasoning
            expectedBehavior := "To be analyzed"
            executionOrder := callIndex } :: extractCallsLoop fuel rest (callIndex + 1)
      | none => extractCallsLoop fuel rest callIndex

/-- `extractMethodCallsFromBlock` (the `blockIndex` argument of the source is
unused by its body). -/
def extractMethodCallsFromBlock (blockText : String) : List MethodCall :=
  extractCallsLoop (blockText.data.length + 1) blockText 0

/-- `extractExecutionFlow`:
`/\*\*Execution Flow\*\*:\n(.*?)(?=\n\*\*|$)/s` with fallback text. -/
def extractExecutionFlow (blockText : String) : String :=
  match splitFirst blockText "**Execution Flow**:\n" with
  | none => "No execution flow documented"
  | some (_, rest) =>
    match splitFirst rest "\n**" with
    | some (flow, _) => trimStr flow
    | none => trimStr rest

/-- One match attempt of the block pattern
`/#### Block \d+: (.+?)\n\*\*Type\*\*: (.+?)\n/g` at a position where the
literal `#### Block ` has just been consumed: parses `digits`, `": "`, the
description line, then a line `**Type**: ty`.  Returns
`(description, type, rest-after-match)`. -/
def parseBlockHeader (s : String) : Option (String × String × String) :=
  let cs := s.data
  let digits := cs.takeWhile (fun c => 48 ≤ c.toNat && c.toNat ≤ 57)
  if digits.isEmpty then none
  else match cs.dropWhile (fun c => 48 ≤ c.toNat && c.toNat ≤ 57) with
  | ':' :: ' ' :: r1 =>
      let desc := r1.takeWhile (· ≠ '\n')
      if desc.isEmpty then none
      else match r1.dropWhile (· ≠ '\n') with
      | '\n' :: r2 =>
        (match splitFirstCL "**Type**: ".data r2 with
         | some ([], r3) =>
             let ty := r3.takeWhile (· ≠ '\n')
             if ty.isEmpty then none
             else (match r3.dropWhile (· ≠ '\n') with
               | '\n' :: r4 => some (String.mk desc, String.mk ty, String.mk r4)
               | _ => none)
         | _ => none)
      | _ => none
  | _ => none

/-- `extractBlockText`: the text from the start of the current block match up
to the next occurrence of `#### Block` (or the end of the response). -/
def extractBlockText (afterMarker : String) : String :=
  match splitFirst afterMarker "#### Block" with
  | some (before, _) => "#### Block " ++ before
  | none => "#### Block " ++ afterMarker

/-- Scanning loop of the block extraction in `parseLLMResponse`: on each
occurrence of `#### Block ` attempt the header pattern; a successful match
yields an `ExecutionBlock` (with the calls extracted from its block text) and
scanning resumes after the matched header, an unsuccessful one resumes after
the marker. -/
def extractBlocksLoop : Nat → String → Nat →
    List ExecutionBlock × List MethodCall
  | 0, _, _ => ([], [])
  | fuel + 1, s, blockIndex =>
    match splitFirst s "#### Block " with
    | none => ([], [])
    | some (_, afterMarker) =>
      match parseBlockHeader afterMarker with
      | none => extractBlocksLoop fuel afterMarker blockIndex
      | some (desc, ty, rest) =>
        let blockText := extractBlockText afterMarker
        let blockMethodCalls := extractMethodCallsFromBlock blockText
        let block : ExecutionBlock :=
          { blockId := "block-" ++ toString blockIndex
            blockType := lowerStr ty
            description := trimStr desc
            executionFlow := extractExecutionFlow blockText
            methodCalls := blockMethodCalls
            nextBlocks := ["block-" ++ toString (blockIndex + 1)] }
        let (blocks, calls) := extractBlocksLoop fuel rest (blockIndex + 1)
        (block :: blocks, blockMethodCalls ++ calls)

/-- The `methodNotFoundIndicators` list of `parseLLMResponse`. -/
def methodNotFoundIndicators : List String :=
  ["not found", "does not exist", "cannot be found", "method not found",
   "❌", "Method Detection Result:\n❌", "Similar Methods Found:"]

/-- Whether the response matches one of the `parseLLMResponse` not-found
markers (case-insensitively). -/
def hasNotFoundMarker (responseText : String) : Bool :=
  methodNotFoundIndicators.any (fun ind => containsCI responseText ind)

/-- `parseLLMResponse`. -/
def parseLLMResponse (responseText className methodName : String) :
    ParsedResponse :=
  if hasNotFoundMarker responseText then
    { executionBlocks := []
      methodCalls := []
      analysisStatus := "error"
      errorMessage :=
        some ("Method " ++ methodName ++ " not found in class " ++ className) }
  else
    let (blocks, calls) :=
      extractBlocksLoop (responseText.data.length + 1) responseText 0
    { executionBlocks := blocks
      methodCalls := calls
      analysisStatus := "complete"
      errorMessage := none }

/-- `isMethodNotFoundResponse`. -/
def isMethodNotFoundResponse (responseText : String) : Bool :=
  ["Method not found", "not found in class", "❌ **Method",
   "Method Detection Result:\n❌", "does not exist", "could not be found"
  ].any (fun ind => containsCI responseText ind)

/-- `buildMethodCallSummary`: the `forEach`/`switch` pushing each call into
the bucket of its `stepInDecision`, written as a recursion that preserves
order. -/
def buildMethodCallSummary : List MethodCall → MethodCallSummary
  | [] => { stepInto := [], objectLookup := [], external := [], notFound := [] }
  | c :: t =>
    let s := buildMethodCallSummary t
    match c.stepInDecision with
    | .stepInto => { s with stepInto := c :: s.stepInto }
    | .objectLookup => { s with objectLookup := c :: s.objectLookup }
    | .external => { s with external := c :: s.external }
    | .notFound => { s with notFound := c :: s.notFound }

/-! ### Suggestion extraction (`extractLLMSuggestions`) -/

/-- Parse, after one of the `**Extends**:` / `**Implements**:` markers, the
tail ``\s*`([^`]+)`\s*-\s*([^\n]+)``; returns the class-name capture, the
reason capture and the rest of the text. -/
def parseSuggestionTail (s : String) : Option (String × String × String) :=
  match s.data.dropWhile isWsChar with
  | '`' :: r1 =>
      let name := r1.takeWhile (· ≠ '`')
      if name.isEmpty then none
      else match r1.dropWhile (· ≠ '`') with
      | '`' :: r2 =>
        (match r2.dropWhile isWsChar with
         | '-' :: r3 =>
             let r4 := r3.dropWhile isWsChar
             let reason := r4.takeWhile (· ≠ '\n')
             if reason.isEmpty then none
             else some (String.mk name, String.mk reason,
                        String.mk (r4.dropWhile (· ≠ '\n')))
         | _ => none)
      | _ => none
  | _ => none

/-- Scan for all matches of one of the `**Extends**:` / `**Implements**:`
patterns, building suggestions with the given reason prefix. -/
def scanMarkerSuggestions : Nat → String → String → String → List Suggestion
  | 0, _, _, _ => []
  | fuel + 1, marker, reasonPrefix, s =>
    match splitFirst s marker with
    | none => []
    | some (_, rest) =>
      match parseSuggestionTail rest with
      | some (name, reason, remaining) =>
          { className := trimStr name, reason := reasonPrefix ++ trimStr reason }
            :: scanMarkerSuggestions fuel marker reasonPrefix remaining
      | none => scanMarkerSuggestions fuel marker reasonPrefix rest

/-- Parse, after an opening backtick, the tail
``([A-Za-z_][A-Za-z0-9_]*)`\s*-\s*([^\n]+)`` of the alternative-class
pattern. -/
def parseAlternativeTail (s : String) : Option (String × String × String) :=
  match s.data with
  | c :: t =>
    if isIdentStart c then
      let name := c :: t.takeWhile isIdentChar
      match t.dropWhile isIdentChar with
      | '`' :: r2 =>
        (match r2.dropWhile isWsChar with
         | '-' :: r3 =>
             let r4 := r3.dropWhile isWsChar
             let reason := r4.takeWhile (· ≠ '\n')
             if reason.isEmpty then none
             else some (String.mk name, String.mk reason,
                        String.mk (r4.dropWhile (· ≠ '\n')))
         | _ => none)
      | _ => none
    else none
  | [] => none

/-- Scan the alternative-classes section for matches of
``/`([A-Za-z_][A-Za-z0-9_]*)`\s*-\s*([^\n]+)/g``. -/
def scanAlternatives : Nat → String → List (String × String)
  | 0, _ => []
  | fuel + 1, s =>
    match splitFirst s "`" with
    | none => []
    | some (_, rest) =>
      match parseAlternativeTail rest with
      | some (name, reason, remaining) =>
          (name, reason) :: scanAlternatives fuel remaining
      | none => scanAlternatives fuel rest

/-- `extractLLMSuggestions`: parent classes from `**Extends**:` matches, then
the `#### Alternative Classes to Check:` section, then `**Implements**:`
matches; the latter two are deduplicated against the suggestions collected so
far. -/
def extractLLMSuggestions (llmResponse : String) : List Suggestion :=
  let fuel := llmResponse.data.length + 1
  let parents := scanMarkerSuggestions fuel "**Extends**:" "Parent class: " llmResponse
  let alternatives :=
    match splitFirst llmResponse "#### Alternative Classes to Check:" with
    | none => []
    | some (_, afterHeader) =>
      let sectionText :=
        match splitFirst afterHeader "####" with
        | some (before, _) => before
        | none => afterHeader
      scanAlternatives (sectionText.data.length + 1) sectionText
  let withAlts := alternatives.foldl
    (fun acc (nr : String × String) =>
      if acc.any (fun sg => sg.className = trimStr nr.1) then acc
      else acc ++ [{ className := trimStr nr.1,
                     reason := "Alternative class: " ++ trimStr nr.2 }])
    parents
  let impls := scanMarkerSuggestions fuel "**Implements**:" "Interface: " llmResponse
  impls.foldl
    (fun acc sg =>
      if acc.any (fun sg2 => sg2.className = sg.className) then acc
      else acc ++ [sg])
    withAlts

/-! ### In-memory cache (`InMemoryMethodCache`, default configuration of
`createMethodAnalysisCache`: `maxEntries = 100`, `expiryMs = 300000`) -/

/-- Default `maxEntries` of the in-memory cache. -/
def memMaxEntries : Nat := 100

/-- Default `expiryMs` of the in-memory cache. -/
def memExpiryMs : Nat := 300000

/-- `getCacheKey`, identical in both cache tiers. -/
def memKey (className methodName : String) : String :=
  className ++ "#" ++ methodName

/-- The key of the linear-flow method-reference map
(`className.methodName`). -/
def flowKey (className methodName : String) : String :=
  className ++ "." ++ methodName

/-- The `evictOldest` search: the first entry with strictly smallest
timestamp, in map iteration order. -/
def oldestMemKey (entries : List (String × CacheEntry)) : Option String :=
  (entries.foldl
    (fun (acc : Option (String × Nat)) kv =>
      match acc with
      | none => some (kv.1, kv.2.timestamp)
      | some (k, t) => if kv.2.timestamp < t then some (kv.1, kv.2.timestamp)
                       else some (k, t))
    none).map (·.1)

/-- `InMemoryMethodCache.get`: miss on absence, expiry-delete-miss on an
entry older than `expiryMs`, otherwise a hit that bumps the access count and
the hit statistics. -/
def cacheGet (st : AState) (className methodName : String) :
    Option CacheEntry × AState :=
  let key := memKey className methodName
  match mapGet st.mem key with
  | none =>
      (none, { st with stats := { st.stats with missCount := st.stats.missCount + 1 } })
  | some e =>
      if st.now - e.timestamp > memExpiryMs then
        (none, { st with
                  mem := mapDelete st.mem key
                  stats := { st.stats with missCount := st.stats.missCount + 1 } })
      else
        let e2 := { e with accessCount := e.accessCount + 1 }
        (some e2, { st with
                     mem := mapSet st.mem key e2
                     stats := { st.stats with hitCount := st.stats.hitCount + 1 } })

/-- `InMemoryMethodCache.set`: evict the oldest entry when the cache is at
capacity, then insert the new entry timestamped now. -/
def cacheSet (st : AState) (className methodName : String)
    (analysis : MethodAnalysis) : AState :=
  let key := memKey className methodName
  let st :=
    if st.mem.length < memMaxEntries then st
    else match oldestMemKey st.mem with
      | some oldest =>
          { st with
             mem := mapDelete st.mem oldest
             stats := { st.stats with evictionCount := st.stats.evictionCount + 1 } }
      | none => st
  let entry : CacheEntry :=
    { key := key
      analysis := analysis
      timestamp := st.now
      accessCount := 0
      contentHash := analysis.contentHash }
  { st with mem := mapSet st.mem key entry }

/-! ### Persistent cache (`PersistentAnalysisCache`) -/

/-- `MAX_CACHE_AGE_MS` (30 days). -/
def pMaxAgeMs : Nat := 30 * 24 * 60 * 60 * 1000

/-- `MAX_CACHE_ENTRIES`. -/
def pMaxEntries : Nat := 1000

/-- `CACHE_VERSION`. -/
def pCacheVersion : String := "1.0.0"

/-- `PersistentAnalysisCache.get`: a stored entry is returned only when its
content hash, model name and age all validate; any mismatch deletes the entry
and misses. -/
def pcacheGet (st : AState) (className methodName fileContent modelName : String) :
    Option MethodAnalysis × AState :=
  let key := memKey className methodName
  match mapGet st.pc key with
  | none => (none, st)
  | some e =>
      if e.contentHash ≠ sha256Hash fileContent then
        (none, { st with pc := mapDelete st.pc key })
      else if e.modelName ≠ modelName then
        (none, { st with pc := mapDelete st.pc key })
      else if st.now - e.timestamp > pMaxAgeMs then
        (none, { st with pc := mapDelete st.pc key })
      else
        (some e.analysis, st)

/-- Iterated deletion of the `n` oldest entries (the capacity step of
`cleanupCache`, which sorts by timestamp and deletes the first
`size - MAX_CACHE_ENTRIES` entries). -/
def dropOldestP : Nat → List (String × PEntry) → List (String × PEntry)
  | 0, pc => pc
  | n + 1, pc =>
      match (pc.foldl
        (fun (acc : Option (String × Nat)) kv =>
          match acc with
          | none => some (kv.1, kv.2.timestamp)
          | some (k, t) => if kv.2.timestamp < t then some (kv.1, kv.2.timestamp)
                           else some (k, t))
        none) with
      | some (k, _) => dropOldestP n (mapDelete pc k)
      | none => pc

/-- `cleanupCache`: purge entries older than the retention window, then trim
to the maximum entry count oldest-first. -/
def pcacheCleanup (now : Nat) (pc : List (String × PEntry)) :
    List (String × PEntry) :=
  let pc := pc.filter (fun kv => ¬ (now - kv.2.timestamp > pMaxAgeMs))
  if pc.length > pMaxEntries then dropOldestP (pc.length - pMaxEntries) pc
  else pc

/-- `PersistentAnalysisCache.set` (the asynchronous `saveCache` disk write is
outside the model). -/
def pcacheSet (st : AState) (className methodName : String)
    (analysis : MethodAnalysis) (fileContent filePath modelName : String) :
    AState :=
  let key := memKey className methodName
  let entry : PEntry :=
    { analysis := analysis
      contentHash := sha256Hash fileContent
      modelName := modelName
      timestamp := st.now
      filePath := filePath
      version := pCacheVersion }
  { st with pc := pcacheCleanup st.now (mapSet st.pc key entry) }

/-! ### The analyzer (`CodeFlowAnalyzer`) -/

/-- `getFileInfo`: resolve the class to a workspace file or throw
`Class ... not found in workspace`. -/
def getFileInfo (env : Env) (st : AState) (className : String) :
    Except String FileInfo :=
  match env.files className with
  | none => .error ("Class " ++ className ++ " not found in workspace")
  | some f =>
      .ok { className := className
            filePath := f.filePath
            content := f.content
            language := f.language
            contentHash := generateContentHash f.content
            lastModified := st.now }

/-- The empty four-bucket summary. -/
def emptySummary : MethodCallSummary :=
  { stepInto := [], objectLookup := [], external := [], notFound := [] }

/-- The error `MethodAnalysis` built by the `catch` block of
`analyzeMethod`. -/
def mkErrorAnalysis (className methodName : String) (startTime : Nat)
    (msg : String) : MethodAnalysis :=
  { className := className
    methodName := methodName
    language := "unknown"
    analysisStatus := "error"
    executionBlocks := []
    methodCallSummary := emptySummary
    analysisTimestamp := startTime
    contentHash := ""
    errorMessage := some msg
    inheritedFrom := none }

/-- `createPlaceholderAnalysis`. -/
def createPlaceholderAnalysis (now : Nat) (className methodName : String)
    (status : AnalysisStatus) (reason : String) : MethodAnalysis :=
  { className := className
    methodName := methodName
    language := "unknown"
    analysisStatus := status
    executionBlocks :=
      [{ blockId := "placeholder-1"
         blockType := "methodCall"
         description := "Method analysis skipped: " ++ reason
         executionFlow := "This method was not analyzed due to: " ++ reason
         methodCalls := []
         nextBlocks := [] }]
    methodCallSummary := emptySummary
    analysisTimestamp := now
    contentHash := ""
    errorMessage := some reason
    inheritedFrom := none }

/-- `extractExpectedBehavior`: the description of the first `return` block,
else the (possibly truncated) join of the first three block descriptions. -/
def extractExpectedBehavior (analysis : MethodAnalysis) : String :=
  match analysis.executionBlocks with
  | [] => "Method behavior could not be determined"
  | _ =>
    match analysis.executionBlocks.find? (fun b => b.blockType = "return") with
    | some b => b.description
    | none =>
      let s := String.intercalate "; "
        ((analysis.executionBlocks.take 3).map (·.description))
      if s.length > 100 then takeStr s 97 ++ "..." else s

/-- One iteration of `performMethodAnalysis` up to and including the oracle
request: `selectLanguageModel` (the single available model becomes sticky if
none was selected), then the request with its invocation logged. -/
def invokeOracle (env : Env) (st : AState) (className methodName content : String) :
    Except String String × AState :=
  let mdl := st.selectedModel.getD env.modelName
  let st := { st with
                selectedModel := some mdl
                oracleLog := st.oracleLog ++ [(className, methodName)] }
  (env.oracle className methodName content, st)

/-- The `MethodAnalysis` record assembled at the end of
`performMethodAnalysis` from the parsed response. -/
def assembleAnalysis (className methodName : String) (fi : FileInfo)
    (parsed : ParsedResponse) (now : Nat) : MethodAnalysis :=
  { className := className
    methodName := methodName
    language := fi.language
    analysisStatus := parsed.analysisStatus
    executionBlocks := parsed.executionBlocks
    methodCallSummary := buildMethodCallSummary parsed.methodCalls
    analysisTimestamp := now
    contentHash := ""
    errorMessage := parsed.errorMessage
    inheritedFrom := none }

/-- The suggestion loop of `followLLMSuggestions`: for each suggested class,
resolve its file (failures are caught and skipped) and run the analysis
(`perform`, failures caught and skipped); the first suggestion whose analysis
is `complete` is returned with `className` set to the suggested class and
`inheritedFrom` set to the originally requested class. -/
def followLoop
    (perform : String → FileInfo → AState → Except String MethodAnalysis × AState)
    (env : Env) (originalClassName : String) :
    List Suggestion → AState → Option MethodAnalysis × AState
  | [], st => (none, st)
  | sg :: rest, st =>
    match getFileInfo env st sg.className with
    | .error _ => followLoop perform env originalClassName rest st
    | .ok sfi =>
      match perform sg.className sfi st with
      | (.error _, st) => followLoop perform env originalClassName rest st
      | (.ok analysis, st) =>
        if analysis.analysisStatus = "complete" then
          (some { analysis with
                    className := sg.className
                    inheritedFrom := some originalClassName }, st)
        else followLoop perform env originalClassName rest st

/-- `performMethodAnalysis`: prompt the oracle, parse the response, and on a
not-found response follow the extracted suggestions
(`followLLMSuggestions`); the fuel bounds the unbounded mutual recursion of
the source between `performMethodAnalysis` and `followLLMSuggestions`. -/
def performMethodAnalysis :
    Nat → Env → String → String → FileInfo → AState →
      Except String MethodAnalysis × AState
  | fuel, env, className, methodName, fi, st =>
    match invokeOracle env st className methodName fi.content with
    | (.error e, st) => (.error e, st)
    | (.ok responseText, st) =>
      let parsed := parseLLMResponse responseText className methodName
      let base := assembleAnalysis className methodName fi parsed st.now
      if parsed.analysisStatus = "error" ∧ isMethodNotFoundResponse responseText then
        match fuel with
        | 0 => (.ok base, st)
        | n + 1 =>
          match followLoop
              (fun cls fi2 st2 => performMethodAnalysis n env cls methodName fi2 st2)
              env className (extractLLMSuggestions responseText) st with
          | (some a, st) => (.ok a, st)
          | (none, st) => (.ok base, st)
      else (.ok base, st)

/-- `analyzeMethod`: in-memory cache lookup, file resolution, persistent
cache lookup (only once a model is selected), oracle analysis, caching of
the result in both tiers (errors in the in-memory tier only), with every
thrown error converted to a cached error analysis. -/
def analyzeMethod (env : Env) (className methodName : String) (st : AState) :
    MethodAnalysis × AState :=
  match cacheGet st className methodName with
  | (some entry, st) => (entry.analysis, st)
  | (none, st) =>
    let startTime := st.now
    match getFileInfo env st className with
    | .error msg =>
        let errA := mkErrorAnalysis className methodName startTime msg
        (errA, cacheSet st className methodName errA)
    | .ok fi =>
      let pHit : Option MethodAnalysis × AState :=
        if env.persistentEnabled then
          match st.selectedModel with
          | some mdl => pcacheGet st className methodName fi.content mdl
          | none => (none, st)
        else (none, st)
      match pHit with
      | (some a, st) => (a, cacheSet st className methodName a)
      | (none, st) =>
        match performMethodAnalysis env.sfuel env className methodName fi st with
        | (.error msg, st) =>
            let errA := mkErrorAnalysis className methodName startTime msg
            (errA, cacheSet st className methodName errA)
        | (.ok analysis0, st) =>
            let analysis := { analysis0 with
                                contentHash := generateContentHash fi.content
                                analysisTimestamp := startTime }
            let st := cacheSet st className methodName analysis
            let st :=
              if env.persistentEnabled ∧ analysis.analysisStatus = "complete" then
                match st.selectedModel with
                | some mdl =>
                    pcacheSet st className methodName analysis fi.content fi.filePath mdl
                | none => st
              else st
            (analysis, st)

/-! ### Linear flow assembler (`addMethodToLinearFlow` and step appends) -/

/-- An unnumbered step: everything of a `LinearExecutionStep` except the
globally assigned step number and the per-method constants. -/
structure ProtoStep where
  description : String
  stepType : LinearStepType
  originalBlockId : Option String
  deriving DecidableEq, Repr, BEq

/-- Assign consecutive step numbers starting at `base + 1` (the
`++currentStepNumber` counter of the source). -/
def numberSteps (depth : Nat) (sourceMethod : String) :
    Nat → List ProtoStep → List LinearStep
  | _, [] => []
  | base, p :: t =>
      { stepNumber := base + 1
        depth := depth
        sourceMethod := sourceMethod
        description := p.description
        stepType := p.stepType
        originalBlockId := p.originalBlockId } :: numberSteps depth sourceMethod (base + 1) t

/-- The call-step description and type of `addMethodToLinearFlow` for one
method call (step-into, object-lookup, or the external/not-found default). -/
def callProtoStep (mc : MethodCall) : ProtoStep :=
  match mc.stepInDecision with
  | .stepInto =>
      { description := "Call " ++ mc.className ++ "." ++ mc.methodName ++
          "(" ++ mc.parameters ++ ")"
        stepType := .methodCall
        originalBlockId := none }
  | .objectLookup =>
      { description := "Data access: " ++ mc.className ++ "." ++ mc.methodName ++
          "(" ++ mc.parameters ++ ") - " ++ mc.expectedBehavior
        stepType := .methodCall
        originalBlockId := none }
  | _ =>
      { description := "External call: " ++ mc.className ++ "." ++ mc.methodName ++
          "(" ++ mc.parameters ++ ") - " ++ mc.expectedBehavior
        stepType := .methodCall
        originalBlockId := none }

/-- The unnumbered step sequence emitted by `addMethodToLinearFlow` for one
method: `methodStart`, then per block an `execution` step followed by one
`methodCall` step per call, then `methodEnd`. -/
def methodProtoSteps (analysis : MethodAnalysis) : List ProtoStep :=
  ({ description := analysis.className ++ "." ++ analysis.methodName ++ "() starts"
     stepType := .methodStart
     originalBlockId := none } : ProtoStep) ::
  (analysis.executionBlocks.flatMap (fun b =>
    ({ description := b.description
       stepType := .execution
       originalBlockId := some b.blockId } : ProtoStep) ::
    b.methodCalls.map callProtoStep)) ++
  [{ description := analysis.className ++ "." ++ analysis.methodName ++ "() completes"
     stepType := .methodEnd
     originalBlockId := none }]

/-- `addMethodToLinearFlow`: deduplicate on the method-reference map, then
append the method's step sequence with consecutive global step numbers. -/
def addMethodToLinearFlow (analysis : MethodAnalysis) (depth : Nat)
    (f : LinearFlow) : LinearFlow :=
  let key := flowKey analysis.className analysis.methodName
  if (mapGet f.methodReferences key).isSome then f
  else
    let protos := methodProtoSteps analysis
    { f with
        methodReferences := mapSet f.methodReferences key analysis
        steps := f.steps ++ numberSteps depth key f.totalSteps protos
        totalSteps := f.totalSteps + protos.length }

/-- The `methodReturn` step appended by `processMethodCallsRecursively` after
a completed inner method. -/
def addReturnStep (f : LinearFlow) (depth : Nat)
    (sourceMethod description : String) : LinearFlow :=
  { f with
      steps := f.steps ++
        [{ stepNumber := f.totalSteps + 1
           depth := depth
           sourceMethod := sourceMethod
           description := description
           stepType := .methodReturn
           originalBlockId := none }]
      totalSteps := f.totalSteps + 1 }

/-- The call-update step of `integrateInnerAnalysis`: in the first block
containing a call with the matching class and method names, rewrite that
first matching call's expected behavior; later blocks are untouched
(`break`). -/
def updateCallsOnce (cls mth behavior : String) :
    List MethodCall → Option (List MethodCall)
  | [] => none
  | c :: t =>
      if c.className = cls ∧ c.methodName = mth then
        some ({ c with expectedBehavior := behavior } :: t)
      else
        (updateCallsOnce cls mth behavior t).map (fun t2 => c :: t2)

/-- Block traversal of `integrateInnerAnalysis`. -/
def updateBlocksOnce (cls mth behavior : String) :
    List ExecutionBlock → List ExecutionBlock
  | [] => []
  | b :: t =>
      match updateCallsOnce cls mth behavior b.methodCalls with
      | some cs => { b with methodCalls := cs } :: t
      | none => b :: updateBlocksOnce cls mth behavior t

/-- `integrateInnerAnalysis`: store the inner analysis in the linear flow's
method references and refine the expected behavior of the matching call of
the main analysis. -/
def integrateInnerAnalysis (mainAnalysis : MethodAnalysis)
    (methodCall : MethodCall) (innerAnalysis : MethodAnalysis)
    (flow : Option LinearFlow) : MethodAnalysis × Option LinearFlow :=
  let innerKey := flowKey innerAnalysis.className innerAnalysis.methodName
  let flow := flow.map (fun f =>
    { f with methodReferences := mapSet f.methodReferences innerKey innerAnalysis })
  let newBlocks := updateBlocksOnce methodCall.className methodCall.methodName
      (extractExpectedBehavior innerAnalysis) mainAnalysis.executionBlocks
  ({ mainAnalysis with executionBlocks := newBlocks }, flow)

/-! ### Recursion controller (`analyzeMethodRecursively` /
`processMethodCallsRecursively` / `runRecursiveFlowAnalysis`)

The source recursion is bounded by the depth guard
`depth >= session.config.maxCallStackDepth`; the embedding carries the fuel
`maxCallStackDepth + 1 - depth`, which decreases in lockstep with the depth.
The fuel-exhausted branch coincides with the source's depth-guard placeholder
and is reachable only at `depth > maxCallStackDepth`, where the source guard
returns the same placeholder. -/

/-- The loop of `processMethodCallsRecursively` over the step-into calls of a
completed analysis: recursively analyze each call at `depth + 1` (via the
supplied `analyze`), append a `methodReturn` step when the inner analysis is
complete, and integrate the inner analysis into the owning analysis.  The
`catch` branch of the source loop is unreachable in the embedding because
`analyzeMethodRecursively` never throws. -/
def processCallsLoop (analyze : String → String → AState → MethodAnalysis × AState)
    (depth : Nat) :
    MethodAnalysis → List MethodCall → AState → MethodAnalysis × AState
  | analysis, [], st => (analysis, st)
  | analysis, mc :: rest, st =>
    let (innerAnalysis, st) := analyze mc.className mc.methodName st
    let st :=
      if innerAnalysis.analysisStatus = "complete" then
        { st with flow := st.flow.map (fun f =>
            addReturnStep f depth (flowKey analysis.className analysis.methodName)
              ("↩️ " ++ mc.className ++ "." ++ mc.methodName ++ "() returns: " ++
                extractExpectedBehavior innerAnalysis)) }
      else st
    let (analysis, newFlow) := integrateInnerAnalysis analysis mc innerAnalysis st.flow
    processCallsLoop analyze depth analysis rest { st with flow := newFlow }

/-- `analyzeMethodRecursively`, on fuel `maxCallStackDepth + 1 - depth`:
depth guard, cycle guard (cached analysis or cycle placeholder), budget
guard, identifier validation, then marking, the base `analyzeMethod`, the
root-method update on inherited roots, the linear-flow emission for complete
analyses, and the recursive processing of step-into calls, with the call
stack popped on exit. -/
def analyzeRecFuel (env : Env) (cfg : AnalysisConfig) :
    Nat → String → String → Nat → AState → MethodAnalysis × AState
  | 0, className, methodName, _, st =>
      (createPlaceholderAnalysis st.now className methodName "partial"
        "Maximum recursion depth reached", st)
  | fuel + 1, className, methodName, depth, st =>
    let key := memKey className methodName
    if depth ≥ cfg.maxCallStackDepth then
      (createPlaceholderAnalysis st.now className methodName "partial"
        "Maximum recursion depth reached", st)
    else if st.visited.contains key then
      match cacheGet st className methodName with
      | (some e, st) => (e.analysis, st)
      | (none, st) =>
          (createPlaceholderAnalysis st.now className methodName "partial"
            "Circular dependency detected", st)
    else if st.totalAnalyzed ≥ cfg.maxTotalMethods then
      (createPlaceholderAnalysis st.now className methodName "partial"
        "Maximum method count reached", st)
    else if ¬ (isValidIdentifier className ∧ isValidIdentifier methodName) then
      (createPlaceholderAnalysis st.now className methodName "error"
        "Invalid class or method name", st)
    else
      let st := { st with
                    visited := st.visited ++ [key]
                    totalAnalyzed := st.totalAnalyzed + 1
                    callStack := st.callStack ++
                      [{ className := className, methodName := methodName,
                         depth := depth, isConditional := false }] }
      let (analysis, st) := analyzeMethod env className methodName st
      let st :=
        if depth = 0 ∧ analysis.inheritedFrom.isSome then
          { st with flow := st.flow.map (fun f =>
              { f with rootMethod := flowKey analysis.className analysis.methodName }) }
        else st
      let st :=
        if analysis.analysisStatus = "complete" then
          { st with flow := st.flow.map (addMethodToLinearFlow analysis depth) }
        else st
      let (analysis, st) :=
        if analysis.analysisStatus = "complete" then
          processCallsLoop
            (fun c m st2 => analyzeRecFuel env cfg fuel c m (depth + 1) st2)
            depth analysis analysis.methodCallSummary.stepInto st
        else (analysis, st)
      (analysis, { st with callStack := st.callStack.dropLast })

/-- `analyzeMethodRecursively` at a given depth (fuel instantiated in
lockstep with the depth guard). -/
def analyzeMethodRecursively (env : Env) (cfg : AnalysisConfig)
    (className methodName : String) (depth : Nat) (st : AState) :
    MethodAnalysis × AState :=
  analyzeRecFuel env cfg (cfg.maxCallStackDepth + 1 - depth)
    className methodName depth st

/-- The empty linear flow of `initializeLinearFlow`. -/
def emptyFlow (rootClassName rootMethodName : String) : LinearFlow :=
  { steps := []
    methodReferences := []
    totalSteps := 0
    rootMethod := flowKey rootClassName rootMethodName }

/-- One analysis session (`analyzeMethodFlow` / `createSession` /
`runRecursiveFlowAnalysis` up to the root recursion): fresh session
bookkeeping and a fresh linear flow, then the recursive analysis of the root
method at depth 0.  The markdown formatting and the report file of the
source are outside the model. -/
def runSession (env : Env) (cfg : AnalysisConfig)
    (className methodName : String) (st : AState) :
    MethodAnalysis × AState :=
  let st := { st with
                visited := []
                totalAnalyzed := 0
                callStack := []
                flow := some (emptyFlow className methodName) }
  analyzeMethodRecursively env cfg className methodName 0 st

/-! ### Concrete scenarios -/

/-- Fresh analyzer state (new `CodeFlowAnalyzer`, empty caches, no selected
model, clock at 0). -/
def st0 : AState :=
  { now := 0
    mem := []
    stats := ⟨0, 0, 0⟩
    pc := []
    selectedModel := none
    oracleLog := []
    visited := []
    totalAnalyzed := 0
    callStack := []
    flow := none }

/-- An oracle response consisting of one block of the given type with the
given description and the given call citations. -/
def oneBlockResponse (description ty : String) (calls : List String) : String :=
  "#### Block 1: " ++ description ++ "\n**Type**: " ++ ty ++ "\n" ++
    String.join (calls.map (fun c =>
      "- **Call**: `" ++ c ++ "`\n- **Classification**: Step Into (go)\n"))

/-- Depth-bound scenario (claim C2): classes `A`, `B`, `C`, `D`, each
method's only step-into call being the next one in the chain. -/
def envChain : Env :=
  { files := fun c =>
      if c = "A" ∨ c = "B" ∨ c = "C" ∨ c = "D" then
        some ⟨"/" ++ c, "src" ++ c, "java"⟩
      else none
    oracle := fun c _ _ =>
      if c = "A" then .ok (oneBlockResponse "a1" "methodCall" ["B.b()"])
      else if c = "B" then .ok (oneBlockResponse "b1" "methodCall" ["C.c()"])
      else if c = "C" then .ok (oneBlockResponse "c1" "methodCall" ["D.d()"])
      else .ok (oneBlockResponse "d1" "return" [])
    modelName := "gpt"
    persistentEnabled := false
    sfuel := 2 }

/-- Session configuration with `maxDepth = 2` for the depth-bound
scenario. -/
def cfgDepth2 : AnalysisConfig := { maxCallStackDepth := 2, maxTotalMethods := 15 }

/-- Default-like configuration with ample depth and budget. -/
def cfgStd : AnalysisConfig := { maxCallStackDepth := 5, maxTotalMethods := 15 }

/-- Cycle scenario (claim C4): `A.f()` whose only step-into call is
`A.f()` itself. -/
def envSelf : Env :=
  { files := fun c => if c = "A" then some ⟨"/A", "srcA", "java"⟩ else none
    oracle := fun _ _ _ => .ok (oneBlockResponse "f1" "methodCall" ["A.f()"])
    modelName := "gpt"
    persistentEnabled := false
    sfuel := 2 }

/-- Budget scenario (claim C5): root `R.r()` with five distinct step-into
calls, every inner method a leaf. -/
def envBudget : Env :=
  { files := fun c => some ⟨"/" ++ c, "src" ++ c, "java"⟩
    oracle := fun c _ _ =>
      if c = "R" then
        .ok (oneBlockResponse "r1" "methodCall"
          ["M1.m()", "M2.m()", "M3.m()", "M4.m()", "M5.m()"])
      else .ok (oneBlockResponse "leaf" "return" [])
    modelName := "gpt"
    persistentEnabled := false
    sfuel := 2 }

/-- Session configuration with `maxTotalMethods = 3` for the budget
scenario. -/
def cfgBudget3 : AnalysisConfig := { maxCallStackDepth := 5, maxTotalMethods := 3 }

/-- Inheritance-fallback scenario (claims C1 and C8): requesting
`Child.run()` yields a not-found response suggesting `Base`; `Base.run()`
analyzes completely, with `Base.run()` itself as its only step-into call
(used by the session-level claim C1). -/
def envInherit : Env :=
  { files := fun c =>
      if c = "Child" then some ⟨"/child", "srcChild", "java"⟩
      else if c = "Base" then some ⟨"/base", "srcBase", "java"⟩
      else none
    oracle := fun c _ _ =>
      if c = "Child" then .ok "Method not found\n**Extends**: `Base` - parent\n"
      else .ok (oneBlockResponse "rb" "methodCall" ["Base.run()"])
    modelName := "gpt"
    persistentEnabled := false
    sfuel := 2 }

/-- Linear-flow scenario (claim C9): `A.a()` with the single step-into call
`B.b()`, `B.b()` a leaf. -/
def envFlowAB : Env :=
  { files := fun c =>
      if c = "A" ∨ c = "B" then some ⟨"/" ++ c, "s" ++ c, "java"⟩ else none
    oracle := fun c _ _ =>
      if c = "A" then .ok (oneBlockResponse "a1" "methodCall" ["B.b()"])
      else .ok (oneBlockResponse "b1" "return" [])
    modelName := "gpt"
    persistentEnabled := false
    sfuel := 2 }

/-- Invalidation scenario (claim C3), before the source change: class `X`
with content `S1`. -/
def envContentS1 : Env :=
  { files := fun c => if c = "X" then some ⟨"/x", "S1", "java"⟩ else none
    oracle := fun _ _ _ => .ok (oneBlockResponse "x1" "return" [])
    modelName := "gpt"
    persistentEnabled := false
    sfuel := 2 }

/-- Invalidation scenario after the source change: the same class `X` now
has content `S2`; the oracle is unchanged. -/
def envContentS2 : Env :=
  { files := fun c => if c = "X" then some ⟨"/x", "S2", "java"⟩ else none
    oracle := fun _ _ _ => .ok (oneBlockResponse "x1" "return" [])
    modelName := "gpt"
    persistentEnabled := false
    sfuel := 2 }

/-- Error-handling scenario (claim C10 witness): a workspace with no files
and an oracle that always times out. -/
def envEmpty : Env :=
  { files := fun _ => none
    oracle := fun _ _ _ => .error "Analysis timeout"
    modelName := "gpt"
    persistentEnabled := true
    sfuel := 2 }

/-! ### Invariant predicates for the linear flow (claim C9) -/

/-- The `methodStart` / `methodEnd` subsequence of the steps owned by one
method key. -/
def seTypes (k : String) (steps : List LinearStep) : List LinearStepType :=
  (steps.filter (fun s =>
    s.sourceMethod == k &&
      (s.stepType == LinearStepType.methodStart ||
       s.stepType == LinearStepType.methodEnd))).map (·.stepType)

/-- Well-formedness of an emitted linear flow: the step counter equals the
number of steps, the `n`-th emitted step carries step number `n` (so step
numbers are strictly increasing, gap-free and repeat-free), each method key
contributes its `methodStart` / `methodEnd` pair at most once and in order,
and every method with emitted start/end steps is registered in the method
reference map (the deduplication guard). -/
def FlowInv (f : LinearFlow) : Prop :=
  f.totalSteps = f.steps.length ∧
  f.steps.map (fun s => s.stepNumber) = List.range' 1 f.steps.length ∧
  (∀ k, seTypes k f.steps = [] ∨
        seTypes k f.steps = [LinearStepType.methodStart, LinearStepType.methodEnd]) ∧
  (∀ k, seTypes k f.steps ≠ [] → (mapGet f.methodReferences k).isSome = true)

/-- Lift of `FlowInv` to the optional linear flow of the analyzer state. -/
def StInv (st : AState) : Prop :=
  ∀ f, st.flow = some f → FlowInv f

/-- State agreement on everything except the model selection and the oracle
log: `performMethodAnalysis` and its helpers change only those two
fields. -/
def CoreEq (st st' : AState) : Prop :=
  st'.now = st.now ∧ st'.mem = st.mem ∧ st'.stats = st.stats ∧
  st'.pc = st.pc ∧ st'.visited = st.visited ∧
  st'.totalAnalyzed = st.totalAnalyzed ∧ st'.callStack = st.callStack ∧
  st'.flow = st.flow

/-- State agreement on the session bookkeeping and the linear flow:
`analyzeMethod` changes only the caches, the statistics, the model selection
and the oracle log. -/
def SessionEq (st st' : AState) : Prop :=
  st'.now = st.now ∧ st'.visited = st.visited ∧
  st'.totalAnalyzed = st.totalAnalyzed ∧ st'.callStack = st.callStack ∧
  st'.flow = st.flow

/-! ### Small witness inputs -/

/-- A minimal complete analysis, used as the result of a stub resolution
callback when exercising `followLoop` on its own. -/
def wComplete : MethodAnalysis :=
  { className := "Base"
    methodName := "run"
    language := "java"
    analysisStatus := "complete"
    executionBlocks := []
    methodCallSummary := { stepInto := [], objectLookup := [], external := [], notFound := [] }
    analysisTimestamp := 0
    contentHash := "h"
    errorMessage := none
    inheritedFrom := none }

/-- A stub resolution callback that succeeds immediately with `wComplete`
and leaves the state unchanged. -/
def wPerform : String → FileInfo → AState → Except String MethodAnalysis × AState :=
  fun _ _ st2 => (.ok wComplete, st2)

/-- A single extracted suggestion pointing at `Base`. -/
def wSugg : Suggestion :=
  { className := "Base", reason := "extends" }

/-- A persistent-cache entry for `X#f` stored under content `S` and model
`gpt` at time 0. -/
def pcW : PEntry :=
  { analysis := wComplete
    contentHash := sha256Hash "S"
    modelName := "gpt"
    timestamp := 0
    filePath := "/x"
    version := pCacheVersion }

/-- A state whose persistent tier holds exactly the entry `pcW`. -/
def stW : AState :=
  { st0 with pc := [(memKey "X" "f", pcW)] }

/-- A workspace with one file whose oracle always throws a timeout
(claim C10 witness for the oracle-failure conversion). -/
def envOracleFail : Env :=
  { files := fun c => if c = "X" then some ⟨"/x", "S", "java"⟩ else none
    oracle := fun _ _ _ => .error "Analysis timeout"
    modelName := "gpt"
    persistentEnabled := false
    sfuel := 2 }

/-! ### Kernel-checked intermediate states of the concrete sessions

The multi-call sessions below are evaluated in stages: each definition is
the literal value of one intermediate state of the corresponding session
(produced by the definitions above on the concrete environments), and the
session theorems later equate each stage with the next by `rfl` and compose
them through the step lemmas.  The literals are spelled out so that every
stage equality is a cheap kernel computation on closed first-order data. -/

/-- Initial state of the chain session (fresh bookkeeping, empty flow). -/
def chInit : AState :=
  { st0 with flow := some (emptyFlow "A" "a") }

/-- Initial state of the budget session. -/
def buInit : AState :=
  { st0 with flow := some (emptyFlow "R" "r") }

/-- Initial state of the inheritance session. -/
def ihInit : AState :=
  { st0 with flow := some (emptyFlow "Child" "run") }

/-- Initial state of the self-call session. -/
def seInit : AState :=
  { st0 with flow := some (emptyFlow "A" "f") }

def chM : AState :=
{ now := 0, mem := [], stats := { hitCount := 0, missCount := 0, evictionCount := 0 }, pc := [], selectedModel := none, oracleLog := [], visited := ["A#a"], totalAnalyzed := 1, callStack := [{ className := "A", methodName := "a", depth := 0, isConditional := false }], flow := some { steps := [], methodReferences := [], totalSteps := 0, rootMethod := "A.a" } }
def chA1 : MethodAnalysis :=
{ className := "A", methodName := "a", language := "java", analysisStatus := "complete", executionBlocks := [{ blockId := "block-0", blockType := "methodcall", description := "a1", executionFlow := "No execution flow documented", methodCalls := [{ className := "B", methodName := "b", parameters := "", stepInDecision := ReqGen.StepInDecision.stepInto, reasoning := "go", expectedBehavior := "To be analyzed", executionOrder := 0 }], nextBlocks := ["block-1"] }], methodCallSummary := { stepInto := [{ className := "B", methodName := "b", parameters := "", stepInDecision := ReqGen.StepInDecision.stepInto, reasoning := "go", expectedBehavior := "To be analyzed", executionOrder := 0 }], objectLookup := [], external := [], notFound := [] }, analysisTimestamp := 0, contentHash := "md5:srcA", errorMessage := none, inheritedFrom := none }
def chS1 : AState :=
{ now := 0, mem := [("A#a", { key := "A#a", analysis := { className := "A", methodName := "a", language := "java", analysisStatus := "complete", executionBlocks := [{ blockId := "block-0", blockType := "methodcall", description := "a1", executionFlow := "No execution flow documented", methodCalls := [{ className := "B", methodName := "b", parameters := "", stepInDecision := ReqGen.StepInDecision.stepInto, reasoning := "go", expectedBehavior := "To be analyzed", executionOrder := 0 }], nextBlocks := ["block-1"] }], methodCallSummary := { stepInto := [{ className := "B", methodName := "b", parameters := "", stepInDecision := ReqGen.StepInDecision.stepInto, reasoning := "go", expectedBehavior := "To be analyzed", executionOrder := 0 }], objectLookup := [], external := [], notFound := [] }, analysisTimestamp := 0, contentHash := "md5:srcA", errorMessage := none, inheritedFrom := none }, timestamp := 0, accessCount := 0, contentHash := "md5:srcA" })], stats := { hitCount := 0, missCount := 1, evictionCount := 0 }, pc := [], selectedModel := some "gpt", oracleLog := [("A", "a")], visited := ["A#a"], totalAnalyzed := 1, callStack := [{ className := "A", methodName := "a", depth := 0, isConditional := false }], flow := some { steps := [], methodReferences := [], totalSteps := 0, rootMethod := "A.a" } }
def chPost : AState :=
{ now := 0, mem := [("A#a", { key := "A#a", analysis := { className := "A", methodName := "a", language := "java", analysisStatus := "complete", executionBlocks := [{ blockId := "block-0", blockType := "methodcall", description := "a1", executionFlow := "No execution flow documented", methodCalls := [{ className := "B", methodName := "b", parameters := "", stepInDecision := ReqGen.StepInDecision.stepInto, reasoning := "go", expectedBehavior := "To be analyzed", executionOrder := 0 }], nextBlocks := ["block-1"] }], methodCallSummary := { stepInto := [{ className := "B", methodName := "b", parameters := "", stepInDecision := ReqGen.StepInDecision.stepInto, reasoning := "go", expectedBehavior := "To be analyzed", executionOrder := 0 }], objectLookup := [], external := [], notFound := [] }, analysisTimestamp := 0, contentHash := "md5:srcA", errorMessage := none, inheritedFrom := none }, timestamp := 0, accessCount := 0, contentHash := "md5:srcA" })], stats := { hitCount := 0, missCount := 1, evictionCount := 0 }, pc := [], selectedModel := some "gpt", oracleLog := [("A", "a")], visited := ["A#a"], totalAnalyzed := 1, callStack := [{ className := "A", methodName := "a", depth := 0, isConditional := false }], flow := some { steps := [{ stepNumber := 1, depth := 0, sourceMethod := "A.a", description := "A.a() starts", stepType := ReqGen.LinearStepType.methodStart, originalBlockId := none }, { stepNumber := 2, depth := 0, sourceMethod := "A.a", description := "a1", stepType := ReqGen.LinearStepType.execution, originalBlockId := some "block-0" }, { stepNumber := 3, depth := 0, sourceMethod := "A.a", description := "Call B.b()", stepType := ReqGen.LinearStepType.methodCall, originalBlockId := none }, { stepNumber := 4, depth := 0, sourceMethod := "A.a", description := "A.a() completes", stepType := ReqGen.LinearStepType.methodEnd, originalBlockId := none }], methodReferences := [("A.a", { className := "A", methodName := "a", language := "java", analysisStatus := "complete", executionBlocks := [{ blockId := "block-0", blockType := "methodcall", description := "a1", executionFlow := "No execution flow documented", methodCalls := [{ className := "B", methodName := "b", parameters := "", stepInDecision := ReqGen.StepInDecision.stepInto, reasoning := "go", expectedBehavior := "To be analyzed", executionOrder := 0 }], nextBlocks := ["block-1"] }], methodCallSummary := { stepInto := [{ className := "B", methodName := "b", parameters := "", stepInDecision := ReqGen.StepInDecision.stepInto, reasoning := "go", expectedBehavior := "To be analyzed", executionOrder := 0 }], objectLookup := [], external := [], notFound := [] }, analysisTimestamp := 0, contentHash := "md5:srcA", errorMessage := none, inheritedFrom := none })], totalSteps := 4, rootMethod := "A.a" } }
def chB1 : MethodAnalysis :=
{ className := "B", methodName := "b", language := "java", analysisStatus := "complete", executionBlocks := [{ blockId := "block-0", blockType := "methodcall", description := "b1", executionFlow := "No execution flow documented", methodCalls := [{ className := "C", methodName := "c", parameters := "", stepInDecision := ReqGen.StepInDecision.stepInto, reasoning := "go", expectedBehavior := "Method analysis skipped: Maximum recursion depth reached", executionOrder := 0 }], nextBlocks := ["block-1"] }], methodCallSummary := { stepInto := [{ className := "C", methodName := "c", parameters := "", stepInDecision := ReqGen.StepInDecision.stepInto, reasoning := "go", expectedBehavior := "To be analyzed", executionOrder := 0 }], objectLookup := [], external := [], notFound := [] }, analysisTimestamp := 0, contentHash := "md5:srcB", errorMessage := none, inheritedFrom := none }
def chS2 : AState :=
{ now := 0, mem := [("A#a", { key := "A#a", analysis := { className := "A", methodName := "a", language := "java", analysisStatus := "complete", executionBlocks := [{ blockId := "block-0", blockType := "methodcall", description := "a1", executionFlow := "No execution flow documented", methodCalls := [{ className := "B", methodName := "b", parameters := "", stepInDecision := ReqGen.StepInDecision.stepInto, reasoning := "go", expectedBehavior := "To be analyzed", executionOrder := 0 }], nextBlocks := ["block-1"] }], methodCallSummary := { stepInto := [{ className := "B", methodName := "b", parameters := "", stepInDecision := ReqGen.StepInDecision.stepInto, reasoning := "go", expectedBehavior := "To be analyzed", executionOrder := 0 }], objectLookup := [], external := [], notFound := [] }, analysisTimestamp := 0, contentHash := "md5:srcA", errorMessage := none, inheritedFrom := none }, timestamp := 0, accessCount := 0, contentHash := "md5:srcA" }), ("B#b", { key := "B#b", analysis := { className := "B", methodName := "b", language := "java", analysisStatus := "complete", executionBlocks := [{ blockId := "block-0", blockType := "methodcall", description := "b1", executionFlow := "No execution flow documented", methodCalls := [{ className := "C", methodName := "c", parameters := "", stepInDecision := ReqGen.StepInDecision.stepInto, reasoning := "go", expectedBehavior := "To be analyzed", executionOrder := 0 }], nextBlocks := ["block-1"] }], methodCallSummary := { stepInto := [{ className := "C", methodName := "c", parameters := "", stepInDecision := ReqGen.StepInDecision.stepInto, reasoning := "go", expectedBehavior := "To be analyzed", executionOrder := 0 }], objectLookup := [], external := [], notFound := [] }, analysisTimestamp := 0, contentHash := "md5:srcB", errorMessage := none, inheritedFrom := none }, timestamp := 0, accessCount := 0, contentHash := "md5:srcB" })], stats := { hitCount := 0, missCount := 2, evictionCount := 0 }, pc := [], selectedModel := some "gpt", oracleLog := [("A", "a"), ("B", "b")], visited := ["A#a", "B#b"], totalAnalyzed := 2, callStack := [{ className := "A", methodName := "a", depth := 0, isConditional := false }], flow := some { steps := [{ stepNumber := 1, depth := 0, sourceMethod := "A.a", description := "A.a() starts", stepType := ReqGen.LinearStepType.methodStart, originalBlockId := none }, { stepNumber := 2, depth := 0, sourceMethod := "A.a", description := "a1", stepType := ReqGen.LinearStepType.execution, originalBlockId := some "block-0" }, { stepNumber := 3, depth := 0, sourceMethod := "A.a", description := "Call B.b()", stepType := ReqGen.LinearStepType.methodCall, originalBlockId := none }, { stepNumber := 4, depth := 0, sourceMethod := "A.a", description := "A.a() completes", stepType := ReqGen.LinearStepType.methodEnd, originalBlockId := none }, { stepNumber := 5, depth := 1, sourceMethod := "B.b", description := "B.b() starts", stepType := ReqGen.LinearStepType.methodStart, originalBlockId := none }, { stepNumber := 6, depth := 1, sourceMethod := "B.b", description := "b1", stepType := ReqGen.LinearStepType.execution, originalBlockId := some "block-0" }, { stepNumber := 7, depth := 1, sourceMethod := "B.b", description := "Call C.c()", stepType := ReqGen.LinearStepType.methodCall, originalBlockId := none }, { stepNumber := 8, depth := 1, sourceMethod := "B.b", description := "B.b() completes", stepType := ReqGen.LinearStepType.methodEnd, originalBlockId := none }], methodReferences := [("A.a", { className := "A", methodName := "a", language := "java", analysisStatus := "complete", executionBlocks := [{ blockId := "block-0", blockType := "methodcall", description := "a1", executionFlow := "No execution flow documented", methodCalls := [{ className := "B", methodName := "b", parameters := "", stepInDecision := ReqGen.StepInDecision.stepInto, reasoning := "go", expectedBehavior := "To be analyzed", executionOrder := 0 }], nextBlocks := ["block-1"] }], methodCallSummary := { stepInto := [{ className := "B", methodName := "b", parameters := "", stepInDecision := ReqGen.StepInDecision.stepInto, reasoning := "go", expectedBehavior := "To be analyzed", executionOrder := 0 }], objectLookup := [], external := [], notFound := [] }, analysisTimestamp := 0, contentHash := "md5:srcA", errorMessage := none, inheritedFrom := none }), ("B.b", { className := "B", methodName := "b", language := "java", analysisStatus := "complete", executionBlocks := [{ blockId := "block-0", blockType := "methodcall", description := "b1", executionFlow := "No execution flow documented", methodCalls := [{ className := "C", methodName := "c", parameters := "", stepInDecision := ReqGen.StepInDecision.stepInto, reasoning := "go", expectedBehavior := "To be analyzed", executionOrder := 0 }], nextBlocks := ["block-1"] }], methodCallSummary := { stepInto := [{ className := "C", methodName := "c", parameters := "", stepInDecision := ReqGen.StepInDecision.stepInto, reasoning := "go", expectedBehavior := "To be analyzed", executionOrder := 0 }], objectLookup := [], external := [], notFound := [] }, analysisTimestamp := 0, contentHash := "md5:srcB", errorMessage := none, inheritedFrom := none }), ("C.c", { className := "C", methodName := "c", language := "unknown", analysisStatus := "partial", executionBlocks := [{ blockId := "placeholder-1", blockType := "methodCall", description := "Method analysis skipped: Maximum recursion depth reached", executionFlow := "This method was not analyzed due to: Maximum recursion depth reached", methodCalls := [], nextBlocks := [] }], methodCallSummary := { stepInto := [], objectLookup := [], external := [], notFound := [] }, analysisTimestamp := 0, contentHash := "", errorMessage := some "Maximum recursion depth reached", inheritedFrom := none })], totalSteps := 8, rootMethod := "A.a" } }
def chCallB : MethodCall :=
{ className := "B", methodName := "b", parameters := "", stepInDecision := ReqGen.StepInDecision.stepInto, reasoning := "go", expectedBehavior := "To be analyzed", executionOrder := 0 }
def chRet : AState :=
{ now := 0, mem := [("A#a", { key := "A#a", analysis := { className := "A", methodName := "a", language := "java", analysisStatus := "complete", executionBlocks := [{ blockId := "block-0", blockType := "methodcall", description := "a1", executionFlow := "No execution flow documented", methodCalls := [{ className := "B", methodName := "b", parameters := "", stepInDecision := ReqGen.StepInDecision.stepInto, reasoning := "go", expectedBehavior := "To be analyzed", executionOrder := 0 }], nextBlocks := ["block-1"] }], methodCallSummary := { stepInto := [{ className := "B", methodName := "b", parameters := "", stepInDecision := ReqGen.StepInDecision.stepInto, reasoning := "go", expectedBehavior := "To be analyzed", executionOrder := 0 }], objectLookup := [], external := [], notFound := [] }, analysisTimestamp := 0, contentHash := "md5:srcA", errorMessage := none, inheritedFrom := none }, timestamp := 0, accessCount := 0, contentHash := "md5:srcA" }), ("B#b", { key := "B#b", analysis := { className := "B", methodName := "b", language := "java", analysisStatus := "complete", executionBlocks := [{ blockId := "block-0", blockType := "methodcall", description := "b1", executionFlow := "No execution flow documented", methodCalls := [{ className := "C", methodName := "c", parameters := "", stepInDecision := ReqGen.StepInDecision.stepInto, reasoning := "go", expectedBehavior := "To be analyzed", executionOrder := 0 }], nextBlocks := ["block-1"] }], methodCallSummary := { stepInto := [{ className := "C", methodName := "c", parameters := "", stepInDecision := ReqGen.StepInDecision.stepInto, reasoning := "go", expectedBehavior := "To be analyzed", executionOrder := 0 }], objectLookup := [], external := [], notFound := [] }, analysisTimestamp := 0, contentHash := "md5:srcB", errorMessage := none, inheritedFrom := none }, timestamp := 0, accessCount := 0, contentHash := "md5:srcB" })], stats := { hitCount := 0, missCount := 2, evictionCount := 0 }, pc := [], selectedModel := some "gpt", oracleLog := [("A", "a"), ("B", "b")], visited := ["A#a", "B#b"], totalAnalyzed := 2, callStack := [{ className := "A", methodName := "a", depth := 0, isConditional := false }], flow := some { steps := [{ stepNumber := 1, depth := 0, sourceMethod := "A.a", description := "A.a() starts", stepType := ReqGen.LinearStepType.methodStart, originalBlockId := none }, { stepNumber := 2, depth := 0, sourceMethod := "A.a", description := "a1", stepType := ReqGen.LinearStepType.execution, originalBlockId := some "block-0" }, { stepNumber := 3, depth := 0, sourceMethod := "A.a", description := "Call B.b()", stepType := ReqGen.LinearStepType.methodCall, originalBlockId := none }, { stepNumber := 4, depth := 0, sourceMethod := "A.a", description := "A.a() completes", stepType := ReqGen.LinearStepType.methodEnd, originalBlockId := none }, { stepNumber := 5, depth := 1, sourceMethod := "B.b", description := "B.b() starts", stepType := ReqGen.LinearStepType.methodStart, originalBlockId := none }, { stepNumber := 6, depth := 1, sourceMethod := "B.b", description := "b1", stepType := ReqGen.LinearStepType.execution, originalBlockId := some "block-0" }, { stepNumber := 7, depth := 1, sourceMethod := "B.b", description := "Call C.c()", stepType := ReqGen.LinearStepType.methodCall, originalBlockId := none }, { stepNumber := 8, depth := 1, sourceMethod := "B.b", description := "B.b() completes", stepType := ReqGen.LinearStepType.methodEnd, originalBlockId := none }, { stepNumber := 9, depth := 0, sourceMethod := "A.a", description := "↩️ B.b() returns: b1", stepType := ReqGen.LinearStepType.methodReturn, originalBlockId := none }], methodReferences := [("A.a", { className := "A", methodName := "a", language := "java", analysisStatus := "complete", executionBlocks := [{ blockId := "block-0", blockType := "methodcall", description := "a1", executionFlow := "No execution flow documented", methodCalls := [{ className := "B", methodName := "b", parameters := "", stepInDecision := ReqGen.StepInDecision.stepInto, reasoning := "go", expectedBehavior := "To be analyzed", executionOrder := 0 }], nextBlocks := ["block-1"] }], methodCallSummary := { stepInto := [{ className := "B", methodName := "b", parameters := "", stepInDecision := ReqGen.StepInDecision.stepInto, reasoning := "go", expectedBehavior := "To be analyzed", executionOrder := 0 }], objectLookup := [], external := [], notFound := [] }, analysisTimestamp := 0, contentHash := "md5:srcA", errorMessage := none, inheritedFrom := none }), ("B.b", { className := "B", methodName := "b", language := "java", analysisStatus := "complete", executionBlocks := [{ blockId := "block-0", blockType := "methodcall", description := "b1", executionFlow := "No execution flow documented", methodCalls := [{ className := "C", methodName := "c", parameters := "", stepInDecision := ReqGen.StepInDecision.stepInto, reasoning := "go", expectedBehavior := "To be analyzed", executionOrder := 0 }], nextBlocks := ["block-1"] }], methodCallSummary := { stepInto := [{ className := "C", methodName := "c", parameters := "", stepInDecision := ReqGen.StepInDecision.stepInto, reasoning := "go", expectedBehavior := "To be analyzed", executionOrder := 0 }], objectLookup := [], external := [], notFound := [] }, analysisTimestamp := 0, contentHash := "md5:srcB", errorMessage := none, inheritedFrom := none }), ("C.c", { className := "C", methodName := "c", language := "unknown", analysisStatus := "partial", executionBlocks := [{ blockId := "placeholder-1", blockType := "methodCall", description := "Method analysis skipped: Maximum recursion depth reached", executionFlow := "This method was not analyzed due to: Maximum recursion depth reached", methodCalls := [], nextBlocks := [] }], methodCallSummary := { stepInto := [], objectLookup := [], external := [], notFound := [] }, analysisTimestamp := 0, contentHash := "", errorMessage := some "Maximum recursion depth reached", inheritedFrom := none })], totalSteps := 9, rootMethod := "A.a" } }
def chA2 : MethodAnalysis :=
{ className := "A", methodName := "a", language := "java", analysisStatus := "complete", executionBlocks := [{ blockId := "block-0", blockType := "methodcall", description := "a1", executionFlow := "No execution flow documented", methodCalls := [{ className := "B", methodName := "b", parameters := "", stepInDecision := ReqGen.StepInDecision.stepInto, reasoning := "go", expectedBehavior := "b1", executionOrder := 0 }], nextBlocks := ["block-1"] }], methodCallSummary := { stepInto := [{ className := "B", methodName := "b", parameters := "", stepInDecision := ReqGen.StepInDecision.stepInto, reasoning := "go", expectedBehavior := "To be analyzed", executionOrder := 0 }], objectLookup := [], external := [], notFound := [] }, analysisTimestamp := 0, contentHash := "md5:srcA", errorMessage := none, inheritedFrom := none }
def chF2 : Option LinearFlow :=
some { steps := [{ stepNumber := 1, depth := 0, sourceMethod := "A.a", description := "A.a() starts", stepType := ReqGen.LinearStepType.methodStart, originalBlockId := none }, { stepNumber := 2, depth := 0, sourceMethod := "A.a", description := "a1", stepType := ReqGen.LinearStepType.execution, originalBlockId := some "block-0" }, { stepNumber := 3, depth := 0, sourceMethod := "A.a", description := "Call B.b()", stepType := ReqGen.LinearStepType.methodCall, originalBlockId := none }, { stepNumber := 4, depth := 0, sourceMethod := "A.a", description := "A.a() completes", stepType := ReqGen.LinearStepType.methodEnd, originalBlockId := none }, { stepNumber := 5, depth := 1, sourceMethod := "B.b", description := "B.b() starts", stepType := ReqGen.LinearStepType.methodStart, originalBlockId := none }, { stepNumber := 6, depth := 1, sourceMethod := "B.b", description := "b1", stepType := ReqGen.LinearStepType.execution, originalBlockId := some "block-0" }, { stepNumber := 7, depth := 1, sourceMethod := "B.b", description := "Call C.c()", stepType := ReqGen.LinearStepType.methodCall, originalBlockId := none }, { stepNumber := 8, depth := 1, sourceMethod := "B.b", description := "B.b() completes", stepType := ReqGen.LinearStepType.methodEnd, originalBlockId := none }, { stepNumber := 9, depth := 0, sourceMethod := "A.a", description := "↩️ B.b() returns: b1", stepType := ReqGen.LinearStepType.methodReturn, originalBlockId := none }], methodReferences := [("A.a", { className := "A", methodName := "a", language := "java", analysisStatus := "complete", executionBlocks := [{ blockId := "block-0", blockType := "methodcall", description := "a1", executionFlow := "No execution flow documented", methodCalls := [{ className := "B", methodName := "b", parameters := "", stepInDecision := ReqGen.StepInDecision.stepInto, reasoning := "go", expectedBehavior := "To be analyzed", executionOrder := 0 }], nextBlocks := ["block-1"] }], methodCallSummary := { stepInto := [{ className := "B", methodName := "b", parameters := "", stepInDecision := ReqGen.StepInDecision.stepInto, reasoning := "go", expectedBehavior := "To be analyzed", executionOrder := 0 }], objectLookup := [], external := [], notFound := [] }, analysisTimestamp := 0, contentHash := "md5:srcA", errorMessage := none, inheritedFrom := none }), ("B.b", { className := "B", methodName := "b", language := "java", analysisStatus := "complete", executionBlocks := [{ blockId := "block-0", blockType := "methodcall", description := "b1", executionFlow := "No execution flow documented", methodCalls := [{ className := "C", methodName := "c", parameters := "", stepInDecision := ReqGen.StepInDecision.stepInto, reasoning := "go", expectedBehavior := "Method analysis skipped: Maximum recursion depth reached", executionOrder := 0 }], nextBlocks := ["block-1"] }], methodCallSummary := { stepInto := [{ className := "C", methodName := "c", parameters := "", stepInDecision := ReqGen.StepInDecision.stepInto, reasoning := "go", expectedBehavior := "To be analyzed", executionOrder := 0 }], objectLookup := [], external := [], notFound := [] }, analysisTimestamp := 0, contentHash := "md5:srcB", errorMessage := none, inheritedFrom := none }), ("C.c", { className := "C", methodName := "c", language := "unknown", analysisStatus := "partial", executionBlocks := [{ blockId := "placeholder-1", blockType := "methodCall", description := "Method analysis skipped: Maximum recursion depth reached", executionFlow := "This method was not analyzed due to: Maximum recursion depth reached", methodCalls := [], nextBlocks := [] }], methodCallSummary := { stepInto := [], objectLookup := [], external := [], notFound := [] }, analysisTimestamp := 0, contentHash := "", errorMessage := some "Maximum recursion depth reached", inheritedFrom := none })], totalSteps := 9, rootMethod := "A.a" }
def chLoopSt : AState :=
{ now := 0, mem := [("A#a", { key := "A#a", analysis := { className := "A", methodName := "a", language := "java", analysisStatus := "complete", executionBlocks := [{ blockId := "block-0", blockType := "methodcall", description := "a1", executionFlow := "No execution flow documented", methodCalls := [{ className := "B", methodName := "b", parameters := "", stepInDecision := ReqGen.StepInDecision.stepInto, reasoning := "go", expectedBehavior := "To be analyzed", executionOrder := 0 }], nextBlocks := ["block-1"] }], methodCallSummary := { stepInto := [{ className := "B", methodName := "b", parameters := "", stepInDecision := ReqGen.StepInDecision.stepInto, reasoning := "go", expectedBehavior := "To be analyzed", executionOrder := 0 }], objectLookup := [], external := [], notFound := [] }, analysisTimestamp := 0, contentHash := "md5:srcA", errorMessage := none, inheritedFrom := none }, timestamp := 0, accessCount := 0, contentHash := "md5:srcA" }), ("B#b", { key := "B#b", analysis := { className := "B", methodName := "b", language := "java", analysisStatus := "complete", executionBlocks := [{ blockId := "block-0", blockType := "methodcall", description := "b1", executionFlow := "No execution flow documented", methodCalls := [{ className := "C", methodName := "c", parameters := "", stepInDecision := ReqGen.StepInDecision.stepInto, reasoning := "go", expectedBehavior := "To be analyzed", executionOrder := 0 }], nextBlocks := ["block-1"] }], methodCallSummary := { stepInto := [{ className := "C", methodName := "c", parameters := "", stepInDecision := ReqGen.StepInDecision.stepInto, reasoning := "go", expectedBehavior := "To be analyzed", executionOrder := 0 }], objectLookup := [], external := [], notFound := [] }, analysisTimestamp := 0, contentHash := "md5:srcB", errorMessage := none, inheritedFrom := none }, timestamp := 0, accessCount := 0, contentHash := "md5:srcB" })], stats := { hitCount := 0, missCount := 2, evictionCount := 0 }, pc := [], selectedModel := some "gpt", oracleLog := [("A", "a"), ("B", "b")], visited := ["A#a", "B#b"], totalAnalyzed := 2, callStack := [{ className := "A", methodName := "a", depth := 0, isConditional := false }], flow := some { steps := [{ stepNumber := 1, depth := 0, sourceMethod := "A.a", description := "A.a() starts", stepType := ReqGen.LinearStepType.methodStart, originalBlockId := none }, { stepNumber := 2, depth := 0, sourceMethod := "A.a", description := "a1", stepType := ReqGen.LinearStepType.execution, originalBlockId := some "block-0" }, { stepNumber := 3, depth := 0, sourceMethod := "A.a", description := "Call B.b()", stepType := ReqGen.LinearStepType.methodCall, originalBlockId := none }, { stepNumber := 4, depth := 0, sourceMethod := "A.a", description := "A.a() completes", stepType := ReqGen.LinearStepType.methodEnd, originalBlockId := none }, { stepNumber := 5, depth := 1, sourceMethod := "B.b", description := "B.b() starts", stepType := ReqGen.LinearStepType.methodStart, originalBlockId := none }, { stepNumber := 6, depth := 1, sourceMethod := "B.b", description := "b1", stepType := ReqGen.LinearStepType.execution, originalBlockId := some "block-0" }, { stepNumber := 7, depth := 1, sourceMethod := "B.b", description := "Call C.c()", stepType := ReqGen.LinearStepType.methodCall, originalBlockId := none }, { stepNumber := 8, depth := 1, sourceMethod := "B.b", description := "B.b() completes", stepType := ReqGen.LinearStepType.methodEnd, originalBlockId := none }, { stepNumber := 9, depth := 0, sourceMethod := "A.a", description := "↩️ B.b() returns: b1", stepType := ReqGen.LinearStepType.methodReturn, originalBlockId := none }], methodReferences := [("A.a", { className := "A", methodName := "a", language := "java", analysisStatus := "complete", executionBlocks := [{ blockId := "block-0", blockType := "methodcall", description := "a1", executionFlow := "No execution flow documented", methodCalls := [{ className := "B", methodName := "b", parameters := "", stepInDecision := ReqGen.StepInDecision.stepInto, reasoning := "go", expectedBehavior := "To be analyzed", executionOrder := 0 }], nextBlocks := ["block-1"] }], methodCallSummary := { stepInto := [{ className := "B", methodName := "b", parameters := "", stepInDecision := ReqGen.StepInDecision.stepInto, reasoning := "go", expectedBehavior := "To be analyzed", executionOrder := 0 }], objectLookup := [], external := [], notFound := [] }, analysisTimestamp := 0, contentHash := "md5:srcA", errorMessage := none, inheritedFrom := none }), ("B.b", { className := "B", methodName := "b", language := "java", analysisStatus := "complete", executionBlocks := [{ blockId := "block-0", blockType := "methodcall", description := "b1", executionFlow := "No execution flow documented", methodCalls := [{ className := "C", methodName := "c", parameters := "", stepInDecision := ReqGen.StepInDecision.stepInto, reasoning := "go", expectedBehavior := "Method analysis skipped: Maximum recursion depth reached", executionOrder := 0 }], nextBlocks := ["block-1"] }], methodCallSummary := { stepInto := [{ className := "C", methodName := "c", parameters := "", stepInDecision := ReqGen.StepInDecision.stepInto, reasoning := "go", expectedBehavior := "To be analyzed", executionOrder := 0 }], objectLookup := [], external := [], notFound := [] }, analysisTimestamp := 0, contentHash := "md5:srcB", errorMessage := none, inheritedFrom := none }), ("C.c", { className := "C", methodName := "c", language := "unknown", analysisStatus := "partial", executionBlocks := [{ blockId := "placeholder-1", blockType := "methodCall", description := "Method analysis skipped: Maximum recursion depth reached", executionFlow := "This method was not analyzed due to: Maximum recursion depth reached", methodCalls := [], nextBlocks := [] }], methodCallSummary := { stepInto := [], objectLookup := [], external := [], notFound := [] }, analysisTimestamp := 0, contentHash := "", errorMessage := some "Maximum recursion depth reached", inheritedFrom := none })], totalSteps := 9, rootMethod := "A.a" } }
def chFinal : AState :=
{ now := 0, mem := [("A#a", { key := "A#a", analysis := { className := "A", methodName := "a", language := "java", analysisStatus := "complete", executionBlocks := [{ blockId := "block-0", blockType := "methodcall", description := "a1", executionFlow := "No execution flow documented", methodCalls := [{ className := "B", methodName := "b", parameters := "", stepInDecision := ReqGen.StepInDecision.stepInto, reasoning := "go", expectedBehavior := "To be analyzed", executionOrder := 0 }], nextBlocks := ["block-1"] }], methodCallSummary := { stepInto := [{ className := "B", methodName := "b", parameters := "", stepInDecision := ReqGen.StepInDecision.stepInto, reasoning := "go", expectedBehavior := "To be analyzed", executionOrder := 0 }], objectLookup := [], external := [], notFound := [] }, analysisTimestamp := 0, contentHash := "md5:srcA", errorMessage := none, inheritedFrom := none }, timestamp := 0, accessCount := 0, contentHash := "md5:srcA" }), ("B#b", { key := "B#b", analysis := { className := "B", methodName := "b", language := "java", analysisStatus := "complete", executionBlocks := [{ blockId := "block-0", blockType := "methodcall", description := "b1", executionFlow := "No execution flow documented", methodCalls := [{ className := "C", methodName := "c", parameters := "", stepInDecision := ReqGen.StepInDecision.stepInto, reasoning := "go", expectedBehavior := "To be analyzed", executionOrder := 0 }], nextBlocks := ["block-1"] }], methodCallSummary := { stepInto := [{ className := "C", methodName := "c", parameters := "", stepInDecision := ReqGen.StepInDecision.stepInto, reasoning := "go", expectedBehavior := "To be analyzed", executionOrder := 0 }], objectLookup := [], external := [], notFound := [] }, analysisTimestamp := 0, contentHash := "md5:srcB", errorMessage := none, inheritedFrom := none }, timestamp := 0, accessCount := 0, contentHash := "md5:srcB" })], stats := { hitCount := 0, missCount := 2, evictionCount := 0 }, pc := [], selectedModel := some "gpt", oracleLog := [("A", "a"), ("B", "b")], visited := ["A#a", "B#b"], totalAnalyzed := 2, callStack := [], flow := some { steps := [{ stepNumber := 1, depth := 0, sourceMethod := "A.a", description := "A.a() starts", stepType := ReqGen.LinearStepType.methodStart, originalBlockId := none }, { stepNumber := 2, depth := 0, sourceMethod := "A.a", description := "a1", stepType := ReqGen.LinearStepType.execution, originalBlockId := some "block-0" }, { stepNumber := 3, depth := 0, sourceMethod := "A.a", description := "Call B.b()", stepType := ReqGen.LinearStepType.methodCall, originalBlockId := none }, { stepNumber := 4, depth := 0, sourceMethod := "A.a", description := "A.a() completes", stepType := ReqGen.LinearStepType.methodEnd, originalBlockId := none }, { stepNumber := 5, depth := 1, sourceMethod := "B.b", description := "B.b() starts", stepType := ReqGen.LinearStepType.methodStart, originalBlockId := none }, { stepNumber := 6, depth := 1, sourceMethod := "B.b", description := "b1", stepType := ReqGen.LinearStepType.execution, originalBlockId := some "block-0" }, { stepNumber := 7, depth := 1, sourceMethod := "B.b", description := "Call C.c()", stepType := ReqGen.LinearStepType.methodCall, originalBlockId := none }, { stepNumber := 8, depth := 1, sourceMethod := "B.b", description := "B.b() completes", stepType := ReqGen.LinearStepType.methodEnd, originalBlockId := none }, { stepNumber := 9, depth := 0, sourceMethod := "A.a", description := "↩️ B.b() returns: b1", stepType := ReqGen.LinearStepType.methodReturn, originalBlockId := none }], methodReferences := [("A.a", { className := "A", methodName := "a", language := "java", analysisStatus := "complete", executionBlocks := [{ blockId := "block-0", blockType := "methodcall", description := "a1", executionFlow := "No execution flow documented", methodCalls := [{ className := "B", methodName := "b", parameters := "", stepInDecision := ReqGen.StepInDecision.stepInto, reasoning := "go", expectedBehavior := "To be analyzed", executionOrder := 0 }], nextBlocks := ["block-1"] }], methodCallSummary := { stepInto := [{ className := "B", methodName := "b", parameters := "", stepInDecision := ReqGen.StepInDecision.stepInto, reasoning := "go", expectedBehavior := "To be analyzed", executionOrder := 0 }], objectLookup := [], external := [], notFound := [] }, analysisTimestamp := 0, contentHash := "md5:srcA", errorMessage := none, inheritedFrom := none }), ("B.b", { className := "B", methodName := "b", language := "java", analysisStatus := "complete", executionBlocks := [{ blockId := "block-0", blockType := "methodcall", description := "b1", executionFlow := "No execution flow documented", methodCalls := [{ className := "C", methodName := "c", parameters := "", stepInDecision := ReqGen.StepInDecision.stepInto, reasoning := "go", expectedBehavior := "Method analysis skipped: Maximum recursion depth reached", executionOrder := 0 }], nextBlocks := ["block-1"] }], methodCallSummary := { stepInto := [{ className := "C", methodName := "c", parameters := "", stepInDecision := ReqGen.StepInDecision.stepInto, reasoning := "go", expectedBehavior := "To be analyzed", executionOrder := 0 }], objectLookup := [], external := [], notFound := [] }, analysisTimestamp := 0, contentHash := "md5:srcB", errorMessage := none, inheritedFrom := none }), ("C.c", { className := "C", methodName := "c", language := "unknown", analysisStatus := "partial", executionBlocks := [{ blockId := "placeholder-1", blockType := "methodCall", description := "Method analysis skipped: Maximum recursion depth reached", executionFlow := "This method was not analyzed due to: Maximum recursion depth reached", methodCalls := [], nextBlocks := [] }], methodCallSummary := { stepInto := [], objectLookup := [], external := [], notFound := [] }, analysisTimestamp := 0, contentHash := "", errorMessage := some "Maximum recursion depth reached", inheritedFrom := none })], totalSteps := 9, rootMethod := "A.a" } }
def buM : AState :=
{ now := 0, mem := [], stats := { hitCount := 0, missCount := 0, evictionCount := 0 }, pc := [], selectedModel := none, oracleLog := [], visited := ["R#r"], totalAnalyzed := 1, callStack := [{ className := "R", methodName := "r", depth := 0, isConditional := false }], flow := some { steps := [], methodReferences := [], totalSteps := 0, rootMethod := "R.r" } }
def buA1 : MethodAnalysis :=
{ className := "R", methodName := "r", language := "java", analysisStatus := "complete", executionBlocks := [{ blockId := "block-0", blockType := "methodcall", description := "r1", executionFlow := "No execution flow documented", methodCalls := [{ className := "M1", methodName := "m", parameters := "", stepInDecision := ReqGen.StepInDecision.stepInto, reasoning := "go", expectedBehavior := "To be analyzed", executionOrder := 0 }, { className := "M2", methodName := "m", parameters := "", stepInDecision := ReqGen.StepInDecision.stepInto, reasoning := "go", expectedBehavior := "To be analyzed", executionOrder := 1 }, { className := "M3", methodName := "m", parameters := "", stepInDecision := ReqGen.StepInDecision.stepInto, reasoning := "go", expectedBehavior := "To be analyzed", executionOrder := 2 }, { className := "M4", methodName := "m", parameters := "", stepInDecision := ReqGen.StepInDecision.stepInto, reasoning := "go", expectedBehavior := "To be analyzed", executionOrder := 3 }, { className := "M5", methodName := "m", parameters := "", stepInDecision := ReqGen.StepInDecision.stepInto, reasoning := "go", expectedBehavior := "To be analyzed", executionOrder := 4 }], nextBlocks := ["block-1"] }], methodCallSummary := { stepInto := [{ className := "M1", methodName := "m", parameters := "", stepInDecision := ReqGen.StepInDecision.stepInto, reasoning := "go", expectedBehavior := "To be analyzed", executionOrder := 0 }, { className := "M2", methodName := "m", parameters := "", stepInDecision := ReqGen.StepInDecision.stepInto, reasoning := "go", expectedBehavior := "To be analyzed", executionOrder := 1 }, { className := "M3", methodName := "m", parameters := "", stepInDecision := ReqGen.StepInDecision.stepInto, reasoning := "go", expectedBehavior := "To be analyzed", executionOrder := 2 }, { className := "M4", methodName := "m", parameters := "", stepInDecision := ReqGen.StepInDecision.stepInto, reasoning := "go", expectedBehavior := "To be analyzed", executionOrder := 3 }, { className := "M5", methodName := "m", parameters := "", stepInDecision := ReqGen.StepInDecision.stepInto, reasoning := "go", expectedBehavior := "To be analyzed", executionOrder := 4 }], objectLookup := [], external := [], notFound := [] }, analysisTimestamp := 0, contentHash := "md5:srcR", errorMessage := none, inheritedFrom := none }
def buS1 : AState :=
{ now := 0, mem := [("R#r", { key := "R#r", analysis := { className := "R", methodName := "r", language := "java", analysisStatus := "complete", executionBlocks := [{ blockId := "block-0", blockType := "methodcall", description := "r1", executionFlow := "No execution flow documented", methodCalls := [{ className := "M1", methodName := "m", parameters := "", stepInDecision := ReqGen.StepInDecision.stepInto, reasoning := "go", expectedBehavior := "To be analyzed", executionOrder := 0 }, { className := "M2", methodName := "m", parameters := "", stepInDecision := ReqGen.StepInDecision.stepInto, reasoning := "go", expectedBehavior := "To be analyzed", executionOrder := 1 }, { className := "M3", methodName := "m", parameters := "", stepInDecision := ReqGen.StepInDecision.stepInto, reasoning := "go", expectedBehavior := "To be analyzed", executionOrder := 2 }, { className := "M4", methodName := "m", parameters := "", stepInDecision := ReqGen.StepInDecision.stepInto, reasoning := "go", expectedBehavior := "To be analyzed", executionOrder := 3 }, { className := "M5", methodName := "m", parameters := "", stepInDecision := ReqGen.StepInDecision.stepInto, reasoning := "go", expectedBehavior := "To be analyzed", executionOrder := 4 }], nextBlocks := ["block-1"] }], methodCallSummary := { stepInto := [{ className := "M1", methodName := "m", parameters := "", stepInDecision := ReqGen.StepInDecision.stepInto, reasoning := "go", expectedBehavior := "To be analyzed", executionOrder := 0 }, { className := "M2", methodName := "m", parameters := "", stepInDecision := ReqGen.StepInDecision.stepInto, reasoning := "go", expectedBehavior := "To be analyzed", executionOrder := 1 }, { className := "M3", methodName := "m", parameters := "", stepInDecision := ReqGen.StepInDecision.stepInto, reasoning := "go", expectedBehavior := "To be analyzed", executionOrder := 2 }, { className := "M4", methodName := "m", parameters := "", stepInDecision := ReqGen.StepInDecision.stepInto, reasoning := "go", expectedBehavior := "To be analyzed", executionOrder := 3 }, { className := "M5", methodName := "m", parameters := "", stepInDecision := ReqGen.StepInDecision.stepInto, reasoning := "go", expectedBehavior := "To be analyzed", executionOrder := 4 }], objectLookup := [], external := [], notFound := [] }, analysisTimestamp := 0, contentHash := "md5:srcR", errorMessage := none, inheritedFrom := none }, timestamp := 0, accessCount := 0, contentHash := "md5:srcR" })], stats := { hitCount := 0, missCount := 1, evictionCount := 0 }, pc := [], selectedModel := some "gpt", oracleLog := [("R", "r")], visited := ["R#r"], totalAnalyzed := 1, callStack := [{ className := "R", methodName := "r", depth := 0, isConditional := false }], flow := some { steps := [], methodReferences := [], totalSteps := 0, rootMethod := "R.r" } }
def buPost : AState :=
{ now := 0, mem := [("R#r", { key := "R#r", analysis := { className := "R", methodName := "r", language := "java", analysisStatus := "complete", executionBlocks := [{ blockId := "block-0", blockType := "methodcall", description := "r1", executionFlow := "No execution flow documented", methodCalls := [{ className := "M1", methodName := "m", parameters := "", stepInDecision := ReqGen.StepInDecision.stepInto, reasoning := "go", expectedBehavior := "To be analyzed", executionOrder := 0 }, { className := "M2", methodName := "m", parameters := "", stepInDecision := ReqGen.StepInDecision.stepInto, reasoning := "go", expectedBehavior := "To be analyzed", executionOrder := 1 }, { className := "M3", methodName := "m", parameters := "", stepInDecision := ReqGen.StepInDecision.stepInto, reasoning := "go", expectedBehavior := "To be analyzed", executionOrder := 2 }, { className := "M4", methodName := "m", parameters := "", stepInDecision := ReqGen.StepInDecision.stepInto, reasoning := "go", expectedBehavior := "To be analyzed", executionOrder := 3 }, { className := "M5", methodName := "m", parameters := "", stepInDecision := ReqGen.StepInDecision.stepInto, reasoning := "go", expectedBehavior := "To be analyzed", executionOrder := 4 }], nextBlocks := ["block-1"] }], methodCallSummary := { stepInto := [{ className := "M1", methodName := "m", parameters := "", stepInDecision := ReqGen.StepInDecision.stepInto, reasoning := "go", expectedBehavior := "To be analyzed", executionOrder := 0 }, { className := "M2", methodName := "m", parameters := "", stepInDecision := ReqGen.StepInDecision.stepInto, reasoning := "go", expectedBehavior := "To be analyzed", executionOrder := 1 }, { className := "M3", methodName := "m", parameters := "", stepInDecision := ReqGen.StepInDecision.stepInto, reasoning := "go", expectedBehavior := "To be analyzed", executionOrder := 2 }, { className := "M4", methodName := "m", parameters := "", stepInDecision := ReqGen.StepInDecision.stepInto, reasoning := "go", expectedBehavior := "To be analyzed", executionOrder := 3 }, { className := "M5", methodName := "m", parameters := "", stepInDecision := ReqGen.StepInDecision.stepInto, reasoning := "go", expectedBehavior := "To be analyzed", executionOrder := 4 }], objectLookup := [], external := [], notFound := [] }, analysisTimestamp := 0, contentHash := "md5:srcR", errorMessage := none, inheritedFrom := none }, timestamp := 0, accessCount := 0, contentHash := "md5:srcR" })], stats := { hitCount := 0, missCount := 1, evictionCount := 0 }, pc := [], selectedModel := some "gpt", oracleLog := [("R", "r")], visited := ["R#r"], totalAnalyzed := 1, callStack := [{ className := "R", methodName := "r", depth := 0, isConditional := false }], flow := some { steps := [{ stepNumber := 1, depth := 0, sourceMethod := "R.r", description := "R.r() starts", stepType := ReqGen.LinearStepType.methodStart, originalBlockId := none }, { stepNumber := 2, depth := 0, sourceMethod := "R.r", description := "r1", stepType := ReqGen.LinearStepType.execution, originalBlockId := some "block-0" }, { stepNumber := 3, depth := 0, sourceMethod := "R.r", description := "Call M1.m()", stepType := ReqGen.LinearStepType.methodCall, originalBlockId := none }, { stepNumber := 4, depth := 0, sourceMethod := "R.r", description := "Call M2.m()", stepType := ReqGen.LinearStepType.methodCall, originalBlockId := none }, { stepNumber := 5, depth := 0, sourceMethod := "R.r", description := "Call M3.m()", stepType := ReqGen.LinearStepType.methodCall, originalBlockId := none }, { stepNumber := 6, depth := 0, sourceMethod := "R.r", description := "Call M4.m()", stepType := ReqGen.LinearStepType.methodCall, originalBlockId := none }, { stepNumber := 7, depth := 0, sourceMethod := "R.r", description := "Call M5.m()", stepType := ReqGen.LinearStepType.methodCall, originalBlockId := none }, { stepNumber := 8, depth := 0, sourceMethod := "R.r", description := "R.r() completes", stepType := ReqGen.LinearStepType.methodEnd, originalBlockId := none }], methodReferences := [("R.r", { className := "R", methodName := "r", language := "java", analysisStatus := "complete", executionBlocks := [{ blockId := "block-0", blockType := "methodcall", description := "r1", executionFlow := "No execution flow documented", methodCalls := [{ className := "M1", methodName := "m", parameters := "", stepInDecision := ReqGen.StepInDecision.stepInto, reasoning := "go", expectedBehavior := "To be analyzed", executionOrder := 0 }, { className := "M2", methodName := "m", parameters := "", stepInDecision := ReqGen.StepInDecision.stepInto, reasoning := "go", expectedBehavior := "To be analyzed", executionOrder := 1 }, { className := "M3", methodName := "m", parameters := "", stepInDecision := ReqGen.StepInDecision.stepInto, reasoning := "go", expectedBehavior := "To be analyzed", executionOrder := 2 }, { className := "M4", methodName := "m", parameters := "", stepInDecision := ReqGen.StepInDecision.stepInto, reasoning := "go", expectedBehavior := "To be analyzed", executionOrder := 3 }, { className := "M5", methodName := "m", parameters := "", stepInDecision := ReqGen.StepInDecision.stepInto, reasoning := "go", expectedBehavior := "To be analyzed", executionOrder := 4 }], nextBlocks := ["block-1"] }], methodCallSummary := { stepInto := [{ className := "M1", methodName := "m", parameters := "", stepInDecision := ReqGen.StepInDecision.stepInto, reasoning := "go", expectedBehavior := "To be analyzed", executionOrder := 0 }, { className := "M2", methodName := "m", parameters := "", stepInDecision := ReqGen.StepInDecision.stepInto, reasoning := "go", expectedBehavior := "To be analyzed", executionOrder := 1 }, { className := "M3", methodName := "m", parameters := "", stepInDecision := ReqGen.StepInDecision.stepInto, reasoning := "go", expectedBehavior := "To be analyzed", executionOrder := 2 }, { className := "M4", methodName := "m", parameters := "", stepInDecision := ReqGen.StepInDecision.stepInto, reasoning := "go", expectedBehavior := "To be analyzed", executionOrder := 3 }, { className := "M5", methodName := "m", parameters := "", stepInDecision := ReqGen.StepInDecision.stepInto, reasoning := "go", expectedBehavior := "To be analyzed", executionOrder := 4 }], objectLookup := [], external := [], notFound := [] }, analysisTimestamp := 0, contentHash := "md5:srcR", errorMessage := none, inheritedFrom := none })], totalSteps := 8, rootMethod := "R.r" } }
def buC1 : MethodCall :=
{ className := "M1", methodName := "m", parameters := "", stepInDecision := ReqGen.StepInDecision.stepInto, reasoning := "go", expectedBehavior := "To be analyzed", executionOrder := 0 }
def buC2 : MethodCall :=
{ className := "M2", methodName := "m", parameters := "", stepInDecision := ReqGen.StepInDecision.stepInto, reasoning := "go", expectedBehavior := "To be analyzed", executionOrder := 1 }
def buC3 : MethodCall :=
{ className := "M3", methodName := "m", parameters := "", stepInDecision := ReqGen.StepInDecision.stepInto, reasoning := "go", expectedBehavior := "To be analyzed", executionOrder := 2 }
def buC4 : MethodCall :=
{ className := "M4", methodName := "m", parameters := "", stepInDecision := ReqGen.StepInDecision.stepInto, reasoning := "go", expectedBehavior := "To be analyzed", executionOrder := 3 }
def buC5 : MethodCall :=
{ className := "M5", methodName := "m", parameters := "", stepInDecision := ReqGen.StepInDecision.stepInto, reasoning := "go", expectedBehavior := "To be analyzed", executionOrder := 4 }
def bu1InnerA : MethodAnalysis :=
{ className := "M1", methodName := "m", language := "java", analysisStatus := "complete", executionBlocks := [{ blockId := "block-0", blockType := "return", description := "leaf", executionFlow := "No execution flow documented", methodCalls := [], nextBlocks := ["block-1"] }], methodCallSummary := { stepInto := [], objectLookup := [], external := [], notFound := [] }, analysisTimestamp := 0, contentHash := "md5:srcM1", errorMessage := none, inheritedFrom := none }
def bu1InnerS : AState :=
{ now := 0, mem := [("R#r", { key := "R#r", analysis := { className := "R", methodName := "r", language := "java", analysisStatus := "complete", executionBlocks := [{ blockId := "block-0", blockType := "methodcall", description := "r1", executionFlow := "No execution flow documented", methodCalls := [{ className := "M1", methodName := "m", parameters := "", stepInDecision := ReqGen.StepInDecision.stepInto, reasoning := "go", expectedBehavior := "To be analyzed", executionOrder := 0 }, { className := "M2", methodName := "m", parameters := "", stepInDecision := ReqGen.StepInDecision.stepInto, reasoning := "go", expectedBehavior := "To be analyzed", executionOrder := 1 }, { className := "M3", methodName := "m", parameters := "", stepInDecision := ReqGen.StepInDecision.stepInto, reasoning := "go", expectedBehavior := "To be analyzed", executionOrder := 2 }, { className := "M4", methodName := "m", parameters := "", stepInDecision := ReqGen.StepInDecision.stepInto, reasoning := "go", expectedBehavior := "To be analyzed", executionOrder := 3 }, { className := "M5", methodName := "m", parameters := "", stepInDecision := ReqGen.StepInDecision.stepInto, reasoning := "go", expectedBehavior := "To be analyzed", executionOrder := 4 }], nextBlocks := ["block-1"] }], methodCallSummary := { stepInto := [{ className := "M1", methodName := "m", parameters := "", stepInDecision := ReqGen.StepInDecision.stepInto, reasoning := "go", expectedBehavior := "To be analyzed", executionOrder := 0 }, { className := "M2", methodName := "m", parameters := "", stepInDecision := ReqGen.StepInDecision.stepInto, reasoning := "go", expectedBehavior := "To be analyzed", executionOrder := 1 }, { className := "M3", methodName := "m", parameters := "", stepInDecision := ReqGen.StepInDecision.stepInto, reasoning := "go", expectedBehavior := "To be analyzed", executionOrder := 2 }, { className := "M4", methodName := "m", parameters := "", stepInDecision := ReqGen.StepInDecision.stepInto, reasoning := "go", expectedBehavior := "To be analyzed", executionOrder := 3 }, { className := "M5", methodName := "m", parameters := "", stepInDecision := ReqGen.StepInDecision.stepInto, reasoning := "go", expectedBehavior := "To be analyzed", executionOrder := 4 }], objectLookup := [], external := [], notFound := [] }, analysisTimestamp := 0, contentHash := "md5:srcR", errorMessage := none, inheritedFrom := none }, timestamp := 0, accessCount := 0, contentHash := "md5:srcR" }), ("M1#m", { key := "M1#m", analysis := { className := "M1", methodName := "m", language := "java", analysisStatus := "complete", executionBlocks := [{ blockId := "block-0", blockType := "return", description := "leaf", executionFlow := "No execution flow documented", methodCalls := [], nextBlocks := ["block-1"] }], methodCallSummary := { stepInto := [], objectLookup := [], external := [], notFound := [] }, analysisTimestamp := 0, contentHash := "md5:srcM1", errorMessage := none, inheritedFrom := none }, timestamp := 0, accessCount := 0, contentHash := "md5:srcM1" })], stats := { hitCount := 0, missCount := 2, evictionCount := 0 }, pc := [], selectedModel := some "gpt", oracleLog := [("R", "r"), ("M1", "m")], visited := ["R#r", "M1#m"], totalAnalyzed := 2, callStack := [{ className := "R", methodName := "r", depth := 0, isConditional := false }], flow := some { steps := [{ stepNumber := 1, depth := 0, sourceMethod := "R.r", description := "R.r() starts", stepType := ReqGen.LinearStepType.methodStart, originalBlockId := none }, { stepNumber := 2, depth := 0, sourceMethod := "R.r", description := "r1", stepType := ReqGen.LinearStepType.execution, originalBlockId := some "block-0" }, { stepNumber := 3, depth := 0, sourceMethod := "R.r", description := "Call M1.m()", stepType := ReqGen.LinearStepType.methodCall, originalBlockId := none }, { stepNumber := 4, depth := 0, sourceMethod := "R.r", description := "Call M2.m()", stepType := ReqGen.LinearStepType.methodCall, originalBlockId := none }, { stepNumber := 5, depth := 0, sourceMethod := "R.r", description := "Call M3.m()", stepType := ReqGen.LinearStepType.methodCall, originalBlockId := none }, { stepNumber := 6, depth := 0, sourceMethod := "R.r", description := "Call M4.m()", stepType := ReqGen.LinearStepType.methodCall, originalBlockId := none }, { stepNumber := 7, depth := 0, sourceMethod := "R.r", description := "Call M5.m()", stepType := ReqGen.LinearStepType.methodCall, originalBlockId := none }, { stepNumber := 8, depth := 0, sourceMethod := "R.r", description := "R.r() completes", stepType := ReqGen.LinearStepType.methodEnd, originalBlockId := none }, { stepNumber := 9, depth := 1, sourceMethod := "M1.m", description := "M1.m() starts", stepType := ReqGen.LinearStepType.methodStart, originalBlockId := none }, { stepNumber := 10, depth := 1, sourceMethod := "M1.m", description := "leaf", stepType := ReqGen.LinearStepType.execution, originalBlockId := some "block-0" }, { stepNumber := 11, depth := 1, sourceMethod := "M1.m", description := "M1.m() completes", stepType := ReqGen.LinearStepType.methodEnd, originalBlockId := none }], methodReferences := [("R.r", { className := "R", methodName := "r", language := "java", analysisStatus := "complete", executionBlocks := [{ blockId := "block-0", blockType := "methodcall", description := "r1", executionFlow := "No execution flow documented", methodCalls := [{ className := "M1", methodName := "m", parameters := "", stepInDecision := ReqGen.StepInDecision.stepInto, reasoning := "go", expectedBehavior := "To be analyzed", executionOrder := 0 }, { className := "M2", methodName := "m", parameters := "", stepInDecision := ReqGen.StepInDecision.stepInto, reasoning := "go", expectedBehavior := "To be analyzed", executionOrder := 1 }, { className := "M3", methodName := "m", parameters := "", stepInDecision := ReqGen.StepInDecision.stepInto, reasoning := "go", expectedBehavior := "To be analyzed", executionOrder := 2 }, { className := "M4", methodName := "m", parameters := "", stepInDecision := ReqGen.StepInDecision.stepInto, reasoning := "go", expectedBehavior := "To be analyzed", executionOrder := 3 }, { className := "M5", methodName := "m", parameters := "", stepInDecision := ReqGen.StepInDecision.stepInto, reasoning := "go", expectedBehavior := "To be analyzed", executionOrder := 4 }], nextBlocks := ["block-1"] }], methodCallSummary := { stepInto := [{ className := "M1", methodName := "m", parameters := "", stepInDecision := ReqGen.StepInDecision.stepInto, reasoning := "go", expectedBehavior := "To be analyzed", executionOrder := 0 }, { className := "M2", methodName := "m", parameters := "", stepInDecision := ReqGen.StepInDecision.stepInto, reasoning := "go", expectedBehavior := "To be analyzed", executionOrder := 1 }, { className := "M3", methodName := "m", parameters := "", stepInDecision := ReqGen.StepInDecision.stepInto, reasoning := "go", expectedBehavior := "To be analyzed", executionOrder := 2 }, { className := "M4", methodName := "m", parameters := "", stepInDecision := ReqGen.StepInDecision.stepInto, reasoning := "go", expectedBehavior := "To be analyzed", executionOrder := 3 }, { className := "M5", methodName := "m", parameters := "", stepInDecision := ReqGen.StepInDecision.stepInto, reasoning := "go", expectedBehavior := "To be analyzed", executionOrder := 4 }], objectLookup := [], external := [], notFound := [] }, analysisTimestamp := 0, contentHash := "md5:srcR", errorMessage := none, inheritedFrom := none }), ("M1.m", { className := "M1", methodName := "m", language := "java", analysisStatus := "complete", executionBlocks := [{ blockId := "block-0", blockType := "return", description := "leaf", executionFlow := "No execution flow documented", methodCalls := [], nextBlocks := ["block-1"] }], methodCallSummary := { stepInto := [], objectLookup := [], external := [], notFound := [] }, analysisTimestamp := 0, contentHash := "md5:srcM1", errorMessage := none, inheritedFrom := none })], totalSteps := 11, rootMethod := "R.r" } }
def bu1Ret : AState :=
{ now := 0, mem := [("R#r", { key := "R#r", analysis := { className := "R", methodName := "r", language := "java", analysisStatus := "complete", executionBlocks := [{ blockId := "block-0", blockType := "methodcall", description := "r1", executionFlow := "No execution flow documented", methodCalls := [{ className := "M1", methodName := "m", parameters := "", stepInDecision := ReqGen.StepInDecision.stepInto, reasoning := "go", expectedBehavior := "To be analyzed", executionOrder := 0 }, { className := "M2", methodName := "m", parameters := "", stepInDecision := ReqGen.StepInDecision.stepInto, reasoning := "go", expectedBehavior := "To be analyzed", executionOrder := 1 }, { className := "M3", methodName := "m", parameters := "", stepInDecision := ReqGen.StepInDecision.stepInto, reasoning := "go", expectedBehavior := "To be analyzed", executionOrder := 2 }, { className := "M4", methodName := "m", parameters := "", stepInDecision := ReqGen.StepInDecision.stepInto, reasoning := "go", expectedBehavior := "To be analyzed", executionOrder := 3 }, { className := "M5", methodName := "m", parameters := "", stepInDecision := ReqGen.StepInDecision.stepInto, reasoning := "go", expectedBehavior := "To be analyzed", executionOrder := 4 }], nextBlocks := ["block-1"] }], methodCallSummary := { stepInto := [{ className := "M1", methodName := "m", parameters := "", stepInDecision := ReqGen.StepInDecision.stepInto, reasoning := "go", expectedBehavior := "To be analyzed", executionOrder := 0 }, { className := "M2", methodName := "m", parameters := "", stepInDecision := ReqGen.StepInDecision.stepInto, reasoning := "go", expectedBehavior := "To be analyzed", executionOrder := 1 }, { className := "M3", methodName := "m", parameters := "", stepInDecision := ReqGen.StepInDecision.stepInto, reasoning := "go", expectedBehavior := "To be analyzed", executionOrder := 2 }, { className := "M4", methodName := "m", parameters := "", stepInDecision := ReqGen.StepInDecision.stepInto, reasoning := "go", expectedBehavior := "To be analyzed", executionOrder := 3 }, { className := "M5", methodName := "m", parameters := "", stepInDecision := ReqGen.StepInDecision.stepInto, reasoning := "go", expectedBehavior := "To be analyzed", executionOrder := 4 }], objectLookup := [], external := [], notFound := [] }, analysisTimestamp := 0, contentHash := "md5:srcR", errorMessage := none, inheritedFrom := none }, timestamp := 0, accessCount := 0, contentHash := "md5:srcR" }), ("M1#m", { key := "M1#m", analysis := { className := "M1", methodName := "m", language := "java", analysisStatus := "complete", executionBlocks := [{ blockId := "block-0", blockType := "return", description := "leaf", executionFlow := "No execution flow documented", methodCalls := [], nextBlocks := ["block-1"] }], methodCallSummary := { stepInto := [], objectLookup := [], external := [], notFound := [] }, analysisTimestamp := 0, contentHash := "md5:srcM1", errorMessage := none, inheritedFrom := none }, timestamp := 0, accessCount := 0, contentHash := "md5:srcM1" })], stats := { hitCount := 0, missCount := 2, evictionCount := 0 }, pc := [], selectedModel := some "gpt", oracleLog := [("R", "r"), ("M1", "m")], visited := ["R#r", "M1#m"], totalAnalyzed := 2, callStack := [{ className := "R", methodName := "r", depth := 0, isConditional := false }], flow := some { steps := [{ stepNumber := 1, depth := 0, sourceMethod := "R.r", description := "R.r() starts", stepType := ReqGen.LinearStepType.methodStart, originalBlockId := none }, { stepNumber := 2, depth := 0, sourceMethod := "R.r", description := "r1", stepType := ReqGen.LinearStepType.execution, originalBlockId := some "block-0" }, { stepNumber := 3, depth := 0, sourceMethod := "R.r", description := "Call M1.m()", stepType := ReqGen.LinearStepType.methodCall, originalBlockId := none }, { stepNumber := 4, depth := 0, sourceMethod := "R.r", description := "Call M2.m()", stepType := ReqGen.LinearStepType.methodCall, originalBlockId := none }, { stepNumber := 5, depth := 0, sourceMethod := "R.r", description := "Call M3.m()", stepType := ReqGen.LinearStepType.methodCall, originalBlockId := none }, { stepNumber := 6, depth := 0, sourceMethod := "R.r", description := "Call M4.m()", stepType := ReqGen.LinearStepType.methodCall, originalBlockId := none }, { stepNumber := 7, depth := 0, sourceMethod := "R.r", description := "Call M5.m()", stepType := ReqGen.LinearStepType.methodCall, originalBlockId := none }, { stepNumber := 8, depth := 0, sourceMethod := "R.r", description := "R.r() completes", stepType := ReqGen.LinearStepType.methodEnd, originalBlockId := none }, { stepNumber := 9, depth := 1, sourceMethod := "M1.m", description := "M1.m() starts", stepType := ReqGen.LinearStepType.methodStart, originalBlockId := none }, { stepNumber := 10, depth := 1, sourceMethod := "M1.m", description := "leaf", stepType := ReqGen.LinearStepType.execution, originalBlockId := some "block-0" }, { stepNumber := 11, depth := 1, sourceMethod := "M1.m", description := "M1.m() completes", stepType := ReqGen.LinearStepType.methodEnd, originalBlockId := none }, { stepNumber := 12, depth := 0, sourceMethod := "R.r", description := "↩️ M1.m() returns: leaf", stepType := ReqGen.LinearStepType.methodReturn, originalBlockId := none }], methodReferences := [("R.r", { className := "R", methodName := "r", language := "java", analysisStatus := "complete", executionBlocks := [{ blockId := "block-0", blockType := "methodcall", description := "r1", executionFlow := "No execution flow documented", methodCalls := [{ className := "M1", methodName := "m", parameters := "", stepInDecision := ReqGen.StepInDecision.stepInto, reasoning := "go", expectedBehavior := "To be analyzed", executionOrder := 0 }, { className := "M2", methodName := "m", parameters := "", stepInDecision := ReqGen.StepInDecision.stepInto, reasoning := "go", expectedBehavior := "To be analyzed", executionOrder := 1 }, { className := "M3", methodName := "m", parameters := "", stepInDecision := ReqGen.StepInDecision.stepInto, reasoning := "go", expectedBehavior := "To be analyzed", executionOrder := 2 }, { className := "M4", methodName := "m", parameters := "", stepInDecision := ReqGen.StepInDecision.stepInto, reasoning := "go", expectedBehavior := "To be analyzed", executionOrder := 3 }, { className := "M5", methodName := "m", parameters := "", stepInDecision := ReqGen.StepInDecision.stepInto, reasoning := "go", expectedBehavior := "To be analyzed", executionOrder := 4 }], nextBlocks := ["block-1"] }], methodCallSummary := { stepInto := [{ className := "M1", methodName := "m", parameters := "", stepInDecision := ReqGen.StepInDecision.stepInto, reasoning := "go", expectedBehavior := "To be analyzed", executionOrder := 0 }, { className := "M2", methodName := "m", parameters := "", stepInDecision := ReqGen.StepInDecision.stepInto, reasoning := "go", expectedBehavior := "To be analyzed", executionOrder := 1 }, { className := "M3", methodName := "m", parameters := "", stepInDecision := ReqGen.StepInDecision.stepInto, reasoning := "go", expectedBehavior := "To be analyzed", executionOrder := 2 }, { className := "M4", methodName := "m", parameters := "", stepInDecision := ReqGen.StepInDecision.stepInto, reasoning := "go", expectedBehavior := "To be analyzed", executionOrder := 3 }, { className := "M5", methodName := "m", parameters := "", stepInDecision := ReqGen.StepInDecision.stepInto, reasoning := "go", expectedBehavior := "To be analyzed", executionOrder := 4 }], objectLookup := [], external := [], notFound := [] }, analysisTimestamp := 0, contentHash := "md5:srcR", errorMessage := none, inheritedFrom := none }), ("M1.m", { className := "M1", methodName := "m", language := "java", analysisStatus := "complete", executionBlocks := [{ blockId := "block-0", blockType := "return", description := "leaf", executionFlow := "No execution flow documented", methodCalls := [], nextBlocks := ["block-1"] }], methodCallSummary := { stepInto := [], objectLookup := [], external := [], notFound := [] }, analysisTimestamp := 0, contentHash := "md5:srcM1", errorMessage := none, inheritedFrom := none })], totalSteps := 12, rootMethod := "R.r" } }
def bu1Main : MethodAnalysis :=
{ className := "R", methodName := "r", language := "java", analysisStatus := "complete", executionBlocks := [{ blockId := "block-0", blockType := "methodcall", description := "r1", executionFlow := "No execution flow documented", methodCalls := [{ className := "M1", methodName := "m", parameters := "", stepInDecision := ReqGen.StepInDecision.stepInto, reasoning := "go", expectedBehavior := "leaf", executionOrder := 0 }, { className := "M2", methodName := "m", parameters := "", stepInDecision := ReqGen.StepInDecision.stepInto, reasoning := "go", expectedBehavior := "To be analyzed", executionOrder := 1 }, { className := "M3", methodName := "m", parameters := "", stepInDecision := ReqGen.StepInDecision.stepInto, reasoning := "go", expectedBehavior := "To be analyzed", executionOrder := 2 }, { className := "M4", methodName := "m", parameters := "", stepInDecision := ReqGen.StepInDecision.stepInto, reasoning := "go", expectedBehavior := "To be analyzed", executionOrder := 3 }, { className := "M5", methodName := "m", parameters := "", stepInDecision := ReqGen.StepInDecision.stepInto, reasoning := "go", expectedBehavior := "To be analyzed", executionOrder := 4 }], nextBlocks := ["block-1"] }], methodCallSummary := { stepInto := [{ className := "M1", methodName := "m", parameters := "", stepInDecision := ReqGen.StepInDecision.stepInto, reasoning := "go", expectedBehavior := "To be analyzed", executionOrder := 0 }, { className := "M2", methodName := "m", parameters := "", stepInDecision := ReqGen.StepInDecision.stepInto, reasoning := "go", expectedBehavior := "To be analyzed", executionOrder := 1 }, { className := "M3", methodName := "m", parameters := "", stepInDecision := ReqGen.StepInDecision.stepInto, reasoning := "go", expectedBehavior := "To be analyzed", executionOrder := 2 }, { className := "M4", methodName := "m", parameters := "", stepInDecision := ReqGen.StepInDecision.stepInto, reasoning := "go", expectedBehavior := "To be analyzed", executionOrder := 3 }, { className := "M5", methodName := "m", parameters := "", stepInDecision := ReqGen.StepInDecision.stepInto, reasoning := "go", expectedBehavior := "To be analyzed", executionOrder := 4 }], objectLookup := [], external := [], notFound := [] }, analysisTimestamp := 0, contentHash := "md5:srcR", errorMessage := none, inheritedFrom := none }
def bu1F : Option LinearFlow :=
some { steps := [{ stepNumber := 1, depth := 0, sourceMethod := "R.r", description := "R.r() starts", stepType := ReqGen.LinearStepType.methodStart, originalBlockId := none }, { stepNumber := 2, depth := 0, sourceMethod := "R.r", description := "r1", stepType := ReqGen.LinearStepType.execution, originalBlockId := some "block-0" }, { stepNumber := 3, depth := 0, sourceMethod := "R.r", description := "Call M1.m()", stepType := ReqGen.LinearStepType.methodCall, originalBlockId := none }, { stepNumber := 4, depth := 0, sourceMethod := "R.r", description := "Call M2.m()", stepType := ReqGen.LinearStepType.methodCall, originalBlockId := none }, { stepNumber := 5, depth := 0, sourceMethod := "R.r", description := "Call M3.m()", stepType := ReqGen.LinearStepType.methodCall, originalBlockId := none }, { stepNumber := 6, depth := 0, sourceMethod := "R.r", description := "Call M4.m()", stepType := ReqGen.LinearStepType.methodCall, originalBlockId := none }, { stepNumber := 7, depth := 0, sourceMethod := "R.r", description := "Call M5.m()", stepType := ReqGen.LinearStepType.methodCall, originalBlockId := none }, { stepNumber := 8, depth := 0, sourceMethod := "R.r", description := "R.r() completes", stepType := ReqGen.LinearStepType.methodEnd, originalBlockId := none }, { stepNumber := 9, depth := 1, sourceMethod := "M1.m", description := "M1.m() starts", stepType := ReqGen.LinearStepType.methodStart, originalBlockId := none }, { stepNumber := 10, depth := 1, sourceMethod := "M1.m", description := "leaf", stepType := ReqGen.LinearStepType.execution, originalBlockId := some "block-0" }, { stepNumber := 11, depth := 1, sourceMethod := "M1.m", description := "M1.m() completes", stepType := ReqGen.LinearStepType.methodEnd, originalBlockId := none }, { stepNumber := 12, depth := 0, sourceMethod := "R.r", description := "↩️ M1.m() returns: leaf", stepType := ReqGen.LinearStepType.methodReturn, originalBlockId := none }], methodReferences := [("R.r", { className := "R", methodName := "r", language := "java", analysisStatus := "complete", executionBlocks := [{ blockId := "block-0", blockType := "methodcall", description := "r1", executionFlow := "No execution flow documented", methodCalls := [{ className := "M1", methodName := "m", parameters := "", stepInDecision := ReqGen.StepInDecision.stepInto, reasoning := "go", expectedBehavior := "To be analyzed", executionOrder := 0 }, { className := "M2", methodName := "m", parameters := "", stepInDecision := ReqGen.StepInDecision.stepInto, reasoning := "go", expectedBehavior := "To be analyzed", executionOrder := 1 }, { className := "M3", methodName := "m", parameters := "", stepInDecision := ReqGen.StepInDecision.stepInto, reasoning := "go", expectedBehavior := "To be analyzed", executionOrder := 2 }, { className := "M4", methodName := "m", parameters := "", stepInDecision := ReqGen.StepInDecision.stepInto, reasoning := "go", expectedBehavior := "To be analyzed", executionOrder := 3 }, { className := "M5", methodName := "m", parameters := "", stepInDecision := ReqGen.StepInDecision.stepInto, reasoning := "go", expectedBehavior := "To be analyzed", executionOrder := 4 }], nextBlocks := ["block-1"] }], methodCallSummary := { stepInto := [{ className := "M1", methodName := "m", parameters := "", stepInDecision := ReqGen.StepInDecision.stepInto, reasoning := "go", expectedBehavior := "To be analyzed", executionOrder := 0 }, { className := "M2", methodName := "m", parameters := "", stepInDecision := ReqGen.StepInDecision.stepInto, reasoning := "go", expectedBehavior := "To be analyzed", executionOrder := 1 }, { className := "M3", methodName := "m", parameters := "", stepInDecision := ReqGen.StepInDecision.stepInto, reasoning := "go", expectedBehavior := "To be analyzed", executionOrder := 2 }, { className := "M4", methodName := "m", parameters := "", stepInDecision := ReqGen.StepInDecision.stepInto, reasoning := "go", expectedBehavior := "To be analyzed", executionOrder := 3 }, { className := "M5", methodName := "m", parameters := "", stepInDecision := ReqGen.StepInDecision.stepInto, reasoning := "go", expectedBehavior := "To be analyzed", executionOrder := 4 }], objectLookup := [], external := [], notFound := [] }, analysisTimestamp := 0, contentHash := "md5:srcR", errorMessage := none, inheritedFrom := none }), ("M1.m", { className := "M1", methodName := "m", language := "java", analysisStatus := "complete", executionBlocks := [{ blockId := "block-0", blockType := "return", description := "leaf", executionFlow := "No execution flow documented", methodCalls := [], nextBlocks := ["block-1"] }], methodCallSummary := { stepInto := [], objectLookup := [], external := [], notFound := [] }, analysisTimestamp := 0, contentHash := "md5:srcM1", errorMessage := none, inheritedFrom := none })], totalSteps := 12, rootMethod := "R.r" }
def bu1Next : AState :=
{ now := 0, mem := [("R#r", { key := "R#r", analysis := { className := "R", methodName := "r", language := "java", analysisStatus := "complete", executionBlocks := [{ blockId := "block-0", blockType := "methodcall", description := "r1", executionFlow := "No execution flow documented", methodCalls := [{ className := "M1", methodName := "m", parameters := "", stepInDecision := ReqGen.StepInDecision.stepInto, reasoning := "go", expectedBehavior := "To be analyzed", executionOrder := 0 }, { className := "M2", methodName := "m", parameters := "", stepInDecision := ReqGen.StepInDecision.stepInto, reasoning := "go", expectedBehavior := "To be analyzed", executionOrder := 1 }, { className := "M3", methodName := "m", parameters := "", stepInDecision := ReqGen.StepInDecision.stepInto, reasoning := "go", expectedBehavior := "To be analyzed", executionOrder := 2 }, { className := "M4", methodName := "m", parameters := "", stepInDecision := ReqGen.StepInDecision.stepInto, reasoning := "go", expectedBehavior := "To be analyzed", executionOrder := 3 }, { className := "M5", methodName := "m", parameters := "", stepInDecision := ReqGen.StepInDecision.stepInto, reasoning := "go", expectedBehavior := "To be analyzed", executionOrder := 4 }], nextBlocks := ["block-1"] }], methodCallSummary := { stepInto := [{ className := "M1", methodName := "m", parameters := "", stepInDecision := ReqGen.StepInDecision.stepInto, reasoning := "go", expectedBehavior := "To be analyzed", executionOrder := 0 }, { className := "M2", methodName := "m", parameters := "", stepInDecision := ReqGen.StepInDecision.stepInto, reasoning := "go", expectedBehavior := "To be analyzed", executionOrder := 1 }, { className := "M3", methodName := "m", parameters := "", stepInDecision := ReqGen.StepInDecision.stepInto, reasoning := "go", expectedBehavior := "To be analyzed", executionOrder := 2 }, { className := "M4", methodName := "m", parameters := "", stepInDecision := ReqGen.StepInDecision.stepInto, reasoning := "go", expectedBehavior := "To be analyzed", executionOrder := 3 }, { className := "M5", methodName := "m", parameters := "", stepInDecision := ReqGen.StepInDecision.stepInto, reasoning := "go", expectedBehavior := "To be analyzed", executionOrder := 4 }], objectLookup := [], external := [], notFound := [] }, analysisTimestamp := 0, contentHash := "md5:srcR", errorMessage := none, inheritedFrom := none }, timestamp := 0, accessCount := 0, contentHash := "md5:srcR" }), ("M1#m", { key := "M1#m", analysis := { className := "M1", methodName := "m", language := "java", analysisStatus := "complete", executionBlocks := [{ blockId := "block-0", blockType := "return", description := "leaf", executionFlow := "No execution flow documented", methodCalls := [], nextBlocks := ["block-1"] }], methodCallSummary := { stepInto := [], objectLookup := [], external := [], notFound := [] }, analysisTimestamp := 0, contentHash := "md5:srcM1", errorMessage := none, inheritedFrom := none }, timestamp := 0, accessCount := 0, contentHash := "md5:srcM1" })], stats := { hitCount := 0, missCount := 2, evictionCount := 0 }, pc := [], selectedModel := some "gpt", oracleLog := [("R", "r"), ("M1", "m")], visited := ["R#r", "M1#m"], totalAnalyzed := 2, callStack := [{ className := "R", methodName := "r", depth := 0, isConditional := false }], flow := some { steps := [{ stepNumber := 1, depth := 0, sourceMethod := "R.r", description := "R.r() starts", stepType := ReqGen.LinearStepType.methodStart, originalBlockId := none }, { stepNumber := 2, depth := 0, sourceMethod := "R.r", description := "r1", stepType := ReqGen.LinearStepType.execution, originalBlockId := some "block-0" }, { stepNumber := 3, depth := 0, sourceMethod := "R.r", description := "Call M1.m()", stepType := ReqGen.LinearStepType.methodCall, originalBlockId := none }, { stepNumber := 4, depth := 0, sourceMethod := "R.r", description := "Call M2.m()", stepType := ReqGen.LinearStepType.methodCall, originalBlockId := none }, { stepNumber := 5, depth := 0, sourceMethod := "R.r", description := "Call M3.m()", stepType := ReqGen.LinearStepType.methodCall, originalBlockId := none }, { stepNumber := 6, depth := 0, sourceMethod := "R.r", description := "Call M4.m()", stepType := ReqGen.LinearStepType.methodCall, originalBlockId := none }, { stepNumber := 7, depth := 0, sourceMethod := "R.r", description := "Call M5.m()", stepType := ReqGen.LinearStepType.methodCall, originalBlockId := none }, { stepNumber := 8, depth := 0, sourceMethod := "R.r", description := "R.r() completes", stepType := ReqGen.LinearStepType.methodEnd, originalBlockId := none }, { stepNumber := 9, depth := 1, sourceMethod := "M1.m", description := "M1.m() starts", stepType := ReqGen.LinearStepType.methodStart, originalBlockId := none }, { stepNumber := 10, depth := 1, sourceMethod := "M1.m", description := "leaf", stepType := ReqGen.LinearStepType.execution, originalBlockId := some "block-0" }, { stepNumber := 11, depth := 1, sourceMethod := "M1.m", description := "M1.m() completes", stepType := ReqGen.LinearStepType.methodEnd, originalBlockId := none }, { stepNumber := 12, depth := 0, sourceMethod := "R.r", description := "↩️ M1.m() returns: leaf", stepType := ReqGen.LinearStepType.methodReturn, originalBlockId := none }], methodReferences := [("R.r", { className := "R", methodName := "r", language := "java", analysisStatus := "complete", executionBlocks := [{ blockId := "block-0", blockType := "methodcall", description := "r1", executionFlow := "No execution flow documented", methodCalls := [{ className := "M1", methodName := "m", parameters := "", stepInDecision := ReqGen.StepInDecision.stepInto, reasoning := "go", expectedBehavior := "To be analyzed", executionOrder := 0 }, { className := "M2", methodName := "m", parameters := "", stepInDecision := ReqGen.StepInDecision.stepInto, reasoning := "go", expectedBehavior := "To be analyzed", executionOrder := 1 }, { className := "M3", methodName := "m", parameters := "", stepInDecision := ReqGen.StepInDecision.stepInto, reasoning := "go", expectedBehavior := "To be analyzed", executionOrder := 2 }, { className := "M4", methodName := "m", parameters := "", stepInDecision := ReqGen.StepInDecision.stepInto, reasoning := "go", expectedBehavior := "To be analyzed", executionOrder := 3 }, { className := "M5", methodName := "m", parameters := "", stepInDecision := ReqGen.StepInDecision.stepInto, reasoning := "go", expectedBehavior := "To be analyzed", executionOrder := 4 }], nextBlocks := ["block-1"] }], methodCallSummary := { stepInto := [{ className := "M1", methodName := "m", parameters := "", stepInDecision := ReqGen.StepInDecision.stepInto, reasoning := "go", expectedBehavior := "To be analyzed", executionOrder := 0 }, { className := "M2", methodName := "m", parameters := "", stepInDecision := ReqGen.StepInDecision.stepInto, reasoning := "go", expectedBehavior := "To be analyzed", executionOrder := 1 }, { className := "M3", methodName := "m", parameters := "", stepInDecision := ReqGen.StepInDecision.stepInto, reasoning := "go", expectedBehavior := "To be analyzed", executionOrder := 2 }, { className := "M4", methodName := "m", parameters := "", stepInDecision := ReqGen.StepInDecision.stepInto, reasoning := "go", expectedBehavior := "To be analyzed", executionOrder := 3 }, { className := "M5", methodName := "m", parameters := "", stepInDecision := ReqGen.StepInDecision.stepInto, reasoning := "go", expectedBehavior := "To be analyzed", executionOrder := 4 }], objectLookup := [], external := [], notFound := [] }, analysisTimestamp := 0, contentHash := "md5:srcR", errorMessage := none, inheritedFrom := none }), ("M1.m", { className := "M1", methodName := "m", language := "java", analysisStatus := "complete", executionBlocks := [{ blockId := "block-0", blockType := "return", description := "leaf", executionFlow := "No execution flow documented", methodCalls := [], nextBlocks := ["block-1"] }], methodCallSummary := { stepInto := [], objectLookup := [], external := [], notFound := [] }, analysisTimestamp := 0, contentHash := "md5:srcM1", errorMessage := none, inheritedFrom := none })], totalSteps := 12, rootMethod := "R.r" } }
def bu2InnerA : MethodAnalysis :=
{ className := "M2", methodName := "m", language := "java", analysisStatus := "complete", executionBlocks := [{ blockId := "block-0", blockType := "return", description := "leaf", executionFlow := "No execution flow documented", methodCalls := [], nextBlocks := ["block-1"] }], methodCallSummary := { stepInto := [], objectLookup := [], external := [], notFound := [] }, analysisTimestamp := 0, contentHash := "md5:srcM2", errorMessage := none, inheritedFrom := none }
def bu2InnerS : AState :=
{ now := 0, mem := [("R#r", { key := "R#r", analysis := { className := "R", methodName := "r", language := "java", analysisStatus := "complete", executionBlocks := [{ blockId := "block-0", blockType := "methodcall", description := "r1", executionFlow := "No execution flow documented", methodCalls := [{ className := "M1", methodName := "m", parameters := "", stepInDecision := ReqGen.StepInDecision.stepInto, reasoning := "go", expectedBehavior := "To be analyzed", executionOrder := 0 }, { className := "M2", methodName := "m", parameters := "", stepInDecision := ReqGen.StepInDecision.stepInto, reasoning := "go", expectedBehavior := "To be analyzed", executionOrder := 1 }, { className := "M3", methodName := "m", parameters := "", stepInDecision := ReqGen.StepInDecision.stepInto, reasoning := "go", expectedBehavior := "To be analyzed", executionOrder := 2 }, { className := "M4", methodName := "m", parameters := "", stepInDecision := ReqGen.StepInDecision.stepInto, reasoning := "go", expectedBehavior := "To be analyzed", executionOrder := 3 }, { className := "M5", methodName := "m", parameters := "", stepInDecision := ReqGen.StepInDecision.stepInto, reasoning := "go", expectedBehavior := "To be analyzed", executionOrder := 4 }], nextBlocks := ["block-1"] }], methodCallSummary := { stepInto := [{ className := "M1", methodName := "m", parameters := "", stepInDecision := ReqGen.StepInDecision.stepInto, reasoning := "go", expectedBehavior := "To be analyzed", executionOrder := 0 }, { className := "M2", methodName := "m", parameters := "", stepInDecision := ReqGen.StepInDecision.stepInto, reasoning := "go", expectedBehavior := "To be analyzed", executionOrder := 1 }, { className := "M3", methodName := "m", parameters := "", stepInDecision := ReqGen.StepInDecision.stepInto, reasoning := "go", expectedBehavior := "To be analyzed", executionOrder := 2 }, { className := "M4", methodName := "m", parameters := "", stepInDecision := ReqGen.StepInDecision.stepInto, reasoning := "go", expectedBehavior := "To be analyzed", executionOrder := 3 }, { className := "M5", methodName := "m", parameters := "", stepInDecision := ReqGen.StepInDecision.stepInto, reasoning := "go", expectedBehavior := "To be analyzed", executionOrder := 4 }], objectLookup := [], external := [], notFound := [] }, analysisTimestamp := 0, contentHash := "md5:srcR", errorMessage := none, inheritedFrom := none }, timestamp := 0, accessCount := 0, contentHash := "md5:srcR" }), ("M1#m", { key := "M1#m", analysis := { className := "M1", methodName := "m", language := "java", analysisStatus := "complete", executionBlocks := [{ blockId := "block-0", blockType := "return", description := "leaf", executionFlow := "No execution flow documented", methodCalls := [], nextBlocks := ["block-1"] }], methodCallSummary := { stepInto := [], objectLookup := [], external := [], notFound := [] }, analysisTimestamp := 0, contentHash := "md5:srcM1", errorMessage := none, inheritedFrom := none }, timestamp := 0, accessCount := 0, contentHash := "md5:srcM1" }), ("M2#m", { key := "M2#m", analysis := { className := "M2", methodName := "m", language := "java", analysisStatus := "complete", executionBlocks := [{ blockId := "block-0", blockType := "return", description := "leaf", executionFlow := "No execution flow documented", methodCalls := [], nextBlocks := ["block-1"] }], methodCallSummary := { stepInto := [], objectLookup := [], external := [], notFound := [] }, analysisTimestamp := 0, contentHash := "md5:srcM2", errorMessage := none, inheritedFrom := none }, timestamp := 0, accessCount := 0, contentHash := "md5:srcM2" })], stats := { hitCount := 0, missCount := 3, evictionCount := 0 }, pc := [], selectedModel := some "gpt", oracleLog := [("R", "r"), ("M1", "m"), ("M2", "m")], visited := ["R#r", "M1#m", "M2#m"], totalAnalyzed := 3, callStack := [{ className := "R", methodName := "r", depth := 0, isConditional := false }], flow := some { steps := [{ stepNumber := 1, depth := 0, sourceMethod := "R.r", description := "R.r() starts", stepType := ReqGen.LinearStepType.methodStart, originalBlockId := none }, { stepNumber := 2, depth := 0, sourceMethod := "R.r", description := "r1", stepType := ReqGen.LinearStepType.execution, originalBlockId := some "block-0" }, { stepNumber := 3, depth := 0, sourceMethod := "R.r", description := "Call M1.m()", stepType := ReqGen.LinearStepType.methodCall, originalBlockId := none }, { stepNumber := 4, depth := 0, sourceMethod := "R.r", description := "Call M2.m()", stepType := ReqGen.LinearStepType.methodCall, originalBlockId := none }, { stepNumber := 5, depth := 0, sourceMethod := "R.r", description := "Call M3.m()", stepType := ReqGen.LinearStepType.methodCall, originalBlockId := none }, { stepNumber := 6, depth := 0, sourceMethod := "R.r", description := "Call M4.m()", stepType := ReqGen.LinearStepType.methodCall, originalBlockId := none }, { stepNumber := 7, depth := 0, sourceMethod := "R.r", description := "Call M5.m()", stepType := ReqGen.LinearStepType.methodCall, originalBlockId := none }, { stepNumber := 8, depth := 0, sourceMethod := "R.r", description := "R.r() completes", stepType := ReqGen.LinearStepType.methodEnd, originalBlockId := none }, { stepNumber := 9, depth := 1, sourceMethod := "M1.m", description := "M1.m() starts", stepType := ReqGen.LinearStepType.methodStart, originalBlockId := none }, { stepNumber := 10, depth := 1, sourceMethod := "M1.m", description := "leaf", stepType := ReqGen.LinearStepType.execution, originalBlockId := some "block-0" }, { stepNumber := 11, depth := 1, sourceMethod := "M1.m", description := "M1.m() completes", stepType := ReqGen.LinearStepType.methodEnd, originalBlockId := none }, { stepNumber := 12, depth := 0, sourceMethod := "R.r", description := "↩️ M1.m() returns: leaf", stepType := ReqGen.LinearStepType.methodReturn, originalBlockId := none }, { stepNumber := 13, depth := 1, sourceMethod := "M2.m", description := "M2.m() starts", stepType := ReqGen.LinearStepType.methodStart, originalBlockId := none }, { stepNumber := 14, depth := 1, sourceMethod := "M2.m", description := "leaf", stepType := ReqGen.LinearStepType.execution, originalBlockId := some "block-0" }, { stepNumber := 15, depth := 1, sourceMethod := "M2.m", description := "M2.m() completes", stepType := ReqGen.LinearStepType.methodEnd, originalBlockId := none }], methodReferences := [("R.r", { className := "R", methodName := "r", language := "java", analysisStatus := "complete", executionBlocks := [{ blockId := "block-0", blockType := "methodcall", description := "r1", executionFlow := "No execution flow documented", methodCalls := [{ className := "M1", methodName := "m", parameters := "", stepInDecision := ReqGen.StepInDecision.stepInto, reasoning := "go", expectedBehavior := "To be analyzed", executionOrder := 0 }, { className := "M2", methodName := "m", parameters := "", stepInDecision := ReqGen.StepInDecision.stepInto, reasoning := "go", expectedBehavior := "To be analyzed", executionOrder := 1 }, { className := "M3", methodName := "m", parameters := "", stepInDecision := ReqGen.StepInDecision.stepInto, reasoning := "go", expectedBehavior := "To be analyzed", executionOrder := 2 }, { className := "M4", methodName := "m", parameters := "", stepInDecision := ReqGen.StepInDecision.stepInto, reasoning := "go", expectedBehavior := "To be analyzed", executionOrder := 3 }, { className := "M5", methodName := "m", parameters := "", stepInDecision := ReqGen.StepInDecision.stepInto, reasoning := "go", expectedBehavior := "To be analyzed", executionOrder := 4 }], nextBlocks := ["block-1"] }], methodCallSummary := { stepInto := [{ className := "M1", methodName := "m", parameters := "", stepInDecision := ReqGen.StepInDecision.stepInto, reasoning := "go", expectedBehavior := "To be analyzed", executionOrder := 0 }, { className := "M2", methodName := "m", parameters := "", stepInDecision := ReqGen.StepInDecision.stepInto, reasoning := "go", expectedBehavior := "To be analyzed", executionOrder := 1 }, { className := "M3", methodName := "m", parameters := "", stepInDecision := ReqGen.StepInDecision.stepInto, reasoning := "go", expectedBehavior := "To be analyzed", executionOrder := 2 }, { className := "M4", methodName := "m", parameters := "", stepInDecision := ReqGen.StepInDecision.stepInto, reasoning := "go", expectedBehavior := "To be analyzed", executionOrder := 3 }, { className := "M5", methodName := "m", parameters := "", stepInDecision := ReqGen.StepInDecision.stepInto, reasoning := "go", expectedBehavior := "To be analyzed", executionOrder := 4 }], objectLookup := [], external := [], notFound := [] }, analysisTimestamp := 0, contentHash := "md5:srcR", errorMessage := none, inheritedFrom := none }), ("M1.m", { className := "M1", methodName := "m", language := "java", analysisStatus := "complete", executionBlocks := [{ blockId := "block-0", blockType := "return", description := "leaf", executionFlow := "No execution flow documented", methodCalls := [], nextBlocks := ["block-1"] }], methodCallSummary := { stepInto := [], objectLookup := [], external := [], notFound := [] }, analysisTimestamp := 0, contentHash := "md5:srcM1", errorMessage := none, inheritedFrom := none }), ("M2.m", { className := "M2", methodName := "m", language := "java", analysisStatus := "complete", executionBlocks := [{ blockId := "block-0", blockType := "return", description := "leaf", executionFlow := "No execution flow documented", methodCalls := [], nextBlocks := ["block-1"] }], methodCallSummary := { stepInto := [], objectLookup := [], external := [], notFound := [] }, analysisTimestamp := 0, contentHash := "md5:srcM2", errorMessage := none, inheritedFrom := none })], totalSteps := 15, rootMethod := "R.r" } }
def bu2Ret : AState :=
{ now := 0, mem := [("R#r", { key := "R#r", analysis := { className := "R", methodName := "r", language := "java", analysisStatus := "complete", executionBlocks := [{ blockId := "block-0", blockType := "methodcall", description := "r1", executionFlow := "No execution flow documented", methodCalls := [{ className := "M1", methodName := "m", parameters := "", stepInDecision := ReqGen.StepInDecision.stepInto, reasoning := "go", expectedBehavior := "To be analyzed", executionOrder := 0 }, { className := "M2", methodName := "m", parameters := "", stepInDecision := ReqGen.StepInDecision.stepInto, reasoning := "go", expectedBehavior := "To be analyzed", executionOrder := 1 }, { className := "M3", methodName := "m", parameters := "", stepInDecision := ReqGen.StepInDecision.stepInto, reasoning := "go", expectedBehavior := "To be analyzed", executionOrder := 2 }, { className := "M4", methodName := "m", parameters := "", stepInDecision := ReqGen.StepInDecision.stepInto, reasoning := "go", expectedBehavior := "To be analyzed", executionOrder := 3 }, { className := "M5", methodName := "m", parameters := "", stepInDecision := ReqGen.StepInDecision.stepInto, reasoning := "go", expectedBehavior := "To be analyzed", executionOrder := 4 }], nextBlocks := ["block-1"] }], methodCallSummary := { stepInto := [{ className := "M1", methodName := "m", parameters := "", stepInDecision := ReqGen.StepInDecision.stepInto, reasoning := "go", expectedBehavior := "To be analyzed", executionOrder := 0 }, { className := "M2", methodName := "m", parameters := "", stepInDecision := ReqGen.StepInDecision.stepInto, reasoning := "go", expectedBehavior := "To be analyzed", executionOrder := 1 }, { className := "M3", methodName := "m", parameters := "", stepInDecision := ReqGen.StepInDecision.stepInto, reasoning := "go", expectedBehavior := "To be analyzed", executionOrder := 2 }, { className := "M4", methodName := "m", parameters := "", stepInDecision := ReqGen.StepInDecision.stepInto, reasoning := "go", expectedBehavior := "To be analyzed", executionOrder := 3 }, { className := "M5", methodName := "m", parameters := "", stepInDecision := ReqGen.StepInDecision.stepInto, reasoning := "go", expectedBehavior := "To be analyzed", executionOrder := 4 }], objectLookup := [], external := [], notFound := [] }, analysisTimestamp := 0, contentHash := "md5:srcR", errorMessage := none, inheritedFrom := none }, timestamp := 0, accessCount := 0, contentHash := "md5:srcR" }), ("M1#m", { key := "M1#m", analysis := { className := "M1", methodName := "m", language := "java", analysisStatus := "complete", executionBlocks := [{ blockId := "block-0", blockType := "return", description := "leaf", executionFlow := "No execution flow documented", methodCalls := [], nextBlocks := ["block-1"] }], methodCallSummary := { stepInto := [], objectLookup := [], external := [], notFound := [] }, analysisTimestamp := 0, contentHash := "md5:srcM1", errorMessage := none, inheritedFrom := none }, timestamp := 0, accessCount := 0, contentHash := "md5:srcM1" }), ("M2#m", { key := "M2#m", analysis := { className := "M2", methodName := "m", language := "java", analysisStatus := "complete", executionBlocks := [{ blockId := "block-0", blockType := "return", description := "leaf", executionFlow := "No execution flow documented", methodCalls := [], nextBlocks := ["block-1"] }], methodCallSummary := { stepInto := [], objectLookup := [], external := [], notFound := [] }, analysisTimestamp := 0, contentHash := "md5:srcM2", errorMessage := none, inheritedFrom := none }, timestamp := 0, accessCount := 0, contentHash := "md5:srcM2" })], stats := { hitCount := 0, missCount := 3, evictionCount := 0 }, pc := [], selectedModel := some "gpt", oracleLog := [("R", "r"), ("M1", "m"), ("M2", "m")], visited := ["R#r", "M1#m", "M2#m"], totalAnalyzed := 3, callStack := [{ className := "R", methodName := "r", depth := 0, isConditional := false }], flow := some { steps := [{ stepNumber := 1, depth := 0, sourceMethod := "R.r", description := "R.r() starts", stepType := ReqGen.LinearStepType.methodStart, originalBlockId := none }, { stepNumber := 2, depth := 0, sourceMethod := "R.r", description := "r1", stepType := ReqGen.LinearStepType.execution, originalBlockId := some "block-0" }, { stepNumber := 3, depth := 0, sourceMethod := "R.r", description := "Call M1.m()", stepType := ReqGen.LinearStepType.methodCall, originalBlockId := none }, { stepNumber := 4, depth := 0, sourceMethod := "R.r", description := "Call M2.m()", stepType := ReqGen.LinearStepType.methodCall, originalBlockId := none }, { stepNumber := 5, depth := 0, sourceMethod := "R.r", description := "Call M3.m()", stepType := ReqGen.LinearStepType.methodCall, originalBlockId := none }, { stepNumber := 6, depth := 0, sourceMethod := "R.r", description := "Call M4.m()", stepType := ReqGen.LinearStepType.methodCall, originalBlockId := none }, { stepNumber := 7, depth := 0, sourceMethod := "R.r", description := "Call M5.m()", stepType := ReqGen.LinearStepType.methodCall, originalBlockId := none }, { stepNumber := 8, depth := 0, sourceMethod := "R.r", description := "R.r() completes", stepType := ReqGen.LinearStepType.methodEnd, originalBlockId := none }, { stepNumber := 9, depth := 1, sourceMethod := "M1.m", description := "M1.m() starts", stepType := ReqGen.LinearStepType.methodStart, originalBlockId := none }, { stepNumber := 10, depth := 1, sourceMethod := "M1.m", description := "leaf", stepType := ReqGen.LinearStepType.execution, originalBlockId := some "block-0" }, { stepNumber := 11, depth := 1, sourceMethod := "M1.m", description := "M1.m() completes", stepType := ReqGen.LinearStepType.methodEnd, originalBlockId := none }, { stepNumber := 12, depth := 0, sourceMethod := "R.r", description := "↩️ M1.m() returns: leaf", stepType := ReqGen.LinearStepType.methodReturn, originalBlockId := none }, { stepNumber := 13, depth := 1, sourceMethod := "M2.m", description := "M2.m() starts", stepType := ReqGen.LinearStepType.methodStart, originalBlockId := none }, { stepNumber := 14, depth := 1, sourceMethod := "M2.m", description := "leaf", stepType := ReqGen.LinearStepType.execution, originalBlockId := some "block-0" }, { stepNumber := 15, depth := 1, sourceMethod := "M2.m", description := "M2.m() completes", stepType := ReqGen.LinearStepType.methodEnd, originalBlockId := none }, { stepNumber := 16, depth := 0, sourceMethod := "R.r", description := "↩️ M2.m() returns: leaf", stepType := ReqGen.LinearStepType.methodReturn, originalBlockId := none }], methodReferences := [("R.r", { className := "R", methodName := "r", language := "java", analysisStatus := "complete", executionBlocks := [{ blockId := "block-0", blockType := "methodcall", description := "r1", executionFlow := "No execution flow documented", methodCalls := [{ className := "M1", methodName := "m", parameters := "", stepInDecision := ReqGen.StepInDecision.stepInto, reasoning := "go", expectedBehavior := "To be analyzed", executionOrder := 0 }, { className := "M2", methodName := "m", parameters := "", stepInDecision := ReqGen.StepInDecision.stepInto, reasoning := "go", expectedBehavior := "To be analyzed", executionOrder := 1 }, { className := "M3", methodName := "m", parameters := "", stepInDecision := ReqGen.StepInDecision.stepInto, reasoning := "go", expectedBehavior := "To be analyzed", executionOrder := 2 }, { className := "M4", methodName := "m", parameters := "", stepInDecision := ReqGen.StepInDecision.stepInto, reasoning := "go", expectedBehavior := "To be analyzed", executionOrder := 3 }, { className := "M5", methodName := "m", parameters := "", stepInDecision := ReqGen.StepInDecision.stepInto, reasoning := "go", expectedBehavior := "To be analyzed", executionOrder := 4 }], nextBlocks := ["block-1"] }], methodCallSummary := { stepInto := [{ className := "M1", methodName := "m", parameters := "", stepInDecision := ReqGen.StepInDecision.stepInto, reasoning := "go", expectedBehavior := "To be analyzed", executionOrder := 0 }, { className := "M2", methodName := "m", parameters := "", stepInDecision := ReqGen.StepInDecision.stepInto, reasoning := "go", expectedBehavior := "To be analyzed", executionOrder := 1 }, { className := "M3", methodName := "m", parameters := "", stepInDecision := ReqGen.StepInDecision.stepInto, reasoning := "go", expectedBehavior := "To be analyzed", executionOrder := 2 }, { className := "M4", methodName := "m", parameters := "", stepInDecision := ReqGen.StepInDecision.stepInto, reasoning := "go", expectedBehavior := "To be analyzed", executionOrder := 3 }, { className := "M5", methodName := "m", parameters := "", stepInDecision := ReqGen.StepInDecision.stepInto, reasoning := "go", expectedBehavior := "To be analyzed", executionOrder := 4 }], objectLookup := [], external := [], notFound := [] }, analysisTimestamp := 0, contentHash := "md5:srcR", errorMessage := none, inheritedFrom := none }), ("M1.m", { className := "M1", methodName := "m", language := "java", analysisStatus := "complete", executionBlocks := [{ blockId := "block-0", blockType := "return", description := "leaf", executionFlow := "No execution flow documented", methodCalls := [], nextBlocks := ["block-1"] }], methodCallSummary := { stepInto := [], objectLookup := [], external := [], notFound := [] }, analysisTimestamp := 0, contentHash := "md5:srcM1", errorMessage := none, inheritedFrom := none }), ("M2.m", { className := "M2", methodName := "m", language := "java", analysisStatus := "complete", executionBlocks := [{ blockId := "block-0", blockType := "return", description := "leaf", executionFlow := "No execution flow documented", methodCalls := [], nextBlocks := ["block-1"] }], methodCallSummary := { stepInto := [], objectLookup := [], external := [], notFound := [] }, analysisTimestamp := 0, contentHash := "md5:srcM2", errorMessage := none, inheritedFrom := none })], totalSteps := 16, rootMethod := "R.r" } }
def bu2Main : MethodAnalysis :=
{ className := "R", methodName := "r", language := "java", analysisStatus := "complete", executionBlocks := [{ blockId := "block-0", blockType := "methodcall", description := "r1", executionFlow := "No execution flow documented", methodCalls := [{ className := "M1", methodName := "m", parameters := "", stepInDecision := ReqGen.StepInDecision.stepInto, reasoning := "go", expectedBehavior := "leaf", executionOrder := 0 }, { className := "M2", methodName := "m", parameters := "", stepInDecision := ReqGen.StepInDecision.stepInto, reasoning := "go", expectedBehavior := "leaf", executionOrder := 1 }, { className := "M3", methodName := "m", parameters := "", stepInDecision := ReqGen.StepInDecision.stepInto, reasoning := "go", expectedBehavior := "To be analyzed", executionOrder := 2 }, { className := "M4", methodName := "m", parameters := "", stepInDecision := ReqGen.StepInDecision.stepInto, reasoning := "go", expectedBehavior := "To be analyzed", executionOrder := 3 }, { className := "M5", methodName := "m", parameters := "", stepInDecision := ReqGen.StepInDecision.stepInto, reasoning := "go", expectedBehavior := "To be analyzed", executionOrder := 4 }], nextBlocks := ["block-1"] }], methodCallSummary := { stepInto := [{ className := "M1", methodName := "m", parameters := "", stepInDecision := ReqGen.StepInDecision.stepInto, reasoning := "go", expectedBehavior := "To be analyzed", executionOrder := 0 }, { className := "M2", methodName := "m", parameters := "", stepInDecision := ReqGen.StepInDecision.stepInto, reasoning := "go", expectedBehavior := "To be analyzed", executionOrder := 1 }, { className := "M3", methodName := "m", parameters := "", stepInDecision := ReqGen.StepInDecision.stepInto, reasoning := "go", expectedBehavior := "To be analyzed", executionOrder := 2 }, { className := "M4", methodName := "m", parameters := "", stepInDecision := ReqGen.StepInDecision.stepInto, reasoning := "go", expectedBehavior := "To be analyzed", executionOrder := 3 }, { className := "M5", methodName := "m", parameters := "", stepInDecision := ReqGen.StepInDecision.stepInto, reasoning := "go", expectedBehavior := "To be analyzed", executionOrder := 4 }], objectLookup := [], external := [], notFound := [] }, analysisTimestamp := 0, contentHash := "md5:srcR", errorMessage := none, inheritedFrom := none }
def bu2F : Option LinearFlow :=
some { steps := [{ stepNumber := 1, depth := 0, sourceMethod := "R.r", description := "R.r() starts", stepType := ReqGen.LinearStepType.methodStart, originalBlockId := none }, { stepNumber := 2, depth := 0, sourceMethod := "R.r", description := "r1", stepType := ReqGen.LinearStepType.execution, originalBlockId := some "block-0" }, { stepNumber := 3, depth := 0, sourceMethod := "R.r", description := "Call M1.m()", stepType := ReqGen.LinearStepType.methodCall, originalBlockId := none }, { stepNumber := 4, depth := 0, sourceMethod := "R.r", description := "Call M2.m()", stepType := ReqGen.LinearStepType.methodCall, originalBlockId := none }, { stepNumber := 5, depth := 0, sourceMethod := "R.r", description := "Call M3.m()", stepType := ReqGen.LinearStepType.methodCall, originalBlockId := none }, { stepNumber := 6, depth := 0, sourceMethod := "R.r", description := "Call M4.m()", stepType := ReqGen.LinearStepType.methodCall, originalBlockId := none }, { stepNumber := 7, depth := 0, sourceMethod := "R.r", description := "Call M5.m()", stepType := ReqGen.LinearStepType.methodCall, originalBlockId := none }, { stepNumber := 8, depth := 0, sourceMethod := "R.r", description := "R.r() completes", stepType := ReqGen.LinearStepType.methodEnd, originalBlockId := none }, { stepNumber := 9, depth := 1, sourceMethod := "M1.m", description := "M1.m() starts", stepType := ReqGen.LinearStepType.methodStart, originalBlockId := none }, { stepNumber := 10, depth := 1, sourceMethod := "M1.m", description := "leaf", stepType := ReqGen.LinearStepType.execution, originalBlockId := some "block-0" }, { stepNumber := 11, depth := 1, sourceMethod := "M1.m", description := "M1.m() completes", stepType := ReqGen.LinearStepType.methodEnd, originalBlockId := none }, { stepNumber := 12, depth := 0, sourceMethod := "R.r", description := "↩️ M1.m() returns: leaf", stepType := ReqGen.LinearStepType.methodReturn, originalBlockId := none }, { stepNumber := 13, depth := 1, sourceMethod := "M2.m", description := "M2.m() starts", stepType := ReqGen.LinearStepType.methodStart, originalBlockId := none }, { stepNumber := 14, depth := 1, sourceMethod := "M2.m", description := "leaf", stepType := ReqGen.LinearStepType.execution, originalBlockId := some "block-0" }, { stepNumber := 15, depth := 1, sourceMethod := "M2.m", description := "M2.m() completes", stepType := ReqGen.LinearStepType.methodEnd, originalBlockId := none }, { stepNumber := 16, depth := 0, sourceMethod := "R.r", description := "↩️ M2.m() returns: leaf", stepType := ReqGen.LinearStepType.methodReturn, originalBlockId := none }], methodReferences := [("R.r", { className := "R", methodName := "r", language := "java", analysisStatus := "complete", executionBlocks := [{ blockId := "block-0", blockType := "methodcall", description := "r1", executionFlow := "No execution flow documented", methodCalls := [{ className := "M1", methodName := "m", parameters := "", stepInDecision := ReqGen.StepInDecision.stepInto, reasoning := "go", expectedBehavior := "To be analyzed", executionOrder := 0 }, { className := "M2", methodName := "m", parameters := "", stepInDecision := ReqGen.StepInDecision.stepInto, reasoning := "go", expectedBehavior := "To be analyzed", executionOrder := 1 }, { className := "M3", methodName := "m", parameters := "", stepInDecision := ReqGen.StepInDecision.stepInto, reasoning := "go", expectedBehavior := "To be analyzed", executionOrder := 2 }, { className := "M4", methodName := "m", parameters := "", stepInDecision := ReqGen.StepInDecision.stepInto, reasoning := "go", expectedBehavior := "To be analyzed", executionOrder := 3 }, { className := "M5", methodName := "m", parameters := "", stepInDecision := ReqGen.StepInDecision.stepInto, reasoning := "go", expectedBehavior := "To be analyzed", executionOrder := 4 }], nextBlocks := ["block-1"] }], methodCallSummary := { stepInto := [{ className := "M1", methodName := "m", parameters := "", stepInDecision := ReqGen.StepInDecision.stepInto, reasoning := "go", expectedBehavior := "To be analyzed", executionOrder := 0 }, { className := "M2", methodName := "m", parameters := "", stepInDecision := ReqGen.StepInDecision.stepInto, reasoning := "go", expectedBehavior := "To be analyzed", executionOrder := 1 }, { className := "M3", methodName := "m", parameters := "", stepInDecision := ReqGen.StepInDecision.stepInto, reasoning := "go", expectedBehavior := "To be analyzed", executionOrder := 2 }, { className := "M4", methodName := "m", parameters := "", stepInDecision := ReqGen.StepInDecision.stepInto, reasoning := "go", expectedBehavior := "To be analyzed", executionOrder := 3 }, { className := "M5", methodName := "m", parameters := "", stepInDecision := ReqGen.StepInDecision.stepInto, reasoning := "go", expectedBehavior := "To be analyzed", executionOrder := 4 }], objectLookup := [], external := [], notFound := [] }, analysisTimestamp := 0, contentHash := "md5:srcR", errorMessage := none, inheritedFrom := none }), ("M1.m", { className := "M1", methodName := "m", language := "java", analysisStatus := "complete", executionBlocks := [{ blockId := "block-0", blockType := "return", description := "leaf", executionFlow := "No execution flow documented", methodCalls := [], nextBlocks := ["block-1"] }], methodCallSummary := { stepInto := [], objectLookup := [], external := [], notFound := [] }, analysisTimestamp := 0, contentHash := "md5:srcM1", errorMessage := none, inheritedFrom := none }), ("M2.m", { className := "M2", methodName := "m", language := "java", analysisStatus := "complete", executionBlocks := [{ blockId := "block-0", blockType := "return", description := "leaf", executionFlow := "No execution flow documented", methodCalls := [], nextBlocks := ["block-1"] }], methodCallSummary := { stepInto := [], objectLookup := [], external := [], notFound := [] }, analysisTimestamp := 0, contentHash := "md5:srcM2", errorMessage := none, inheritedFrom := none })], totalSteps := 16, rootMethod := "R.r" }
def bu2Next : AState :=
{ now := 0, mem := [("R#r", { key := "R#r", analysis := { className := "R", methodName := "r", language := "java", analysisStatus := "complete", executionBlocks := [{ blockId := "block-0", blockType := "methodcall", description := "r1", executionFlow := "No execution flow documented", methodCalls := [{ className := "M1", methodName := "m", parameters := "", stepInDecision := ReqGen.StepInDecision.stepInto, reasoning := "go", expectedBehavior := "To be analyzed", executionOrder := 0 }, { className := "M2", methodName := "m", parameters := "", stepInDecision := ReqGen.StepInDecision.stepInto, reasoning := "go", expectedBehavior := "To be analyzed", executionOrder := 1 }, { className := "M3", methodName := "m", parameters := "", stepInDecision := ReqGen.StepInDecision.stepInto, reasoning := "go", expectedBehavior := "To be analyzed", executionOrder := 2 }, { className := "M4", methodName := "m", parameters := "", stepInDecision := ReqGen.StepInDecision.stepInto, reasoning := "go", expectedBehavior := "To be analyzed", executionOrder := 3 }, { className := "M5", methodName := "m", parameters := "", stepInDecision := ReqGen.StepInDecision.stepInto, reasoning := "go", expectedBehavior := "To be analyzed", executionOrder := 4 }], nextBlocks := ["block-1"] }], methodCallSummary := { stepInto := [{ className := "M1", methodName := "m", parameters := "", stepInDecision := ReqGen.StepInDecision.stepInto, reasoning := "go", expectedBehavior := "To be analyzed", executionOrder := 0 }, { className := "M2", methodName := "m", parameters := "", stepInDecision := ReqGen.StepInDecision.stepInto, reasoning := "go", expectedBehavior := "To be analyzed", executionOrder := 1 }, { className := "M3", methodName := "m", parameters := "", stepInDecision := ReqGen.StepInDecision.stepInto, reasoning := "go", expectedBehavior := "To be analyzed", executionOrder := 2 }, { className := "M4", methodName := "m", parameters := "", stepInDecision := ReqGen.StepInDecision.stepInto, reasoning := "go", expectedBehavior := "To be analyzed", executionOrder := 3 }, { className := "M5", methodName := "m", parameters := "", stepInDecision := ReqGen.StepInDecision.stepInto, reasoning := "go", expectedBehavior := "To be analyzed", executionOrder := 4 }], objectLookup := [], external := [], notFound := [] }, analysisTimestamp := 0, contentHash := "md5:srcR", errorMessage := none, inheritedFrom := none }, timestamp := 0, accessCount := 0, contentHash := "md5:srcR" }), ("M1#m", { key := "M1#m", analysis := { className := "M1", methodName := "m", language := "java", analysisStatus := "complete", executionBlocks := [{ blockId := "block-0", blockType := "return", description := "leaf", executionFlow := "No execution flow documented", methodCalls := [], nextBlocks := ["block-1"] }], methodCallSummary := { stepInto := [], objectLookup := [], external := [], notFound := [] }, analysisTimestamp := 0, contentHash := "md5:srcM1", errorMessage := none, inheritedFrom := none }, timestamp := 0, accessCount := 0, contentHash := "md5:srcM1" }), ("M2#m", { key := "M2#m", analysis := { className := "M2", methodName := "m", language := "java", analysisStatus := "complete", executionBlocks := [{ blockId := "block-0", blockType := "return", description := "leaf", executionFlow := "No execution flow documented", methodCalls := [], nextBlocks := ["block-1"] }], methodCallSummary := { stepInto := [], objectLookup := [], external := [], notFound := [] }, analysisTimestamp := 0, contentHash := "md5:srcM2", errorMessage := none, inheritedFrom := none }, timestamp := 0, accessCount := 0, contentHash := "md5:srcM2" })], stats := { hitCount := 0, missCount := 3, evictionCount := 0 }, pc := [], selectedModel := some "gpt", oracleLog := [("R", "r"), ("M1", "m"), ("M2", "m")], visited := ["R#r", "M1#m", "M2#m"], totalAnalyzed := 3, callStack := [{ className := "R", methodName := "r", depth := 0, isConditional := false }], flow := some { steps := [{ stepNumber := 1, depth := 0, sourceMethod := "R.r", description := "R.r() starts", stepType := ReqGen.LinearStepType.methodStart, originalBlockId := none }, { stepNumber := 2, depth := 0, sourceMethod := "R.r", description := "r1", stepType := ReqGen.LinearStepType.execution, originalBlockId := some "block-0" }, { stepNumber := 3, depth := 0, sourceMethod := "R.r", description := "Call M1.m()", stepType := ReqGen.LinearStepType.methodCall, originalBlockId := none }, { stepNumber := 4, depth := 0, sourceMethod := "R.r", description := "Call M2.m()", stepType := ReqGen.LinearStepType.methodCall, originalBlockId := none }, { stepNumber := 5, depth := 0, sourceMethod := "R.r", description := "Call M3.m()", stepType := ReqGen.LinearStepType.methodCall, originalBlockId := none }, { stepNumber := 6, depth := 0, sourceMethod := "R.r", description := "Call M4.m()", stepType := ReqGen.LinearStepType.methodCall, originalBlockId := none }, { stepNumber := 7, depth := 0, sourceMethod := "R.r", description := "Call M5.m()", stepType := ReqGen.LinearStepType.methodCall, originalBlockId := none }, { stepNumber := 8, depth := 0, sourceMethod := "R.r", description := "R.r() completes", stepType := ReqGen.LinearStepType.methodEnd, originalBlockId := none }, { stepNumber := 9, depth := 1, sourceMethod := "M1.m", description := "M1.m() starts", stepType := ReqGen.LinearStepType.methodStart, originalBlockId := none }, { stepNumber := 10, depth := 1, sourceMethod := "M1.m", description := "leaf", stepType := ReqGen.LinearStepType.execution, originalBlockId := some "block-0" }, { stepNumber := 11, depth := 1, sourceMethod := "M1.m", description := "M1.m() completes", stepType := ReqGen.LinearStepType.methodEnd, originalBlockId := none }, { stepNumber := 12, depth := 0, sourceMethod := "R.r", description := "↩️ M1.m() returns: leaf", stepType := ReqGen.LinearStepType.methodReturn, originalBlockId := none }, { stepNumber := 13, depth := 1, sourceMethod := "M2.m", description := "M2.m() starts", stepType := ReqGen.LinearStepType.methodStart, originalBlockId := none }, { stepNumber := 14, depth := 1, sourceMethod := "M2.m", description := "leaf", stepType := ReqGen.LinearStepType.execution, originalBlockId := some "block-0" }, { stepNumber := 15, depth := 1, sourceMethod := "M2.m", description := "M2.m() completes", stepType := ReqGen.LinearStepType.methodEnd, originalBlockId := none }, { stepNumber := 16, depth := 0, sourceMethod := "R.r", description := "↩️ M2.m() returns: leaf", stepType := ReqGen.LinearStepType.methodReturn, originalBlockId := none }], methodReferences := [("R.r", { className := "R", methodName := "r", language := "java", analysisStatus := "complete", executionBlocks := [{ blockId := "block-0", blockType := "methodcall", description := "r1", executionFlow := "No execution flow documented", methodCalls := [{ className := "M1", methodName := "m", parameters := "", stepInDecision := ReqGen.StepInDecision.stepInto, reasoning := "go", expectedBehavior := "To be analyzed", executionOrder := 0 }, { className := "M2", methodName := "m", parameters := "", stepInDecision := ReqGen.StepInDecision.stepInto, reasoning := "go", expectedBehavior := "To be analyzed", executionOrder := 1 }, { className := "M3", methodName := "m", parameters := "", stepInDecision := ReqGen.StepInDecision.stepInto, reasoning := "go", expectedBehavior := "To be analyzed", executionOrder := 2 }, { className := "M4", methodName := "m", parameters := "", stepInDecision := ReqGen.StepInDecision.stepInto, reasoning := "go", expectedBehavior := "To be analyzed", executionOrder := 3 }, { className := "M5", methodName := "m", parameters := "", stepInDecision := ReqGen.StepInDecision.stepInto, reasoning := "go", expectedBehavior := "To be analyzed", executionOrder := 4 }], nextBlocks := ["block-1"] }], methodCallSummary := { stepInto := [{ className := "M1", methodName := "m", parameters := "", stepInDecision := ReqGen.StepInDecision.stepInto, reasoning := "go", expectedBehavior := "To be analyzed", executionOrder := 0 }, { className := "M2", methodName := "m", parameters := "", stepInDecision := ReqGen.StepInDecision.stepInto, reasoning := "go", expectedBehavior := "To be analyzed", executionOrder := 1 }, { className := "M3", methodName := "m", parameters := "", stepInDecision := ReqGen.StepInDecision.stepInto, reasoning := "go", expectedBehavior := "To be analyzed", executionOrder := 2 }, { className := "M4", methodName := "m", parameters := "", stepInDecision := ReqGen.StepInDecision.stepInto, reasoning := "go", expectedBehavior := "To be analyzed", executionOrder := 3 }, { className := "M5", methodName := "m", parameters := "", stepInDecision := ReqGen.StepInDecision.stepInto, reasoning := "go", expectedBehavior := "To be analyzed", executionOrder := 4 }], objectLookup := [], external := [], notFound := [] }, analysisTimestamp := 0, contentHash := "md5:srcR", errorMessage := none, inheritedFrom := none }), ("M1.m", { className := "M1", methodName := "m", language := "java", analysisStatus := "complete", executionBlocks := [{ blockId := "block-0", blockType := "return", description := "leaf", executionFlow := "No execution flow documented", methodCalls := [], nextBlocks := ["block-1"] }], methodCallSummary := { stepInto := [], objectLookup := [], external := [], notFound := [] }, analysisTimestamp := 0, contentHash := "md5:srcM1", errorMessage := none, inheritedFrom := none }), ("M2.m", { className := "M2", methodName := "m", language := "java", analysisStatus := "complete", executionBlocks := [{ blockId := "block-0", blockType := "return", description := "leaf", executionFlow := "No execution flow documented", methodCalls := [], nextBlocks := ["block-1"] }], methodCallSummary := { stepInto := [], objectLookup := [], external := [], notFound := [] }, analysisTimestamp := 0, contentHash := "md5:srcM2", errorMessage := none, inheritedFrom := none })], totalSteps := 16, rootMethod := "R.r" } }
def bu3InnerA : MethodAnalysis :=
{ className := "M3", methodName := "m", language := "unknown", analysisStatus := "partial", executionBlocks := [{ blockId := "placeholder-1", blockType := "methodCall", description := "Method analysis skipped: Maximum method count reached", executionFlow := "This method was not analyzed due to: Maximum method count reached", methodCalls := [], nextBlocks := [] }], methodCallSummary := { stepInto := [], objectLookup := [], external := [], notFound := [] }, analysisTimestamp := 0, contentHash := "", errorMessage := some "Maximum method count reached", inheritedFrom := none }
def bu3InnerS : AState :=
{ now := 0, mem := [("R#r", { key := "R#r", analysis := { className := "R", methodName := "r", language := "java", analysisStatus := "complete", executionBlocks := [{ blockId := "block-0", blockType := "methodcall", description := "r1", executionFlow := "No execution flow documented", methodCalls := [{ className := "M1", methodName := "m", parameters := "", stepInDecision := ReqGen.StepInDecision.stepInto, reasoning := "go", expectedBehavior := "To be analyzed", executionOrder := 0 }, { className := "M2", methodName := "m", parameters := "", stepInDecision := ReqGen.StepInDecision.stepInto, reasoning := "go", expectedBehavior := "To be analyzed", executionOrder := 1 }, { className := "M3", methodName := "m", parameters := "", stepInDecision := ReqGen.StepInDecision.stepInto, reasoning := "go", expectedBehavior := "To be analyzed", executionOrder := 2 }, { className := "M4", methodName := "m", parameters := "", stepInDecision := ReqGen.StepInDecision.stepInto, reasoning := "go", expectedBehavior := "To be analyzed", executionOrder := 3 }, { className := "M5", methodName := "m", parameters := "", stepInDecision := ReqGen.StepInDecision.stepInto, reasoning := "go", expectedBehavior := "To be analyzed", executionOrder := 4 }], nextBlocks := ["block-1"] }], methodCallSummary := { stepInto := [{ className := "M1", methodName := "m", parameters := "", stepInDecision := ReqGen.StepInDecision.stepInto, reasoning := "go", expectedBehavior := "To be analyzed", executionOrder := 0 }, { className := "M2", methodName := "m", parameters := "", stepInDecision := ReqGen.StepInDecision.stepInto, reasoning := "go", expectedBehavior := "To be analyzed", executionOrder := 1 }, { className := "M3", methodName := "m", parameters := "", stepInDecision := ReqGen.StepInDecision.stepInto, reasoning := "go", expectedBehavior := "To be analyzed", executionOrder := 2 }, { className := "M4", methodName := "m", parameters := "", stepInDecision := ReqGen.StepInDecision.stepInto, reasoning := "go", expectedBehavior := "To be analyzed", executionOrder := 3 }, { className := "M5", methodName := "m", parameters := "", stepInDecision := ReqGen.StepInDecision.stepInto, reasoning := "go", expectedBehavior := "To be analyzed", executionOrder := 4 }], objectLookup := [], external := [], notFound := [] }, analysisTimestamp := 0, contentHash := "md5:srcR", errorMessage := none, inheritedFrom := none }, timestamp := 0, accessCount := 0, contentHash := "md5:srcR" }), ("M1#m", { key := "M1#m", analysis := { className := "M1", methodName := "m", language := "java", analysisStatus := "complete", executionBlocks := [{ blockId := "block-0", blockType := "return", description := "leaf", executionFlow := "No execution flow documented", methodCalls := [], nextBlocks := ["block-1"] }], methodCallSummary := { stepInto := [], objectLookup := [], external := [], notFound := [] }, analysisTimestamp := 0, contentHash := "md5:srcM1", errorMessage := none, inheritedFrom := none }, timestamp := 0, accessCount := 0, contentHash := "md5:srcM1" }), ("M2#m", { key := "M2#m", analysis := { className := "M2", methodName := "m", language := "java", analysisStatus := "complete", executionBlocks := [{ blockId := "block-0", blockType := "return", description := "leaf", executionFlow := "No execution flow documented", methodCalls := [], nextBlocks := ["block-1"] }], methodCallSummary := { stepInto := [], objectLookup := [], external := [], notFound := [] }, analysisTimestamp := 0, contentHash := "md5:srcM2", errorMessage := none, inheritedFrom := none }, timestamp := 0, accessCount := 0, contentHash := "md5:srcM2" })], stats := { hitCount := 0, missCount := 3, evictionCount := 0 }, pc := [], selectedModel := some "gpt", oracleLog := [("R", "r"), ("M1", "m"), ("M2", "m")], visited := ["R#r", "M1#m", "M2#m"], totalAnalyzed := 3, callStack := [{ className := "R", methodName := "r", depth := 0, isConditional := false }], flow := some { steps := [{ stepNumber := 1, depth := 0, sourceMethod := "R.r", description := "R.r() starts", stepType := ReqGen.LinearStepType.methodStart, originalBlockId := none }, { stepNumber := 2, depth := 0, sourceMethod := "R.r", description := "r1", stepType := ReqGen.LinearStepType.execution, originalBlockId := some "block-0" }, { stepNumber := 3, depth := 0, sourceMethod := "R.r", description := "Call M1.m()", stepType := ReqGen.LinearStepType.methodCall, originalBlockId := none }, { stepNumber := 4, depth := 0, sourceMethod := "R.r", description := "Call M2.m()", stepType := ReqGen.LinearStepType.methodCall, originalBlockId := none }, { stepNumber := 5, depth := 0, sourceMethod := "R.r", description := "Call M3.m()", stepType := ReqGen.LinearStepType.methodCall, originalBlockId := none }, { stepNumber := 6, depth := 0, sourceMethod := "R.r", description := "Call M4.m()", stepType := ReqGen.LinearStepType.methodCall, originalBlockId := none }, { stepNumber := 7, depth := 0, sourceMethod := "R.r", description := "Call M5.m()", stepType := ReqGen.LinearStepType.methodCall, originalBlockId := none }, { stepNumber := 8, depth := 0, sourceMethod := "R.r", description := "R.r() completes", stepType := ReqGen.LinearStepType.methodEnd, originalBlockId := none }, { stepNumber := 9, depth := 1, sourceMethod := "M1.m", description := "M1.m() starts", stepType := ReqGen.LinearStepType.methodStart, originalBlockId := none }, { stepNumber := 10, depth := 1, sourceMethod := "M1.m", description := "leaf", stepType := ReqGen.LinearStepType.execution, originalBlockId := some "block-0" }, { stepNumber := 11, depth := 1, sourceMethod := "M1.m", description := "M1.m() completes", stepType := ReqGen.LinearStepType.methodEnd, originalBlockId := none }, { stepNumber := 12, depth := 0, sourceMethod := "R.r", description := "↩️ M1.m() returns: leaf", stepType := ReqGen.LinearStepType.methodReturn, originalBlockId := none }, { stepNumber := 13, depth := 1, sourceMethod := "M2.m", description := "M2.m() starts", stepType := ReqGen.LinearStepType.methodStart, originalBlockId := none }, { stepNumber := 14, depth := 1, sourceMethod := "M2.m", description := "leaf", stepType := ReqGen.LinearStepType.execution, originalBlockId := some "block-0" }, { stepNumber := 15, depth := 1, sourceMethod := "M2.m", description := "M2.m() completes", stepType := ReqGen.LinearStepType.methodEnd, originalBlockId := none }, { stepNumber := 16, depth := 0, sourceMethod := "R.r", description := "↩️ M2.m() returns: leaf", stepType := ReqGen.LinearStepType.methodReturn, originalBlockId := none }], methodReferences := [("R.r", { className := "R", methodName := "r", language := "java", analysisStatus := "complete", executionBlocks := [{ blockId := "block-0", blockType := "methodcall", description := "r1", executionFlow := "No execution flow documented", methodCalls := [{ className := "M1", methodName := "m", parameters := "", stepInDecision := ReqGen.StepInDecision.stepInto, reasoning := "go", expectedBehavior := "To be analyzed", executionOrder := 0 }, { className := "M2", methodName := "m", parameters := "", stepInDecision := ReqGen.StepInDecision.stepInto, reasoning := "go", expectedBehavior := "To be analyzed", executionOrder := 1 }, { className := "M3", methodName := "m", parameters := "", stepInDecision := ReqGen.StepInDecision.stepInto, reasoning := "go", expectedBehavior := "To be analyzed", executionOrder := 2 }, { className := "M4", methodName := "m", parameters := "", stepInDecision := ReqGen.StepInDecision.stepInto, reasoning := "go", expectedBehavior := "To be analyzed", executionOrder := 3 }, { className := "M5", methodName := "m", parameters := "", stepInDecision := ReqGen.StepInDecision.stepInto, reasoning := "go", expectedBehavior := "To be analyzed", executionOrder := 4 }], nextBlocks := ["block-1"] }], methodCallSummary := { stepInto := [{ className := "M1", methodName := "m", parameters := "", stepInDecision := ReqGen.StepInDecision.stepInto, reasoning := "go", expectedBehavior := "To be analyzed", executionOrder := 0 }, { className := "M2", methodName := "m", parameters := "", stepInDecision := ReqGen.StepInDecision.stepInto, reasoning := "go", expectedBehavior := "To be analyzed", executionOrder := 1 }, { className := "M3", methodName := "m", parameters := "", stepInDecision := ReqGen.StepInDecision.stepInto, reasoning := "go", expectedBehavior := "To be analyzed", executionOrder := 2 }, { className := "M4", methodName := "m", parameters := "", stepInDecision := ReqGen.StepInDecision.stepInto, reasoning := "go", expectedBehavior := "To be analyzed", executionOrder := 3 }, { className := "M5", methodName := "m", parameters := "", stepInDecision := ReqGen.StepInDecision.stepInto, reasoning := "go", expectedBehavior := "To be analyzed", executionOrder := 4 }], objectLookup := [], external := [], notFound := [] }, analysisTimestamp := 0, contentHash := "md5:srcR", errorMessage := none, inheritedFrom := none }), ("M1.m", { className := "M1", methodName := "m", language := "java", analysisStatus := "complete", executionBlocks := [{ blockId := "block-0", blockType := "return", description := "leaf", executionFlow := "No execution flow documented", methodCalls := [], nextBlocks := ["block-1"] }], methodCallSummary := { stepInto := [], objectLookup := [], external := [], notFound := [] }, analysisTimestamp := 0, contentHash := "md5:srcM1", errorMessage := none, inheritedFrom := none }), ("M2.m", { className := "M2", methodName := "m", language := "java", analysisStatus := "complete", executionBlocks := [{ blockId := "block-0", blockType := "return", description := "leaf", executionFlow := "No execution flow documented", methodCalls := [], nextBlocks := ["block-1"] }], methodCallSummary := { stepInto := [], objectLookup := [], external := [], notFound := [] }, analysisTimestamp := 0, contentHash := "md5:srcM2", errorMessage := none, inheritedFrom := none })], totalSteps := 16, rootMethod := "R.r" } }
def bu3Ret : AState :=
{ now := 0, mem := [("R#r", { key := "R#r", analysis := { className := "R", methodName := "r", language := "java", analysisStatus := "complete", executionBlocks := [{ blockId := "block-0", blockType := "methodcall", description := "r1", executionFlow := "No execution flow documented", methodCalls := [{ className := "M1", methodName := "m", parameters := "", stepInDecision := ReqGen.StepInDecision.stepInto, reasoning := "go", expectedBehavior := "To be analyzed", executionOrder := 0 }, { className := "M2", methodName := "m", parameters := "", stepInDecision := ReqGen.StepInDecision.stepInto, reasoning := "go", expectedBehavior := "To be analyzed", executionOrder := 1 }, { className := "M3", methodName := "m", parameters := "", stepInDecision := ReqGen.StepInDecision.stepInto, reasoning := "go", expectedBehavior := "To be analyzed", executionOrder := 2 }, { className := "M4", methodName := "m", parameters := "", stepInDecision := ReqGen.StepInDecision.stepInto, reasoning := "go", expectedBehavior := "To be analyzed", executionOrder := 3 }, { className := "M5", methodName := "m", parameters := "", stepInDecision := ReqGen.StepInDecision.stepInto, reasoning := "go", expectedBehavior := "To be analyzed", executionOrder := 4 }], nextBlocks := ["block-1"] }], methodCallSummary := { stepInto := [{ className := "M1", methodName := "m", parameters := "", stepInDecision := ReqGen.StepInDecision.stepInto, reasoning := "go", expectedBehavior := "To be analyzed", executionOrder := 0 }, { className := "M2", methodName := "m", parameters := "", stepInDecision := ReqGen.StepInDecision.stepInto, reasoning := "go", expectedBehavior := "To be analyzed", executionOrder := 1 }, { className := "M3", methodName := "m", parameters := "", stepInDecision := ReqGen.StepInDecision.stepInto, reasoning := "go", expectedBehavior := "To be analyzed", executionOrder := 2 }, { className := "M4", methodName := "m", parameters := "", stepInDecision := ReqGen.StepInDecision.stepInto, reasoning := "go", expectedBehavior := "To be analyzed", executionOrder := 3 }, { className := "M5", methodName := "m", parameters := "", stepInDecision := ReqGen.StepInDecision.stepInto, reasoning := "go", expectedBehavior := "To be analyzed", executionOrder := 4 }], objectLookup := [], external := [], notFound := [] }, analysisTimestamp := 0, contentHash := "md5:srcR", errorMessage := none, inheritedFrom := none }, timestamp := 0, accessCount := 0, contentHash := "md5:srcR" }), ("M1#m", { key := "M1#m", analysis := { className := "M1", methodName := "m", language := "java", analysisStatus := "complete", executionBlocks := [{ blockId := "block-0", blockType := "return", description := "leaf", executionFlow := "No execution flow documented", methodCalls := [], nextBlocks := ["block-1"] }], methodCallSummary := { stepInto := [], objectLookup := [], external := [], notFound := [] }, analysisTimestamp := 0, contentHash := "md5:srcM1", errorMessage := none, inheritedFrom := none }, timestamp := 0, accessCount := 0, contentHash := "md5:srcM1" }), ("M2#m", { key := "M2#m", analysis := { className := "M2", methodName := "m", language := "java", analysisStatus := "complete", executionBlocks := [{ blockId := "block-0", blockType := "return", description := "leaf", executionFlow := "No execution flow documented", methodCalls := [], nextBlocks := ["block-1"] }], methodCallSummary := { stepInto := [], objectLookup := [], external := [], notFound := [] }, analysisTimestamp := 0, contentHash := "md5:srcM2", errorMessage := none, inheritedFrom := none }, timestamp := 0, accessCount := 0, contentHash := "md5:srcM2" })], stats := { hitCount := 0, missCount := 3, evictionCount := 0 }, pc := [], selectedModel := some "gpt", oracleLog := [("R", "r"), ("M1", "m"), ("M2", "m")], visited := ["R#r", "M1#m", "M2#m"], totalAnalyzed := 3, callStack := [{ className := "R", methodName := "r", depth := 0, isConditional := false }], flow := some { steps := [{ stepNumber := 1, depth := 0, sourceMethod := "R.r", description := "R.r() starts", stepType := ReqGen.LinearStepType.methodStart, originalBlockId := none }, { stepNumber := 2, depth := 0, sourceMethod := "R.r", description := "r1", stepType := ReqGen.LinearStepType.execution, originalBlockId := some "block-0" }, { stepNumber := 3, depth := 0, sourceMethod := "R.r", description := "Call M1.m()", stepType := ReqGen.LinearStepType.methodCall, originalBlockId := none }, { stepNumber := 4, depth := 0, sourceMethod := "R.r", description := "Call M2.m()", stepType := ReqGen.LinearStepType.methodCall, originalBlockId := none }, { stepNumber := 5, depth := 0, sourceMethod := "R.r", description := "Call M3.m()", stepType := ReqGen.LinearStepType.methodCall, originalBlockId := none }, { stepNumber := 6, depth := 0, sourceMethod := "R.r", description := "Call M4.m()", stepType := ReqGen.LinearStepType.methodCall, originalBlockId := none }, { stepNumber := 7, depth := 0, sourceMethod := "R.r", description := "Call M5.m()", stepType := ReqGen.LinearStepType.methodCall, originalBlockId := none }, { stepNumber := 8, depth := 0, sourceMethod := "R.r", description := "R.r() completes", stepType := ReqGen.LinearStepType.methodEnd, originalBlockId := none }, { stepNumber := 9, depth := 1, sourceMethod := "M1.m", description := "M1.m() starts", stepType := ReqGen.LinearStepType.methodStart, originalBlockId := none }, { stepNumber := 10, depth := 1, sourceMethod := "M1.m", description := "leaf", stepType := ReqGen.LinearStepType.execution, originalBlockId := some "block-0" }, { stepNumber := 11, depth := 1, sourceMethod := "M1.m", description := "M1.m() completes", stepType := ReqGen.LinearStepType.methodEnd, originalBlockId := none }, { stepNumber := 12, depth := 0, sourceMethod := "R.r", description := "↩️ M1.m() returns: leaf", stepType := ReqGen.LinearStepType.methodReturn, originalBlockId := none }, { stepNumber := 13, depth := 1, sourceMethod := "M2.m", description := "M2.m() starts", stepType := ReqGen.LinearStepType.methodStart, originalBlockId := none }, { stepNumber := 14, depth := 1, sourceMethod := "M2.m", description := "leaf", stepType := ReqGen.LinearStepType.execution, originalBlockId := some "block-0" }, { stepNumber := 15, depth := 1, sourceMethod := "M2.m", description := "M2.m() completes", stepType := ReqGen.LinearStepType.methodEnd, originalBlockId := none }, { stepNumber := 16, depth := 0, sourceMethod := "R.r", description := "↩️ M2.m() returns: leaf", stepType := ReqGen.LinearStepType.methodReturn, originalBlockId := none }], methodReferences := [("R.r", { className := "R", methodName := "r", language := "java", analysisStatus := "complete", executionBlocks := [{ blockId := "block-0", blockType := "methodcall", description := "r1", executionFlow := "No execution flow documented", methodCalls := [{ className := "M1", methodName := "m", parameters := "", stepInDecision := ReqGen.StepInDecision.stepInto, reasoning := "go", expectedBehavior := "To be analyzed", executionOrder := 0 }, { className := "M2", methodName := "m", parameters := "", stepInDecision := ReqGen.StepInDecision.stepInto, reasoning := "go", expectedBehavior := "To be analyzed", executionOrder := 1 }, { className := "M3", methodName := "m", parameters := "", stepInDecision := ReqGen.StepInDecision.stepInto, reasoning := "go", expectedBehavior := "To be analyzed", executionOrder := 2 }, { className := "M4", methodName := "m", parameters := "", stepInDecision := ReqGen.StepInDecision.stepInto, reasoning := "go", expectedBehavior := "To be analyzed", executionOrder := 3 }, { className := "M5", methodName := "m", parameters := "", stepInDecision := ReqGen.StepInDecision.stepInto, reasoning := "go", expectedBehavior := "To be analyzed", executionOrder := 4 }], nextBlocks := ["block-1"] }], methodCallSummary := { stepInto := [{ className := "M1", methodName := "m", parameters := "", stepInDecision := ReqGen.StepInDecision.stepInto, reasoning := "go", expectedBehavior := "To be analyzed", executionOrder := 0 }, { className := "M2", methodName := "m", parameters := "", stepInDecision := ReqGen.StepInDecision.stepInto, reasoning := "go", expectedBehavior := "To be analyzed", executionOrder := 1 }, { className := "M3", methodName := "m", parameters := "", stepInDecision := ReqGen.StepInDecision.stepInto, reasoning := "go", expectedBehavior := "To be analyzed", executionOrder := 2 }, { className := "M4", methodName := "m", parameters := "", stepInDecision := ReqGen.StepInDecision.stepInto, reasoning := "go", expectedBehavior := "To be analyzed", executionOrder := 3 }, { className := "M5", methodName := "m", parameters := "", stepInDecision := ReqGen.StepInDecision.stepInto, reasoning := "go", expectedBehavior := "To be analyzed", executionOrder := 4 }], objectLookup := [], external := [], notFound := [] }, analysisTimestamp := 0, contentHash := "md5:srcR", errorMessage := none, inheritedFrom := none }), ("M1.m", { className := "M1", methodName := "m", language := "java", analysisStatus := "complete", executionBlocks := [{ blockId := "block-0", blockType := "return", description := "leaf", executionFlow := "No execution flow documented", methodCalls := [], nextBlocks := ["block-1"] }], methodCallSummary := { stepInto := [], objectLookup := [], external := [], notFound := [] }, analysisTimestamp := 0, contentHash := "md5:srcM1", errorMessage := none, inheritedFrom := none }), ("M2.m", { className := "M2", methodName := "m", language := "java", analysisStatus := "complete", executionBlocks := [{ blockId := "block-0", blockType := "return", description := "leaf", executionFlow := "No execution flow documented", methodCalls := [], nextBlocks := ["block-1"] }], methodCallSummary := { stepInto := [], objectLookup := [], external := [], notFound := [] }, analysisTimestamp := 0, contentHash := "md5:srcM2", errorMessage := none, inheritedFrom := none })], totalSteps := 16, rootMethod := "R.r" } }
def bu3Main : MethodAnalysis :=
{ className := "R", methodName := "r", language := "java", analysisStatus := "complete", executionBlocks := [{ blockId := "block-0", blockType := "methodcall", description := "r1", executionFlow := "No execution flow documented", methodCalls := [{ className := "M1", methodName := "m", parameters := "", stepInDecision := ReqGen.StepInDecision.stepInto, reasoning := "go", expectedBehavior := "leaf", executionOrder := 0 }, { className := "M2", methodName := "m", parameters := "", stepInDecision := ReqGen.StepInDecision.stepInto, reasoning := "go", expectedBehavior := "leaf", executionOrder := 1 }, { className := "M3", methodName := "m", parameters := "", stepInDecision := ReqGen.StepInDecision.stepInto, reasoning := "go", expectedBehavior := "Method analysis skipped: Maximum method count reached", executionOrder := 2 }, { className := "M4", methodName := "m", parameters := "", stepInDecision := ReqGen.StepInDecision.stepInto, reasoning := "go", expectedBehavior := "To be analyzed", executionOrder := 3 }, { className := "M5", methodName := "m", parameters := "", stepInDecision := ReqGen.StepInDecision.stepInto, reasoning := "go", expectedBehavior := "To be analyzed", executionOrder := 4 }], nextBlocks := ["block-1"] }], methodCallSummary := { stepInto := [{ className := "M1", methodName := "m", parameters := "", stepInDecision := ReqGen.StepInDecision.stepInto, reasoning := "go", expectedBehavior := "To be analyzed", executionOrder := 0 }, { className := "M2", methodName := "m", parameters := "", stepInDecision := ReqGen.StepInDecision.stepInto, reasoning := "go", expectedBehavior := "To be analyzed", executionOrder := 1 }, { className := "M3", methodName := "m", parameters := "", stepInDecision := ReqGen.StepInDecision.stepInto, reasoning := "go", expectedBehavior := "To be analyzed", executionOrder := 2 }, { className := "M4", methodName := "m", parameters := "", stepInDecision := ReqGen.StepInDecision.stepInto, reasoning := "go", expectedBehavior := "To be analyzed", executionOrder := 3 }, { className := "M5", methodName := "m", parameters := "", stepInDecision := ReqGen.StepInDecision.stepInto, reasoning := "go", expectedBehavior := "To be analyzed", executionOrder := 4 }], objectLookup := [], external := [], notFound := [] }, analysisTimestamp := 0, contentHash := "md5:srcR", errorMessage := none, inheritedFrom := none }
def bu3F : Option LinearFlow :=
some { steps := [{ stepNumber := 1, depth := 0, sourceMethod := "R.r", description := "R.r() starts", stepType := ReqGen.LinearStepType.methodStart, originalBlockId := none }, { stepNumber := 2, depth := 0, sourceMethod := "R.r", description := "r1", stepType := ReqGen.LinearStepType.execution, originalBlockId := some "block-0" }, { stepNumber := 3, depth := 0, sourceMethod := "R.r", description := "Call M1.m()", stepType := ReqGen.LinearStepType.methodCall, originalBlockId := none }, { stepNumber := 4, depth := 0, sourceMethod := "R.r", description := "Call M2.m()", stepType := ReqGen.LinearStepType.methodCall, originalBlockId := none }, { stepNumber := 5, depth := 0, sourceMethod := "R.r", description := "Call M3.m()", stepType := ReqGen.LinearStepType.methodCall, originalBlockId := none }, { stepNumber := 6, depth := 0, sourceMethod := "R.r", description := "Call M4.m()", stepType := ReqGen.LinearStepType.methodCall, originalBlockId := none }, { stepNumber := 7, depth := 0, sourceMethod := "R.r", description := "Call M5.m()", stepType := ReqGen.LinearStepType.methodCall, originalBlockId := none }, { stepNumber := 8, depth := 0, sourceMethod := "R.r", description := "R.r() completes", stepType := ReqGen.LinearStepType.methodEnd, originalBlockId := none }, { stepNumber := 9, depth := 1, sourceMethod := "M1.m", description := "M1.m() starts", stepType := ReqGen.LinearStepType.methodStart, originalBlockId := none }, { stepNumber := 10, depth := 1, sourceMethod := "M1.m", description := "leaf", stepType := ReqGen.LinearStepType.execution, originalBlockId := some "block-0" }, { stepNumber := 11, depth := 1, sourceMethod := "M1.m", description := "M1.m() completes", stepType := ReqGen.LinearStepType.methodEnd, originalBlockId := none }, { stepNumber := 12, depth := 0, sourceMethod := "R.r", description := "↩️ M1.m() returns: leaf", stepType := ReqGen.LinearStepType.methodReturn, originalBlockId := none }, { stepNumber := 13, depth := 1, sourceMethod := "M2.m", description := "M2.m() starts", stepType := ReqGen.LinearStepType.methodStart, originalBlockId := none }, { stepNumber := 14, depth := 1, sourceMethod := "M2.m", description := "leaf", stepType := ReqGen.LinearStepType.execution, originalBlockId := some "block-0" }, { stepNumber := 15, depth := 1, sourceMethod := "M2.m", description := "M2.m() completes", stepType := ReqGen.LinearStepType.methodEnd, originalBlockId := none }, { stepNumber := 16, depth := 0, sourceMethod := "R.r", description := "↩️ M2.m() returns: leaf", stepType := ReqGen.LinearStepType.methodReturn, originalBlockId := none }], methodReferences := [("R.r", { className := "R", methodName := "r", language := "java", analysisStatus := "complete", executionBlocks := [{ blockId := "block-0", blockType := "methodcall", description := "r1", executionFlow := "No execution flow documented", methodCalls := [{ className := "M1", methodName := "m", parameters := "", stepInDecision := ReqGen.StepInDecision.stepInto, reasoning := "go", expectedBehavior := "To be analyzed", executionOrder := 0 }, { className := "M2", methodName := "m", parameters := "", stepInDecision := ReqGen.StepInDecision.stepInto, reasoning := "go", expectedBehavior := "To be analyzed", executionOrder := 1 }, { className := "M3", methodName := "m", parameters := "", stepInDecision := ReqGen.StepInDecision.stepInto, reasoning := "go", expectedBehavior := "To be analyzed", executionOrder := 2 }, { className := "M4", methodName := "m", parameters := "", stepInDecision := ReqGen.StepInDecision.stepInto, reasoning := "go", expectedBehavior := "To be analyzed", executionOrder := 3 }, { className := "M5", methodName := "m", parameters := "", stepInDecision := ReqGen.StepInDecision.stepInto, reasoning := "go", expectedBehavior := "To be analyzed", executionOrder := 4 }], nextBlocks := ["block-1"] }], methodCallSummary := { stepInto := [{ className := "M1", methodName := "m", parameters := "", stepInDecision := ReqGen.StepInDecision.stepInto, reasoning := "go", expectedBehavior := "To be analyzed", executionOrder := 0 }, { className := "M2", methodName := "m", parameters := "", stepInDecision := ReqGen.StepInDecision.stepInto, reasoning := "go", expectedBehavior := "To be analyzed", executionOrder := 1 }, { className := "M3", methodName := "m", parameters := "", stepInDecision := ReqGen.StepInDecision.stepInto, reasoning := "go", expectedBehavior := "To be analyzed", executionOrder := 2 }, { className := "M4", methodName := "m", parameters := "", stepInDecision := ReqGen.StepInDecision.stepInto, reasoning := "go", expectedBehavior := "To be analyzed", executionOrder := 3 }, { className := "M5", methodName := "m", parameters := "", stepInDecision := ReqGen.StepInDecision.stepInto, reasoning := "go", expectedBehavior := "To be analyzed", executionOrder := 4 }], objectLookup := [], external := [], notFound := [] }, analysisTimestamp := 0, contentHash := "md5:srcR", errorMessage := none, inheritedFrom := none }), ("M1.m", { className := "M1", methodName := "m", language := "java", analysisStatus := "complete", executionBlocks := [{ blockId := "block-0", blockType := "return", description := "leaf", executionFlow := "No execution flow documented", methodCalls := [], nextBlocks := ["block-1"] }], methodCallSummary := { stepInto := [], objectLookup := [], external := [], notFound := [] }, analysisTimestamp := 0, contentHash := "md5:srcM1", errorMessage := none, inheritedFrom := none }), ("M2.m", { className := "M2", methodName := "m", language := "java", analysisStatus := "complete", executionBlocks := [{ blockId := "block-0", blockType := "return", description := "leaf", executionFlow := "No execution flow documented", methodCalls := [], nextBlocks := ["block-1"] }], methodCallSummary := { stepInto := [], objectLookup := [], external := [], notFound := [] }, analysisTimestamp := 0, contentHash := "md5:srcM2", errorMessage := none, inheritedFrom := none }), ("M3.m", { className := "M3", methodName := "m", language := "unknown", analysisStatus := "partial", executionBlocks := [{ blockId := "placeholder-1", blockType := "methodCall", description := "Method analysis skipped: Maximum method count reached", executionFlow := "This method was not analyzed due to: Maximum method count reached", methodCalls := [], nextBlocks := [] }], methodCallSummary := { stepInto := [], objectLookup := [], external := [], notFound := [] }, analysisTimestamp := 0, contentHash := "", errorMessage := some "Maximum method count reached", inheritedFrom := none })], totalSteps := 16, rootMethod := "R.r" }
def bu3Next : AState :=
{ now := 0, mem := [("R#r", { key := "R#r", analysis := { className := "R", methodName := "r", language := "java", analysisStatus := "complete", executionBlocks := [{ blockId := "block-0", blockType := "methodcall", description := "r1", executionFlow := "No execution flow documented", methodCalls := [{ className := "M1", methodName := "m", parameters := "", stepInDecision := ReqGen.StepInDecision.stepInto, reasoning := "go", expectedBehavior := "To be analyzed", executionOrder := 0 }, { className := "M2", methodName := "m", parameters := "", stepInDecision := ReqGen.StepInDecision.stepInto, reasoning := "go", expectedBehavior := "To be analyzed", executionOrder := 1 }, { className := "M3", methodName := "m", parameters := "", stepInDecision := ReqGen.StepInDecision.stepInto, reasoning := "go", expectedBehavior := "To be analyzed", executionOrder := 2 }, { className := "M4", methodName := "m", parameters := "", stepInDecision := ReqGen.StepInDecision.stepInto, reasoning := "go", expectedBehavior := "To be analyzed", executionOrder := 3 }, { className := "M5", methodName := "m", parameters := "", stepInDecision := ReqGen.StepInDecision.stepInto, reasoning := "go", expectedBehavior := "To be analyzed", executionOrder := 4 }], nextBlocks := ["block-1"] }], methodCallSummary := { stepInto := [{ className := "M1", methodName := "m", parameters := "", stepInDecision := ReqGen.StepInDecision.stepInto, reasoning := "go", expectedBehavior := "To be analyzed", executionOrder := 0 }, { className := "M2", methodName := "m", parameters := "", stepInDecision := ReqGen.StepInDecision.stepInto, reasoning := "go", expectedBehavior := "To be analyzed", executionOrder := 1 }, { className := "M3", methodName := "m", parameters := "", stepInDecision := ReqGen.StepInDecision.stepInto, reasoning := "go", expectedBehavior := "To be analyzed", executionOrder := 2 }, { className := "M4", methodName := "m", parameters := "", stepInDecision := ReqGen.StepInDecision.stepInto, reasoning := "go", expectedBehavior := "To be analyzed", executionOrder := 3 }, { className := "M5", methodName := "m", parameters := "", stepInDecision := ReqGen.StepInDecision.stepInto, reasoning := "go", expectedBehavior := "To be analyzed", executionOrder := 4 }], objectLookup := [], external := [], notFound := [] }, analysisTimestamp := 0, contentHash := "md5:srcR", errorMessage := none, inheritedFrom := none }, timestamp := 0, accessCount := 0, contentHash := "md5:srcR" }), ("M1#m", { key := "M1#m", analysis := { className := "M1", methodName := "m", language := "java", analysisStatus := "complete", executionBlocks := [{ blockId := "block-0", blockType := "return", description := "leaf", executionFlow := "No execution flow documented", methodCalls := [], nextBlocks := ["block-1"] }], methodCallSummary := { stepInto := [], objectLookup := [], external := [], notFound := [] }, analysisTimestamp := 0, contentHash := "md5:srcM1", errorMessage := none, inheritedFrom := none }, timestamp := 0, accessCount := 0, contentHash := "md5:srcM1" }), ("M2#m", { key := "M2#m", analysis := { className := "M2", methodName := "m", language := "java", analysisStatus := "complete", executionBlocks := [{ blockId := "block-0", blockType := "return", description := "leaf", executionFlow := "No execution flow documented", methodCalls := [], nextBlocks := ["block-1"] }], methodCallSummary := { stepInto := [], objectLookup := [], external := [], notFound := [] }, analysisTimestamp := 0, contentHash := "md5:srcM2", errorMessage := none, inheritedFrom := none }, timestamp := 0, accessCount := 0, contentHash := "md5:srcM2" })], stats := { hitCount := 0, missCount := 3, evictionCount := 0 }, pc := [], selectedModel := some "gpt", oracleLog := [("R", "r"), ("M1", "m"), ("M2", "m")], visited := ["R#r", "M1#m", "M2#m"], totalAnalyzed := 3, callStack := [{ className := "R", methodName := "r", depth := 0, isConditional := false }], flow := some { steps := [{ stepNumber := 1, depth := 0, sourceMethod := "R.r", description := "R.r() starts", stepType := ReqGen.LinearStepType.methodStart, originalBlockId := none }, { stepNumber := 2, depth := 0, sourceMethod := "R.r", description := "r1", stepType := ReqGen.LinearStepType.execution, originalBlockId := some "block-0" }, { stepNumber := 3, depth := 0, sourceMethod := "R.r", description := "Call M1.m()", stepType := ReqGen.LinearStepType.methodCall, originalBlockId := none }, { stepNumber := 4, depth := 0, sourceMethod := "R.r", description := "Call M2.m()", stepType := ReqGen.LinearStepType.methodCall, originalBlockId := none }, { stepNumber := 5, depth := 0, sourceMethod := "R.r", description := "Call M3.m()", stepType := ReqGen.LinearStepType.methodCall, originalBlockId := none }, { stepNumber := 6, depth := 0, sourceMethod := "R.r", description := "Call M4.m()", stepType := ReqGen.LinearStepType.methodCall, originalBlockId := none }, { stepNumber := 7, depth := 0, sourceMethod := "R.r", description := "Call M5.m()", stepType := ReqGen.LinearStepType.methodCall, originalBlockId := none }, { stepNumber := 8, depth := 0, sourceMethod := "R.r", description := "R.r() completes", stepType := ReqGen.LinearStepType.methodEnd, originalBlockId := none }, { stepNumber := 9, depth := 1, sourceMethod := "M1.m", description := "M1.m() starts", stepType := ReqGen.LinearStepType.methodStart, originalBlockId := none }, { stepNumber := 10, depth := 1, sourceMethod := "M1.m", description := "leaf", stepType := ReqGen.LinearStepType.execution, originalBlockId := some "block-0" }, { stepNumber := 11, depth := 1, sourceMethod := "M1.m", description := "M1.m() completes", stepType := ReqGen.LinearStepType.methodEnd, originalBlockId := none }, { stepNumber := 12, depth := 0, sourceMethod := "R.r", description := "↩️ M1.m() returns: leaf", stepType := ReqGen.LinearStepType.methodReturn, originalBlockId := none }, { stepNumber := 13, depth := 1, sourceMethod := "M2.m", description := "M2.m() starts", stepType := ReqGen.LinearStepType.methodStart, originalBlockId := none }, { stepNumber := 14, depth := 1, sourceMethod := "M2.m", description := "leaf", stepType := ReqGen.LinearStepType.execution, originalBlockId := some "block-0" }, { stepNumber := 15, depth := 1, sourceMethod := "M2.m", description := "M2.m() completes", stepType := ReqGen.LinearStepType.methodEnd, originalBlockId := none }, { stepNumber := 16, depth := 0, sourceMethod := "R.r", description := "↩️ M2.m() returns: leaf", stepType := ReqGen.LinearStepType.methodReturn, originalBlockId := none }], methodReferences := [("R.r", { className := "R", methodName := "r", language := "java", analysisStatus := "complete", executionBlocks := [{ blockId := "block-0", blockType := "methodcall", description := "r1", executionFlow := "No execution flow documented", methodCalls := [{ className := "M1", methodName := "m", parameters := "", stepInDecision := ReqGen.StepInDecision.stepInto, reasoning := "go", expectedBehavior := "To be analyzed", executionOrder := 0 }, { className := "M2", methodName := "m", parameters := "", stepInDecision := ReqGen.StepInDecision.stepInto, reasoning := "go", expectedBehavior := "To be analyzed", executionOrder := 1 }, { className := "M3", methodName := "m", parameters := "", stepInDecision := ReqGen.StepInDecision.stepInto, reasoning := "go", expectedBehavior := "To be analyzed", executionOrder := 2 }, { className := "M4", methodName := "m", parameters := "", stepInDecision := ReqGen.StepInDecision.stepInto, reasoning := "go", expectedBehavior := "To be analyzed", executionOrder := 3 }, { className := "M5", methodName := "m", parameters := "", stepInDecision := ReqGen.StepInDecision.stepInto, reasoning := "go", expectedBehavior := "To be analyzed", executionOrder := 4 }], nextBlocks := ["block-1"] }], methodCallSummary := { stepInto := [{ className := "M1", methodName := "m", parameters := "", stepInDecision := ReqGen.StepInDecision.stepInto, reasoning := "go", expectedBehavior := "To be analyzed", executionOrder := 0 }, { className := "M2", methodName := "m", parameters := "", stepInDecision := ReqGen.StepInDecision.stepInto, reasoning := "go", expectedBehavior := "To be analyzed", executionOrder := 1 }, { className := "M3", methodName := "m", parameters := "", stepInDecision := ReqGen.StepInDecision.stepInto, reasoning := "go", expectedBehavior := "To be analyzed", executionOrder := 2 }, { className := "M4", methodName := "m", parameters := "", stepInDecision := ReqGen.StepInDecision.stepInto, reasoning := "go", expectedBehavior := "To be analyzed", executionOrder := 3 }, { className := "M5", methodName := "m", parameters := "", stepInDecision := ReqGen.StepInDecision.stepInto, reasoning := "go", expectedBehavior := "To be analyzed", executionOrder := 4 }], objectLookup := [], external := [], notFound := [] }, analysisTimestamp := 0, contentHash := "md5:srcR", errorMessage := none, inheritedFrom := none }), ("M1.m", { className := "M1", methodName := "m", language := "java", analysisStatus := "complete", executionBlocks := [{ blockId := "block-0", blockType := "return", description := "leaf", executionFlow := "No execution flow documented", methodCalls := [], nextBlocks := ["block-1"] }], methodCallSummary := { stepInto := [], objectLookup := [], external := [], notFound := [] }, analysisTimestamp := 0, contentHash := "md5:srcM1", errorMessage := none, inheritedFrom := none }), ("M2.m", { className := "M2", methodName := "m", language := "java", analysisStatus := "complete", executionBlocks := [{ blockId := "block-0", blockType := "return", description := "leaf", executionFlow := "No execution flow documented", methodCalls := [], nextBlocks := ["block-1"] }], methodCallSummary := { stepInto := [], objectLookup := [], external := [], notFound := [] }, analysisTimestamp := 0, contentHash := "md5:srcM2", errorMessage := none, inheritedFrom := none }), ("M3.m", { className := "M3", methodName := "m", language := "unknown", analysisStatus := "partial", executionBlocks := [{ blockId := "placeholder-1", blockType := "methodCall", description := "Method analysis skipped: Maximum method count reached", executionFlow := "This method was not analyzed due to: Maximum method count reached", methodCalls := [], nextBlocks := [] }], methodCallSummary := { stepInto := [], objectLookup := [], external := [], notFound := [] }, analysisTimestamp := 0, contentHash := "", errorMessage := some "Maximum method count reached", inheritedFrom := none })], totalSteps := 16, rootMethod := "R.r" } }
def bu4InnerA : MethodAnalysis :=
{ className := "M4", methodName := "m", language := "unknown", analysisStatus := "partial", executionBlocks := [{ blockId := "placeholder-1", blockType := "methodCall", description := "Method analysis skipped: Maximum method count reached", executionFlow := "This method was not analyzed due to: Maximum method count reached", methodCalls := [], nextBlocks := [] }], methodCallSummary := { stepInto := [], objectLookup := [], external := [], notFound := [] }, analysisTimestamp := 0, contentHash := "", errorMessage := some "Maximum method count reached", inheritedFrom := none }
def bu4InnerS : AState :=
{ now := 0, mem := [("R#r", { key := "R#r", analysis := { className := "R", methodName := "r", language := "java", analysisStatus := "complete", executionBlocks := [{ blockId := "block-0", blockType := "methodcall", description := "r1", executionFlow := "No execution flow documented", methodCalls := [{ className := "M1", methodName := "m", parameters := "", stepInDecision := ReqGen.StepInDecision.stepInto, reasoning := "go", expectedBehavior := "To be analyzed", executionOrder := 0 }, { className := "M2", methodName := "m", parameters := "", stepInDecision := ReqGen.StepInDecision.stepInto, reasoning := "go", expectedBehavior := "To be analyzed", executionOrder := 1 }, { className := "M3", methodName := "m", parameters := "", stepInDecision := ReqGen.StepInDecision.stepInto, reasoning := "go", expectedBehavior := "To be analyzed", executionOrder := 2 }, { className := "M4", methodName := "m", parameters := "", stepInDecision := ReqGen.StepInDecision.stepInto, reasoning := "go", expectedBehavior := "To be analyzed", executionOrder := 3 }, { className := "M5", methodName := "m", parameters := "", stepInDecision := ReqGen.StepInDecision.stepInto, reasoning := "go", expectedBehavior := "To be analyzed", executionOrder := 4 }], nextBlocks := ["block-1"] }], methodCallSummary := { stepInto := [{ className := "M1", methodName := "m", parameters := "", stepInDecision := ReqGen.StepInDecision.stepInto, reasoning := "go", expectedBehavior := "To be analyzed", executionOrder := 0 }, { className := "M2", methodName := "m", parameters := "", stepInDecision := ReqGen.StepInDecision.stepInto, reasoning := "go", expectedBehavior := "To be analyzed", executionOrder := 1 }, { className := "M3", methodName := "m", parameters := "", stepInDecision := ReqGen.StepInDecision.stepInto, reasoning := "go", expectedBehavior := "To be analyzed", executionOrder := 2 }, { className := "M4", methodName := "m", parameters := "", stepInDecision := ReqGen.StepInDecision.stepInto, reasoning := "go", expectedBehavior := "To be analyzed", executionOrder := 3 }, { className := "M5", methodName := "m", parameters := "", stepInDecision := ReqGen.StepInDecision.stepInto, reasoning := "go", expectedBehavior := "To be analyzed", executionOrder := 4 }], objectLookup := [], external := [], notFound := [] }, analysisTimestamp := 0, contentHash := "md5:srcR", errorMessage := none, inheritedFrom := none }, timestamp := 0, accessCount := 0, contentHash := "md5:srcR" }), ("M1#m", { key := "M1#m", analysis := { className := "M1", methodName := "m", language := "java", analysisStatus := "complete", executionBlocks := [{ blockId := "block-0", blockType := "return", description := "leaf", executionFlow := "No execution flow documented", methodCalls := [], nextBlocks := ["block-1"] }], methodCallSummary := { stepInto := [], objectLookup := [], external := [], notFound := [] }, analysisTimestamp := 0, contentHash := "md5:srcM1", errorMessage := none, inheritedFrom := none }, timestamp := 0, accessCount := 0, contentHash := "md5:srcM1" }), ("M2#m", { key := "M2#m", analysis := { className := "M2", methodName := "m", language := "java", analysisStatus := "complete", executionBlocks := [{ blockId := "block-0", blockType := "return", description := "leaf", executionFlow := "No execution flow documented", methodCalls := [], nextBlocks := ["block-1"] }], methodCallSummary := { stepInto := [], objectLookup := [], external := [], notFound := [] }, analysisTimestamp := 0, contentHash := "md5:srcM2", errorMessage := none, inheritedFrom := none }, timestamp := 0, accessCount := 0, contentHash := "md5:srcM2" })], stats := { hitCount := 0, missCount := 3, evictionCount := 0 }, pc := [], selectedModel := some "gpt", oracleLog := [("R", "r"), ("M1", "m"), ("M2", "m")], visited := ["R#r", "M1#m", "M2#m"], totalAnalyzed := 3, callStack := [{ className := "R", methodName := "r", depth := 0, isConditional := false }], flow := some { steps := [{ stepNumber := 1, depth := 0, sourceMethod := "R.r", description := "R.r() starts", stepType := ReqGen.LinearStepType.methodStart, originalBlockId := none }, { stepNumber := 2, depth := 0, sourceMethod := "R.r", description := "r1", stepType := ReqGen.LinearStepType.execution, originalBlockId := some "block-0" }, { stepNumber := 3, depth := 0, sourceMethod := "R.r", description := "Call M1.m()", stepType := ReqGen.LinearStepType.methodCall, originalBlockId := none }, { stepNumber := 4, depth := 0, sourceMethod := "R.r", description := "Call M2.m()", stepType := ReqGen.LinearStepType.methodCall, originalBlockId := none }, { stepNumber := 5, depth := 0, sourceMethod := "R.r", description := "Call M3.m()", stepType := ReqGen.LinearStepType.methodCall, originalBlockId := none }, { stepNumber := 6, depth := 0, sourceMethod := "R.r", description := "Call M4.m()", stepType := ReqGen.LinearStepType.methodCall, originalBlockId := none }, { stepNumber := 7, depth := 0, sourceMethod := "R.r", description := "Call M5.m()", stepType := ReqGen.LinearStepType.methodCall, originalBlockId := none }, { stepNumber := 8, depth := 0, sourceMethod := "R.r", description := "R.r() completes", stepType := ReqGen.LinearStepType.methodEnd, originalBlockId := none }, { stepNumber := 9, depth := 1, sourceMethod := "M1.m", description := "M1.m() starts", stepType := ReqGen.LinearStepType.methodStart, originalBlockId := none }, { stepNumber := 10, depth := 1, sourceMethod := "M1.m", description := "leaf", stepType := ReqGen.LinearStepType.execution, originalBlockId := some "block-0" }, { stepNumber := 11, depth := 1, sourceMethod := "M1.m", description := "M1.m() completes", stepType := ReqGen.LinearStepType.methodEnd, originalBlockId := none }, { stepNumber := 12, depth := 0, sourceMethod := "R.r", description := "↩️ M1.m() returns: leaf", stepType := ReqGen.LinearStepType.methodReturn, originalBlockId := none }, { stepNumber := 13, depth := 1, sourceMethod := "M2.m", description := "M2.m() starts", stepType := ReqGen.LinearStepType.methodStart, originalBlockId := none }, { stepNumber := 14, depth := 1, sourceMethod := "M2.m", description := "leaf", stepType := ReqGen.LinearStepType.execution, originalBlockId := some "block-0" }, { stepNumber := 15, depth := 1, sourceMethod := "M2.m", description := "M2.m() completes", stepType := ReqGen.LinearStepType.methodEnd, originalBlockId := none }, { stepNumber := 16, depth := 0, sourceMethod := "R.r", description := "↩️ M2.m() returns: leaf", stepType := ReqGen.LinearStepType.methodReturn, originalBlockId := none }], methodReferences := [("R.r", { className := "R", methodName := "r", language := "java", analysisStatus := "complete", executionBlocks := [{ blockId := "block-0", blockType := "methodcall", description := "r1", executionFlow := "No execution flow documented", methodCalls := [{ className := "M1", methodName := "m", parameters := "", stepInDecision := ReqGen.StepInDecision.stepInto, reasoning := "go", expectedBehavior := "To be analyzed", executionOrder := 0 }, { className := "M2", methodName := "m", parameters := "", stepInDecision := ReqGen.StepInDecision.stepInto, reasoning := "go", expectedBehavior := "To be analyzed", executionOrder := 1 }, { className := "M3", methodName := "m", parameters := "", stepInDecision := ReqGen.StepInDecision.stepInto, reasoning := "go", expectedBehavior := "To be analyzed", executionOrder := 2 }, { className := "M4", methodName := "m", parameters := "", stepInDecision := ReqGen.StepInDecision.stepInto, reasoning := "go", expectedBehavior := "To be analyzed", executionOrder := 3 }, { className := "M5", methodName := "m", parameters := "", stepInDecision := ReqGen.StepInDecision.stepInto, reasoning := "go", expectedBehavior := "To be analyzed", executionOrder := 4 }], nextBlocks := ["block-1"] }], methodCallSummary := { stepInto := [{ className := "M1", methodName := "m", parameters := "", stepInDecision := ReqGen.StepInDecision.stepInto, reasoning := "go", expectedBehavior := "To be analyzed", executionOrder := 0 }, { className := "M2", methodName := "m", parameters := "", stepInDecision := ReqGen.StepInDecision.stepInto, reasoning := "go", expectedBehavior := "To be analyzed", executionOrder := 1 }, { className := "M3", methodName := "m", parameters := "", stepInDecision := ReqGen.StepInDecision.stepInto, reasoning := "go", expectedBehavior := "To be analyzed", executionOrder := 2 }, { className := "M4", methodName := "m", parameters := "", stepInDecision := ReqGen.StepInDecision.stepInto, reasoning := "go", expectedBehavior := "To be analyzed", executionOrder := 3 }, { className := "M5", methodName := "m", parameters := "", stepInDecision := ReqGen.StepInDecision.stepInto, reasoning := "go", expectedBehavior := "To be analyzed", executionOrder := 4 }], objectLookup := [], external := [], notFound := [] }, analysisTimestamp := 0, contentHash := "md5:srcR", errorMessage := none, inheritedFrom := none }), ("M1.m", { className := "M1", methodName := "m", language := "java", analysisStatus := "complete", executionBlocks := [{ blockId := "block-0", blockType := "return", description := "leaf", executionFlow := "No execution flow documented", methodCalls := [], nextBlocks := ["block-1"] }], methodCallSummary := { stepInto := [], objectLookup := [], external := [], notFound := [] }, analysisTimestamp := 0, contentHash := "md5:srcM1", errorMessage := none, inheritedFrom := none }), ("M2.m", { className := "M2", methodName := "m", language := "java", analysisStatus := "complete", executionBlocks := [{ blockId := "block-0", blockType := "return", description := "leaf", executionFlow := "No execution flow documented", methodCalls := [], nextBlocks := ["block-1"] }], methodCallSummary := { stepInto := [], objectLookup := [], external := [], notFound := [] }, analysisTimestamp := 0, contentHash := "md5:srcM2", errorMessage := none, inheritedFrom := none }), ("M3.m", { className := "M3", methodName := "m", language := "unknown", analysisStatus := "partial", executionBlocks := [{ blockId := "placeholder-1", blockType := "methodCall", description := "Method analysis skipped: Maximum method count reached", executionFlow := "This method was not analyzed due to: Maximum method count reached", methodCalls := [], nextBlocks := [] }], methodCallSummary := { stepInto := [], objectLookup := [], external := [], notFound := [] }, analysisTimestamp := 0, contentHash := "", errorMessage := some "Maximum method count reached", inheritedFrom := none })], totalSteps := 16, rootMethod := "R.r" } }
def bu4Ret : AState :=
{ now := 0, mem := [("R#r", { key := "R#r", analysis := { className := "R", methodName := "r", language := "java", analysisStatus := "complete", executionBlocks := [{ blockId := "block-0", blockType := "methodcall", description := "r1", executionFlow := "No execution flow documented", methodCalls := [{ className := "M1", methodName := "m", parameters := "", stepInDecision := ReqGen.StepInDecision.stepInto, reasoning := "go", expectedBehavior := "To be analyzed", executionOrder := 0 }, { className := "M2", methodName := "m", parameters := "", stepInDecision := ReqGen.StepInDecision.stepInto, reasoning := "go", expectedBehavior := "To be analyzed", executionOrder := 1 }, { className := "M3", methodName := "m", parameters := "", stepInDecision := ReqGen.StepInDecision.stepInto, reasoning := "go", expectedBehavior := "To be analyzed", executionOrder := 2 }, { className := "M4", methodName := "m", parameters := "", stepInDecision := ReqGen.StepInDecision.stepInto, reasoning := "go", expectedBehavior := "To be analyzed", executionOrder := 3 }, { className := "M5", methodName := "m", parameters := "", stepInDecision := ReqGen.StepInDecision.stepInto, reasoning := "go", expectedBehavior := "To be analyzed", executionOrder := 4 }], nextBlocks := ["block-1"] }], methodCallSummary := { stepInto := [{ className := "M1", methodName := "m", parameters := "", stepInDecision := ReqGen.StepInDecision.stepInto, reasoning := "go", expectedBehavior := "To be analyzed", executionOrder := 0 }, { className := "M2", methodName := "m", parameters := "", stepInDecision := ReqGen.StepInDecision.stepInto, reasoning := "go", expectedBehavior := "To be analyzed", executionOrder := 1 }, { className := "M3", methodName := "m", parameters := "", stepInDecision := ReqGen.StepInDecision.stepInto, reasoning := "go", expectedBehavior := "To be analyzed", executionOrder := 2 }, { className := "M4", methodName := "m", parameters := "", stepInDecision := ReqGen.StepInDecision.stepInto, reasoning := "go", expectedBehavior := "To be analyzed", executionOrder := 3 }, { className := "M5", methodName := "m", parameters := "", stepInDecision := ReqGen.StepInDecision.stepInto, reasoning := "go", expectedBehavior := "To be analyzed", executionOrder := 4 }], objectLookup := [], external := [], notFound := [] }, analysisTimestamp := 0, contentHash := "md5:srcR", errorMessage := none, inheritedFrom := none }, timestamp := 0, accessCount := 0, contentHash := "md5:srcR" }), ("M1#m", { key := "M1#m", analysis := { className := "M1", methodName := "m", language := "java", analysisStatus := "complete", executionBlocks := [{ blockId := "block-0", blockType := "return", description := "leaf", executionFlow := "No execution flow documented", methodCalls := [], nextBlocks := ["block-1"] }], methodCallSummary := { stepInto := [], objectLookup := [], external := [], notFound := [] }, analysisTimestamp := 0, contentHash := "md5:srcM1", errorMessage := none, inheritedFrom := none }, timestamp := 0, accessCount := 0, contentHash := "md5:srcM1" }), ("M2#m", { key := "M2#m", analysis := { className := "M2", methodName := "m", language := "java", analysisStatus := "complete", executionBlocks := [{ blockId := "block-0", blockType := "return", description := "leaf", executionFlow := "No execution flow documented", methodCalls := [], nextBlocks := ["block-1"] }], methodCallSummary := { stepInto := [], objectLookup := [], external := [], notFound := [] }, analysisTimestamp := 0, contentHash := "md5:srcM2", errorMessage := none, inheritedFrom := none }, timestamp := 0, accessCount := 0, contentHash := "md5:srcM2" })], stats := { hitCount := 0, missCount := 3, evictionCount := 0 }, pc := [], selectedModel := some "gpt", oracleLog := [("R", "r"), ("M1", "m"), ("M2", "m")], visited := ["R#r", "M1#m", "M2#m"], totalAnalyzed := 3, callStack := [{ className := "R", methodName := "r", depth := 0, isConditional := false }], flow := some { steps := [{ stepNumber := 1, depth := 0, sourceMethod := "R.r", description := "R.r() starts", stepType := ReqGen.LinearStepType.methodStart, originalBlockId := none }, { stepNumber := 2, depth := 0, sourceMethod := "R.r", description := "r1", stepType := ReqGen.LinearStepType.execution, originalBlockId := some "block-0" }, { stepNumber := 3, depth := 0, sourceMethod := "R.r", description := "Call M1.m()", stepType := ReqGen.LinearStepType.methodCall, originalBlockId := none }, { stepNumber := 4, depth := 0, sourceMethod := "R.r", description := "Call M2.m()", stepType := ReqGen.LinearStepType.methodCall, originalBlockId := none }, { stepNumber := 5, depth := 0, sourceMethod := "R.r", description := "Call M3.m()", stepType := ReqGen.LinearStepType.methodCall, originalBlockId := none }, { stepNumber := 6, depth := 0, sourceMethod := "R.r", description := "Call M4.m()", stepType := ReqGen.LinearStepType.methodCall, originalBlockId := none }, { stepNumber := 7, depth := 0, sourceMethod := "R.r", description := "Call M5.m()", stepType := ReqGen.LinearStepType.methodCall, originalBlockId := none }, { stepNumber := 8, depth := 0, sourceMethod := "R.r", description := "R.r() completes", stepType := ReqGen.LinearStepType.methodEnd, originalBlockId := none }, { stepNumber := 9, depth := 1, sourceMethod := "M1.m", description := "M1.m() starts", stepType := ReqGen.LinearStepType.methodStart, originalBlockId := none }, { stepNumber := 10, depth := 1, sourceMethod := "M1.m", description := "leaf", stepType := ReqGen.LinearStepType.execution, originalBlockId := some "block-0" }, { stepNumber := 11, depth := 1, sourceMethod := "M1.m", description := "M1.m() completes", stepType := ReqGen.LinearStepType.methodEnd, originalBlockId := none }, { stepNumber := 12, depth := 0, sourceMethod := "R.r", description := "↩️ M1.m() returns: leaf", stepType := ReqGen.LinearStepType.methodReturn, originalBlockId := none }, { stepNumber := 13, depth := 1, sourceMethod := "M2.m", description := "M2.m() starts", stepType := ReqGen.LinearStepType.methodStart, originalBlockId := none }, { stepNumber := 14, depth := 1, sourceMethod := "M2.m", description := "leaf", stepType := ReqGen.LinearStepType.execution, originalBlockId := some "block-0" }, { stepNumber := 15, depth := 1, sourceMethod := "M2.m", description := "M2.m() completes", stepType := ReqGen.LinearStepType.methodEnd, originalBlockId := none }, { stepNumber := 16, depth := 0, sourceMethod := "R.r", description := "↩️ M2.m() returns: leaf", stepType := ReqGen.LinearStepType.methodReturn, originalBlockId := none }], methodReferences := [("R.r", { className := "R", methodName := "r", language := "java", analysisStatus := "complete", executionBlocks := [{ blockId := "block-0", blockType := "methodcall", description := "r1", executionFlow := "No execution flow documented", methodCalls := [{ className := "M1", methodName := "m", parameters := "", stepInDecision := ReqGen.StepInDecision.stepInto, reasoning := "go", expectedBehavior := "To be analyzed", executionOrder := 0 }, { className := "M2", methodName := "m", parameters := "", stepInDecision := ReqGen.StepInDecision.stepInto, reasoning := "go", expectedBehavior := "To be analyzed", executionOrder := 1 }, { className := "M3", methodName := "m", parameters := "", stepInDecision := ReqGen.StepInDecision.stepInto, reasoning := "go", expectedBehavior := "To be analyzed", executionOrder := 2 }, { className := "M4", methodName := "m", parameters := "", stepInDecision := ReqGen.StepInDecision.stepInto, reasoning := "go", expectedBehavior := "To be analyzed", executionOrder := 3 }, { className := "M5", methodName := "m", parameters := "", stepInDecision := ReqGen.StepInDecision.stepInto, reasoning := "go", expectedBehavior := "To be analyzed", executionOrder := 4 }], nextBlocks := ["block-1"] }], methodCallSummary := { stepInto := [{ className := "M1", methodName := "m", parameters := "", stepInDecision := ReqGen.StepInDecision.stepInto, reasoning := "go", expectedBehavior := "To be analyzed", executionOrder := 0 }, { className := "M2", methodName := "m", parameters := "", stepInDecision := ReqGen.StepInDecision.stepInto, reasoning := "go", expectedBehavior := "To be analyzed", executionOrder := 1 }, { className := "M3", methodName := "m", parameters := "", stepInDecision := ReqGen.StepInDecision.stepInto, reasoning := "go", expectedBehavior := "To be analyzed", executionOrder := 2 }, { className := "M4", methodName := "m", parameters := "", stepInDecision := ReqGen.StepInDecision.stepInto, reasoning := "go", expectedBehavior := "To be analyzed", executionOrder := 3 }, { className := "M5", methodName := "m", parameters := "", stepInDecision := ReqGen.StepInDecision.stepInto, reasoning := "go", expectedBehavior := "To be analyzed", executionOrder := 4 }], objectLookup := [], external := [], notFound := [] }, analysisTimestamp := 0, contentHash := "md5:srcR", errorMessage := none, inheritedFrom := none }), ("M1.m", { className := "M1", methodName := "m", language := "java", analysisStatus := "complete", executionBlocks := [{ blockId := "block-0", blockType := "return", description := "leaf", executionFlow := "No execution flow documented", methodCalls := [], nextBlocks := ["block-1"] }], methodCallSummary := { stepInto := [], objectLookup := [], external := [], notFound := [] }, analysisTimestamp := 0, contentHash := "md5:srcM1", errorMessage := none, inheritedFrom := none }), ("M2.m", { className := "M2", methodName := "m", language := "java", analysisStatus := "complete", executionBlocks := [{ blockId := "block-0", blockType := "return", description := "leaf", executionFlow := "No execution flow documented", methodCalls := [], nextBlocks := ["block-1"] }], methodCallSummary := { stepInto := [], objectLookup := [], external := [], notFound := [] }, analysisTimestamp := 0, contentHash := "md5:srcM2", errorMessage := none, inheritedFrom := none }), ("M3.m", { className := "M3", methodName := "m", language := "unknown", analysisStatus := "partial", executionBlocks := [{ blockId := "placeholder-1", blockType := "methodCall", description := "Method analysis skipped: Maximum method count reached", executionFlow := "This method was not analyzed due to: Maximum method count reached", methodCalls := [], nextBlocks := [] }], methodCallSummary := { stepInto := [], objectLookup := [], external := [], notFound := [] }, analysisTimestamp := 0, contentHash := "", errorMessage := some "Maximum method count reached", inheritedFrom := none })], totalSteps := 16, rootMethod := "R.r" } }
def bu4Main : MethodAnalysis :=
{ className := "R", methodName := "r", language := "java", analysisStatus := "complete", executionBlocks := [{ blockId := "block-0", blockType := "methodcall", description := "r1", executionFlow := "No execution flow documented", methodCalls := [{ className := "M1", methodName := "m", parameters := "", stepInDecision := ReqGen.StepInDecision.stepInto, reasoning := "go", expectedBehavior := "leaf", executionOrder := 0 }, { className := "M2", methodName := "m", parameters := "", stepInDecision := ReqGen.StepInDecision.stepInto, reasoning := "go", expectedBehavior := "leaf", executionOrder := 1 }, { className := "M3", methodName := "m", parameters := "", stepInDecision := ReqGen.StepInDecision.stepInto, reasoning := "go", expectedBehavior := "Method analysis skipped: Maximum method count reached", executionOrder := 2 }, { className := "M4", methodName := "m", parameters := "", stepInDecision := ReqGen.StepInDecision.stepInto, reasoning := "go", expectedBehavior := "Method analysis skipped: Maximum method count reached", executionOrder := 3 }, { className := "M5", methodName := "m", parameters := "", stepInDecision := ReqGen.StepInDecision.stepInto, reasoning := "go", expectedBehavior := "To be analyzed", executionOrder := 4 }], nextBlocks := ["block-1"] }], methodCallSummary := { stepInto := [{ className := "M1", methodName := "m", parameters := "", stepInDecision := ReqGen.StepInDecision.stepInto, reasoning := "go", expectedBehavior := "To be analyzed", executionOrder := 0 }, { className := "M2", methodName := "m", parameters := "", stepInDecision := ReqGen.StepInDecision.stepInto, reasoning := "go", expectedBehavior := "To be analyzed", executionOrder := 1 }, { className := "M3", methodName := "m", parameters := "", stepInDecision := ReqGen.StepInDecision.stepInto, reasoning := "go", expectedBehavior := "To be analyzed", executionOrder := 2 }, { className := "M4", methodName := "m", parameters := "", stepInDecision := ReqGen.StepInDecision.stepInto, reasoning := "go", expectedBehavior := "To be analyzed", executionOrder := 3 }, { className := "M5", methodName := "m", parameters := "", stepInDecision := ReqGen.StepInDecision.stepInto, reasoning := "go", expectedBehavior := "To be analyzed", executionOrder := 4 }], objectLookup := [], external := [], notFound := [] }, analysisTimestamp := 0, contentHash := "md5:srcR", errorMessage := none, inheritedFrom := none }
def bu4F : Option LinearFlow :=
some { steps := [{ stepNumber := 1, depth := 0, sourceMethod := "R.r", description := "R.r() starts", stepType := ReqGen.LinearStepType.methodStart, originalBlockId := none }, { stepNumber := 2, depth := 0, sourceMethod := "R.r", description := "r1", stepType := ReqGen.LinearStepType.execution, originalBlockId := some "block-0" }, { stepNumber := 3, depth := 0, sourceMethod := "R.r", description := "Call M1.m()", stepType := ReqGen.LinearStepType.methodCall, originalBlockId := none }, { stepNumber := 4, depth := 0, sourceMethod := "R.r", description := "Call M2.m()", stepType := ReqGen.LinearStepType.methodCall, originalBlockId := none }, { stepNumber := 5, depth := 0, sourceMethod := "R.r", description := "Call M3.m()", stepType := ReqGen.LinearStepType.methodCall, originalBlockId := none }, { stepNumber := 6, depth := 0, sourceMethod := "R.r", description := "Call M4.m()", stepType := ReqGen.LinearStepType.methodCall, originalBlockId := none }, { stepNumber := 7, depth := 0, sourceMethod := "R.r", description := "Call M5.m()", stepType := ReqGen.LinearStepType.methodCall, originalBlockId := none }, { stepNumber := 8, depth := 0, sourceMethod := "R.r", description := "R.r() completes", stepType := ReqGen.LinearStepType.methodEnd, originalBlockId := none }, { stepNumber := 9, depth := 1, sourceMethod := "M1.m", description := "M1.m() starts", stepType := ReqGen.LinearStepType.methodStart, originalBlockId := none }, { stepNumber := 10, depth := 1, sourceMethod := "M1.m", description := "leaf", stepType := ReqGen.LinearStepType.execution, originalBlockId := some "block-0" }, { stepNumber := 11, depth := 1, sourceMethod := "M1.m", description := "M1.m() completes", stepType := ReqGen.LinearStepType.methodEnd, originalBlockId := none }, { stepNumber := 12, depth := 0, sourceMethod := "R.r", description := "↩️ M1.m() returns: leaf", stepType := ReqGen.LinearStepType.methodReturn, originalBlockId := none }, { stepNumber := 13, depth := 1, sourceMethod := "M2.m", description := "M2.m() starts", stepType := ReqGen.LinearStepType.methodStart, originalBlockId := none }, { stepNumber := 14, depth := 1, sourceMethod := "M2.m", description := "leaf", stepType := ReqGen.LinearStepType.execution, originalBlockId := some "block-0" }, { stepNumber := 15, depth := 1, sourceMethod := "M2.m", description := "M2.m() completes", stepType := ReqGen.LinearStepType.methodEnd, originalBlockId := none }, { stepNumber := 16, depth := 0, sourceMethod := "R.r", description := "↩️ M2.m() returns: leaf", stepType := ReqGen.LinearStepType.methodReturn, originalBlockId := none }], methodReferences := [("R.r", { className := "R", methodName := "r", language := "java", analysisStatus := "complete", executionBlocks := [{ blockId := "block-0", blockType := "methodcall", description := "r1", executionFlow := "No execution flow documented", methodCalls := [{ className := "M1", methodName := "m", parameters := "", stepInDecision := ReqGen.StepInDecision.stepInto, reasoning := "go", expectedBehavior := "To be analyzed", executionOrder := 0 }, { className := "M2", methodName := "m", parameters := "", stepInDecision := ReqGen.StepInDecision.stepInto, reasoning := "go", expectedBehavior := "To be analyzed", executionOrder := 1 }, { className := "M3", methodName := "m", parameters := "", stepInDecision := ReqGen.StepInDecision.stepInto, reasoning := "go", expectedBehavior := "To be analyzed", executionOrder := 2 }, { className := "M4", methodName := "m", parameters := "", stepInDecision := ReqGen.StepInDecision.stepInto, reasoning := "go", expectedBehavior := "To be analyzed", executionOrder := 3 }, { className := "M5", methodName := "m", parameters := "", stepInDecision := ReqGen.StepInDecision.stepInto, reasoning := "go", expectedBehavior := "To be analyzed", executionOrder := 4 }], nextBlocks := ["block-1"] }], methodCallSummary := { stepInto := [{ className := "M1", methodName := "m", parameters := "", stepInDecision := ReqGen.StepInDecision.stepInto, reasoning := "go", expectedBehavior := "To be analyzed", executionOrder := 0 }, { className := "M2", methodName := "m", parameters := "", stepInDecision := ReqGen.StepInDecision.stepInto, reasoning := "go", expectedBehavior := "To be analyzed", executionOrder := 1 }, { className := "M3", methodName := "m", parameters := "", stepInDecision := ReqGen.StepInDecision.stepInto, reasoning := "go", expectedBehavior := "To be analyzed", executionOrder := 2 }, { className := "M4", methodName := "m", parameters := "", stepInDecision := ReqGen.StepInDecision.stepInto, reasoning := "go", expectedBehavior := "To be analyzed", executionOrder := 3 }, { className := "M5", methodName := "m", parameters := "", stepInDecision := ReqGen.StepInDecision.stepInto, reasoning := "go", expectedBehavior := "To be analyzed", executionOrder := 4 }], objectLookup := [], external := [], notFound := [] }, analysisTimestamp := 0, contentHash := "md5:srcR", errorMessage := none, inheritedFrom := none }), ("M1.m", { className := "M1", methodName := "m", language := "java", analysisStatus := "complete", executionBlocks := [{ blockId := "block-0", blockType := "return", description := "leaf", executionFlow := "No execution flow documented", methodCalls := [], nextBlocks := ["block-1"] }], methodCallSummary := { stepInto := [], objectLookup := [], external := [], notFound := [] }, analysisTimestamp := 0, contentHash := "md5:srcM1", errorMessage := none, inheritedFrom := none }), ("M2.m", { className := "M2", methodName := "m", language := "java", analysisStatus := "complete", executionBlocks := [{ blockId := "block-0", blockType := "return", description := "leaf", executionFlow := "No execution flow documented", methodCalls := [], nextBlocks := ["block-1"] }], methodCallSummary := { stepInto := [], objectLookup := [], external := [], notFound := [] }, analysisTimestamp := 0, contentHash := "md5:srcM2", errorMessage := none, inheritedFrom := none }), ("M3.m", { className := "M3", methodName := "m", language := "unknown", analysisStatus := "partial", executionBlocks := [{ blockId := "placeholder-1", blockType := "methodCall", description := "Method analysis skipped: Maximum method count reached", executionFlow := "This method was not analyzed due to: Maximum method count reached", methodCalls := [], nextBlocks := [] }], methodCallSummary := { stepInto := [], objectLookup := [], external := [], notFound := [] }, analysisTimestamp := 0, contentHash := "", errorMessage := some "Maximum method count reached", inheritedFrom := none }), ("M4.m", { className := "M4", methodName := "m", language := "unknown", analysisStatus := "partial", executionBlocks := [{ blockId := "placeholder-1", blockType := "methodCall", description := "Method analysis skipped: Maximum method count reached", executionFlow := "This method was not analyzed due to: Maximum method count reached", methodCalls := [], nextBlocks := [] }], methodCallSummary := { stepInto := [], objectLookup := [], external := [], notFound := [] }, analysisTimestamp := 0, contentHash := "", errorMessage := some "Maximum method count reached", inheritedFrom := none })], totalSteps := 16, rootMethod := "R.r" }
def bu4Next : AState :=
{ now := 0, mem := [("R#r", { key := "R#r", analysis := { className := "R", methodName := "r", language := "java", analysisStatus := "complete", executionBlocks := [{ blockId := "block-0", blockType := "methodcall", description := "r1", executionFlow := "No execution flow documented", methodCalls := [{ className := "M1", methodName := "m", parameters := "", stepInDecision := ReqGen.StepInDecision.stepInto, reasoning := "go", expectedBehavior := "To be analyzed", executionOrder := 0 }, { className := "M2", methodName := "m", parameters := "", stepInDecision := ReqGen.StepInDecision.stepInto, reasoning := "go", expectedBehavior := "To be analyzed", executionOrder := 1 }, { className := "M3", methodName := "m", parameters := "", stepInDecision := ReqGen.StepInDecision.stepInto, reasoning := "go", expectedBehavior := "To be analyzed", executionOrder := 2 }, { className := "M4", methodName := "m", parameters := "", stepInDecision := ReqGen.StepInDecision.stepInto, reasoning := "go", expectedBehavior := "To be analyzed", executionOrder := 3 }, { className := "M5", methodName := "m", parameters := "", stepInDecision := ReqGen.StepInDecision.stepInto, reasoning := "go", expectedBehavior := "To be analyzed", executionOrder := 4 }], nextBlocks := ["block-1"] }], methodCallSummary := { stepInto := [{ className := "M1", methodName := "m", parameters := "", stepInDecision := ReqGen.StepInDecision.stepInto, reasoning := "go", expectedBehavior := "To be analyzed", executionOrder := 0 }, { className := "M2", methodName := "m", parameters := "", stepInDecision := ReqGen.StepInDecision.stepInto, reasoning := "go", expectedBehavior := "To be analyzed", executionOrder := 1 }, { className := "M3", methodName := "m", parameters := "", stepInDecision := ReqGen.StepInDecision.stepInto, reasoning := "go", expectedBehavior := "To be analyzed", executionOrder := 2 }, { className := "M4", methodName := "m", parameters := "", stepInDecision := ReqGen.StepInDecision.stepInto, reasoning := "go", expectedBehavior := "To be analyzed", executionOrder := 3 }, { className := "M5", methodName := "m", parameters := "", stepInDecision := ReqGen.StepInDecision.stepInto, reasoning := "go", expectedBehavior := "To be analyzed", executionOrder := 4 }], objectLookup := [], external := [], notFound := [] }, analysisTimestamp := 0, contentHash := "md5:srcR", errorMessage := none, inheritedFrom := none }, timestamp := 0, accessCount := 0, contentHash := "md5:srcR" }), ("M1#m", { key := "M1#m", analysis := { className := "M1", methodName := "m", language := "java", analysisStatus := "complete", executionBlocks := [{ blockId := "block-0", blockType := "return", description := "leaf", executionFlow := "No execution flow documented", methodCalls := [], nextBlocks := ["block-1"] }], methodCallSummary := { stepInto := [], objectLookup := [], external := [], notFound := [] }, analysisTimestamp := 0, contentHash := "md5:srcM1", errorMessage := none, inheritedFrom := none }, timestamp := 0, accessCount := 0, contentHash := "md5:srcM1" }), ("M2#m", { key := "M2#m", analysis := { className := "M2", methodName := "m", language := "java", analysisStatus := "complete", executionBlocks := [{ blockId := "block-0", blockType := "return", description := "leaf", executionFlow := "No execution flow documented", methodCalls := [], nextBlocks := ["block-1"] }], methodCallSummary := { stepInto := [], objectLookup := [], external := [], notFound := [] }, analysisTimestamp := 0, contentHash := "md5:srcM2", errorMessage := none, inheritedFrom := none }, timestamp := 0, accessCount := 0, contentHash := "md5:srcM2" })], stats := { hitCount := 0, missCount := 3, evictionCount := 0 }, pc := [], selectedModel := some "gpt", oracleLog := [("R", "r"), ("M1", "m"), ("M2", "m")], visited := ["R#r", "M1#m", "M2#m"], totalAnalyzed := 3, callStack := [{ className := "R", methodName := "r", depth := 0, isConditional := false }], flow := some { steps := [{ stepNumber := 1, depth := 0, sourceMethod := "R.r", description := "R.r() starts", stepType := ReqGen.LinearStepType.methodStart, originalBlockId := none }, { stepNumber := 2, depth := 0, sourceMethod := "R.r", description := "r1", stepType := ReqGen.LinearStepType.execution, originalBlockId := some "block-0" }, { stepNumber := 3, depth := 0, sourceMethod := "R.r", description := "Call M1.m()", stepType := ReqGen.LinearStepType.methodCall, originalBlockId := none }, { stepNumber := 4, depth := 0, sourceMethod := "R.r", description := "Call M2.m()", stepType := ReqGen.LinearStepType.methodCall, originalBlockId := none }, { stepNumber := 5, depth := 0, sourceMethod := "R.r", description := "Call M3.m()", stepType := ReqGen.LinearStepType.methodCall, originalBlockId := none }, { stepNumber := 6, depth := 0, sourceMethod := "R.r", description := "Call M4.m()", stepType := ReqGen.LinearStepType.methodCall, originalBlockId := none }, { stepNumber := 7, depth := 0, sourceMethod := "R.r", description := "Call M5.m()", stepType := ReqGen.LinearStepType.methodCall, originalBlockId := none }, { stepNumber := 8, depth := 0, sourceMethod := "R.r", description := "R.r() completes", stepType := ReqGen.LinearStepType.methodEnd, originalBlockId := none }, { stepNumber := 9, depth := 1, sourceMethod := "M1.m", description := "M1.m() starts", stepType := ReqGen.LinearStepType.methodStart, originalBlockId := none }, { stepNumber := 10, depth := 1, sourceMethod := "M1.m", description := "leaf", stepType := ReqGen.LinearStepType.execution, originalBlockId := some "block-0" }, { stepNumber := 11, depth := 1, sourceMethod := "M1.m", description := "M1.m() completes", stepType := ReqGen.LinearStepType.methodEnd, originalBlockId := none }, { stepNumber := 12, depth := 0, sourceMethod := "R.r", description := "↩️ M1.m() returns: leaf", stepType := ReqGen.LinearStepType.methodReturn, originalBlockId := none }, { stepNumber := 13, depth := 1, sourceMethod := "M2.m", description := "M2.m() starts", stepType := ReqGen.LinearStepType.methodStart, originalBlockId := none }, { stepNumber := 14, depth := 1, sourceMethod := "M2.m", description := "leaf", stepType := ReqGen.LinearStepType.execution, originalBlockId := some "block-0" }, { stepNumber := 15, depth := 1, sourceMethod := "M2.m", description := "M2.m() completes", stepType := ReqGen.LinearStepType.methodEnd, originalBlockId := none }, { stepNumber := 16, depth := 0, sourceMethod := "R.r", description := "↩️ M2.m() returns: leaf", stepType := ReqGen.LinearStepType.methodReturn, originalBlockId := none }], methodReferences := [("R.r", { className := "R", methodName := "r", language := "java", analysisStatus := "complete", executionBlocks := [{ blockId := "block-0", blockType := "methodcall", description := "r1", executionFlow := "No execution flow documented", methodCalls := [{ className := "M1", methodName := "m", parameters := "", stepInDecision := ReqGen.StepInDecision.stepInto, reasoning := "go", expectedBehavior := "To be analyzed", executionOrder := 0 }, { className := "M2", methodName := "m", parameters := "", stepInDecision := ReqGen.StepInDecision.stepInto, reasoning := "go", expectedBehavior := "To be analyzed", executionOrder := 1 }, { className := "M3", methodName := "m", parameters := "", stepInDecision := ReqGen.StepInDecision.stepInto, reasoning := "go", expectedBehavior := "To be analyzed", executionOrder := 2 }, { className := "M4", methodName := "m", parameters := "", stepInDecision := ReqGen.StepInDecision.stepInto, reasoning := "go", expectedBehavior := "To be analyzed", executionOrder := 3 }, { className := "M5", methodName := "m", parameters := "", stepInDecision := ReqGen.StepInDecision.stepInto, reasoning := "go", expectedBehavior := "To be analyzed", executionOrder := 4 }], nextBlocks := ["block-1"] }], methodCallSummary := { stepInto := [{ className := "M1", methodName := "m", parameters := "", stepInDecision := ReqGen.StepInDecision.stepInto, reasoning := "go", expectedBehavior := "To be analyzed", executionOrder := 0 }, { className := "M2", methodName := "m", parameters := "", stepInDecision := ReqGen.StepInDecision.stepInto, reasoning := "go", expectedBehavior := "To be analyzed", executionOrder := 1 }, { className := "M3", methodName := "m", parameters := "", stepInDecision := ReqGen.StepInDecision.stepInto, reasoning := "go", expectedBehavior := "To be analyzed", executionOrder := 2 }, { className := "M4", methodName := "m", parameters := "", stepInDecision := ReqGen.StepInDecision.stepInto, reasoning := "go", expectedBehavior := "To be analyzed", executionOrder := 3 }, { className := "M5", methodName := "m", parameters := "", stepInDecision := ReqGen.StepInDecision.stepInto, reasoning := "go", expectedBehavior := "To be analyzed", executionOrder := 4 }], objectLookup := [], external := [], notFound := [] }, analysisTimestamp := 0, contentHash := "md5:srcR", errorMessage := none, inheritedFrom := none }), ("M1.m", { className := "M1", methodName := "m", language := "java", analysisStatus := "complete", executionBlocks := [{ blockId := "block-0", blockType := "return", description := "leaf", executionFlow := "No execution flow documented", methodCalls := [], nextBlocks := ["block-1"] }], methodCallSummary := { stepInto := [], objectLookup := [], external := [], notFound := [] }, analysisTimestamp := 0, contentHash := "md5:srcM1", errorMessage := none, inheritedFrom := none }), ("M2.m", { className := "M2", methodName := "m", language := "java", analysisStatus := "complete", executionBlocks := [{ blockId := "block-0", blockType := "return", description := "leaf", executionFlow := "No execution flow documented", methodCalls := [], nextBlocks := ["block-1"] }], methodCallSummary := { stepInto := [], objectLookup := [], external := [], notFound := [] }, analysisTimestamp := 0, contentHash := "md5:srcM2", errorMessage := none, inheritedFrom := none }), ("M3.m", { className := "M3", methodName := "m", language := "unknown", analysisStatus := "partial", executionBlocks := [{ blockId := "placeholder-1", blockType := "methodCall", description := "Method analysis skipped: Maximum method count reached", executionFlow := "This method was not analyzed due to: Maximum method count reached", methodCalls := [], nextBlocks := [] }], methodCallSummary := { stepInto := [], objectLookup := [], external := [], notFound := [] }, analysisTimestamp := 0, contentHash := "", errorMessage := some "Maximum method count reached", inheritedFrom := none }), ("M4.m", { className := "M4", methodName := "m", language := "unknown", analysisStatus := "partial", executionBlocks := [{ blockId := "placeholder-1", blockType := "methodCall", description := "Method analysis skipped: Maximum method count reached", executionFlow := "This method was not analyzed due to: Maximum method count reached", methodCalls := [], nextBlocks := [] }], methodCallSummary := { stepInto := [], objectLookup := [], external := [], notFound := [] }, analysisTimestamp := 0, contentHash := "", errorMessage := some "Maximum method count reached", inheritedFrom := none })], totalSteps := 16, rootMethod := "R.r" } }
def bu5InnerA : MethodAnalysis :=
{ className := "M5", methodName := "m", language := "unknown", analysisStatus := "partial", executionBlocks := [{ blockId := "placeholder-1", blockType := "methodCall", description := "Method analysis skipped: Maximum method count reached", executionFlow := "This method was not analyzed due to: Maximum method count reached", methodCalls := [], nextBlocks := [] }], methodCallSummary := { stepInto := [], objectLookup := [], external := [], notFound := [] }, analysisTimestamp := 0, contentHash := "", errorMessage := some "Maximum method count reached", inheritedFrom := none }
def bu5InnerS : AState :=
{ now := 0, mem := [("R#r", { key := "R#r", analysis := { className := "R", methodName := "r", language := "java", analysisStatus := "complete", executionBlocks := [{ blockId := "block-0", blockType := "methodcall", description := "r1", executionFlow := "No execution flow documented", methodCalls := [{ className := "M1", methodName := "m", parameters := "", stepInDecision := ReqGen.StepInDecision.stepInto, reasoning := "go", expectedBehavior := "To be analyzed", executionOrder := 0 }, { className := "M2", methodName := "m", parameters := "", stepInDecision := ReqGen.StepInDecision.stepInto, reasoning := "go", expectedBehavior := "To be analyzed", executionOrder := 1 }, { className := "M3", methodName := "m", parameters := "", stepInDecision := ReqGen.StepInDecision.stepInto, reasoning := "go", expectedBehavior := "To be analyzed", executionOrder := 2 }, { className := "M4", methodName := "m", parameters := "", stepInDecision := ReqGen.StepInDecision.stepInto, reasoning := "go", expectedBehavior := "To be analyzed", executionOrder := 3 }, { className := "M5", methodName := "m", parameters := "", stepInDecision := ReqGen.StepInDecision.stepInto, reasoning := "go", expectedBehavior := "To be analyzed", executionOrder := 4 }], nextBlocks := ["block-1"] }], methodCallSummary := { stepInto := [{ className := "M1", methodName := "m", parameters := "", stepInDecision := ReqGen.StepInDecision.stepInto, reasoning := "go", expectedBehavior := "To be analyzed", executionOrder := 0 }, { className := "M2", methodName := "m", parameters := "", stepInDecision := ReqGen.StepInDecision.stepInto, reasoning := "go", expectedBehavior := "To be analyzed", executionOrder := 1 }, { className := "M3", methodName := "m", parameters := "", stepInDecision := ReqGen.StepInDecision.stepInto, reasoning := "go", expectedBehavior := "To be analyzed", executionOrder := 2 }, { className := "M4", methodName := "m", parameters := "", stepInDecision := ReqGen.StepInDecision.stepInto, reasoning := "go", expectedBehavior := "To be analyzed", executionOrder := 3 }, { className := "M5", methodName := "m", parameters := "", stepInDecision := ReqGen.StepInDecision.stepInto, reasoning := "go", expectedBehavior := "To be analyzed", executionOrder := 4 }], objectLookup := [], external := [], notFound := [] }, analysisTimestamp := 0, contentHash := "md5:srcR", errorMessage := none, inheritedFrom := none }, timestamp := 0, accessCount := 0, contentHash := "md5:srcR" }), ("M1#m", { key := "M1#m", analysis := { className := "M1", methodName := "m", language := "java", analysisStatus := "complete", executionBlocks := [{ blockId := "block-0", blockType := "return", description := "leaf", executionFlow := "No execution flow documented", methodCalls := [], nextBlocks := ["block-1"] }], methodCallSummary := { stepInto := [], objectLookup := [], external := [], notFound := [] }, analysisTimestamp := 0, contentHash := "md5:srcM1", errorMessage := none, inheritedFrom := none }, timestamp := 0, accessCount := 0, contentHash := "md5:srcM1" }), ("M2#m", { key := "M2#m", analysis := { className := "M2", methodName := "m", language := "java", analysisStatus := "complete", executionBlocks := [{ blockId := "block-0", blockType := "return", description := "leaf", executionFlow := "No execution flow documented", methodCalls := [], nextBlocks := ["block-1"] }], methodCallSummary := { stepInto := [], objectLookup := [], external := [], notFound := [] }, analysisTimestamp := 0, contentHash := "md5:srcM2", errorMessage := none, inheritedFrom := none }, timestamp := 0, accessCount := 0, contentHash := "md5:srcM2" })], stats := { hitCount := 0, missCount := 3, evictionCount := 0 }, pc := [], selectedModel := some "gpt", oracleLog := [("R", "r"), ("M1", "m"), ("M2", "m")], visited := ["R#r", "M1#m", "M2#m"], totalAnalyzed := 3, callStack := [{ className := "R", methodName := "r", depth := 0, isConditional := false }], flow := some { steps := [{ stepNumber := 1, depth := 0, sourceMethod := "R.r", description := "R.r() starts", stepType := ReqGen.LinearStepType.methodStart, originalBlockId := none }, { stepNumber := 2, depth := 0, sourceMethod := "R.r", description := "r1", stepType := ReqGen.LinearStepType.execution, originalBlockId := some "block-0" }, { stepNumber := 3, depth := 0, sourceMethod := "R.r", description := "Call M1.m()", stepType := ReqGen.LinearStepType.methodCall, originalBlockId := none }, { stepNumber := 4, depth := 0, sourceMethod := "R.r", description := "Call M2.m()", stepType := ReqGen.LinearStepType.methodCall, originalBlockId := none }, { stepNumber := 5, depth := 0, sourceMethod := "R.r", description := "Call M3.m()", stepType := ReqGen.LinearStepType.methodCall, originalBlockId := none }, { stepNumber := 6, depth := 0, sourceMethod := "R.r", description := "Call M4.m()", stepType := ReqGen.LinearStepType.methodCall, originalBlockId := none }, { stepNumber := 7, depth := 0, sourceMethod := "R.r", description := "Call M5.m()", stepType := ReqGen.LinearStepType.methodCall, originalBlockId := none }, { stepNumber := 8, depth := 0, sourceMethod := "R.r", description := "R.r() completes", stepType := ReqGen.LinearStepType.methodEnd, originalBlockId := none }, { stepNumber := 9, depth := 1, sourceMethod := "M1.m", description := "M1.m() starts", stepType := ReqGen.LinearStepType.methodStart, originalBlockId := none }, { stepNumber := 10, depth := 1, sourceMethod := "M1.m", description := "leaf", stepType := ReqGen.LinearStepType.execution, originalBlockId := some "block-0" }, { stepNumber := 11, depth := 1, sourceMethod := "M1.m", description := "M1.m() completes", stepType := ReqGen.LinearStepType.methodEnd, originalBlockId := none }, { stepNumber := 12, depth := 0, sourceMethod := "R.r", description := "↩️ M1.m() returns: leaf", stepType := ReqGen.LinearStepType.methodReturn, originalBlockId := none }, { stepNumber := 13, depth := 1, sourceMethod := "M2.m", description := "M2.m() starts", stepType := ReqGen.LinearStepType.methodStart, originalBlockId := none }, { stepNumber := 14, depth := 1, sourceMethod := "M2.m", description := "leaf", stepType := ReqGen.LinearStepType.execution, originalBlockId := some "block-0" }, { stepNumber := 15, depth := 1, sourceMethod := "M2.m", description := "M2.m() completes", stepType := ReqGen.LinearStepType.methodEnd, originalBlockId := none }, { stepNumber := 16, depth := 0, sourceMethod := "R.r", description := "↩️ M2.m() returns: leaf", stepType := ReqGen.LinearStepType.methodReturn, originalBlockId := none }], methodReferences := [("R.r", { className := "R", methodName := "r", language := "java", analysisStatus := "complete", executionBlocks := [{ blockId := "block-0", blockType := "methodcall", description := "r1", executionFlow := "No execution flow documented", methodCalls := [{ className := "M1", methodName := "m", parameters := "", stepInDecision := ReqGen.StepInDecision.stepInto, reasoning := "go", expectedBehavior := "To be analyzed", executionOrder := 0 }, { className := "M2", methodName := "m", parameters := "", stepInDecision := ReqGen.StepInDecision.stepInto, reasoning := "go", expectedBehavior := "To be analyzed", executionOrder := 1 }, { className := "M3", methodName := "m", parameters := "", stepInDecision := ReqGen.StepInDecision.stepInto, reasoning := "go", expectedBehavior := "To be analyzed", executionOrder := 2 }, { className := "M4", methodName := "m", parameters := "", stepInDecision := ReqGen.StepInDecision.stepInto, reasoning := "go", expectedBehavior := "To be analyzed", executionOrder := 3 }, { className := "M5", methodName := "m", parameters := "", stepInDecision := ReqGen.StepInDecision.stepInto, reasoning := "go", expectedBehavior := "To be analyzed", executionOrder := 4 }], nextBlocks := ["block-1"] }], methodCallSummary := { stepInto := [{ className := "M1", methodName := "m", parameters := "", stepInDecision := ReqGen.StepInDecision.stepInto, reasoning := "go", expectedBehavior := "To be analyzed", executionOrder := 0 }, { className := "M2", methodName := "m", parameters := "", stepInDecision := ReqGen.StepInDecision.stepInto, reasoning := "go", expectedBehavior := "To be analyzed", executionOrder := 1 }, { className := "M3", methodName := "m", parameters := "", stepInDecision := ReqGen.StepInDecision.stepInto, reasoning := "go", expectedBehavior := "To be analyzed", executionOrder := 2 }, { className := "M4", methodName := "m", parameters := "", stepInDecision := ReqGen.StepInDecision.stepInto, reasoning := "go", expectedBehavior := "To be analyzed", executionOrder := 3 }, { className := "M5", methodName := "m", parameters := "", stepInDecision := ReqGen.StepInDecision.stepInto, reasoning := "go", expectedBehavior := "To be analyzed", executionOrder := 4 }], objectLookup := [], external := [], notFound := [] }, analysisTimestamp := 0, contentHash := "md5:srcR", errorMessage := none, inheritedFrom := none }), ("M1.m", { className := "M1", methodName := "m", language := "java", analysisStatus := "complete", executionBlocks := [{ blockId := "block-0", blockType := "return", description := "leaf", executionFlow := "No execution flow documented", methodCalls := [], nextBlocks := ["block-1"] }], methodCallSummary := { stepInto := [], objectLookup := [], external := [], notFound := [] }, analysisTimestamp := 0, contentHash := "md5:srcM1", errorMessage := none, inheritedFrom := none }), ("M2.m", { className := "M2", methodName := "m", language := "java", analysisStatus := "complete", executionBlocks := [{ blockId := "block-0", blockType := "return", description := "leaf", executionFlow := "No execution flow documented", methodCalls := [], nextBlocks := ["block-1"] }], methodCallSummary := { stepInto := [], objectLookup := [], external := [], notFound := [] }, analysisTimestamp := 0, contentHash := "md5:srcM2", errorMessage := none, inheritedFrom := none }), ("M3.m", { className := "M3", methodName := "m", language := "unknown", analysisStatus := "partial", executionBlocks := [{ blockId := "placeholder-1", blockType := "methodCall", description := "Method analysis skipped: Maximum method count reached", executionFlow := "This method was not analyzed due to: Maximum method count reached", methodCalls := [], nextBlocks := [] }], methodCallSummary := { stepInto := [], objectLookup := [], external := [], notFound := [] }, analysisTimestamp := 0, contentHash := "", errorMessage := some "Maximum method count reached", inheritedFrom := none }), ("M4.m", { className := "M4", methodName := "m", language := "unknown", analysisStatus := "partial", executionBlocks := [{ blockId := "placeholder-1", blockType := "methodCall", description := "Method analysis skipped: Maximum method count reached", executionFlow := "This method was not analyzed due to: Maximum method count reached", methodCalls := [], nextBlocks := [] }], methodCallSummary := { stepInto := [], objectLookup := [], external := [], notFound := [] }, analysisTimestamp := 0, contentHash := "", errorMessage := some "Maximum method count reached", inheritedFrom := none })], totalSteps := 16, rootMethod := "R.r" } }
def bu5Ret : AState :=
{ now := 0, mem := [("R#r", { key := "R#r", analysis := { className := "R", methodName := "r", language := "java", analysisStatus := "complete", executionBlocks := [{ blockId := "block-0", blockType := "methodcall", description := "r1", executionFlow := "No execution flow documented", methodCalls := [{ className := "M1", methodName := "m", parameters := "", stepInDecision := ReqGen.StepInDecision.stepInto, reasoning := "go", expectedBehavior := "To be analyzed", executionOrder := 0 }, { className := "M2", methodName := "m", parameters := "", stepInDecision := ReqGen.StepInDecision.stepInto, reasoning := "go", expectedBehavior := "To be analyzed", executionOrder := 1 }, { className := "M3", methodName := "m", parameters := "", stepInDecision := ReqGen.StepInDecision.stepInto, reasoning := "go", expectedBehavior := "To be analyzed", executionOrder := 2 }, { className := "M4", methodName := "m", parameters := "", stepInDecision := ReqGen.StepInDecision.stepInto, reasoning := "go", expectedBehavior := "To be analyzed", executionOrder := 3 }, { className := "M5", methodName := "m", parameters := "", stepInDecision := ReqGen.StepInDecision.stepInto, reasoning := "go", expectedBehavior := "To be analyzed", executionOrder := 4 }], nextBlocks := ["block-1"] }], methodCallSummary := { stepInto := [{ className := "M1", methodName := "m", parameters := "", stepInDecision := ReqGen.StepInDecision.stepInto, reasoning := "go", expectedBehavior := "To be analyzed", executionOrder := 0 }, { className := "M2", methodName := "m", parameters := "", stepInDecision := ReqGen.StepInDecision.stepInto, reasoning := "go", expectedBehavior := "To be analyzed", executionOrder := 1 }, { className := "M3", methodName := "m", parameters := "", stepInDecision := ReqGen.StepInDecision.stepInto, reasoning := "go", expectedBehavior := "To be analyzed", executionOrder := 2 }, { className := "M4", methodName := "m", parameters := "", stepInDecision := ReqGen.StepInDecision.stepInto, reasoning := "go", expectedBehavior := "To be analyzed", executionOrder := 3 }, { className := "M5", methodName := "m", parameters := "", stepInDecision := ReqGen.StepInDecision.stepInto, reasoning := "go", expectedBehavior := "To be analyzed", executionOrder := 4 }], objectLookup := [], external := [], notFound := [] }, analysisTimestamp := 0, contentHash := "md5:srcR", errorMessage := none, inheritedFrom := none }, timestamp := 0, accessCount := 0, contentHash := "md5:srcR" }), ("M1#m", { key := "M1#m", analysis := { className := "M1", methodName := "m", language := "java", analysisStatus := "complete", executionBlocks := [{ blockId := "block-0", blockType := "return", description := "leaf", executionFlow := "No execution flow documented", methodCalls := [], nextBlocks := ["block-1"] }], methodCallSummary := { stepInto := [], objectLookup := [], external := [], notFound := [] }, analysisTimestamp := 0, contentHash := "md5:srcM1", errorMessage := none, inheritedFrom := none }, timestamp := 0, accessCount := 0, contentHash := "md5:srcM1" }), ("M2#m", { key := "M2#m", analysis := { className := "M2", methodName := "m", language := "java", analysisStatus := "complete", executionBlocks := [{ blockId := "block-0", blockType := "return", description := "leaf", executionFlow := "No execution flow documented", methodCalls := [], nextBlocks := ["block-1"] }], methodCallSummary := { stepInto := [], objectLookup := [], external := [], notFound := [] }, analysisTimestamp := 0, contentHash := "md5:srcM2", errorMessage := none, inheritedFrom := none }, timestamp := 0, accessCount := 0, contentHash := "md5:srcM2" })], stats := { hitCount := 0, missCount := 3, evictionCount := 0 }, pc := [], selectedModel := some "gpt", oracleLog := [("R", "r"), ("M1", "m"), ("M2", "m")], visited := ["R#r", "M1#m", "M2#m"], totalAnalyzed := 3, callStack := [{ className := "R", methodName := "r", depth := 0, isConditional := false }], flow := some { steps := [{ stepNumber := 1, depth := 0, sourceMethod := "R.r", description := "R.r() starts", stepType := ReqGen.LinearStepType.methodStart, originalBlockId := none }, { stepNumber := 2, depth := 0, sourceMethod := "R.r", description := "r1", stepType := ReqGen.LinearStepType.execution, originalBlockId := some "block-0" }, { stepNumber := 3, depth := 0, sourceMethod := "R.r", description := "Call M1.m()", stepType := ReqGen.LinearStepType.methodCall, originalBlockId := none }, { stepNumber := 4, depth := 0, sourceMethod := "R.r", description := "Call M2.m()", stepType := ReqGen.LinearStepType.methodCall, originalBlockId := none }, { stepNumber := 5, depth := 0, sourceMethod := "R.r", description := "Call M3.m()", stepType := ReqGen.LinearStepType.methodCall, originalBlockId := none }, { stepNumber := 6, depth := 0, sourceMethod := "R.r", description := "Call M4.m()", stepType := ReqGen.LinearStepType.methodCall, originalBlockId := none }, { stepNumber := 7, depth := 0, sourceMethod := "R.r", description := "Call M5.m()", stepType := ReqGen.LinearStepType.methodCall, originalBlockId := none }, { stepNumber := 8, depth := 0, sourceMethod := "R.r", description := "R.r() completes", stepType := ReqGen.LinearStepType.methodEnd, originalBlockId := none }, { stepNumber := 9, depth := 1, sourceMethod := "M1.m", description := "M1.m() starts", stepType := ReqGen.LinearStepType.methodStart, originalBlockId := none }, { stepNumber := 10, depth := 1, sourceMethod := "M1.m", description := "leaf", stepType := ReqGen.LinearStepType.execution, originalBlockId := some "block-0" }, { stepNumber := 11, depth := 1, sourceMethod := "M1.m", description := "M1.m() completes", stepType := ReqGen.LinearStepType.methodEnd, originalBlockId := none }, { stepNumber := 12, depth := 0, sourceMethod := "R.r", description := "↩️ M1.m() returns: leaf", stepType := ReqGen.LinearStepType.methodReturn, originalBlockId := none }, { stepNumber := 13, depth := 1, sourceMethod := "M2.m", description := "M2.m() starts", stepType := ReqGen.LinearStepType.methodStart, originalBlockId := none }, { stepNumber := 14, depth := 1, sourceMethod := "M2.m", description := "leaf", stepType := ReqGen.LinearStepType.execution, originalBlockId := some "block-0" }, { stepNumber := 15, depth := 1, sourceMethod := "M2.m", description := "M2.m() completes", stepType := ReqGen.LinearStepType.methodEnd, originalBlockId := none }, { stepNumber := 16, depth := 0, sourceMethod := "R.r", description := "↩️ M2.m() returns: leaf", stepType := ReqGen.LinearStepType.methodReturn, originalBlockId := none }], methodReferences := [("R.r", { className := "R", methodName := "r", language := "java", analysisStatus := "complete", executionBlocks := [{ blockId := "block-0", blockType := "methodcall", description := "r1", executionFlow := "No execution flow documented", methodCalls := [{ className := "M1", methodName := "m", parameters := "", stepInDecision := ReqGen.StepInDecision.stepInto, reasoning := "go", expectedBehavior := "To be analyzed", executionOrder := 0 }, { className := "M2", methodName := "m", parameters := "", stepInDecision := ReqGen.StepInDecision.stepInto, reasoning := "go", expectedBehavior := "To be analyzed", executionOrder := 1 }, { className := "M3", methodName := "m", parameters := "", stepInDecision := ReqGen.StepInDecision.stepInto, reasoning := "go", expectedBehavior := "To be analyzed", executionOrder := 2 }, { className := "M4", methodName := "m", parameters := "", stepInDecision := ReqGen.StepInDecision.stepInto, reasoning := "go", expectedBehavior := "To be analyzed", executionOrder := 3 }, { className := "M5", methodName := "m", parameters := "", stepInDecision := ReqGen.StepInDecision.stepInto, reasoning := "go", expectedBehavior := "To be analyzed", executionOrder := 4 }], nextBlocks := ["block-1"] }], methodCallSummary := { stepInto := [{ className := "M1", methodName := "m", parameters := "", stepInDecision := ReqGen.StepInDecision.stepInto, reasoning := "go", expectedBehavior := "To be analyzed", executionOrder := 0 }, { className := "M2", methodName := "m", parameters := "", stepInDecision := ReqGen.StepInDecision.stepInto, reasoning := "go", expectedBehavior := "To be analyzed", executionOrder := 1 }, { className := "M3", methodName := "m", parameters := "", stepInDecision := ReqGen.StepInDecision.stepInto, reasoning := "go", expectedBehavior := "To be analyzed", executionOrder := 2 }, { className := "M4", methodName := "m", parameters := "", stepInDecision := ReqGen.StepInDecision.stepInto, reasoning := "go", expectedBehavior := "To be analyzed", executionOrder := 3 }, { className := "M5", methodName := "m", parameters := "", stepInDecision := ReqGen.StepInDecision.stepInto, reasoning := "go", expectedBehavior := "To be analyzed", executionOrder := 4 }], objectLookup := [], external := [], notFound := [] }, analysisTimestamp := 0, contentHash := "md5:srcR", errorMessage := none, inheritedFrom := none }), ("M1.m", { className := "M1", methodName := "m", language := "java", analysisStatus := "complete", executionBlocks := [{ blockId := "block-0", blockType := "return", description := "leaf", executionFlow := "No execution flow documented", methodCalls := [], nextBlocks := ["block-1"] }], methodCallSummary := { stepInto := [], objectLookup := [], external := [], notFound := [] }, analysisTimestamp := 0, contentHash := "md5:srcM1", errorMessage := none, inheritedFrom := none }), ("M2.m", { className := "M2", methodName := "m", language := "java", analysisStatus := "complete", executionBlocks := [{ blockId := "block-0", blockType := "return", description := "leaf", executionFlow := "No execution flow documented", methodCalls := [], nextBlocks := ["block-1"] }], methodCallSummary := { stepInto := [], objectLookup := [], external := [], notFound := [] }, analysisTimestamp := 0, contentHash := "md5:srcM2", errorMessage := none, inheritedFrom := none }), ("M3.m", { className := "M3", methodName := "m", language := "unknown", analysisStatus := "partial", executionBlocks := [{ blockId := "placeholder-1", blockType := "methodCall", description := "Method analysis skipped: Maximum method count reached", executionFlow := "This method was not analyzed due to: Maximum method count reached", methodCalls := [], nextBlocks := [] }], methodCallSummary := { stepInto := [], objectLookup := [], external := [], notFound := [] }, analysisTimestamp := 0, contentHash := "", errorMessage := some "Maximum method count reached", inheritedFrom := none }), ("M4.m", { className := "M4", methodName := "m", language := "unknown", analysisStatus := "partial", executionBlocks := [{ blockId := "placeholder-1", blockType := "methodCall", description := "Method analysis skipped: Maximum method count reached", executionFlow := "This method was not analyzed due to: Maximum method count reached", methodCalls := [], nextBlocks := [] }], methodCallSummary := { stepInto := [], objectLookup := [], external := [], notFound := [] }, analysisTimestamp := 0, contentHash := "", errorMessage := some "Maximum method count reached", inheritedFrom := none })], totalSteps := 16, rootMethod := "R.r" } }
def bu5Main : MethodAnalysis :=
{ className := "R", methodName := "r", language := "java", analysisStatus := "complete", executionBlocks := [{ blockId := "block-0", blockType := "methodcall", description := "r1", executionFlow := "No execution flow documented", methodCalls := [{ className := "M1", methodName := "m", parameters := "", stepInDecision := ReqGen.StepInDecision.stepInto, reasoning := "go", expectedBehavior := "leaf", executionOrder := 0 }, { className := "M2", methodName := "m", parameters := "", stepInDecision := ReqGen.StepInDecision.stepInto, reasoning := "go", expectedBehavior := "leaf", executionOrder := 1 }, { className := "M3", methodName := "m", parameters := "", stepInDecision := ReqGen.StepInDecision.stepInto, reasoning := "go", expectedBehavior := "Method analysis skipped: Maximum method count reached", executionOrder := 2 }, { className := "M4", methodName := "m", parameters := "", stepInDecision := ReqGen.StepInDecision.stepInto, reasoning := "go", expectedBehavior := "Method analysis skipped: Maximum method count reached", executionOrder := 3 }, { className := "M5", methodName := "m", parameters := "", stepInDecision := ReqGen.StepInDecision.stepInto, reasoning := "go", expectedBehavior := "Method analysis skipped: Maximum method count reached", executionOrder := 4 }], nextBlocks := ["block-1"] }], methodCallSummary := { stepInto := [{ className := "M1", methodName := "m", parameters := "", stepInDecision := ReqGen.StepInDecision.stepInto, reasoning := "go", expectedBehavior := "To be analyzed", executionOrder := 0 }, { className := "M2", methodName := "m", parameters := "", stepInDecision := ReqGen.StepInDecision.stepInto, reasoning := "go", expectedBehavior := "To be analyzed", executionOrder := 1 }, { className := "M3", methodName := "m", parameters := "", stepInDecision := ReqGen.StepInDecision.stepInto, reasoning := "go", expectedBehavior := "To be analyzed", executionOrder := 2 }, { className := "M4", methodName := "m", parameters := "", stepInDecision := ReqGen.StepInDecision.stepInto, reasoning := "go", expectedBehavior := "To be analyzed", executionOrder := 3 }, { className := "M5", methodName := "m", parameters := "", stepInDecision := ReqGen.StepInDecision.stepInto, reasoning := "go", expectedBehavior := "To be analyzed", executionOrder := 4 }], objectLookup := [], external := [], notFound := [] }, analysisTimestamp := 0, contentHash := "md5:srcR", errorMessage := none, inheritedFrom := none }
def bu5F : Option LinearFlow :=
some { steps := [{ stepNumber := 1, depth := 0, sourceMethod := "R.r", description := "R.r() starts", stepType := ReqGen.LinearStepType.methodStart, originalBlockId := none }, { stepNumber := 2, depth := 0, sourceMethod := "R.r", description := "r1", stepType := ReqGen.LinearStepType.execution, originalBlockId := some "block-0" }, { stepNumber := 3, depth := 0, sourceMethod := "R.r", description := "Call M1.m()", stepType := ReqGen.LinearStepType.methodCall, originalBlockId := none }, { stepNumber := 4, depth := 0, sourceMethod := "R.r", description := "Call M2.m()", stepType := ReqGen.LinearStepType.methodCall, originalBlockId := none }, { stepNumber := 5, depth := 0, sourceMethod := "R.r", description := "Call M3.m()", stepType := ReqGen.LinearStepType.methodCall, originalBlockId := none }, { stepNumber := 6, depth := 0, sourceMethod := "R.r", description := "Call M4.m()", stepType := ReqGen.LinearStepType.methodCall, originalBlockId := none }, { stepNumber := 7, depth := 0, sourceMethod := "R.r", description := "Call M5.m()", stepType := ReqGen.LinearStepType.methodCall, originalBlockId := none }, { stepNumber := 8, depth := 0, sourceMethod := "R.r", description := "R.r() completes", stepType := ReqGen.LinearStepType.methodEnd, originalBlockId := none }, { stepNumber := 9, depth := 1, sourceMethod := "M1.m", description := "M1.m() starts", stepType := ReqGen.LinearStepType.methodStart, originalBlockId := none }, { stepNumber := 10, depth := 1, sourceMethod := "M1.m", description := "leaf", stepType := ReqGen.LinearStepType.execution, originalBlockId := some "block-0" }, { stepNumber := 11, depth := 1, sourceMethod := "M1.m", description := "M1.m() completes", stepType := ReqGen.LinearStepType.methodEnd, originalBlockId := none }, { stepNumber := 12, depth := 0, sourceMethod := "R.r", description := "↩️ M1.m() returns: leaf", stepType := ReqGen.LinearStepType.methodReturn, originalBlockId := none }, { stepNumber := 13, depth := 1, sourceMethod := "M2.m", description := "M2.m() starts", stepType := ReqGen.LinearStepType.methodStart, originalBlockId := none }, { stepNumber := 14, depth := 1, sourceMethod := "M2.m", description := "leaf", stepType := ReqGen.LinearStepType.execution, originalBlockId := some "block-0" }, { stepNumber := 15, depth := 1, sourceMethod := "M2.m", description := "M2.m() completes", stepType := ReqGen.LinearStepType.methodEnd, originalBlockId := none }, { stepNumber := 16, depth := 0, sourceMethod := "R.r", description := "↩️ M2.m() returns: leaf", stepType := ReqGen.LinearStepType.methodReturn, originalBlockId := none }], methodReferences := [("R.r", { className := "R", methodName := "r", language := "java", analysisStatus := "complete", executionBlocks := [{ blockId := "block-0", blockType := "methodcall", description := "r1", executionFlow := "No execution flow documented", methodCalls := [{ className := "M1", methodName := "m", parameters := "", stepInDecision := ReqGen.StepInDecision.stepInto, reasoning := "go", expectedBehavior := "To be analyzed", executionOrder := 0 }, { className := "M2", methodName := "m", parameters := "", stepInDecision := ReqGen.StepInDecision.stepInto, reasoning := "go", expectedBehavior := "To be analyzed", executionOrder := 1 }, { className := "M3", methodName := "m", parameters := "", stepInDecision := ReqGen.StepInDecision.stepInto, reasoning := "go", expectedBehavior := "To be analyzed", executionOrder := 2 }, { className := "M4", methodName := "m", parameters := "", stepInDecision := ReqGen.StepInDecision.stepInto, reasoning := "go", expectedBehavior := "To be analyzed", executionOrder := 3 }, { className := "M5", methodName := "m", parameters := "", stepInDecision := ReqGen.StepInDecision.stepInto, reasoning := "go", expectedBehavior := "To be analyzed", executionOrder := 4 }], nextBlocks := ["block-1"] }], methodCallSummary := { stepInto := [{ className := "M1", methodName := "m", parameters := "", stepInDecision := ReqGen.StepInDecision.stepInto, reasoning := "go", expectedBehavior := "To be analyzed", executionOrder := 0 }, { className := "M2", methodName := "m", parameters := "", stepInDecision := ReqGen.StepInDecision.stepInto, reasoning := "go", expectedBehavior := "To be analyzed", executionOrder := 1 }, { className := "M3", methodName := "m", parameters := "", stepInDecision := ReqGen.StepInDecision.stepInto, reasoning := "go", expectedBehavior := "To be analyzed", executionOrder := 2 }, { className := "M4", methodName := "m", parameters := "", stepInDecision := ReqGen.StepInDecision.stepInto, reasoning := "go", expectedBehavior := "To be analyzed", executionOrder := 3 }, { className := "M5", methodName := "m", parameters := "", stepInDecision := ReqGen.StepInDecision.stepInto, reasoning := "go", expectedBehavior := "To be analyzed", executionOrder := 4 }], objectLookup := [], external := [], notFound := [] }, analysisTimestamp := 0, contentHash := "md5:srcR", errorMessage := none, inheritedFrom := none }), ("M1.m", { className := "M1", methodName := "m", language := "java", analysisStatus := "complete", executionBlocks := [{ blockId := "block-0", blockType := "return", description := "leaf", executionFlow := "No execution flow documented", methodCalls := [], nextBlocks := ["block-1"] }], methodCallSummary := { stepInto := [], objectLookup := [], external := [], notFound := [] }, analysisTimestamp := 0, contentHash := "md5:srcM1", errorMessage := none, inheritedFrom := none }), ("M2.m", { className := "M2", methodName := "m", language := "java", analysisStatus := "complete", executionBlocks := [{ blockId := "block-0", blockType := "return", description := "leaf", executionFlow := "No execution flow documented", methodCalls := [], nextBlocks := ["block-1"] }], methodCallSummary := { stepInto := [], objectLookup := [], external := [], notFound := [] }, analysisTimestamp := 0, contentHash := "md5:srcM2", errorMessage := none, inheritedFrom := none }), ("M3.m", { className := "M3", methodName := "m", language := "unknown", analysisStatus := "partial", executionBlocks := [{ blockId := "placeholder-1", blockType := "methodCall", description := "Method analysis skipped: Maximum method count reached", executionFlow := "This method was not analyzed due to: Maximum method count reached", methodCalls := [], nextBlocks := [] }], methodCallSummary := { stepInto := [], objectLookup := [], external := [], notFound := [] }, analysisTimestamp := 0, contentHash := "", errorMessage := some "Maximum method count reached", inheritedFrom := none }), ("M4.m", { className := "M4", methodName := "m", language := "unknown", analysisStatus := "partial", executionBlocks := [{ blockId := "placeholder-1", blockType := "methodCall", description := "Method analysis skipped: Maximum method count reached", executionFlow := "This method was not analyzed due to: Maximum method count reached", methodCalls := [], nextBlocks := [] }], methodCallSummary := { stepInto := [], objectLookup := [], external := [], notFound := [] }, analysisTimestamp := 0, contentHash := "", errorMessage := some "Maximum method count reached", inheritedFrom := none }), ("M5.m", { className := "M5", methodName := "m", language := "unknown", analysisStatus := "partial", executionBlocks := [{ blockId := "placeholder-1", blockType := "methodCall", description := "Method analysis skipped: Maximum method count reached", executionFlow := "This method was not analyzed due to: Maximum method count reached", methodCalls := [], nextBlocks := [] }], methodCallSummary := { stepInto := [], objectLookup := [], external := [], notFound := [] }, analysisTimestamp := 0, contentHash := "", errorMessage := some "Maximum method count reached", inheritedFrom := none })], totalSteps := 16, rootMethod := "R.r" }
def bu5Next : AState :=
{ now := 0, mem := [("R#r", { key := "R#r", analysis := { className := "R", methodName := "r", language := "java", analysisStatus := "complete", executionBlocks := [{ blockId := "block-0", blockType := "methodcall", description := "r1", executionFlow := "No execution flow documented", methodCalls := [{ className := "M1", methodName := "m", parameters := "", stepInDecision := ReqGen.StepInDecision.stepInto, reasoning := "go", expectedBehavior := "To be analyzed", executionOrder := 0 }, { className := "M2", methodName := "m", parameters := "", stepInDecision := ReqGen.StepInDecision.stepInto, reasoning := "go", expectedBehavior := "To be analyzed", executionOrder := 1 }, { className := "M3", methodName := "m", parameters := "", stepInDecision := ReqGen.StepInDecision.stepInto, reasoning := "go", expectedBehavior := "To be analyzed", executionOrder := 2 }, { className := "M4", methodName := "m", parameters := "", stepInDecision := ReqGen.StepInDecision.stepInto, reasoning := "go", expectedBehavior := "To be analyzed", executionOrder := 3 }, { className := "M5", methodName := "m", parameters := "", stepInDecision := ReqGen.StepInDecision.stepInto, reasoning := "go", expectedBehavior := "To be analyzed", executionOrder := 4 }], nextBlocks := ["block-1"] }], methodCallSummary := { stepInto := [{ className := "M1", methodName := "m", parameters := "", stepInDecision := ReqGen.StepInDecision.stepInto, reasoning := "go", expectedBehavior := "To be analyzed", executionOrder := 0 }, { className := "M2", methodName := "m", parameters := "", stepInDecision := ReqGen.StepInDecision.stepInto, reasoning := "go", expectedBehavior := "To be analyzed", executionOrder := 1 }, { className := "M3", methodName := "m", parameters := "", stepInDecision := ReqGen.StepInDecision.stepInto, reasoning := "go", expectedBehavior := "To be analyzed", executionOrder := 2 }, { className := "M4", methodName := "m", parameters := "", stepInDecision := ReqGen.StepInDecision.stepInto, reasoning := "go", expectedBehavior := "To be analyzed", executionOrder := 3 }, { className := "M5", methodName := "m", parameters := "", stepInDecision := ReqGen.StepInDecision.stepInto, reasoning := "go", expectedBehavior := "To be analyzed", executionOrder := 4 }], objectLookup := [], external := [], notFound := [] }, analysisTimestamp := 0, contentHash := "md5:srcR", errorMessage := none, inheritedFrom := none }, timestamp := 0, accessCount := 0, contentHash := "md5:srcR" }), ("M1#m", { key := "M1#m", analysis := { className := "M1", methodName := "m", language := "java", analysisStatus := "complete", executionBlocks := [{ blockId := "block-0", blockType := "return", description := "leaf", executionFlow := "No execution flow documented", methodCalls := [], nextBlocks := ["block-1"] }], methodCallSummary := { stepInto := [], objectLookup := [], external := [], notFound := [] }, analysisTimestamp := 0, contentHash := "md5:srcM1", errorMessage := none, inheritedFrom := none }, timestamp := 0, accessCount := 0, contentHash := "md5:srcM1" }), ("M2#m", { key := "M2#m", analysis := { className := "M2", methodName := "m", language := "java", analysisStatus := "complete", executionBlocks := [{ blockId := "block-0", blockType := "return", description := "leaf", executionFlow := "No execution flow documented", methodCalls := [], nextBlocks := ["block-1"] }], methodCallSummary := { stepInto := [], objectLookup := [], external := [], notFound := [] }, analysisTimestamp := 0, contentHash := "md5:srcM2", errorMessage := none, inheritedFrom := none }, timestamp := 0, accessCount := 0, contentHash := "md5:srcM2" })], stats := { hitCount := 0, missCount := 3, evictionCount := 0 }, pc := [], selectedModel := some "gpt", oracleLog := [("R", "r"), ("M1", "m"), ("M2", "m")], visited := ["R#r", "M1#m", "M2#m"], totalAnalyzed := 3, callStack := [{ className := "R", methodName := "r", depth := 0, isConditional := false }], flow := some { steps := [{ stepNumber := 1, depth := 0, sourceMethod := "R.r", description := "R.r() starts", stepType := ReqGen.LinearStepType.methodStart, originalBlockId := none }, { stepNumber := 2, depth := 0, sourceMethod := "R.r", description := "r1", stepType := ReqGen.LinearStepType.execution, originalBlockId := some "block-0" }, { stepNumber := 3, depth := 0, sourceMethod := "R.r", description := "Call M1.m()", stepType := ReqGen.LinearStepType.methodCall, originalBlockId := none }, { stepNumber := 4, depth := 0, sourceMethod := "R.r", description := "Call M2.m()", stepType := ReqGen.LinearStepType.methodCall, originalBlockId := none }, { stepNumber := 5, depth := 0, sourceMethod := "R.r", description := "Call M3.m()", stepType := ReqGen.LinearStepType.methodCall, originalBlockId := none }, { stepNumber := 6, depth := 0, sourceMethod := "R.r", description := "Call M4.m()", stepType := ReqGen.LinearStepType.methodCall, originalBlockId := none }, { stepNumber := 7, depth := 0, sourceMethod := "R.r", description := "Call M5.m()", stepType := ReqGen.LinearStepType.methodCall, originalBlockId := none }, { stepNumber := 8, depth := 0, sourceMethod := "R.r", description := "R.r() completes", stepType := ReqGen.LinearStepType.methodEnd, originalBlockId := none }, { stepNumber := 9, depth := 1, sourceMethod := "M1.m", description := "M1.m() starts", stepType := ReqGen.LinearStepType.methodStart, originalBlockId := none }, { stepNumber := 10, depth := 1, sourceMethod := "M1.m", description := "leaf", stepType := ReqGen.LinearStepType.execution, originalBlockId := some "block-0" }, { stepNumber := 11, depth := 1, sourceMethod := "M1.m", description := "M1.m() completes", stepType := ReqGen.LinearStepType.methodEnd, originalBlockId := none }, { stepNumber := 12, depth := 0, sourceMethod := "R.r", description := "↩️ M1.m() returns: leaf", stepType := ReqGen.LinearStepType.methodReturn, originalBlockId := none }, { stepNumber := 13, depth := 1, sourceMethod := "M2.m", description := "M2.m() starts", stepType := ReqGen.LinearStepType.methodStart, originalBlockId := none }, { stepNumber := 14, depth := 1, sourceMethod := "M2.m", description := "leaf", stepType := ReqGen.LinearStepType.execution, originalBlockId := some "block-0" }, { stepNumber := 15, depth := 1, sourceMethod := "M2.m", description := "M2.m() completes", stepType := ReqGen.LinearStepType.methodEnd, originalBlockId := none }, { stepNumber := 16, depth := 0, sourceMethod := "R.r", description := "↩️ M2.m() returns: leaf", stepType := ReqGen.LinearStepType.methodReturn, originalBlockId := none }], methodReferences := [("R.r", { className := "R", methodName := "r", language := "java", analysisStatus := "complete", executionBlocks := [{ blockId := "block-0", blockType := "methodcall", description := "r1", executionFlow := "No execution flow documented", methodCalls := [{ className := "M1", methodName := "m", parameters := "", stepInDecision := ReqGen.StepInDecision.stepInto, reasoning := "go", expectedBehavior := "To be analyzed", executionOrder := 0 }, { className := "M2", methodName := "m", parameters := "", stepInDecision := ReqGen.StepInDecision.stepInto, reasoning := "go", expectedBehavior := "To be analyzed", executionOrder := 1 }, { className := "M3", methodName := "m", parameters := "", stepInDecision := ReqGen.StepInDecision.stepInto, reasoning := "go", expectedBehavior := "To be analyzed", executionOrder := 2 }, { className := "M4", methodName := "m", parameters := "", stepInDecision := ReqGen.StepInDecision.stepInto, reasoning := "go", expectedBehavior := "To be analyzed", executionOrder := 3 }, { className := "M5", methodName := "m", parameters := "", stepInDecision := ReqGen.StepInDecision.stepInto, reasoning := "go", expectedBehavior := "To be analyzed", executionOrder := 4 }], nextBlocks := ["block-1"] }], methodCallSummary := { stepInto := [{ className := "M1", methodName := "m", parameters := "", stepInDecision := ReqGen.StepInDecision.stepInto, reasoning := "go", expectedBehavior := "To be analyzed", executionOrder := 0 }, { className := "M2", methodName := "m", parameters := "", stepInDecision := ReqGen.StepInDecision.stepInto, reasoning := "go", expectedBehavior := "To be analyzed", executionOrder := 1 }, { className := "M3", methodName := "m", parameters := "", stepInDecision := ReqGen.StepInDecision.stepInto, reasoning := "go", expectedBehavior := "To be analyzed", executionOrder := 2 }, { className := "M4", methodName := "m", parameters := "", stepInDecision := ReqGen.StepInDecision.stepInto, reasoning := "go", expectedBehavior := "To be analyzed", executionOrder := 3 }, { className := "M5", methodName := "m", parameters := "", stepInDecision := ReqGen.StepInDecision.stepInto, reasoning := "go", expectedBehavior := "To be analyzed", executionOrder := 4 }], objectLookup := [], external := [], notFound := [] }, analysisTimestamp := 0, contentHash := "md5:srcR", errorMessage := none, inheritedFrom := none }), ("M1.m", { className := "M1", methodName := "m", language := "java", analysisStatus := "complete", executionBlocks := [{ blockId := "block-0", blockType := "return", description := "leaf", executionFlow := "No execution flow documented", methodCalls := [], nextBlocks := ["block-1"] }], methodCallSummary := { stepInto := [], objectLookup := [], external := [], notFound := [] }, analysisTimestamp := 0, contentHash := "md5:srcM1", errorMessage := none, inheritedFrom := none }), ("M2.m", { className := "M2", methodName := "m", language := "java", analysisStatus := "complete", executionBlocks := [{ blockId := "block-0", blockType := "return", description := "leaf", executionFlow := "No execution flow documented", methodCalls := [], nextBlocks := ["block-1"] }], methodCallSummary := { stepInto := [], objectLookup := [], external := [], notFound := [] }, analysisTimestamp := 0, contentHash := "md5:srcM2", errorMessage := none, inheritedFrom := none }), ("M3.m", { className := "M3", methodName := "m", language := "unknown", analysisStatus := "partial", executionBlocks := [{ blockId := "placeholder-1", blockType := "methodCall", description := "Method analysis skipped: Maximum method count reached", executionFlow := "This method was not analyzed due to: Maximum method count reached", methodCalls := [], nextBlocks := [] }], methodCallSummary := { stepInto := [], objectLookup := [], external := [], notFound := [] }, analysisTimestamp := 0, contentHash := "", errorMessage := some "Maximum method count reached", inheritedFrom := none }), ("M4.m", { className := "M4", methodName := "m", language := "unknown", analysisStatus := "partial", executionBlocks := [{ blockId := "placeholder-1", blockType := "methodCall", description := "Method analysis skipped: Maximum method count reached", executionFlow := "This method was not analyzed due to: Maximum method count reached", methodCalls := [], nextBlocks := [] }], methodCallSummary := { stepInto := [], objectLookup := [], external := [], notFound := [] }, analysisTimestamp := 0, contentHash := "", errorMessage := some "Maximum method count reached", inheritedFrom := none }), ("M5.m", { className := "M5", methodName := "m", language := "unknown", analysisStatus := "partial", executionBlocks := [{ blockId := "placeholder-1", blockType := "methodCall", description := "Method analysis skipped: Maximum method count reached", executionFlow := "This method was not analyzed due to: Maximum method count reached", methodCalls := [], nextBlocks := [] }], methodCallSummary := { stepInto := [], objectLookup := [], external := [], notFound := [] }, analysisTimestamp := 0, contentHash := "", errorMessage := some "Maximum method count reached", inheritedFrom := none })], totalSteps := 16, rootMethod := "R.r" } }
def buFinal : AState :=
{ now := 0, mem := [("R#r", { key := "R#r", analysis := { className := "R", methodName := "r", language := "java", analysisStatus := "complete", executionBlocks := [{ blockId := "block-0", blockType := "methodcall", description := "r1", executionFlow := "No execution flow documented", methodCalls := [{ className := "M1", methodName := "m", parameters := "", stepInDecision := ReqGen.StepInDecision.stepInto, reasoning := "go", expectedBehavior := "To be analyzed", executionOrder := 0 }, { className := "M2", methodName := "m", parameters := "", stepInDecision := ReqGen.StepInDecision.stepInto, reasoning := "go", expectedBehavior := "To be analyzed", executionOrder := 1 }, { className := "M3", methodName := "m", parameters := "", stepInDecision := ReqGen.StepInDecision.stepInto, reasoning := "go", expectedBehavior := "To be analyzed", executionOrder := 2 }, { className := "M4", methodName := "m", parameters := "", stepInDecision := ReqGen.StepInDecision.stepInto, reasoning := "go", expectedBehavior := "To be analyzed", executionOrder := 3 }, { className := "M5", methodName := "m", parameters := "", stepInDecision := ReqGen.StepInDecision.stepInto, reasoning := "go", expectedBehavior := "To be analyzed", executionOrder := 4 }], nextBlocks := ["block-1"] }], methodCallSummary := { stepInto := [{ className := "M1", methodName := "m", parameters := "", stepInDecision := ReqGen.StepInDecision.stepInto, reasoning := "go", expectedBehavior := "To be analyzed", executionOrder := 0 }, { className := "M2", methodName := "m", parameters := "", stepInDecision := ReqGen.StepInDecision.stepInto, reasoning := "go", expectedBehavior := "To be analyzed", executionOrder := 1 }, { className := "M3", methodName := "m", parameters := "", stepInDecision := ReqGen.StepInDecision.stepInto, reasoning := "go", expectedBehavior := "To be analyzed", executionOrder := 2 }, { className := "M4", methodName := "m", parameters := "", stepInDecision := ReqGen.StepInDecision.stepInto, reasoning := "go", expectedBehavior := "To be analyzed", executionOrder := 3 }, { className := "M5", methodName := "m", parameters := "", stepInDecision := ReqGen.StepInDecision.stepInto, reasoning := "go", expectedBehavior := "To be analyzed", executionOrder := 4 }], objectLookup := [], external := [], notFound := [] }, analysisTimestamp := 0, contentHash := "md5:srcR", errorMessage := none, inheritedFrom := none }, timestamp := 0, accessCount := 0, contentHash := "md5:srcR" }), ("M1#m", { key := "M1#m", analysis := { className := "M1", methodName := "m", language := "java", analysisStatus := "complete", executionBlocks := [{ blockId := "block-0", blockType := "return", description := "leaf", executionFlow := "No execution flow documented", methodCalls := [], nextBlocks := ["block-1"] }], methodCallSummary := { stepInto := [], objectLookup := [], external := [], notFound := [] }, analysisTimestamp := 0, contentHash := "md5:srcM1", errorMessage := none, inheritedFrom := none }, timestamp := 0, accessCount := 0, contentHash := "md5:srcM1" }), ("M2#m", { key := "M2#m", analysis := { className := "M2", methodName := "m", language := "java", analysisStatus := "complete", executionBlocks := [{ blockId := "block-0", blockType := "return", description := "leaf", executionFlow := "No execution flow documented", methodCalls := [], nextBlocks := ["block-1"] }], methodCallSummary := { stepInto := [], objectLookup := [], external := [], notFound := [] }, analysisTimestamp := 0, contentHash := "md5:srcM2", errorMessage := none, inheritedFrom := none }, timestamp := 0, accessCount := 0, contentHash := "md5:srcM2" })], stats := { hitCount := 0, missCount := 3, evictionCount := 0 }, pc := [], selectedModel := some "gpt", oracleLog := [("R", "r"), ("M1", "m"), ("M2", "m")], visited := ["R#r", "M1#m", "M2#m"], totalAnalyzed := 3, callStack := [], flow := some { steps := [{ stepNumber := 1, depth := 0, sourceMethod := "R.r", description := "R.r() starts", stepType := ReqGen.LinearStepType.methodStart, originalBlockId := none }, { stepNumber := 2, depth := 0, sourceMethod := "R.r", description := "r1", stepType := ReqGen.LinearStepType.execution, originalBlockId := some "block-0" }, { stepNumber := 3, depth := 0, sourceMethod := "R.r", description := "Call M1.m()", stepType := ReqGen.LinearStepType.methodCall, originalBlockId := none }, { stepNumber := 4, depth := 0, sourceMethod := "R.r", description := "Call M2.m()", stepType := ReqGen.LinearStepType.methodCall, originalBlockId := none }, { stepNumber := 5, depth := 0, sourceMethod := "R.r", description := "Call M3.m()", stepType := ReqGen.LinearStepType.methodCall, originalBlockId := none }, { stepNumber := 6, depth := 0, sourceMethod := "R.r", description := "Call M4.m()", stepType := ReqGen.LinearStepType.methodCall, originalBlockId := none }, { stepNumber := 7, depth := 0, sourceMethod := "R.r", description := "Call M5.m()", stepType := ReqGen.LinearStepType.methodCall, originalBlockId := none }, { stepNumber := 8, depth := 0, sourceMethod := "R.r", description := "R.r() completes", stepType := ReqGen.LinearStepType.methodEnd, originalBlockId := none }, { stepNumber := 9, depth := 1, sourceMethod := "M1.m", description := "M1.m() starts", stepType := ReqGen.LinearStepType.methodStart, originalBlockId := none }, { stepNumber := 10, depth := 1, sourceMethod := "M1.m", description := "leaf", stepType := ReqGen.LinearStepType.execution, originalBlockId := some "block-0" }, { stepNumber := 11, depth := 1, sourceMethod := "M1.m", description := "M1.m() completes", stepType := ReqGen.LinearStepType.methodEnd, originalBlockId := none }, { stepNumber := 12, depth := 0, sourceMethod := "R.r", description := "↩️ M1.m() returns: leaf", stepType := ReqGen.LinearStepType.methodReturn, originalBlockId := none }, { stepNumber := 13, depth := 1, sourceMethod := "M2.m", description := "M2.m() starts", stepType := ReqGen.LinearStepType.methodStart, originalBlockId := none }, { stepNumber := 14, depth := 1, sourceMethod := "M2.m", description := "leaf", stepType := ReqGen.LinearStepType.execution, originalBlockId := some "block-0" }, { stepNumber := 15, depth := 1, sourceMethod := "M2.m", description := "M2.m() completes", stepType := ReqGen.LinearStepType.methodEnd, originalBlockId := none }, { stepNumber := 16, depth := 0, sourceMethod := "R.r", description := "↩️ M2.m() returns: leaf", stepType := ReqGen.LinearStepType.methodReturn, originalBlockId := none }], methodReferences := [("R.r", { className := "R", methodName := "r", language := "java", analysisStatus := "complete", executionBlocks := [{ blockId := "block-0", blockType := "methodcall", description := "r1", executionFlow := "No execution flow documented", methodCalls := [{ className := "M1", methodName := "m", parameters := "", stepInDecision := ReqGen.StepInDecision.stepInto, reasoning := "go", expectedBehavior := "To be analyzed", executionOrder := 0 }, { className := "M2", methodName := "m", parameters := "", stepInDecision := ReqGen.StepInDecision.stepInto, reasoning := "go", expectedBehavior := "To be analyzed", executionOrder := 1 }, { className := "M3", methodName := "m", parameters := "", stepInDecision := ReqGen.StepInDecision.stepInto, reasoning := "go", expectedBehavior := "To be analyzed", executionOrder := 2 }, { className := "M4", methodName := "m", parameters := "", stepInDecision := ReqGen.StepInDecision.stepInto, reasoning := "go", expectedBehavior := "To be analyzed", executionOrder := 3 }, { className := "M5", methodName := "m", parameters := "", stepInDecision := ReqGen.StepInDecision.stepInto, reasoning := "go", expectedBehavior := "To be analyzed", executionOrder := 4 }], nextBlocks := ["block-1"] }], methodCallSummary := { stepInto := [{ className := "M1", methodName := "m", parameters := "", stepInDecision := ReqGen.StepInDecision.stepInto, reasoning := "go", expectedBehavior := "To be analyzed", executionOrder := 0 }, { className := "M2", methodName := "m", parameters := "", stepInDecision := ReqGen.StepInDecision.stepInto, reasoning := "go", expectedBehavior := "To be analyzed", executionOrder := 1 }, { className := "M3", methodName := "m", parameters := "", stepInDecision := ReqGen.StepInDecision.stepInto, reasoning := "go", expectedBehavior := "To be analyzed", executionOrder := 2 }, { className := "M4", methodName := "m", parameters := "", stepInDecision := ReqGen.StepInDecision.stepInto, reasoning := "go", expectedBehavior := "To be analyzed", executionOrder := 3 }, { className := "M5", methodName := "m", parameters := "", stepInDecision := ReqGen.StepInDecision.stepInto, reasoning := "go", expectedBehavior := "To be analyzed", executionOrder := 4 }], objectLookup := [], external := [], notFound := [] }, analysisTimestamp := 0, contentHash := "md5:srcR", errorMessage := none, inheritedFrom := none }), ("M1.m", { className := "M1", methodName := "m", language := "java", analysisStatus := "complete", executionBlocks := [{ blockId := "block-0", blockType := "return", description := "leaf", executionFlow := "No execution flow documented", methodCalls := [], nextBlocks := ["block-1"] }], methodCallSummary := { stepInto := [], objectLookup := [], external := [], notFound := [] }, analysisTimestamp := 0, contentHash := "md5:srcM1", errorMessage := none, inheritedFrom := none }), ("M2.m", { className := "M2", methodName := "m", language := "java", analysisStatus := "complete", executionBlocks := [{ blockId := "block-0", blockType := "return", description := "leaf", executionFlow := "No execution flow documented", methodCalls := [], nextBlocks := ["block-1"] }], methodCallSummary := { stepInto := [], objectLookup := [], external := [], notFound := [] }, analysisTimestamp := 0, contentHash := "md5:srcM2", errorMessage := none, inheritedFrom := none }), ("M3.m", { className := "M3", methodName := "m", language := "unknown", analysisStatus := "partial", executionBlocks := [{ blockId := "placeholder-1", blockType := "methodCall", description := "Method analysis skipped: Maximum method count reached", executionFlow := "This method was not analyzed due to: Maximum method count reached", methodCalls := [], nextBlocks := [] }], methodCallSummary := { stepInto := [], objectLookup := [], external := [], notFound := [] }, analysisTimestamp := 0, contentHash := "", errorMessage := some "Maximum method count reached", inheritedFrom := none }), ("M4.m", { className := "M4", methodName := "m", language := "unknown", analysisStatus := "partial", executionBlocks := [{ blockId := "placeholder-1", blockType := "methodCall", description := "Method analysis skipped: Maximum method count reached", executionFlow := "This method was not analyzed due to: Maximum method count reached", methodCalls := [], nextBlocks := [] }], methodCallSummary := { stepInto := [], objectLookup := [], external := [], notFound := [] }, analysisTimestamp := 0, contentHash := "", errorMessage := some "Maximum method count reached", inheritedFrom := none }), ("M5.m", { className := "M5", methodName := "m", language := "unknown", analysisStatus := "partial", executionBlocks := [{ blockId := "placeholder-1", blockType := "methodCall", description := "Method analysis skipped: Maximum method count reached", executionFlow := "This method was not analyzed due to: Maximum method count reached", methodCalls := [], nextBlocks := [] }], methodCallSummary := { stepInto := [], objectLookup := [], external := [], notFound := [] }, analysisTimestamp := 0, contentHash := "", errorMessage := some "Maximum method count reached", inheritedFrom := none })], totalSteps := 16, rootMethod := "R.r" } }
def ihM : AState :=
{ now := 0, mem := [], stats := { hitCount := 0, missCount := 0, evictionCount := 0 }, pc := [], selectedModel := none, oracleLog := [], visited := ["Child#run"], totalAnalyzed := 1, callStack := [{ className := "Child", methodName := "run", depth := 0, isConditional := false }], flow := some { steps := [], methodReferences := [], totalSteps := 0, rootMethod := "Child.run" } }
def ihA1 : MethodAnalysis :=
{ className := "Base", methodName := "run", language := "java", analysisStatus := "complete", executionBlocks := [{ blockId := "block-0", blockType := "methodcall", description := "rb", executionFlow := "No execution flow documented", methodCalls := [{ className := "Base", methodName := "run", parameters := "", stepInDecision := ReqGen.StepInDecision.stepInto, reasoning := "go", expectedBehavior := "To be analyzed", executionOrder := 0 }], nextBlocks := ["block-1"] }], methodCallSummary := { stepInto := [{ className := "Base", methodName := "run", parameters := "", stepInDecision := ReqGen.StepInDecision.stepInto, reasoning := "go", expectedBehavior := "To be analyzed", executionOrder := 0 }], objectLookup := [], external := [], notFound := [] }, analysisTimestamp := 0, contentHash := "md5:srcChild", errorMessage := none, inheritedFrom := some "Child" }
def ihS1 : AState :=
{ now := 0, mem := [("Child#run", { key := "Child#run", analysis := { className := "Base", methodName := "run", language := "java", analysisStatus := "complete", executionBlocks := [{ blockId := "block-0", blockType := "methodcall", description := "rb", executionFlow := "No execution flow documented", methodCalls := [{ className := "Base", methodName := "run", parameters := "", stepInDecision := ReqGen.StepInDecision.stepInto, reasoning := "go", expectedBehavior := "To be analyzed", executionOrder := 0 }], nextBlocks := ["block-1"] }], methodCallSummary := { stepInto := [{ className := "Base", methodName := "run", parameters := "", stepInDecision := ReqGen.StepInDecision.stepInto, reasoning := "go", expectedBehavior := "To be analyzed", executionOrder := 0 }], objectLookup := [], external := [], notFound := [] }, analysisTimestamp := 0, contentHash := "md5:srcChild", errorMessage := none, inheritedFrom := some "Child" }, timestamp := 0, accessCount := 0, contentHash := "md5:srcChild" })], stats := { hitCount := 0, missCount := 1, evictionCount := 0 }, pc := [], selectedModel := some "gpt", oracleLog := [("Child", "run"), ("Base", "run")], visited := ["Child#run"], totalAnalyzed := 1, callStack := [{ className := "Child", methodName := "run", depth := 0, isConditional := false }], flow := some { steps := [], methodReferences := [], totalSteps := 0, rootMethod := "Child.run" } }
def ihPost : AState :=
{ now := 0, mem := [("Child#run", { key := "Child#run", analysis := { className := "Base", methodName := "run", language := "java", analysisStatus := "complete", executionBlocks := [{ blockId := "block-0", blockType := "methodcall", description := "rb", executionFlow := "No execution flow documented", methodCalls := [{ className := "Base", methodName := "run", parameters := "", stepInDecision := ReqGen.StepInDecision.stepInto, reasoning := "go", expectedBehavior := "To be analyzed", executionOrder := 0 }], nextBlocks := ["block-1"] }], methodCallSummary := { stepInto := [{ className := "Base", methodName := "run", parameters := "", stepInDecision := ReqGen.StepInDecision.stepInto, reasoning := "go", expectedBehavior := "To be analyzed", executionOrder := 0 }], objectLookup := [], external := [], notFound := [] }, analysisTimestamp := 0, contentHash := "md5:srcChild", errorMessage := none, inheritedFrom := some "Child" }, timestamp := 0, accessCount := 0, contentHash := "md5:srcChild" })], stats := { hitCount := 0, missCount := 1, evictionCount := 0 }, pc := [], selectedModel := some "gpt", oracleLog := [("Child", "run"), ("Base", "run")], visited := ["Child#run"], totalAnalyzed := 1, callStack := [{ className := "Child", methodName := "run", depth := 0, isConditional := false }], flow := some { steps := [{ stepNumber := 1, depth := 0, sourceMethod := "Base.run", description := "Base.run() starts", stepType := ReqGen.LinearStepType.methodStart, originalBlockId := none }, { stepNumber := 2, depth := 0, sourceMethod := "Base.run", description := "rb", stepType := ReqGen.LinearStepType.execution, originalBlockId := some "block-0" }, { stepNumber := 3, depth := 0, sourceMethod := "Base.run", description := "Call Base.run()", stepType := ReqGen.LinearStepType.methodCall, originalBlockId := none }, { stepNumber := 4, depth := 0, sourceMethod := "Base.run", description := "Base.run() completes", stepType := ReqGen.LinearStepType.methodEnd, originalBlockId := none }], methodReferences := [("Base.run", { className := "Base", methodName := "run", language := "java", analysisStatus := "complete", executionBlocks := [{ blockId := "block-0", blockType := "methodcall", description := "rb", executionFlow := "No execution flow documented", methodCalls := [{ className := "Base", methodName := "run", parameters := "", stepInDecision := ReqGen.StepInDecision.stepInto, reasoning := "go", expectedBehavior := "To be analyzed", executionOrder := 0 }], nextBlocks := ["block-1"] }], methodCallSummary := { stepInto := [{ className := "Base", methodName := "run", parameters := "", stepInDecision := ReqGen.StepInDecision.stepInto, reasoning := "go", expectedBehavior := "To be analyzed", executionOrder := 0 }], objectLookup := [], external := [], notFound := [] }, analysisTimestamp := 0, contentHash := "md5:srcChild", errorMessage := none, inheritedFrom := some "Child" })], totalSteps := 4, rootMethod := "Base.run" } }
def ihCall : MethodCall :=
{ className := "Base", methodName := "run", parameters := "", stepInDecision := ReqGen.StepInDecision.stepInto, reasoning := "go", expectedBehavior := "To be analyzed", executionOrder := 0 }
def ihInnerA : MethodAnalysis :=
{ className := "Base", methodName := "run", language := "java", analysisStatus := "complete", executionBlocks := [{ blockId := "block-0", blockType := "methodcall", description := "rb", executionFlow := "No execution flow documented", methodCalls := [{ className := "Base", methodName := "run", parameters := "", stepInDecision := ReqGen.StepInDecision.stepInto, reasoning := "go", expectedBehavior := "rb", executionOrder := 0 }], nextBlocks := ["block-1"] }], methodCallSummary := { stepInto := [{ className := "Base", methodName := "run", parameters := "", stepInDecision := ReqGen.StepInDecision.stepInto, reasoning := "go", expectedBehavior := "To be analyzed", executionOrder := 0 }], objectLookup := [], external := [], notFound := [] }, analysisTimestamp := 0, contentHash := "md5:srcBase", errorMessage := none, inheritedFrom := none }
def ihInnerS : AState :=
{ now := 0, mem := [("Child#run", { key := "Child#run", analysis := { className := "Base", methodName := "run", language := "java", analysisStatus := "complete", executionBlocks := [{ blockId := "block-0", blockType := "methodcall", description := "rb", executionFlow := "No execution flow documented", methodCalls := [{ className := "Base", methodName := "run", parameters := "", stepInDecision := ReqGen.StepInDecision.stepInto, reasoning := "go", expectedBehavior := "To be analyzed", executionOrder := 0 }], nextBlocks := ["block-1"] }], methodCallSummary := { stepInto := [{ className := "Base", methodName := "run", parameters := "", stepInDecision := ReqGen.StepInDecision.stepInto, reasoning := "go", expectedBehavior := "To be analyzed", executionOrder := 0 }], objectLookup := [], external := [], notFound := [] }, analysisTimestamp := 0, contentHash := "md5:srcChild", errorMessage := none, inheritedFrom := some "Child" }, timestamp := 0, accessCount := 0, contentHash := "md5:srcChild" }), ("Base#run", { key := "Base#run", analysis := { className := "Base", methodName := "run", language := "java", analysisStatus := "complete", executionBlocks := [{ blockId := "block-0", blockType := "methodcall", description := "rb", executionFlow := "No execution flow documented", methodCalls := [{ className := "Base", methodName := "run", parameters := "", stepInDecision := ReqGen.StepInDecision.stepInto, reasoning := "go", expectedBehavior := "To be analyzed", executionOrder := 0 }], nextBlocks := ["block-1"] }], methodCallSummary := { stepInto := [{ className := "Base", methodName := "run", parameters := "", stepInDecision := ReqGen.StepInDecision.stepInto, reasoning := "go", expectedBehavior := "To be analyzed", executionOrder := 0 }], objectLookup := [], external := [], notFound := [] }, analysisTimestamp := 0, contentHash := "md5:srcBase", errorMessage := none, inheritedFrom := none }, timestamp := 0, accessCount := 1, contentHash := "md5:srcBase" })], stats := { hitCount := 1, missCount := 2, evictionCount := 0 }, pc := [], selectedModel := some "gpt", oracleLog := [("Child", "run"), ("Base", "run"), ("Base", "run")], visited := ["Child#run", "Base#run"], totalAnalyzed := 2, callStack := [{ className := "Child", methodName := "run", depth := 0, isConditional := false }], flow := some { steps := [{ stepNumber := 1, depth := 0, sourceMethod := "Base.run", description := "Base.run() starts", stepType := ReqGen.LinearStepType.methodStart, originalBlockId := none }, { stepNumber := 2, depth := 0, sourceMethod := "Base.run", description := "rb", stepType := ReqGen.LinearStepType.execution, originalBlockId := some "block-0" }, { stepNumber := 3, depth := 0, sourceMethod := "Base.run", description := "Call Base.run()", stepType := ReqGen.LinearStepType.methodCall, originalBlockId := none }, { stepNumber := 4, depth := 0, sourceMethod := "Base.run", description := "Base.run() completes", stepType := ReqGen.LinearStepType.methodEnd, originalBlockId := none }, { stepNumber := 5, depth := 1, sourceMethod := "Base.run", description := "↩️ Base.run() returns: rb", stepType := ReqGen.LinearStepType.methodReturn, originalBlockId := none }], methodReferences := [("Base.run", { className := "Base", methodName := "run", language := "java", analysisStatus := "complete", executionBlocks := [{ blockId := "block-0", blockType := "methodcall", description := "rb", executionFlow := "No execution flow documented", methodCalls := [{ className := "Base", methodName := "run", parameters := "", stepInDecision := ReqGen.StepInDecision.stepInto, reasoning := "go", expectedBehavior := "To be analyzed", executionOrder := 0 }], nextBlocks := ["block-1"] }], methodCallSummary := { stepInto := [{ className := "Base", methodName := "run", parameters := "", stepInDecision := ReqGen.StepInDecision.stepInto, reasoning := "go", expectedBehavior := "To be analyzed", executionOrder := 0 }], objectLookup := [], external := [], notFound := [] }, analysisTimestamp := 0, contentHash := "md5:srcBase", errorMessage := none, inheritedFrom := none })], totalSteps := 5, rootMethod := "Base.run" } }
def ihRet : AState :=
{ now := 0, mem := [("Child#run", { key := "Child#run", analysis := { className := "Base", methodName := "run", language := "java", analysisStatus := "complete", executionBlocks := [{ blockId := "block-0", blockType := "methodcall", description := "rb", executionFlow := "No execution flow documented", methodCalls := [{ className := "Base", methodName := "run", parameters := "", stepInDecision := ReqGen.StepInDecision.stepInto, reasoning := "go", expectedBehavior := "To be analyzed", executionOrder := 0 }], nextBlocks := ["block-1"] }], methodCallSummary := { stepInto := [{ className := "Base", methodName := "run", parameters := "", stepInDecision := ReqGen.StepInDecision.stepInto, reasoning := "go", expectedBehavior := "To be analyzed", executionOrder := 0 }], objectLookup := [], external := [], notFound := [] }, analysisTimestamp := 0, contentHash := "md5:srcChild", errorMessage := none, inheritedFrom := some "Child" }, timestamp := 0, accessCount := 0, contentHash := "md5:srcChild" }), ("Base#run", { key := "Base#run", analysis := { className := "Base", methodName := "run", language := "java", analysisStatus := "complete", executionBlocks := [{ blockId := "block-0", blockType := "methodcall", description := "rb", executionFlow := "No execution flow documented", methodCalls := [{ className := "Base", methodName := "run", parameters := "", stepInDecision := ReqGen.StepInDecision.stepInto, reasoning := "go", expectedBehavior := "To be analyzed", executionOrder := 0 }], nextBlocks := ["block-1"] }], methodCallSummary := { stepInto := [{ className := "Base", methodName := "run", parameters := "", stepInDecision := ReqGen.StepInDecision.stepInto, reasoning := "go", expectedBehavior := "To be analyzed", executionOrder := 0 }], objectLookup := [], external := [], notFound := [] }, analysisTimestamp := 0, contentHash := "md5:srcBase", errorMessage := none, inheritedFrom := none }, timestamp := 0, accessCount := 1, contentHash := "md5:srcBase" })], stats := { hitCount := 1, missCount := 2, evictionCount := 0 }, pc := [], selectedModel := some "gpt", oracleLog := [("Child", "run"), ("Base", "run"), ("Base", "run")], visited := ["Child#run", "Base#run"], totalAnalyzed := 2, callStack := [{ className := "Child", methodName := "run", depth := 0, isConditional := false }], flow := some { steps := [{ stepNumber := 1, depth := 0, sourceMethod := "Base.run", description := "Base.run() starts", stepType := ReqGen.LinearStepType.methodStart, originalBlockId := none }, { stepNumber := 2, depth := 0, sourceMethod := "Base.run", description := "rb", stepType := ReqGen.LinearStepType.execution, originalBlockId := some "block-0" }, { stepNumber := 3, depth := 0, sourceMethod := "Base.run", description := "Call Base.run()", stepType := ReqGen.LinearStepType.methodCall, originalBlockId := none }, { stepNumber := 4, depth := 0, sourceMethod := "Base.run", description := "Base.run() completes", stepType := ReqGen.LinearStepType.methodEnd, originalBlockId := none }, { stepNumber := 5, depth := 1, sourceMethod := "Base.run", description := "↩️ Base.run() returns: rb", stepType := ReqGen.LinearStepType.methodReturn, originalBlockId := none }, { stepNumber := 6, depth := 0, sourceMethod := "Base.run", description := "↩️ Base.run() returns: rb", stepType := ReqGen.LinearStepType.methodReturn, originalBlockId := none }], methodReferences := [("Base.run", { className := "Base", methodName := "run", language := "java", analysisStatus := "complete", executionBlocks := [{ blockId := "block-0", blockType := "methodcall", description := "rb", executionFlow := "No execution flow documented", methodCalls := [{ className := "Base", methodName := "run", parameters := "", stepInDecision := ReqGen.StepInDecision.stepInto, reasoning := "go", expectedBehavior := "To be analyzed", executionOrder := 0 }], nextBlocks := ["block-1"] }], methodCallSummary := { stepInto := [{ className := "Base", methodName := "run", parameters := "", stepInDecision := ReqGen.StepInDecision.stepInto, reasoning := "go", expectedBehavior := "To be analyzed", executionOrder := 0 }], objectLookup := [], external := [], notFound := [] }, analysisTimestamp := 0, contentHash := "md5:srcBase", errorMessage := none, inheritedFrom := none })], totalSteps := 6, rootMethod := "Base.run" } }
def ihMain : MethodAnalysis :=
{ className := "Base", methodName := "run", language := "java", analysisStatus := "complete", executionBlocks := [{ blockId := "block-0", blockType := "methodcall", description := "rb", executionFlow := "No execution flow documented", methodCalls := [{ className := "Base", methodName := "run", parameters := "", stepInDecision := ReqGen.StepInDecision.stepInto, reasoning := "go", expectedBehavior := "rb", executionOrder := 0 }], nextBlocks := ["block-1"] }], methodCallSummary := { stepInto := [{ className := "Base", methodName := "run", parameters := "", stepInDecision := ReqGen.StepInDecision.stepInto, reasoning := "go", expectedBehavior := "To be analyzed", executionOrder := 0 }], objectLookup := [], external := [], notFound := [] }, analysisTimestamp := 0, contentHash := "md5:srcChild", errorMessage := none, inheritedFrom := some "Child" }
def ihF : Option LinearFlow :=
some { steps := [{ stepNumber := 1, depth := 0, sourceMethod := "Base.run", description := "Base.run() starts", stepType := ReqGen.LinearStepType.methodStart, originalBlockId := none }, { stepNumber := 2, depth := 0, sourceMethod := "Base.run", description := "rb", stepType := ReqGen.LinearStepType.execution, originalBlockId := some "block-0" }, { stepNumber := 3, depth := 0, sourceMethod := "Base.run", description := "Call Base.run()", stepType := ReqGen.LinearStepType.methodCall, originalBlockId := none }, { stepNumber := 4, depth := 0, sourceMethod := "Base.run", description := "Base.run() completes", stepType := ReqGen.LinearStepType.methodEnd, originalBlockId := none }, { stepNumber := 5, depth := 1, sourceMethod := "Base.run", description := "↩️ Base.run() returns: rb", stepType := ReqGen.LinearStepType.methodReturn, originalBlockId := none }, { stepNumber := 6, depth := 0, sourceMethod := "Base.run", description := "↩️ Base.run() returns: rb", stepType := ReqGen.LinearStepType.methodReturn, originalBlockId := none }], methodReferences := [("Base.run", { className := "Base", methodName := "run", language := "java", analysisStatus := "complete", executionBlocks := [{ blockId := "block-0", blockType := "methodcall", description := "rb", executionFlow := "No execution flow documented", methodCalls := [{ className := "Base", methodName := "run", parameters := "", stepInDecision := ReqGen.StepInDecision.stepInto, reasoning := "go", expectedBehavior := "rb", executionOrder := 0 }], nextBlocks := ["block-1"] }], methodCallSummary := { stepInto := [{ className := "Base", methodName := "run", parameters := "", stepInDecision := ReqGen.StepInDecision.stepInto, reasoning := "go", expectedBehavior := "To be analyzed", executionOrder := 0 }], objectLookup := [], external := [], notFound := [] }, analysisTimestamp := 0, contentHash := "md5:srcBase", errorMessage := none, inheritedFrom := none })], totalSteps := 6, rootMethod := "Base.run" }
def ihNext : AState :=
{ now := 0, mem := [("Child#run", { key := "Child#run", analysis := { className := "Base", methodName := "run", language := "java", analysisStatus := "complete", executionBlocks := [{ blockId := "block-0", blockType := "methodcall", description := "rb", executionFlow := "No execution flow documented", methodCalls := [{ className := "Base", methodName := "run", parameters := "", stepInDecision := ReqGen.StepInDecision.stepInto, reasoning := "go", expectedBehavior := "To be analyzed", executionOrder := 0 }], nextBlocks := ["block-1"] }], methodCallSummary := { stepInto := [{ className := "Base", methodName := "run", parameters := "", stepInDecision := ReqGen.StepInDecision.stepInto, reasoning := "go", expectedBehavior := "To be analyzed", executionOrder := 0 }], objectLookup := [], external := [], notFound := [] }, analysisTimestamp := 0, contentHash := "md5:srcChild", errorMessage := none, inheritedFrom := some "Child" }, timestamp := 0, accessCount := 0, contentHash := "md5:srcChild" }), ("Base#run", { key := "Base#run", analysis := { className := "Base", methodName := "run", language := "java", analysisStatus := "complete", executionBlocks := [{ blockId := "block-0", blockType := "methodcall", description := "rb", executionFlow := "No execution flow documented", methodCalls := [{ className := "Base", methodName := "run", parameters := "", stepInDecision := ReqGen.StepInDecision.stepInto, reasoning := "go", expectedBehavior := "To be analyzed", executionOrder := 0 }], nextBlocks := ["block-1"] }], methodCallSummary := { stepInto := [{ className := "Base", methodName := "run", parameters := "", stepInDecision := ReqGen.StepInDecision.stepInto, reasoning := "go", expectedBehavior := "To be analyzed", executionOrder := 0 }], objectLookup := [], external := [], notFound := [] }, analysisTimestamp := 0, contentHash := "md5:srcBase", errorMessage := none, inheritedFrom := none }, timestamp := 0, accessCount := 1, contentHash := "md5:srcBase" })], stats := { hitCount := 1, missCount := 2, evictionCount := 0 }, pc := [], selectedModel := some "gpt", oracleLog := [("Child", "run"), ("Base", "run"), ("Base", "run")], visited := ["Child#run", "Base#run"], totalAnalyzed := 2, callStack := [{ className := "Child", methodName := "run", depth := 0, isConditional := false }], flow := some { steps := [{ stepNumber := 1, depth := 0, sourceMethod := "Base.run", description := "Base.run() starts", stepType := ReqGen.LinearStepType.methodStart, originalBlockId := none }, { stepNumber := 2, depth := 0, sourceMethod := "Base.run", description := "rb", stepType := ReqGen.LinearStepType.execution, originalBlockId := some "block-0" }, { stepNumber := 3, depth := 0, sourceMethod := "Base.run", description := "Call Base.run()", stepType := ReqGen.LinearStepType.methodCall, originalBlockId := none }, { stepNumber := 4, depth := 0, sourceMethod := "Base.run", description := "Base.run() completes", stepType := ReqGen.LinearStepType.methodEnd, originalBlockId := none }, { stepNumber := 5, depth := 1, sourceMethod := "Base.run", description := "↩️ Base.run() returns: rb", stepType := ReqGen.LinearStepType.methodReturn, originalBlockId := none }, { stepNumber := 6, depth := 0, sourceMethod := "Base.run", description := "↩️ Base.run() returns: rb", stepType := ReqGen.LinearStepType.methodReturn, originalBlockId := none }], methodReferences := [("Base.run", { className := "Base", methodName := "run", language := "java", analysisStatus := "complete", executionBlocks := [{ blockId := "block-0", blockType := "methodcall", description := "rb", executionFlow := "No execution flow documented", methodCalls := [{ className := "Base", methodName := "run", parameters := "", stepInDecision := ReqGen.StepInDecision.stepInto, reasoning := "go", expectedBehavior := "rb", executionOrder := 0 }], nextBlocks := ["block-1"] }], methodCallSummary := { stepInto := [{ className := "Base", methodName := "run", parameters := "", stepInDecision := ReqGen.StepInDecision.stepInto, reasoning := "go", expectedBehavior := "To be analyzed", executionOrder := 0 }], objectLookup := [], external := [], notFound := [] }, analysisTimestamp := 0, contentHash := "md5:srcBase", errorMessage := none, inheritedFrom := none })], totalSteps := 6, rootMethod := "Base.run" } }
def ihFinal : AState :=
{ now := 0, mem := [("Child#run", { key := "Child#run", analysis := { className := "Base", methodName := "run", language := "java", analysisStatus := "complete", executionBlocks := [{ blockId := "block-0", blockType := "methodcall", description := "rb", executionFlow := "No execution flow documented", methodCalls := [{ className := "Base", methodName := "run", parameters := "", stepInDecision := ReqGen.StepInDecision.stepInto, reasoning := "go", expectedBehavior := "To be analyzed", executionOrder := 0 }], nextBlocks := ["block-1"] }], methodCallSummary := { stepInto := [{ className := "Base", methodName := "run", parameters := "", stepInDecision := ReqGen.StepInDecision.stepInto, reasoning := "go", expectedBehavior := "To be analyzed", executionOrder := 0 }], objectLookup := [], external := [], notFound := [] }, analysisTimestamp := 0, contentHash := "md5:srcChild", errorMessage := none, inheritedFrom := some "Child" }, timestamp := 0, accessCount := 0, contentHash := "md5:srcChild" }), ("Base#run", { key := "Base#run", analysis := { className := "Base", methodName := "run", language := "java", analysisStatus := "complete", executionBlocks := [{ blockId := "block-0", blockType := "methodcall", description := "rb", executionFlow := "No execution flow documented", methodCalls := [{ className := "Base", methodName := "run", parameters := "", stepInDecision := ReqGen.StepInDecision.stepInto, reasoning := "go", expectedBehavior := "To be analyzed", executionOrder := 0 }], nextBlocks := ["block-1"] }], methodCallSummary := { stepInto := [{ className := "Base", methodName := "run", parameters := "", stepInDecision := ReqGen.StepInDecision.stepInto, reasoning := "go", expectedBehavior := "To be analyzed", executionOrder := 0 }], objectLookup := [], external := [], notFound := [] }, analysisTimestamp := 0, contentHash := "md5:srcBase", errorMessage := none, inheritedFrom := none }, timestamp := 0, accessCount := 1, contentHash := "md5:srcBase" })], stats := { hitCount := 1, missCount := 2, evictionCount := 0 }, pc := [], selectedModel := some "gpt", oracleLog := [("Child", "run"), ("Base", "run"), ("Base", "run")], visited := ["Child#run", "Base#run"], totalAnalyzed := 2, callStack := [], flow := some { steps := [{ stepNumber := 1, depth := 0, sourceMethod := "Base.run", description := "Base.run() starts", stepType := ReqGen.LinearStepType.methodStart, originalBlockId := none }, { stepNumber := 2, depth := 0, sourceMethod := "Base.run", description := "rb", stepType := ReqGen.LinearStepType.execution, originalBlockId := some "block-0" }, { stepNumber := 3, depth := 0, sourceMethod := "Base.run", description := "Call Base.run()", stepType := ReqGen.LinearStepType.methodCall, originalBlockId := none }, { stepNumber := 4, depth := 0, sourceMethod := "Base.run", description := "Base.run() completes", stepType := ReqGen.LinearStepType.methodEnd, originalBlockId := none }, { stepNumber := 5, depth := 1, sourceMethod := "Base.run", description := "↩️ Base.run() returns: rb", stepType := ReqGen.LinearStepType.methodReturn, originalBlockId := none }, { stepNumber := 6, depth := 0, sourceMethod := "Base.run", description := "↩️ Base.run() returns: rb", stepType := ReqGen.LinearStepType.methodReturn, originalBlockId := none }], methodReferences := [("Base.run", { className := "Base", methodName := "run", language := "java", analysisStatus := "complete", executionBlocks := [{ blockId := "block-0", blockType := "methodcall", description := "rb", executionFlow := "No execution flow documented", methodCalls := [{ className := "Base", methodName := "run", parameters := "", stepInDecision := ReqGen.StepInDecision.stepInto, reasoning := "go", expectedBehavior := "rb", executionOrder := 0 }], nextBlocks := ["block-1"] }], methodCallSummary := { stepInto := [{ className := "Base", methodName := "run", parameters := "", stepInDecision := ReqGen.StepInDecision.stepInto, reasoning := "go", expectedBehavior := "To be analyzed", executionOrder := 0 }], objectLookup := [], external := [], notFound := [] }, analysisTimestamp := 0, contentHash := "md5:srcBase", errorMessage := none, inheritedFrom := none })], totalSteps := 6, rootMethod := "Base.run" } }
def seM : AState :=
{ now := 0, mem := [], stats := { hitCount := 0, missCount := 0, evictionCount := 0 }, pc := [], selectedModel := none, oracleLog := [], visited := ["A#f"], totalAnalyzed := 1, callStack := [{ className := "A", methodName := "f", depth := 0, isConditional := false }], flow := some { steps := [], methodReferences := [], totalSteps := 0, rootMethod := "A.f" } }
def seA1 : MethodAnalysis :=
{ className := "A", methodName := "f", language := "java", analysisStatus := "complete", executionBlocks := [{ blockId := "block-0", blockType := "methodcall", description := "f1", executionFlow := "No execution flow documented", methodCalls := [{ className := "A", methodName := "f", parameters := "", stepInDecision := ReqGen.StepInDecision.stepInto, reasoning := "go", expectedBehavior := "To be analyzed", executionOrder := 0 }], nextBlocks := ["block-1"] }], methodCallSummary := { stepInto := [{ className := "A", methodName := "f", parameters := "", stepInDecision := ReqGen.StepInDecision.stepInto, reasoning := "go", expectedBehavior := "To be analyzed", executionOrder := 0 }], objectLookup := [], external := [], notFound := [] }, analysisTimestamp := 0, contentHash := "md5:srcA", errorMessage := none, inheritedFrom := none }
def seS1 : AState :=
{ now := 0, mem := [("A#f", { key := "A#f", analysis := { className := "A", methodName := "f", language := "java", analysisStatus := "complete", executionBlocks := [{ blockId := "block-0", blockType := "methodcall", description := "f1", executionFlow := "No execution flow documented", methodCalls := [{ className := "A", methodName := "f", parameters := "", stepInDecision := ReqGen.StepInDecision.stepInto, reasoning := "go", expectedBehavior := "To be analyzed", executionOrder := 0 }], nextBlocks := ["block-1"] }], methodCallSummary := { stepInto := [{ className := "A", methodName := "f", parameters := "", stepInDecision := ReqGen.StepInDecision.stepInto, reasoning := "go", expectedBehavior := "To be analyzed", executionOrder := 0 }], objectLookup := [], external := [], notFound := [] }, analysisTimestamp := 0, contentHash := "md5:srcA", errorMessage := none, inheritedFrom := none }, timestamp := 0, accessCount := 0, contentHash := "md5:srcA" })], stats := { hitCount := 0, missCount := 1, evictionCount := 0 }, pc := [], selectedModel := some "gpt", oracleLog := [("A", "f")], visited := ["A#f"], totalAnalyzed := 1, callStack := [{ className := "A", methodName := "f", depth := 0, isConditional := false }], flow := some { steps := [], methodReferences := [], totalSteps := 0, rootMethod := "A.f" } }
def sePost : AState :=
{ now := 0, mem := [("A#f", { key := "A#f", analysis := { className := "A", methodName := "f", language := "java", analysisStatus := "complete", executionBlocks := [{ blockId := "block-0", blockType := "methodcall", description := "f1", executionFlow := "No execution flow documented", methodCalls := [{ className := "A", methodName := "f", parameters := "", stepInDecision := ReqGen.StepInDecision.stepInto, reasoning := "go", expectedBehavior := "To be analyzed", executionOrder := 0 }], nextBlocks := ["block-1"] }], methodCallSummary := { stepInto := [{ className := "A", methodName := "f", parameters := "", stepInDecision := ReqGen.StepInDecision.stepInto, reasoning := "go", expectedBehavior := "To be analyzed", executionOrder := 0 }], objectLookup := [], external := [], notFound := [] }, analysisTimestamp := 0, contentHash := "md5:srcA", errorMessage := none, inheritedFrom := none }, timestamp := 0, accessCount := 0, contentHash := "md5:srcA" })], stats := { hitCount := 0, missCount := 1, evictionCount := 0 }, pc := [], selectedModel := some "gpt", oracleLog := [("A", "f")], visited := ["A#f"], totalAnalyzed := 1, callStack := [{ className := "A", methodName := "f", depth := 0, isConditional := false }], flow := some { steps := [{ stepNumber := 1, depth := 0, sourceMethod := "A.f", description := "A.f() starts", stepType := ReqGen.LinearStepType.methodStart, originalBlockId := none }, { stepNumber := 2, depth := 0, sourceMethod := "A.f", description := "f1", stepType := ReqGen.LinearStepType.execution, originalBlockId := some "block-0" }, { stepNumber := 3, depth := 0, sourceMethod := "A.f", description := "Call A.f()", stepType := ReqGen.LinearStepType.methodCall, originalBlockId := none }, { stepNumber := 4, depth := 0, sourceMethod := "A.f", description := "A.f() completes", stepType := ReqGen.LinearStepType.methodEnd, originalBlockId := none }], methodReferences := [("A.f", { className := "A", methodName := "f", language := "java", analysisStatus := "complete", executionBlocks := [{ blockId := "block-0", blockType := "methodcall", description := "f1", executionFlow := "No execution flow documented", methodCalls := [{ className := "A", methodName := "f", parameters := "", stepInDecision := ReqGen.StepInDecision.stepInto, reasoning := "go", expectedBehavior := "To be analyzed", executionOrder := 0 }], nextBlocks := ["block-1"] }], methodCallSummary := { stepInto := [{ className := "A", methodName := "f", parameters := "", stepInDecision := ReqGen.StepInDecision.stepInto, reasoning := "go", expectedBehavior := "To be analyzed", executionOrder := 0 }], objectLookup := [], external := [], notFound := [] }, analysisTimestamp := 0, contentHash := "md5:srcA", errorMessage := none, inheritedFrom := none })], totalSteps := 4, rootMethod := "A.f" } }
def seCall : MethodCall :=
{ className := "A", methodName := "f", parameters := "", stepInDecision := ReqGen.StepInDecision.stepInto, reasoning := "go", expectedBehavior := "To be analyzed", executionOrder := 0 }
def seInnerA : MethodAnalysis :=
{ className := "A", methodName := "f", language := "java", analysisStatus := "complete", executionBlocks := [{ blockId := "block-0", blockType := "methodcall", description := "f1", executionFlow := "No execution flow documented", methodCalls := [{ className := "A", methodName := "f", parameters := "", stepInDecision := ReqGen.StepInDecision.stepInto, reasoning := "go", expectedBehavior := "To be analyzed", executionOrder := 0 }], nextBlocks := ["block-1"] }], methodCallSummary := { stepInto := [{ className := "A", methodName := "f", parameters := "", stepInDecision := ReqGen.StepInDecision.stepInto, reasoning := "go", expectedBehavior := "To be analyzed", executionOrder := 0 }], objectLookup := [], external := [], notFound := [] }, analysisTimestamp := 0, contentHash := "md5:srcA", errorMessage := none, inheritedFrom := none }
def seInnerS : AState :=
{ now := 0, mem := [("A#f", { key := "A#f", analysis := { className := "A", methodName := "f", language := "java", analysisStatus := "complete", executionBlocks := [{ blockId := "block-0", blockType := "methodcall", description := "f1", executionFlow := "No execution flow documented", methodCalls := [{ className := "A", methodName := "f", parameters := "", stepInDecision := ReqGen.StepInDecision.stepInto, reasoning := "go", expectedBehavior := "To be analyzed", executionOrder := 0 }], nextBlocks := ["block-1"] }], methodCallSummary := { stepInto := [{ className := "A", methodName := "f", parameters := "", stepInDecision := ReqGen.StepInDecision.stepInto, reasoning := "go", expectedBehavior := "To be analyzed", executionOrder := 0 }], objectLookup := [], external := [], notFound := [] }, analysisTimestamp := 0, contentHash := "md5:srcA", errorMessage := none, inheritedFrom := none }, timestamp := 0, accessCount := 1, contentHash := "md5:srcA" })], stats := { hitCount := 1, missCount := 1, evictionCount := 0 }, pc := [], selectedModel := some "gpt", oracleLog := [("A", "f")], visited := ["A#f"], totalAnalyzed := 1, callStack := [{ className := "A", methodName := "f", depth := 0, isConditional := false }], flow := some { steps := [{ stepNumber := 1, depth := 0, sourceMethod := "A.f", description := "A.f() starts", stepType := ReqGen.LinearStepType.methodStart, originalBlockId := none }, { stepNumber := 2, depth := 0, sourceMethod := "A.f", description := "f1", stepType := ReqGen.LinearStepType.execution, originalBlockId := some "block-0" }, { stepNumber := 3, depth := 0, sourceMethod := "A.f", description := "Call A.f()", stepType := ReqGen.LinearStepType.methodCall, originalBlockId := none }, { stepNumber := 4, depth := 0, sourceMethod := "A.f", description := "A.f() completes", stepType := ReqGen.LinearStepType.methodEnd, originalBlockId := none }], methodReferences := [("A.f", { className := "A", methodName := "f", language := "java", analysisStatus := "complete", executionBlocks := [{ blockId := "block-0", blockType := "methodcall", description := "f1", executionFlow := "No execution flow documented", methodCalls := [{ className := "A", methodName := "f", parameters := "", stepInDecision := ReqGen.StepInDecision.stepInto, reasoning := "go", expectedBehavior := "To be analyzed", executionOrder := 0 }], nextBlocks := ["block-1"] }], methodCallSummary := { stepInto := [{ className := "A", methodName := "f", parameters := "", stepInDecision := ReqGen.StepInDecision.stepInto, reasoning := "go", expectedBehavior := "To be analyzed", executionOrder := 0 }], objectLookup := [], external := [], notFound := [] }, analysisTimestamp := 0, contentHash := "md5:srcA", errorMessage := none, inheritedFrom := none })], totalSteps := 4, rootMethod := "A.f" } }
def seRet : AState :=
{ now := 0, mem := [("A#f", { key := "A#f", analysis := { className := "A", methodName := "f", language := "java", analysisStatus := "complete", executionBlocks := [{ blockId := "block-0", blockType := "methodcall", description := "f1", executionFlow := "No execution flow documented", methodCalls := [{ className := "A", methodName := "f", parameters := "", stepInDecision := ReqGen.StepInDecision.stepInto, reasoning := "go", expectedBehavior := "To be analyzed", executionOrder := 0 }], nextBlocks := ["block-1"] }], methodCallSummary := { stepInto := [{ className := "A", methodName := "f", parameters := "", stepInDecision := ReqGen.StepInDecision.stepInto, reasoning := "go", expectedBehavior := "To be analyzed", executionOrder := 0 }], objectLookup := [], external := [], notFound := [] }, analysisTimestamp := 0, contentHash := "md5:srcA", errorMessage := none, inheritedFrom := none }, timestamp := 0, accessCount := 1, contentHash := "md5:srcA" })], stats := { hitCount := 1, missCount := 1, evictionCount := 0 }, pc := [], selectedModel := some "gpt", oracleLog := [("A", "f")], visited := ["A#f"], totalAnalyzed := 1, callStack := [{ className := "A", methodName := "f", depth := 0, isConditional := false }], flow := some { steps := [{ stepNumber := 1, depth := 0, sourceMethod := "A.f", description := "A.f() starts", stepType := ReqGen.LinearStepType.methodStart, originalBlockId := none }, { stepNumber := 2, depth := 0, sourceMethod := "A.f", description := "f1", stepType := ReqGen.LinearStepType.execution, originalBlockId := some "block-0" }, { stepNumber := 3, depth := 0, sourceMethod := "A.f", description := "Call A.f()", stepType := ReqGen.LinearStepType.methodCall, originalBlockId := none }, { stepNumber := 4, depth := 0, sourceMethod := "A.f", description := "A.f() completes", stepType := ReqGen.LinearStepType.methodEnd, originalBlockId := none }, { stepNumber := 5, depth := 0, sourceMethod := "A.f", description := "↩️ A.f() returns: f1", stepType := ReqGen.LinearStepType.methodReturn, originalBlockId := none }], methodReferences := [("A.f", { className := "A", methodName := "f", language := "java", analysisStatus := "complete", executionBlocks := [{ blockId := "block-0", blockType := "methodcall", description := "f1", executionFlow := "No execution flow documented", methodCalls := [{ className := "A", methodName := "f", parameters := "", stepInDecision := ReqGen.StepInDecision.stepInto, reasoning := "go", expectedBehavior := "To be analyzed", executionOrder := 0 }], nextBlocks := ["block-1"] }], methodCallSummary := { stepInto := [{ className := "A", methodName := "f", parameters := "", stepInDecision := ReqGen.StepInDecision.stepInto, reasoning := "go", expectedBehavior := "To be analyzed", executionOrder := 0 }], objectLookup := [], external := [], notFound := [] }, analysisTimestamp := 0, contentHash := "md5:srcA", errorMessage := none, inheritedFrom := none })], totalSteps := 5, rootMethod := "A.f" } }
def seMain : MethodAnalysis :=
{ className := "A", methodName := "f", language := "java", analysisStatus := "complete", executionBlocks := [{ blockId := "block-0", blockType := "methodcall", description := "f1", executionFlow := "No execution flow documented", methodCalls := [{ className := "A", methodName := "f", parameters := "", stepInDecision := ReqGen.StepInDecision.stepInto, reasoning := "go", expectedBehavior := "f1", executionOrder := 0 }], nextBlocks := ["block-1"] }], methodCallSummary := { stepInto := [{ className := "A", methodName := "f", parameters := "", stepInDecision := ReqGen.StepInDecision.stepInto, reasoning := "go", expectedBehavior := "To be analyzed", executionOrder := 0 }], objectLookup := [], external := [], notFound := [] }, analysisTimestamp := 0, contentHash := "md5:srcA", errorMessage := none, inheritedFrom := none }
def seF : Option LinearFlow :=
some { steps := [{ stepNumber := 1, depth := 0, sourceMethod := "A.f", description := "A.f() starts", stepType := ReqGen.LinearStepType.methodStart, originalBlockId := none }, { stepNumber := 2, depth := 0, sourceMethod := "A.f", description := "f1", stepType := ReqGen.LinearStepType.execution, originalBlockId := some "block-0" }, { stepNumber := 3, depth := 0, sourceMethod := "A.f", description := "Call A.f()", stepType := ReqGen.LinearStepType.methodCall, originalBlockId := none }, { stepNumber := 4, depth := 0, sourceMethod := "A.f", description := "A.f() completes", stepType := ReqGen.LinearStepType.methodEnd, originalBlockId := none }, { stepNumber := 5, depth := 0, sourceMethod := "A.f", description := "↩️ A.f() returns: f1", stepType := ReqGen.LinearStepType.methodReturn, originalBlockId := none }], methodReferences := [("A.f", { className := "A", methodName := "f", language := "java", analysisStatus := "complete", executionBlocks := [{ blockId := "block-0", blockType := "methodcall", description := "f1", executionFlow := "No execution flow documented", methodCalls := [{ className := "A", methodName := "f", parameters := "", stepInDecision := ReqGen.StepInDecision.stepInto, reasoning := "go", expectedBehavior := "To be analyzed", executionOrder := 0 }], nextBlocks := ["block-1"] }], methodCallSummary := { stepInto := [{ className := "A", methodName := "f", parameters := "", stepInDecision := ReqGen.StepInDecision.stepInto, reasoning := "go", expectedBehavior := "To be analyzed", executionOrder := 0 }], objectLookup := [], external := [], notFound := [] }, analysisTimestamp := 0, contentHash := "md5:srcA", errorMessage := none, inheritedFrom := none })], totalSteps := 5, rootMethod := "A.f" }
def seNext : AState :=
{ now := 0, mem := [("A#f", { key := "A#f", analysis := { className := "A", methodName := "f", language := "java", analysisStatus := "complete", executionBlocks := [{ blockId := "block-0", blockType := "methodcall", description := "f1", executionFlow := "No execution flow documented", methodCalls := [{ className := "A", methodName := "f", parameters := "", stepInDecision := ReqGen.StepInDecision.stepInto, reasoning := "go", expectedBehavior := "To be analyzed", executionOrder := 0 }], nextBlocks := ["block-1"] }], methodCallSummary := { stepInto := [{ className := "A", methodName := "f", parameters := "", stepInDecision := ReqGen.StepInDecision.stepInto, reasoning := "go", expectedBehavior := "To be analyzed", executionOrder := 0 }], objectLookup := [], external := [], notFound := [] }, analysisTimestamp := 0, contentHash := "md5:srcA", errorMessage := none, inheritedFrom := none }, timestamp := 0, accessCount := 1, contentHash := "md5:srcA" })], stats := { hitCount := 1, missCount := 1, evictionCount := 0 }, pc := [], selectedModel := some "gpt", oracleLog := [("A", "f")], visited := ["A#f"], totalAnalyzed := 1, callStack := [{ className := "A", methodName := "f", depth := 0, isConditional := false }], flow := some { steps := [{ stepNumber := 1, depth := 0, sourceMethod := "A.f", description := "A.f() starts", stepType := ReqGen.LinearStepType.methodStart, originalBlockId := none }, { stepNumber := 2, depth := 0, sourceMethod := "A.f", description := "f1", stepType := ReqGen.LinearStepType.execution, originalBlockId := some "block-0" }, { stepNumber := 3, depth := 0, sourceMethod := "A.f", description := "Call A.f()", stepType := ReqGen.LinearStepType.methodCall, originalBlockId := none }, { stepNumber := 4, depth := 0, sourceMethod := "A.f", description := "A.f() completes", stepType := ReqGen.LinearStepType.methodEnd, originalBlockId := none }, { stepNumber := 5, depth := 0, sourceMethod := "A.f", description := "↩️ A.f() returns: f1", stepType := ReqGen.LinearStepType.methodReturn, originalBlockId := none }], methodReferences := [("A.f", { className := "A", methodName := "f", language := "java", analysisStatus := "complete", executionBlocks := [{ blockId := "block-0", blockType := "methodcall", description := "f1", executionFlow := "No execution flow documented", methodCalls := [{ className := "A", methodName := "f", parameters := "", stepInDecision := ReqGen.StepInDecision.stepInto, reasoning := "go", expectedBehavior := "To be analyzed", executionOrder := 0 }], nextBlocks := ["block-1"] }], methodCallSummary := { stepInto := [{ className := "A", methodName := "f", parameters := "", stepInDecision := ReqGen.StepInDecision.stepInto, reasoning := "go", expectedBehavior := "To be analyzed", executionOrder := 0 }], objectLookup := [], external := [], notFound := [] }, analysisTimestamp := 0, contentHash := "md5:srcA", errorMessage := none, inheritedFrom := none })], totalSteps := 5, rootMethod := "A.f" } }
def seFinal : AState :=
{ now := 0, mem := [("A#f", { key := "A#f", analysis := { className := "A", methodName := "f", language := "java", analysisStatus := "complete", executionBlocks := [{ blockId := "block-0", blockType := "methodcall", description := "f1", executionFlow := "No execution flow documented", methodCalls := [{ className := "A", methodName := "f", parameters := "", stepInDecision := ReqGen.StepInDecision.stepInto, reasoning := "go", expectedBehavior := "To be analyzed", executionOrder := 0 }], nextBlocks := ["block-1"] }], methodCallSummary := { stepInto := [{ className := "A", methodName := "f", parameters := "", stepInDecision := ReqGen.StepInDecision.stepInto, reasoning := "go", expectedBehavior := "To be analyzed", executionOrder := 0 }], objectLookup := [], external := [], notFound := [] }, analysisTimestamp := 0, contentHash := "md5:srcA", errorMessage := none, inheritedFrom := none }, timestamp := 0, accessCount := 1, contentHash := "md5:srcA" })], stats := { hitCount := 1, missCount := 1, evictionCount := 0 }, pc := [], selectedModel := some "gpt", oracleLog := [("A", "f")], visited := ["A#f"], totalAnalyzed := 1, callStack := [], flow := some { steps := [{ stepNumber := 1, depth := 0, sourceMethod := "A.f", description := "A.f() starts", stepType := ReqGen.LinearStepType.methodStart, originalBlockId := none }, { stepNumber := 2, depth := 0, sourceMethod := "A.f", description := "f1", stepType := ReqGen.LinearStepType.execution, originalBlockId := some "block-0" }, { stepNumber := 3, depth := 0, sourceMethod := "A.f", description := "Call A.f()", stepType := ReqGen.LinearStepType.methodCall, originalBlockId := none }, { stepNumber := 4, depth := 0, sourceMethod := "A.f", description := "A.f() completes", stepType := ReqGen.LinearStepType.methodEnd, originalBlockId := none }, { stepNumber := 5, depth := 0, sourceMethod := "A.f", description := "↩️ A.f() returns: f1", stepType := ReqGen.LinearStepType.methodReturn, originalBlockId := none }], methodReferences := [("A.f", { className := "A", methodName := "f", language := "java", analysisStatus := "complete", executionBlocks := [{ blockId := "block-0", blockType := "methodcall", description := "f1", executionFlow := "No execution flow documented", methodCalls := [{ className := "A", methodName := "f", parameters := "", stepInDecision := ReqGen.StepInDecision.stepInto, reasoning := "go", expectedBehavior := "To be analyzed", executionOrder := 0 }], nextBlocks := ["block-1"] }], methodCallSummary := { stepInto := [{ className := "A", methodName := "f", parameters := "", stepInDecision := ReqGen.StepInDecision.stepInto, reasoning := "go", expectedBehavior := "To be analyzed", executionOrder := 0 }], objectLookup := [], external := [], notFound := [] }, analysisTimestamp := 0, contentHash := "md5:srcA", errorMessage := none, inheritedFrom := none })], totalSteps := 5, rootMethod := "A.f" } }
def xA1 : MethodAnalysis :=
{ className := "X", methodName := "f", language := "java", analysisStatus := "complete", executionBlocks := [{ blockId := "block-0", blockType := "return", description := "x1", executionFlow := "No execution flow documented", methodCalls := [], nextBlocks := ["block-1"] }], methodCallSummary := { stepInto := [], objectLookup := [], external := [], notFound := [] }, analysisTimestamp := 0, contentHash := "md5:S1", errorMessage := none, inheritedFrom := none }
def xS1 : AState :=
{ now := 0, mem := [("X#f", { key := "X#f", analysis := { className := "X", methodName := "f", language := "java", analysisStatus := "complete", executionBlocks := [{ blockId := "block-0", blockType := "return", description := "x1", executionFlow := "No execution flow documented", methodCalls := [], nextBlocks := ["block-1"] }], methodCallSummary := { stepInto := [], objectLookup := [], external := [], notFound := [] }, analysisTimestamp := 0, contentHash := "md5:S1", errorMessage := none, inheritedFrom := none }, timestamp := 0, accessCount := 0, contentHash := "md5:S1" })], stats := { hitCount := 0, missCount := 1, evictionCount := 0 }, pc := [], selectedModel := some "gpt", oracleLog := [("X", "f")], visited := [], totalAnalyzed := 0, callStack := [], flow := none }
def xA2 : MethodAnalysis :=
{ className := "X", methodName := "f", language := "java", analysisStatus := "complete", executionBlocks := [{ blockId := "block-0", blockType := "return", description := "x1", executionFlow := "No execution flow documented", methodCalls := [], nextBlocks := ["block-1"] }], methodCallSummary := { stepInto := [], objectLookup := [], external := [], notFound := [] }, analysisTimestamp := 0, contentHash := "md5:S1", errorMessage := none, inheritedFrom := none }
def xS2 : AState :=
{ now := 0, mem := [("X#f", { key := "X#f", analysis := { className := "X", methodName := "f", language := "java", analysisStatus := "complete", executionBlocks := [{ blockId := "block-0", blockType := "return", description := "x1", executionFlow := "No execution flow documented", methodCalls := [], nextBlocks := ["block-1"] }], methodCallSummary := { stepInto := [], objectLookup := [], external := [], notFound := [] }, analysisTimestamp := 0, contentHash := "md5:S1", errorMessage := none, inheritedFrom := none }, timestamp := 0, accessCount := 1, contentHash := "md5:S1" })], stats := { hitCount := 1, missCount := 1, evictionCount := 0 }, pc := [], selectedModel := some "gpt", oracleLog := [("X", "f")], visited := [], totalAnalyzed := 0, callStack := [], flow := none }


/-! ### Association-list lemmas -/

theorem mapGet_mapSet_self {α : Type} (l : List (String × α)) (k : String) (v : α) :
    mapGet (mapSet l k v) k = some v := by
  induction l with
  | nil => simp [mapSet, mapGet]
  | cons hd tl ih =>
      obtain ⟨k', v'⟩ := hd
      by_cases h : k' = k <;> simp [mapSet, mapGet, h, ih]

theorem mapGet_mapSet_cases {α : Type} (l : List (String × α)) (k k2 : String)
    (v : α) (e : α) (h : mapGet (mapSet l k v) k2 = some e) :
    mapGet l k2 = some e ∨ e = v := by
  induction l with
  | nil =>
      by_cases h2 : k = k2
      · simp [mapSet, mapGet, h2] at h
        exact Or.inr h.symm
      · simp [mapSet, mapGet, h2] at h
  | cons hd tl ih =>
      obtain ⟨k', v'⟩ := hd
      simp only [mapSet] at h
      by_cases hk : k' = k
      · rw [if_pos hk] at h
        simp only [mapGet] at h ⊢
        by_cases hk2 : k' = k2
        · rw [if_pos hk2] at h ⊢
          injection h with h
          exact Or.inr h.symm
        · rw [if_neg hk2] at h ⊢
          exact Or.inl h
      · rw [if_neg hk] at h
        simp only [mapGet] at h ⊢
        by_cases hk2 : k' = k2
        · rw [if_pos hk2] at h ⊢
          exact Or.inl h
        · rw [if_neg hk2] at h ⊢
          exact ih h

theorem mem_mapDelete {α : Type} (l : List (String × α)) (k : String)
    (p : String × α) (h : p ∈ mapDelete l k) : p ∈ l := by
  induction l with
  | nil => simp [mapDelete] at h
  | cons hd tl ih =>
      obtain ⟨k', v'⟩ := hd
      by_cases hk : k' = k
      · simp only [mapDelete, if_pos hk] at h
        exact List.mem_cons_of_mem _ h
      · simp only [mapDelete, if_neg hk] at h
        rcases List.mem_cons.mp h with h | h
        · exact h ▸ List.mem_cons_self _ _
        · exact List.mem_cons_of_mem _ (ih h)

theorem mem_mapSet {α : Type} (l : List (String × α)) (k : String) (v : α)
    (p : String × α) (h : p ∈ mapSet l k v) : p ∈ l ∨ p.2 = v := by
  induction l with
  | nil =>
      simp only [mapSet] at h
      rcases List.mem_singleton.mp h with rfl
      exact Or.inr rfl
  | cons hd tl ih =>
      obtain ⟨k', v'⟩ := hd
      by_cases hk : k' = k
      · simp only [mapSet, if_pos hk] at h
        rcases List.mem_cons.mp h with rfl | h
        · exact Or.inr rfl
        · exact Or.inl (List.mem_cons_of_mem _ h)
      · simp only [mapSet, if_neg hk] at h
        rcases List.mem_cons.mp h with rfl | h
        · exact Or.inl (List.mem_cons_self _ _)
        · rcases ih h with h | h
          · exact Or.inl (List.mem_cons_of_mem _ h)
          · exact Or.inr h

theorem mem_dropOldestP (n : Nat) (l : List (String × PEntry))
    (p : String × PEntry) (h : p ∈ dropOldestP n l) : p ∈ l := by
  induction n generalizing l with
  | zero => simpa [dropOldestP] using h
  | succ n ih =>
      simp only [dropOldestP] at h
      split at h
      · exact mem_mapDelete _ _ _ (ih _ h)
      · exact h

theorem mem_pcacheCleanup (now : Nat) (l : List (String × PEntry))
    (p : String × PEntry) (h : p ∈ pcacheCleanup now l) : p ∈ l := by
  simp only [pcacheCleanup] at h
  split at h
  · exact List.mem_filter.mp (mem_dropOldestP _ _ _ h) |>.1
  · exact List.mem_filter.mp h |>.1

/-! ### State-preservation lemmas -/

theorem coreEq_refl (st : AState) : CoreEq st st :=
  ⟨rfl, rfl, rfl, rfl, rfl, rfl, rfl, rfl⟩

theorem coreEq_trans {s1 s2 s3 : AState} (h1 : CoreEq s1 s2) (h2 : CoreEq s2 s3) :
    CoreEq s1 s3 := by
  obtain ⟨a1, b1, c1, d1, e1, f1, g1, i1⟩ := h1
  obtain ⟨a2, b2, c2, d2, e2, f2, g2, i2⟩ := h2
  exact ⟨a2.trans a1, b2.trans b1, c2.trans c1, d2.trans d1,
         e2.trans e1, f2.trans f1, g2.trans g1, i2.trans i1⟩

theorem coreEq_sessionEq {s1 s2 : AState} (h : CoreEq s1 s2) : SessionEq s1 s2 := by
  obtain ⟨a, _, _, _, e, f, g, i⟩ := h
  exact ⟨a, e, f, g, i⟩

theorem sessionEq_refl (st : AState) : SessionEq st st :=
  ⟨rfl, rfl, rfl, rfl, rfl⟩

theorem sessionEq_trans {s1 s2 s3 : AState} (h1 : SessionEq s1 s2)
    (h2 : SessionEq s2 s3) : SessionEq s1 s3 := by
  obtain ⟨a1, e1, f1, g1, i1⟩ := h1
  obtain ⟨a2, e2, f2, g2, i2⟩ := h2
  exact ⟨a2.trans a1, e2.trans e1, f2.trans f1, g2.trans g1, i2.trans i1⟩

theorem cacheGet_state (st : AState) (c m : String) :
    SessionEq st (cacheGet st c m).2 ∧
    (cacheGet st c m).2.pc = st.pc ∧
    (cacheGet st c m).2.selectedModel = st.selectedModel ∧
    (cacheGet st c m).2.oracleLog = st.oracleLog := by
  unfold cacheGet
  cases h : mapGet st.mem (memKey c m)
  · simp only [h]
    simp [SessionEq]
  · simp only [h]
    split <;> simp [SessionEq]

theorem cacheSet_state (st : AState) (c m : String) (a : MethodAnalysis) :
    SessionEq st (cacheSet st c m a) ∧
    (cacheSet st c m a).pc = st.pc ∧
    (cacheSet st c m a).selectedModel = st.selectedModel ∧
    (cacheSet st c m a).oracleLog = st.oracleLog := by
  unfold cacheSet
  split
  · simp [SessionEq]
  · split <;> simp [SessionEq]

theorem pcacheGet_state (st : AState) (c m fc mn : String) :
    SessionEq st (pcacheGet st c m fc mn).2 ∧
    (pcacheGet st c m fc mn).2.mem = st.mem ∧
    (pcacheGet st c m fc mn).2.stats = st.stats ∧
    (pcacheGet st c m fc mn).2.selectedModel = st.selectedModel ∧
    (pcacheGet st c m fc mn).2.oracleLog = st.oracleLog := by
  unfold pcacheGet
  cases h : mapGet st.pc (memKey c m)
  · simp only [h]
    simp [SessionEq]
  · simp only [h]
    split
    · simp [SessionEq]
    · split
      · simp [SessionEq]
      · split <;> simp [SessionEq]

theorem pcacheSet_state (st : AState) (c m : String) (a : MethodAnalysis)
    (fc fp mn : String) :
    SessionEq st (pcacheSet st c m a fc fp mn) ∧
    (pcacheSet st c m a fc fp mn).mem = st.mem ∧
    (pcacheSet st c m a fc fp mn).stats = st.stats ∧
    (pcacheSet st c m a fc fp mn).selectedModel = st.selectedModel ∧
    (pcacheSet st c m a fc fp mn).oracleLog = st.oracleLog :=
  ⟨⟨rfl, rfl, rfl, rfl, rfl⟩, rfl, rfl, rfl, rfl⟩

theorem invokeOracle_state (env : Env) (st : AState) (c m fc : String) :
    CoreEq st (invokeOracle env st c m fc).2 :=
  ⟨rfl, rfl, rfl, rfl, rfl, rfl, rfl, rfl⟩

theorem followLoop_coreEq
    (perform : String → FileInfo → AState → Except String MethodAnalysis × AState)
    (env : Env) (orig : String)
    (hp : ∀ c fi st, CoreEq st (perform c fi st).2) :
    ∀ (l : List Suggestion) (st : AState),
      CoreEq st (followLoop perform env orig l st).2 := by
  intro l
  induction l with
  | nil => intro st; exact coreEq_refl st
  | cons sg rest ih =>
      intro st
      unfold followLoop
      cases hf : getFileInfo env st sg.className with
      | error e =>
          dsimp only
          exact ih st
      | ok sfi =>
          dsimp only
          cases hpf : perform sg.className sfi st with
          | mk r st2 =>
            have h1 : CoreEq st st2 := by
              have h0 := hp sg.className sfi st
              rw [hpf] at h0
              exact h0
            cases r with
            | error e =>
                dsimp only
                exact coreEq_trans h1 (ih st2)
            | ok analysis =>
                dsimp only
                split
                · exact h1
                · exact coreEq_trans h1 (ih st2)

theorem performMethodAnalysis_coreEq (fuel : Nat) (env : Env)
    (c m : String) (fi : FileInfo) (st : AState) :
    CoreEq st (performMethodAnalysis fuel env c m fi st).2 := by
  induction fuel generalizing c fi st with
  | zero =>
      unfold performMethodAnalysis
      cases ho : invokeOracle env st c m fi.content with
      | mk r st1 =>
        have h1 : CoreEq st st1 := by
          have h0 := invokeOracle_state env st c m fi.content
          rw [ho] at h0
          exact h0
        cases r with
        | error e => exact h1
        | ok rt =>
            simp only
            split
            · exact h1
            · exact h1
  | succ n ih =>
      unfold performMethodAnalysis
      cases ho : invokeOracle env st c m fi.content with
      | mk r st1 =>
        have h1 : CoreEq st st1 := by
          have h0 := invokeOracle_state env st c m fi.content
          rw [ho] at h0
          exact h0
        cases r with
        | error e => exact h1
        | ok rt =>
            simp only
            split
            · cases hfl : followLoop
                  (fun cls fi2 st2 => performMethodAnalysis n env cls m fi2 st2)
                  env c (extractLLMSuggestions rt) st1 with
              | mk ores st2 =>
                have h2 : CoreEq st1 st2 := by
                  have h0 := followLoop_coreEq
                    (fun cls fi2 st2 => performMethodAnalysis n env cls m fi2 st2)
                    env c (fun c2 fi2 s2 => ih c2 fi2 s2)
                    (extractLLMSuggestions rt) st1
                  rw [hfl] at h0
                  exact h0
                cases ores with
                | some a => exact coreEq_trans h1 h2
                | none => exact coreEq_trans h1 h2
            · exact h1

theorem performMethodAnalysis_mem_now (fuel : Nat) (env : Env)
    (c m : String) (fi : FileInfo) (st : AState) :
    (performMethodAnalysis fuel env c m fi st).2.mem = st.mem ∧
    (performMethodAnalysis fuel env c m fi st).2.now = st.now := by
  have h := performMethodAnalysis_coreEq fuel env c m fi st
  exact ⟨h.2.1, h.1⟩

theorem cacheSet_self (st : AState) (c m : String) (a : MethodAnalysis) :
    mapGet (cacheSet st c m a).mem (memKey c m) =
      some { key := memKey c m, analysis := a, timestamp := st.now,
             accessCount := 0, contentHash := a.contentHash } ∧
    (cacheSet st c m a).now = st.now := by
  unfold cacheSet
  split
  · exact ⟨mapGet_mapSet_self _ _ _, rfl⟩
  · split
    · exact ⟨mapGet_mapSet_self _ _ _, rfl⟩
    · exact ⟨mapGet_mapSet_self _ _ _, rfl⟩

theorem cacheGet_some_inv (st : AState) (c m : String) (e : CacheEntry)
    (st1 : AState) (h : cacheGet st c m = (some e, st1)) :
    mapGet st1.mem (memKey c m) = some e ∧ st1.now = st.now ∧
    st1.now - e.timestamp ≤ memExpiryMs ∧ st1.oracleLog = st.oracleLog := by
  simp only [cacheGet] at h
  cases hm : mapGet st.mem (memKey c m) with
  | none =>
      rw [hm] at h
      simp at h
  | some e0 =>
      rw [hm] at h
      dsimp only at h
      by_cases hexp : st.now - e0.timestamp > memExpiryMs
      · rw [if_pos hexp] at h
        simp at h
      · rw [if_neg hexp] at h
        injection h with h1 h2
        injection h1 with h1
        subst h1
        subst h2
        refine ⟨mapGet_mapSet_self _ _ _, rfl, ?_, rfl⟩
        show st.now - e0.timestamp ≤ memExpiryMs
        omega

theorem cacheGet_hit (st : AState) (c m : String) (e : CacheEntry)
    (hm : mapGet st.mem (memKey c m) = some e)
    (hexp : st.now - e.timestamp ≤ memExpiryMs) :
    cacheGet st c m =
      (some { e with accessCount := e.accessCount + 1 },
       { st with
           mem := mapSet st.mem (memKey c m) { e with accessCount := e.accessCount + 1 }
           stats := { st.stats with hitCount := st.stats.hitCount + 1 } }) := by
  simp only [cacheGet]
  rw [hm]
  dsimp only
  rw [if_neg (by omega)]

/-- After any `analyzeMethod` call the requested key is present in the
in-memory cache, bound to the returned analysis, and its entry is not
expired; the clock is unchanged. -/
theorem analyzeMethod_cached (env : Env) (c m : String) (st : AState) :
    ∃ e, mapGet (analyzeMethod env c m st).2.mem (memKey c m) = some e ∧
      e.analysis = (analyzeMethod env c m st).1 ∧
      (analyzeMethod env c m st).2.now - e.timestamp ≤ memExpiryMs ∧
      (analyzeMethod env c m st).2.now = st.now := by
  unfold analyzeMethod
  cases hg : cacheGet st c m with
  | mk oe st1 =>
    cases oe with
    | some entry =>
        have h0 := cacheGet_some_inv st c m entry st1 hg
        exact ⟨entry, h0.1, rfl, h0.2.2.1, h0.2.1⟩
    | none =>
        have hnow1 : st1.now = st.now := by
          have h0 := (cacheGet_state st c m).1.1
          rw [hg] at h0
          exact h0
        simp only
        cases hfi : getFileInfo env st1 c with
        | error msg =>
            dsimp only
            refine ⟨_, (cacheSet_self st1 c m _).1, rfl, ?_, ?_⟩
            · rw [(cacheSet_self st1 c m _).2]
              simp
            · rw [(cacheSet_self st1 c m _).2]
              omega
        | ok fi =>
          dsimp only
          cases hph : (if env.persistentEnabled then
              match st1.selectedModel with
              | some mdl => pcacheGet st1 c m fi.content mdl
              | none => (none, st1)
            else (none, st1)) with
          | mk pr st2 =>
            have hnow2 : st2.now = st1.now := by
              rw [show st2 = ((if env.persistentEnabled then
                  match st1.selectedModel with
                  | some mdl => pcacheGet st1 c m fi.content mdl
                  | none => (none, st1)
                else (none, st1)).2) from by rw [hph]]
              split
              · split
                · exact (pcacheGet_state _ _ _ _ _).1.1
                · rfl
              · rfl
            cases pr with
            | some a =>
                dsimp only
                refine ⟨_, (cacheSet_self st2 c m a).1, rfl, ?_, ?_⟩
                · rw [(cacheSet_self st2 c m a).2]
                  simp
                · rw [(cacheSet_self st2 c m a).2]
                  omega
            | none =>
                dsimp only
                cases hpm : performMethodAnalysis env.sfuel env c m fi st2 with
                | mk r st3 =>
                  have hnow3 : st3.now = st2.now := by
                    have h0 := (performMethodAnalysis_mem_now env.sfuel env c m fi st2).2
                    rw [hpm] at h0
                    exact h0
                  cases r with
                  | error msg =>
                      dsimp only
                      refine ⟨_, (cacheSet_self st3 c m _).1, rfl, ?_, ?_⟩
                      · rw [(cacheSet_self st3 c m _).2]
                        simp
                      · rw [(cacheSet_self st3 c m _).2]
                        omega
                  | ok a0 =>
                      dsimp only
                      set afin : MethodAnalysis :=
                        { a0 with
                            contentHash := generateContentHash fi.content
                            analysisTimestamp := st1.now } with hafin
                      have hset := cacheSet_self st3 c m afin
                      split
                      · split
                        · rename_i mdl hmdl
                          have hmap2 : mapGet (pcacheSet (cacheSet st3 c m afin) c m afin
                              fi.content fi.filePath mdl).mem (memKey c m) =
                              some { key := memKey c m, analysis := afin,
                                     timestamp := st3.now, accessCount := 0,
                                     contentHash := afin.contentHash } := by
                            rw [(pcacheSet_state (cacheSet st3 c m afin) c m afin
                                fi.content fi.filePath mdl).2.1]
                            exact hset.1
                          refine ⟨_, hmap2, rfl, ?_, ?_⟩
                          · rw [(pcacheSet_state (cacheSet st3 c m afin) c m afin
                                fi.content fi.filePath mdl).1.1, hset.2]
                            simp
                          · rw [(pcacheSet_state (cacheSet st3 c m afin) c m afin
                                fi.content fi.filePath mdl).1.1, hset.2]
                            omega
                        · refine ⟨_, hset.1, rfl, ?_, ?_⟩
                          · rw [hset.2]
                            simp
                          · rw [hset.2]
                            omega
                      · refine ⟨_, hset.1, rfl, ?_, ?_⟩
                        · rw [hset.2]
                          simp
                        · rw [hset.2]
                          omega

theorem analyzeMethod_hit_step (env : Env) (c m : String) (st : AState)
    (e : CacheEntry) (st1 : AState) (h : cacheGet st c m = (some e, st1)) :
    analyzeMethod env c m st = (e.analysis, st1) := by
  unfold analyzeMethod
  rw [h]

/-! ### Step equations for symbolic execution of concrete sessions

Direct kernel evaluation of a whole session is infeasible (call-by-name
reduction duplicates the threaded state), so concrete runs are proved by
composing one-level step equations whose intermediate states are explicit
literals checked by `rfl`. -/

theorem analyzeMethodRecursively_fuel (env : Env) (cfg : AnalysisConfig)
    (c m : String) (depth : Nat) (st : AState) :
    analyzeMethodRecursively env cfg c m depth st =
      analyzeRecFuel env cfg (cfg.maxCallStackDepth + 1 - depth) c m depth st := rfl

theorem runSession_init (env : Env) (cfg : AnalysisConfig) (c m : String)
    (st st1 : AState)
    (hinit : st1 = { st with
                      visited := [], totalAnalyzed := 0, callStack := [],
                      flow := some (emptyFlow c m) }) :
    runSession env cfg c m st = analyzeMethodRecursively env cfg c m 0 st1 := by
  rw [runSession, hinit]

theorem analyzeRecFuel_main_step (env : Env) (cfg : AnalysisConfig)
    (fuel : Nat) (c m : String) (depth : Nat) (st stM : AState)
    (a1 : MethodAnalysis) (st1 stPost : AState) (resLoop : MethodAnalysis × AState)
    (hdepth : ¬ depth ≥ cfg.maxCallStackDepth)
    (hvis : ¬ st.visited.contains (memKey c m) = true)
    (hbud : ¬ st.totalAnalyzed ≥ cfg.maxTotalMethods)
    (hval : isValidIdentifier c ∧ isValidIdentifier m)
    (hstM : stM = { st with
                     visited := st.visited ++ [memKey c m],
                     totalAnalyzed := st.totalAnalyzed + 1,
                     callStack := st.callStack ++
                       [{ className := c, methodName := m, depth := depth,
                          isConditional := false }] })
    (hana : analyzeMethod env c m stM = (a1, st1))
    (hpost : stPost =
      (let stR := if depth = 0 ∧ a1.inheritedFrom.isSome then
          { st1 with flow := st1.flow.map (fun f =>
              { f with rootMethod := flowKey a1.className a1.methodName }) }
        else st1
       if a1.analysisStatus = "complete" then
          { stR with flow := stR.flow.map (addMethodToLinearFlow a1 depth) }
        else stR))
    (hloop : (if a1.analysisStatus = "complete" then
        processCallsLoop (fun c2 m2 s2 => analyzeRecFuel env cfg fuel c2 m2 (depth + 1) s2)
          depth a1 a1.methodCallSummary.stepInto stPost
      else (a1, stPost)) = resLoop) :
    analyzeRecFuel env cfg (fuel + 1) c m depth st =
      (resLoop.1, { resLoop.2 with callStack := resLoop.2.callStack.dropLast }) := by
  simp only [analyzeRecFuel]
  rw [if_neg hdepth, if_neg hvis, if_neg hbud, if_neg (not_not_intro hval)]
  rw [← hstM, hana]
  dsimp only
  rw [← hpost] at *
  rw [hloop]

theorem processCallsLoop_cons_step
    (analyze : String → String → AState → MethodAnalysis × AState)
    (depth : Nat) (analysis : MethodAnalysis) (mc : MethodCall)
    (rest : List MethodCall) (st : AState) (inner : MethodAnalysis)
    (st1 stRet : AState) (a2 : MethodAnalysis) (f2 : Option LinearFlow)
    (res : MethodAnalysis × AState)
    (h1 : analyze mc.className mc.methodName st = (inner, st1))
    (hret : stRet = (if inner.analysisStatus = "complete" then
        { st1 with flow := st1.flow.map (fun f =>
            addReturnStep f depth (flowKey analysis.className analysis.methodName)
              ("↩️ " ++ mc.className ++ "." ++ mc.methodName ++ "() returns: " ++
                extractExpectedBehavior inner)) }
      else st1))
    (hint : integrateInnerAnalysis analysis mc inner stRet.flow = (a2, f2))
    (hrest : processCallsLoop analyze depth a2 rest { stRet with flow := f2 } = res) :
    processCallsLoop analyze depth analysis (mc :: rest) st = res := by
  simp only [processCallsLoop]
  rw [h1]
  dsimp only
  rw [← hret]
  rw [hint]
  dsimp only
  exact hrest

theorem processCallsLoop_nil
    (analyze : String → String → AState → MethodAnalysis × AState)
    (depth : Nat) (analysis : MethodAnalysis) (st : AState) :
    processCallsLoop analyze depth analysis [] st = (analysis, st) := rfl

/-! ### Kernel evaluations of the concrete sessions

Each session equation is proved by composing the step lemmas above, with
every intermediate state discharged by `rfl` against its literal. -/

set_option maxRecDepth 100000 in
set_option maxHeartbeats 1000000 in
/-- The chain session `A → B → C` under `maxDepth = 2` evaluates to the
literal final analysis and state. -/
theorem chain_run_eq :
    runSession envChain cfgDepth2 "A" "a" st0 = (chA2, chFinal) := by
  rw [runSession_init envChain cfgDepth2 "A" "a" st0 chInit rfl]
  rw [analyzeMethodRecursively_fuel]
  show analyzeRecFuel envChain cfgDepth2 (2 + 1) "A" "a" 0 chInit = (chA2, chFinal)
  refine analyzeRecFuel_main_step envChain cfgDepth2 2 "A" "a" 0 chInit chM chA1 chS1
      chPost (chA2, chLoopSt) (by decide) (by decide) (by decide) (by decide)
      (by rfl) (by rfl) (by rfl) ?_
  rw [if_pos (show chA1.analysisStatus = "complete" from rfl)]
  show processCallsLoop
      (fun c2 m2 s2 => analyzeRecFuel envChain cfgDepth2 2 c2 m2 (0 + 1) s2)
      0 chA1 [chCallB] chPost = (chA2, chLoopSt)
  refine processCallsLoop_cons_step _ 0 chA1 chCallB [] chPost chB1 chS2 chRet chA2 chF2
      (chA2, chLoopSt) (by rfl) (by rfl) (by rfl) (by rfl)

set_option maxRecDepth 100000 in
set_option maxHeartbeats 1000000 in
/-- The budget session (root `R.r` with five step-into calls, budget 3)
evaluates to the literal final analysis and state. -/
theorem budget_run_eq :
    runSession envBudget cfgBudget3 "R" "r" st0 = (bu5Main, buFinal) := by
  rw [runSession_init envBudget cfgBudget3 "R" "r" st0 buInit rfl]
  rw [analyzeMethodRecursively_fuel]
  show analyzeRecFuel envBudget cfgBudget3 (5 + 1) "R" "r" 0 buInit = (bu5Main, buFinal)
  refine analyzeRecFuel_main_step envBudget cfgBudget3 5 "R" "r" 0 buInit buM buA1 buS1
      buPost (bu5Main, bu5Next) (by decide) (by decide) (by decide) (by decide)
      (by rfl) (by rfl) (by rfl) ?_
  rw [if_pos (show buA1.analysisStatus = "complete" from rfl)]
  show processCallsLoop
      (fun c2 m2 s2 => analyzeRecFuel envBudget cfgBudget3 5 c2 m2 (0 + 1) s2)
      0 buA1 [buC1, buC2, buC3, buC4, buC5] buPost = (bu5Main, bu5Next)
  refine processCallsLoop_cons_step _ 0 buA1 buC1 [buC2, buC3, buC4, buC5] buPost
      bu1InnerA bu1InnerS bu1Ret bu1Main bu1F (bu5Main, bu5Next)
      (by rfl) (by rfl) (by rfl) ?_
  refine processCallsLoop_cons_step _ 0 bu1Main buC2 [buC3, buC4, buC5] bu1Next
      bu2InnerA bu2InnerS bu2Ret bu2Main bu2F (bu5Main, bu5Next)
      (by rfl) (by rfl) (by rfl) ?_
  refine processCallsLoop_cons_step _ 0 bu2Main buC3 [buC4, buC5] bu2Next
      bu3InnerA bu3InnerS bu3Ret bu3Main bu3F (bu5Main, bu5Next)
      (by rfl) (by rfl) (by rfl) ?_
  refine processCallsLoop_cons_step _ 0 bu3Main buC4 [buC5] bu3Next
      bu4InnerA bu4InnerS bu4Ret bu4Main bu4F (bu5Main, bu5Next)
      (by rfl) (by rfl) (by rfl) ?_
  refine processCallsLoop_cons_step _ 0 bu4Main buC5 [] bu4Next
      bu5InnerA bu5InnerS bu5Ret bu5Main bu5F (bu5Main, bu5Next)
      (by rfl) (by rfl) (by rfl) (by rfl)

set_option maxRecDepth 100000 in
set_option maxHeartbeats 1000000 in
/-- The inheritance session (`Child.run` resolved on `Base` by the
suggestion fallback) evaluates to the literal final analysis and state. -/
theorem inherit_run_eq :
    runSession envInherit cfgStd "Child" "run" st0 = (ihMain, ihFinal) := by
  rw [runSession_init envInherit cfgStd "Child" "run" st0 ihInit rfl]
  rw [analyzeMethodRecursively_fuel]
  show analyzeRecFuel envInherit cfgStd (5 + 1) "Child" "run" 0 ihInit =
      (ihMain, ihFinal)
  refine analyzeRecFuel_main_step envInherit cfgStd 5 "Child" "run" 0 ihInit ihM ihA1
      ihS1 ihPost (ihMain, ihNext) (by decide) (by decide) (by decide) (by decide)
      (by rfl) (by rfl) (by rfl) ?_
  rw [if_pos (show ihA1.analysisStatus = "complete" from rfl)]
  show processCallsLoop
      (fun c2 m2 s2 => analyzeRecFuel envInherit cfgStd 5 c2 m2 (0 + 1) s2)
      0 ihA1 [ihCall] ihPost = (ihMain, ihNext)
  refine processCallsLoop_cons_step _ 0 ihA1 ihCall [] ihPost ihInnerA ihInnerS ihRet
      ihMain ihF (ihMain, ihNext) (by rfl) (by rfl) (by rfl) (by rfl)

set_option maxRecDepth 100000 in
set_option maxHeartbeats 1000000 in
/-- The self-call session (`A.f` whose only step-into call is `A.f` itself)
evaluates to the literal final analysis and state. -/
theorem self_run_eq :
    runSession envSelf cfgStd "A" "f" st0 = (seMain, seFinal) := by
  rw [runSession_init envSelf cfgStd "A" "f" st0 seInit rfl]
  rw [analyzeMethodRecursively_fuel]
  show analyzeRecFuel envSelf cfgStd (5 + 1) "A" "f" 0 seInit = (seMain, seFinal)
  refine analyzeRecFuel_main_step envSelf cfgStd 5 "A" "f" 0 seInit seM seA1 seS1
      sePost (seMain, seNext) (by decide) (by decide) (by decide) (by decide)
      (by rfl) (by rfl) (by rfl) ?_
  rw [if_pos (show seA1.analysisStatus = "complete" from rfl)]
  show processCallsLoop
      (fun c2 m2 s2 => analyzeRecFuel envSelf cfgStd 5 c2 m2 (0 + 1) s2)
      0 seA1 [seCall] sePost = (seMain, seNext)
  refine processCallsLoop_cons_step _ 0 seA1 seCall [] sePost seInnerA seInnerS seRet
      seMain seF (seMain, seNext) (by rfl) (by rfl) (by rfl) (by rfl)

set_option maxRecDepth 100000 in
set_option maxHeartbeats 1000000 in
/-- First request of the invalidation scenario: `X.f` under source content
`S1` produces the literal analysis and state (one oracle invocation). -/
theorem content_first_eq :
    analyzeMethod envContentS1 "X" "f" st0 = (xA1, xS1) := by rfl

set_option maxRecDepth 100000 in
set_option maxHeartbeats 1000000 in
/-- Second request of the invalidation scenario: after the source content of
`X` changed to `S2` (so the current fingerprint changed), the session-tier
lookup still hits and returns the stored analysis without consulting the
oracle. -/
theorem content_second_eq :
    analyzeMethod envContentS2 "X" "f" xS1 = (xA2, xS2) := by rfl

/-! ### Claim C1 (session-tier memoization) -/

/-- Claim C1, counterexample.  In the inheritance-fallback session for
`Child.run()` with `maxDepth = 5`, the MethodKey `(Base, run)` is requested
twice by the recursion (once at depth 1 and once, as a repeat, at depth 2,
where the cached analysis is returned identically), with identical content
fingerprint and oracle identity throughout — yet the oracle is invoked twice
for `(Base, run)` across the session: once by the suggestion-following
fallback of the root request (whose result is cached under `Child#run`
only), and once by the first direct request.  This refutes "the oracle is
invoked at most once for that key across the whole session". -/
theorem C1_oracle_twice_for_suggested_key :
    (runSession envInherit cfgStd "Child" "run" st0).2.oracleLog =
      [("Child", "run"), ("Base", "run"), ("Base", "run")] := by
  rw [inherit_run_eq]
  rfl

/-- Claim C1, amended: a repeat `analyzeMethod` request for a MethodKey
returns exactly the `MethodAnalysis` produced (and cached) by the previous
request for it and performs no oracle invocation — the session-tier cache
hit short-circuits the oracle call, so each key is resolved by the oracle at
most once across its direct requests.  (The original "at most once across
the whole session" fails because the oracle-guided suggestion fallback
additionally invokes the oracle for the suggested class without caching the
result under that class's key; see the counterexample.) -/
theorem C1_repeat_request_memoized (env : Env) (c m : String) (st : AState) :
    (analyzeMethod env c m (analyzeMethod env c m st).2).1 =
      (analyzeMethod env c m st).1 ∧
    (analyzeMethod env c m (analyzeMethod env c m st).2).2.oracleLog =
      (analyzeMethod env c m st).2.oracleLog := by
  obtain ⟨e, hmap, hana, hexp, hnow⟩ := analyzeMethod_cached env c m st
  have hhit := cacheGet_hit (analyzeMethod env c m st).2 c m e hmap hexp
  have h2 := analyzeMethod_hit_step env c m (analyzeMethod env c m st).2 _ _ hhit
  rw [h2]
  exact ⟨hana, rfl⟩

theorem analyzeMethod_sessionEq (env : Env) (c m : String) (st : AState) :
    SessionEq st (analyzeMethod env c m st).2 := by
  unfold analyzeMethod
  cases hg : cacheGet st c m with
  | mk oe st1 =>
    have h1 : SessionEq st st1 := by
      have h0 := (cacheGet_state st c m).1
      rw [hg] at h0
      exact h0
    cases oe with
    | some entry => exact h1
    | none =>
        simp only
        cases hfi : getFileInfo env st1 c
        · exact sessionEq_trans h1 (cacheSet_state st1 c m _).1
        · rename_i fi
          simp only
          cases hph : (if env.persistentEnabled then
              match st1.selectedModel with
              | some mdl => pcacheGet st1 c m fi.content mdl
              | none => (none, st1)
            else (none, st1)) with
          | mk pr st2 =>
            have h2 : SessionEq st1 st2 := by
              rw [show st2 = ((if env.persistentEnabled then
                  match st1.selectedModel with
                  | some mdl => pcacheGet st1 c m fi.content mdl
                  | none => (none, st1)
                else (none, st1)).2) from by rw [hph]]
              split
              · split
                · exact (pcacheGet_state _ _ _ _ _).1
                · exact sessionEq_refl st1
              · exact sessionEq_refl st1
            cases pr with
            | some a => exact sessionEq_trans h1 (sessionEq_trans h2 (cacheSet_state st2 c m a).1)
            | none =>
                simp only
                cases hpm : performMethodAnalysis env.sfuel env c m fi st2 with
                | mk r st3 =>
                  have h3 : SessionEq st2 st3 := by
                    have h0 := coreEq_sessionEq
                      (performMethodAnalysis_coreEq env.sfuel env c m fi st2)
                    rw [hpm] at h0
                    exact h0
                  cases r with
                  | error msg =>
                      exact sessionEq_trans h1 (sessionEq_trans h2
                        (sessionEq_trans h3 (cacheSet_state st3 c m _).1))
                  | ok a0 =>
                      simp only
                      have h5 : SessionEq st (cacheSet st3 c m
                          { a0 with
                              contentHash := generateContentHash fi.content
                              analysisTimestamp := st1.now }) :=
                        sessionEq_trans h1 (sessionEq_trans h2
                          (sessionEq_trans h3 (cacheSet_state st3 c m _).1))
                      split
                      · split
                        · exact sessionEq_trans h5 (pcacheSet_state _ c m _ _ _ _).1
                        · exact h5
                      · exact h5

/-! ### Claim C2 (depth bound) -/

/-- Claim C2, counterexample.  With `maxDepth = 2` and the call chain
`A → B → C → D`, the session's oracle log is `[(A, a), (B, b)]`: the oracle
is never invoked for `C` (nor for `D`).  The recursion reaches `A` at depth
0 and `B` at depth 1; the request for `C` arrives at depth 2, where the
guard `depth >= maxCallStackDepth` already fires, so `C` — not `D` — is the
depth-limited placeholder.  This refutes "the controller analyzes A, B, and
C fully (invoking the oracle for each)". -/
theorem C2_chain_only_two_oracle_calls :
    (runSession envChain cfgDepth2 "A" "a" st0).2.oracleLog =
      [("A", "a"), ("B", "b")] := by
  rw [chain_run_eq]
  rfl

/-- Claim C2, amended: a request at depth `≥ maxCallStackDepth` returns a
placeholder analysis with status `partial` and reason "Maximum recursion
depth reached" and leaves the state unchanged (in particular the oracle is
not invoked and nothing recurses); consequently, with `maxDepth = 2`, the
chain `A → B → C → D` analyzes only `A` and `B` fully and already
placeholders `C` at depth 2. -/
theorem C2_depth_guard (env : Env) (cfg : AnalysisConfig) (c m : String)
    (depth : Nat) (st : AState) (h : depth ≥ cfg.maxCallStackDepth) :
    analyzeMethodRecursively env cfg c m depth st =
      (createPlaceholderAnalysis st.now c m "partial"
        "Maximum recursion depth reached", st) := by
  unfold analyzeMethodRecursively
  cases hf : cfg.maxCallStackDepth + 1 - depth with
  | zero => rfl
  | succ k =>
      simp only [analyzeRecFuel]
      rw [if_pos h]

/-- Claim C2, witness: the depth guard applied to the concrete depth-2
request for `C` of the chain scenario. -/
theorem C2_depth_guard_witness :
    2 ≥ cfgDepth2.maxCallStackDepth ∧
    analyzeMethodRecursively envChain cfgDepth2 "C" "c" 2 st0 =
      (createPlaceholderAnalysis st0.now "C" "c" "partial"
        "Maximum recursion depth reached", st0) :=
  ⟨by decide, C2_depth_guard envChain cfgDepth2 "C" "c" 2 st0 (by decide)⟩

/-! ### Claim C4 (cycle guard) -/

/-- Claim C4: a recursive request for a MethodKey already in the session's
visited set returns immediately — the cached analysis when the session-tier
cache holds one, else a placeholder with status `partial` and reason
"Circular dependency detected" — without invoking the oracle, without
recursing, and without growing the visited set or the analyzed count; and in
the concrete self-call session (`A.f` whose only step-into call is `A.f`),
the analyzed count for the session is exactly 1 and the oracle is invoked
exactly once. -/
theorem C4_cycle_guard (env : Env) (cfg : AnalysisConfig) (c m : String)
    (depth : Nat) (st : AState)
    (hd : depth < cfg.maxCallStackDepth)
    (hv : st.visited.contains (memKey c m) = true) :
    (analyzeMethodRecursively env cfg c m depth st =
      match cacheGet st c m with
      | (some e, st2) => (e.analysis, st2)
      | (none, st2) =>
          (createPlaceholderAnalysis st2.now c m "partial"
            "Circular dependency detected", st2)) ∧
    (analyzeMethodRecursively env cfg c m depth st).2.oracleLog = st.oracleLog ∧
    (analyzeMethodRecursively env cfg c m depth st).2.totalAnalyzed =
      st.totalAnalyzed ∧
    (analyzeMethodRecursively env cfg c m depth st).2.visited = st.visited ∧
    (runSession envSelf cfgStd "A" "f" st0).2.totalAnalyzed = 1 ∧
    (runSession envSelf cfgStd "A" "f" st0).2.oracleLog = [("A", "f")] := by
  have h1 : analyzeMethodRecursively env cfg c m depth st =
      match cacheGet st c m with
      | (some e, st2) => (e.analysis, st2)
      | (none, st2) =>
          (createPlaceholderAnalysis st2.now c m "partial"
            "Circular dependency detected", st2) := by
    unfold analyzeMethodRecursively
    cases hf : cfg.maxCallStackDepth + 1 - depth with
    | zero => exact absurd hf (by omega)
    | succ k =>
        simp only [analyzeRecFuel]
        rw [if_neg (by omega), if_pos hv]
  have h2 : (analyzeMethodRecursively env cfg c m depth st).2 =
      (cacheGet st c m).2 := by
    rw [h1]
    cases hg : cacheGet st c m with
    | mk oe st2 => cases oe <;> rfl
  obtain ⟨⟨hnow, hvis2, htot, hcs, hfl⟩, hpc, hsel, hlog⟩ := cacheGet_state st c m
  refine ⟨h1, ?_, ?_, ?_, ?_, ?_⟩
  · rw [h2]; exact hlog
  · rw [h2]; exact htot
  · rw [h2]; exact hvis2
  · rw [self_run_eq]; rfl
  · rw [self_run_eq]; rfl

/-- Claim C4, witness: the cycle guard applied to the concrete repeated
request for `A.f` at depth 1 inside the self-call session. -/
theorem C4_cycle_guard_witness :
    1 < cfgStd.maxCallStackDepth ∧
    sePost.visited.contains (memKey "A" "f") = true ∧
    (analyzeMethodRecursively envSelf cfgStd "A" "f" 1 sePost =
      match cacheGet sePost "A" "f" with
      | (some e, st2) => (e.analysis, st2)
      | (none, st2) =>
          (createPlaceholderAnalysis st2.now "A" "f" "partial"
            "Circular dependency detected", st2)) :=
  ⟨by decide, by rfl,
   (C4_cycle_guard envSelf cfgStd "A" "f" 1 sePost (by decide) (by rfl)).1⟩

/-! ### Claim C5 (method budget) -/

/-- Claim C5: a request arriving when the session's analyzed count has
reached `maxTotalMethods` returns a placeholder with status `partial` and
reason "Maximum method count reached" with the state untouched, regardless
of depth; and in the concrete budget session (`maxTotalMethods = 3`, root
`R.r` with five distinct step-into calls), exactly 3 methods are analyzed —
the root plus the first two calls in traversal order — with the oracle
invoked exactly for those three. -/
theorem C5_budget_guard (env : Env) (cfg : AnalysisConfig) (c m : String)
    (depth : Nat) (st : AState)
    (hd : depth < cfg.maxCallStackDepth)
    (hv : st.visited.contains (memKey c m) = false)
    (hb : st.totalAnalyzed ≥ cfg.maxTotalMethods) :
    analyzeMethodRecursively env cfg c m depth st =
      (createPlaceholderAnalysis st.now c m "partial"
        "Maximum method count reached", st) ∧
    (runSession envBudget cfgBudget3 "R" "r" st0).2.totalAnalyzed = 3 ∧
    (runSession envBudget cfgBudget3 "R" "r" st0).2.visited =
      ["R#r", "M1#m", "M2#m"] ∧
    (runSession envBudget cfgBudget3 "R" "r" st0).2.oracleLog =
      [("R", "r"), ("M1", "m"), ("M2", "m")] := by
  refine ⟨?_, ?_, ?_, ?_⟩
  · unfold analyzeMethodRecursively
    cases hf : cfg.maxCallStackDepth + 1 - depth with
    | zero => exact absurd hf (by omega)
    | succ k =>
        simp only [analyzeRecFuel]
        rw [if_neg (by omega), if_neg (by rw [hv]; exact Bool.false_ne_true),
          if_pos hb]
  · rw [budget_run_eq]; rfl
  · rw [budget_run_eq]; rfl
  · rw [budget_run_eq]; rfl

/-- Claim C5, witness: the budget guard applied to the concrete request for
`M3.m` of the budget session, which arrives with the count already at 3. -/
theorem C5_budget_guard_witness :
    1 < cfgBudget3.maxCallStackDepth ∧
    bu2Next.visited.contains (memKey "M3" "m") = false ∧
    bu2Next.totalAnalyzed ≥ cfgBudget3.maxTotalMethods ∧
    analyzeMethodRecursively envBudget cfgBudget3 "M3" "m" 1 bu2Next =
      (createPlaceholderAnalysis bu2Next.now "M3" "m" "partial"
        "Maximum method count reached", bu2Next) :=
  ⟨by decide, by rfl, by decide,
   (C5_budget_guard envBudget cfgBudget3 "M3" "m" 1 bu2Next (by decide) (by rfl)
      (by decide)).1⟩

/-! ### Claim C3 (fingerprint invalidation) -/

/-- Claim C3, counterexample.  `X.f` is analyzed under source content `S1`
(fingerprint `md5:S1`) and the result is cached; then the source content of
`X` changes to `S2` (current fingerprint `md5:S2`).  The next request for
the key still hits the session-tier cache and returns the stored analysis —
identical to the first, fingerprint `md5:S1` ≠ `md5:S2` — and the oracle is
not re-invoked (the log still holds the single first invocation).  The
in-memory tier never compares fingerprints, refuting "a stored analysis
whose fingerprint differs from the current one is never returned". -/
theorem C3_stale_fingerprint_returned :
    (analyzeMethod envContentS2 "X" "f"
        (analyzeMethod envContentS1 "X" "f" st0).2).1 =
      (analyzeMethod envContentS1 "X" "f" st0).1 ∧
    (analyzeMethod envContentS1 "X" "f" st0).1.contentHash =
      generateContentHash "S1" ∧
    generateContentHash "S1" ≠ generateContentHash "S2" ∧
    (analyzeMethod envContentS2 "X" "f"
        (analyzeMethod envContentS1 "X" "f" st0).2).2.oracleLog =
      [("X", "f")] := by
  rw [content_first_eq]
  dsimp only
  rw [content_second_eq]
  exact ⟨rfl, rfl, by decide, rfl⟩

/-- Claim C3, amended: only the persistent tier validates fingerprints — a
persistent-cache lookup returns an analysis only when the stored entry's
content hash equals the hash of the current file content, its model name
matches, and it is within the retention window.  The session tier performs
no fingerprint comparison, so within one session a stored analysis whose
fingerprint differs from the current one IS returned (see the
counterexample); re-invocation on content change holds only for the
persistent tier. -/
theorem C3_persistent_validates (st : AState) (c m fc mn : String)
    (a : MethodAnalysis) (h : (pcacheGet st c m fc mn).1 = some a) :
    ∃ e : PEntry, mapGet st.pc (memKey c m) = some e ∧ e.analysis = a ∧
      e.contentHash = sha256Hash fc ∧ e.modelName = mn ∧
      st.now - e.timestamp ≤ pMaxAgeMs := by
  simp only [pcacheGet] at h
  cases hg : mapGet st.pc (memKey c m) with
  | none => rw [hg] at h; simp at h
  | some e =>
      rw [hg] at h
      dsimp only at h
      by_cases h1 : e.contentHash ≠ sha256Hash fc
      · rw [if_pos h1] at h; simp at h
      · rw [if_neg h1] at h
        by_cases h2 : e.modelName ≠ mn
        · rw [if_pos h2] at h; simp at h
        · rw [if_neg h2] at h
          by_cases h3 : st.now - e.timestamp > pMaxAgeMs
          · rw [if_pos h3] at h; simp at h
          · rw [if_neg h3] at h
            simp at h
            exact ⟨e, rfl, h, not_not.mp h1, not_not.mp h2, by omega⟩

/-- Claim C3, witness: a concrete persistent-tier hit, validated against the
stored entry. -/
theorem C3_persistent_validates_witness :
    (pcacheGet stW "X" "f" "S" "gpt").1 = some wComplete ∧
    (∃ e : PEntry, mapGet stW.pc (memKey "X" "f") = some e ∧
      e.analysis = wComplete ∧ e.contentHash = sha256Hash "S" ∧
      e.modelName = "gpt" ∧ stW.now - e.timestamp ≤ pMaxAgeMs) :=
  ⟨rfl, C3_persistent_validates stW "X" "f" "S" "gpt" wComplete rfl⟩

/-! ### Claim C6 (parser status) -/

/-- Claim C6, counterexample.  The free-text response `"hello"` matches no
not-found marker and contains no execution block, yet the parser returns
status `complete` with zero extracted blocks.  This refutes "returns status
complete if and only if at least one execution block was extracted" and
"every outcome with zero extracted blocks yields status error". -/
theorem C6_zero_blocks_complete :
    (parseLLMResponse "hello" "C" "m").analysisStatus = "complete" ∧
    (parseLLMResponse "hello" "C" "m").executionBlocks = [] :=
  ⟨rfl, rfl⟩

/-- Claim C6, amended: the parser returns status `error` exactly when the
response matches a not-found marker (in which case no blocks are returned);
every other response — including one with zero extractable blocks — yields
status `complete`.  The block count plays no role in the status. -/
theorem C6_status_iff_marker (t c m : String) :
    ((parseLLMResponse t c m).analysisStatus = "error" ↔
      hasNotFoundMarker t = true) ∧
    (hasNotFoundMarker t = true →
      (parseLLMResponse t c m).executionBlocks = []) := by
  have hs : (parseLLMResponse t c m).analysisStatus =
      (if hasNotFoundMarker t then "error" else "complete") := by
    unfold parseLLMResponse
    split
    · rfl
    · rfl
  by_cases h : hasNotFoundMarker t = true
  · rw [hs, if_pos h]
    refine ⟨⟨fun _ => h, fun _ => rfl⟩, fun _ => ?_⟩
    unfold parseLLMResponse
    rw [if_pos h]
  · rw [hs, if_neg h]
    exact ⟨⟨fun hc => absurd hc (by decide), fun hm => absurd hm h⟩,
           fun hm => absurd hm h⟩

/-! ### Claim C7 (classification partition) -/

/-- Claim C7, counterexample.  The classification phrase `yesterday` is not
one of the named categories, yet — because the case-insensitive fallback
checks for the substring `yes` before defaulting — the extracted call is
classified `stepInto`, not `external`.  This refutes "any classification
phrase not recognized as one of the named categories defaults to
external". -/
theorem C7_unrecognized_yes_defaults_stepInto :
    (extractMethodCallsFromBlock
        "- **Call**: `A.b()`\n- **Classification**: yesterday (x)\n").map
      (fun mc => mc.stepInDecision) = [StepInDecision.stepInto] ∧
    classifyDecision "yesterday" = StepInDecision.stepInto :=
  ⟨rfl, rfl⟩

/-- Claim C7, amended: each parsed call carries exactly one classification
(its `stepInDecision`), and the four buckets of the call summary partition
the calls — each bucket is exactly the sublist of calls carrying that
classification, and the four sizes sum to the total call count.  A phrase
recognized as none of the named categories defaults to `external` only if it
does not contain `yes`; a `yes`-containing phrase maps to `stepInto` (see
the counterexample). -/
theorem C7_buckets_partition (calls : List MethodCall) :
    ((buildMethodCallSummary calls).stepInto =
      calls.filter (fun mc => mc.stepInDecision = StepInDecision.stepInto)) ∧
    ((buildMethodCallSummary calls).objectLookup =
      calls.filter (fun mc => mc.stepInDecision = StepInDecision.objectLookup)) ∧
    ((buildMethodCallSummary calls).external =
      calls.filter (fun mc => mc.stepInDecision = StepInDecision.external)) ∧
    ((buildMethodCallSummary calls).notFound =
      calls.filter (fun mc => mc.stepInDecision = StepInDecision.notFound)) ∧
    (buildMethodCallSummary calls).stepInto.length +
      (buildMethodCallSummary calls).objectLookup.length +
      (buildMethodCallSummary calls).external.length +
      (buildMethodCallSummary calls).notFound.length = calls.length := by
  induction calls with
  | nil => exact ⟨rfl, rfl, rfl, rfl, rfl⟩
  | cons mc rest ih =>
      obtain ⟨h1, h2, h3, h4, h5⟩ := ih
      rw [h1, h2, h3, h4] at h5
      simp only [buildMethodCallSummary]
      cases hd : mc.stepInDecision <;>
        simp [List.filter_cons, hd, h1, h2, h3, h4] <;>
        omega

/-! ### Claim C8 (inheritance fallback) -/

/-- Claim C8, counterexample.  In the inheritance scenario (`Child extends
Base`, `run()` found on `Base` by the suggestion fallback), the returned
analysis has `className = "Base"` and status `complete` — but its
`inheritedFrom` field holds `"Child"`, the originally REQUESTED type, not
the ancestor type `Base` where the method was located.  This refutes
"`inheritedFrom` records the ancestor type where the method was actually
located (Base)". -/
theorem C8_inheritedFrom_is_requested_type :
    (runSession envInherit cfgStd "Child" "run" st0).1.className = "Base" ∧
    (runSession envInherit cfgStd "Child" "run" st0).1.inheritedFrom =
      some "Child" ∧
    (runSession envInherit cfgStd "Child" "run" st0).1.analysisStatus =
      "complete" := by
  rw [inherit_run_eq]
  exact ⟨rfl, rfl, rfl⟩

/-- Claim C8, amended: whenever the suggestion-following fallback resolves a
method on another type, the winning analysis is `complete`, its
`className` is the suggested type where the method was found, and its
`inheritedFrom` field records the ORIGINALLY REQUESTED type (not the
ancestor type); requesting `Child.run()` therefore yields `className =
Base`, `inheritedFrom = Child`, status `complete`. -/
theorem C8_fallback_records_requested
    (perform : String → FileInfo → AState → Except String MethodAnalysis × AState)
    (env : Env) (origCls : String) (sgs : List Suggestion) (st : AState)
    (a : MethodAnalysis) (st' : AState)
    (h : followLoop perform env origCls sgs st = (some a, st')) :
    a.inheritedFrom = some origCls ∧ a.analysisStatus = "complete" ∧
    ∃ sg, sg ∈ sgs ∧ a.className = sg.className := by
  induction sgs generalizing st with
  | nil => exact absurd h (by simp [followLoop])
  | cons sg rest ih =>
      simp only [followLoop] at h
      cases hg : getFileInfo env st sg.className with
      | error e =>
          rw [hg] at h
          exact (ih st h).imp id (fun h2 => h2.imp id (fun h3 =>
            h3.elim (fun sg2 h4 => ⟨sg2, List.mem_cons_of_mem sg h4.1, h4.2⟩)))
      | ok sfi =>
          rw [hg] at h
          dsimp only at h
          cases hp : perform sg.className sfi st with
          | mk er st2 =>
              rw [hp] at h
              cases er with
              | error msg =>
                  exact (ih st2 h).imp id (fun h2 => h2.imp id (fun h3 =>
                    h3.elim (fun sg2 h4 =>
                      ⟨sg2, List.mem_cons_of_mem sg h4.1, h4.2⟩)))
              | ok analysis =>
                  dsimp only at h
                  by_cases hc : analysis.analysisStatus = "complete"
                  · rw [if_pos hc] at h
                    injection h with ha hst
                    injection ha with ha2
                    subst ha2
                    exact ⟨rfl, hc, sg, List.mem_cons_self sg rest, rfl⟩
                  · rw [if_neg hc] at h
                    exact (ih st2 h).imp id (fun h2 => h2.imp id (fun h3 =>
                      h3.elim (fun sg2 h4 =>
                        ⟨sg2, List.mem_cons_of_mem sg h4.1, h4.2⟩)))

/-- Claim C8, witness: a concrete one-suggestion fallback run (stub
resolution succeeding on `Base` for a request originally naming `Child`). -/
theorem C8_fallback_records_requested_witness :
    followLoop wPerform envInherit "Child" [wSugg] st0 =
      (some { wComplete with
                className := "Base", inheritedFrom := some "Child" }, st0) ∧
    (({ wComplete with
          className := "Base", inheritedFrom := some "Child" } :
        MethodAnalysis).inheritedFrom = some "Child" ∧
     ({ wComplete with
          className := "Base", inheritedFrom := some "Child" } :
        MethodAnalysis).analysisStatus = "complete" ∧
     ∃ sg, sg ∈ [wSugg] ∧
       ({ wComplete with
            className := "Base", inheritedFrom := some "Child" } :
          MethodAnalysis).className = sg.className) :=
  ⟨rfl, C8_fallback_records_requested wPerform envInherit "Child" [wSugg] st0
      _ st0 rfl⟩

/-! ### Claim C10 (error conversion and durable purity) -/

theorem mem_pcacheGet_pc (st : AState) (c m fc mn : String)
    (p : String × PEntry) (h : p ∈ (pcacheGet st c m fc mn).2.pc) : p ∈ st.pc := by
  simp only [pcacheGet] at h
  cases hg : mapGet st.pc (memKey c m) with
  | none => rw [hg] at h; exact h
  | some e2 =>
      rw [hg] at h
      dsimp only at h
      split at h
      · exact mem_mapDelete _ _ _ h
      · split at h
        · exact mem_mapDelete _ _ _ h
        · split at h
          · exact mem_mapDelete _ _ _ h
          · exact h

theorem mem_pcacheSet_pc (st : AState) (c m : String) (a : MethodAnalysis)
    (fc fp mn : String) (p : String × PEntry)
    (h : p ∈ (pcacheSet st c m a fc fp mn).pc) : p ∈ st.pc ∨ p.2.analysis = a := by
  simp only [pcacheSet] at h
  have h2 := mem_pcacheCleanup _ _ _ h
  rcases mem_mapSet _ _ _ _ h2 with h3 | h3
  · exact .inl h3
  · right; rw [h3]

theorem analyzeMethod_pc_pure (env : Env) (c m : String) (st : AState)
    (p : String × PEntry) (hk : p ∈ (analyzeMethod env c m st).2.pc) :
    p ∈ st.pc ∨ p.2.analysis.analysisStatus = "complete" := by
  unfold analyzeMethod at hk
  cases hg : cacheGet st c m with
  | mk oe st1 =>
    rw [hg] at hk
    have hpc1 : st1.pc = st.pc := by
      have h0 := (cacheGet_state st c m).2.1
      rw [hg] at h0
      exact h0
    cases oe with
    | some entry =>
        left; rw [← hpc1]; exact hk
    | none =>
        dsimp only at hk
        cases hfi : getFileInfo env st1 c with
        | error msg =>
            rw [hfi] at hk
            dsimp only at hk
            rw [(cacheSet_state st1 c m _).2.1, hpc1] at hk
            exact .inl hk
        | ok fi =>
            rw [hfi] at hk
            dsimp only at hk
            cases hph : (if env.persistentEnabled then
                match st1.selectedModel with
                | some mdl => pcacheGet st1 c m fi.content mdl
                | none => (none, st1)
              else (none, st1)) with
            | mk pr st2 =>
              rw [hph] at hk
              have hsub : ∀ q : String × PEntry, q ∈ st2.pc → q ∈ st.pc := by
                intro q hq
                rw [show st2 = ((if env.persistentEnabled then
                    match st1.selectedModel with
                    | some mdl => pcacheGet st1 c m fi.content mdl
                    | none => (none, st1)
                  else (none, st1)).2) from by rw [hph]] at hq
                rw [← hpc1]
                split at hq
                · split at hq
                  · exact mem_pcacheGet_pc _ _ _ _ _ _ hq
                  · exact hq
                · exact hq
              cases pr with
              | some a =>
                  dsimp only at hk
                  rw [(cacheSet_state st2 c m a).2.1] at hk
                  exact .inl (hsub p hk)
              | none =>
                  dsimp only at hk
                  cases hpm : performMethodAnalysis env.sfuel env c m fi st2 with
                  | mk r st3 =>
                    rw [hpm] at hk
                    have hpc3 : st3.pc = st2.pc := by
                      have h0 := (performMethodAnalysis_coreEq
                        env.sfuel env c m fi st2).2.2.2.1
                      rw [hpm] at h0
                      exact h0
                    cases r with
                    | error msg =>
                        dsimp only at hk
                        rw [(cacheSet_state st3 c m _).2.1, hpc3] at hk
                        exact .inl (hsub p hk)
                    | ok a0 =>
                        dsimp only at hk
                        split at hk
                        · rename_i hcond
                          split at hk
                          · rcases mem_pcacheSet_pc _ _ _ _ _ _ _ _ hk with h3 | h3
                            · rw [(cacheSet_state st3 c m _).2.1, hpc3] at h3
                              exact .inl (hsub p h3)
                            · right; rw [h3]; exact hcond.2
                          · rw [(cacheSet_state st3 c m _).2.1, hpc3] at hk
                            exact .inl (hsub p hk)
                        · rw [(cacheSet_state st3 c m _).2.1, hpc3] at hk
                          exact .inl (hsub p hk)

/-- Claim C10: `analyzeMethod` never throws — every internal failure is
converted into a returned `MethodAnalysis` with status `error` carrying the
thrown message (shown for the class-not-found and the oracle-failure paths);
the returned analysis — error analyses included — is always cached in the
session tier under its MethodKey (so a failed key is not retried within the
session); and the durable tier only ever acquires analyses whose status is
`complete`: every persistent entry after the call was either already stored
before or holds a `complete` analysis. -/
theorem C10_error_conversion_durable_purity (env : Env) (c m : String)
    (st : AState) :
    (∀ p : String × PEntry, p ∈ (analyzeMethod env c m st).2.pc →
        p ∈ st.pc ∨ p.2.analysis.analysisStatus = "complete") ∧
    (∃ ce : CacheEntry,
        mapGet (analyzeMethod env c m st).2.mem (memKey c m) = some ce ∧
        ce.analysis = (analyzeMethod env c m st).1) ∧
    (mapGet st.mem (memKey c m) = none → env.files c = none →
        (analyzeMethod env c m st).1 =
          mkErrorAnalysis c m st.now ("Class " ++ c ++ " not found in workspace")) ∧
    (∀ msg f, mapGet st.mem (memKey c m) = none → env.files c = some f →
        env.persistentEnabled = false →
        (∀ c2 m2 content, env.oracle c2 m2 content = Except.error msg) →
        (analyzeMethod env c m st).1 = mkErrorAnalysis c m st.now msg) := by
  have hcg : mapGet st.mem (memKey c m) = none → cacheGet st c m = (none,
      { st with stats := { st.stats with missCount := st.stats.missCount + 1 } }) := by
    intro hmiss
    simp only [cacheGet]
    rw [hmiss]
  refine ⟨fun p hp => analyzeMethod_pc_pure env c m st p hp, ?_, ?_, ?_⟩
  · obtain ⟨ce, h1, h2, _, _⟩ := analyzeMethod_cached env c m st
    exact ⟨ce, h1, h2⟩
  · intro hmiss hfile
    unfold analyzeMethod
    rw [hcg hmiss]
    dsimp only
    rw [show getFileInfo env
        { st with stats := { st.stats with missCount := st.stats.missCount + 1 } } c =
        .error ("Class " ++ c ++ " not found in workspace") from by
      unfold getFileInfo
      rw [hfile]]
  · intro msg f hmiss hfile hpe horacle
    unfold analyzeMethod
    rw [hcg hmiss]
    dsimp only
    rw [show getFileInfo env
        { st with stats := { st.stats with missCount := st.stats.missCount + 1 } } c =
        .ok { className := c
              filePath := f.filePath
              content := f.content
              language := f.language
              contentHash := generateContentHash f.content
              lastModified :=
                ({ st with stats :=
                    { st.stats with missCount := st.stats.missCount + 1 } }).now } from by
      unfold getFileInfo
      rw [hfile]]
    try dsimp only
    rw [hpe]
    rw [if_neg Bool.false_ne_true]
    try dsimp only
    rw [performMethodAnalysis.eq_def]
    try dsimp only
    simp only [invokeOracle]
    rw [horacle]
    try dsimp only
    try rfl

/-- Claim C10, witness: on an empty workspace the request converts the
class-not-found throw into a cached error analysis; with a failing oracle
the thrown timeout becomes the returned error analysis. -/
theorem C10_witness :
    (analyzeMethod envEmpty "Z" "z" st0).1 =
      mkErrorAnalysis "Z" "z" st0.now ("Class " ++ "Z" ++ " not found in workspace") ∧
    (∃ ce : CacheEntry,
        mapGet (analyzeMethod envEmpty "Z" "z" st0).2.mem (memKey "Z" "z") = some ce ∧
        ce.analysis = (analyzeMethod envEmpty "Z" "z" st0).1) ∧
    (analyzeMethod envOracleFail "X" "f" st0).1 =
      mkErrorAnalysis "X" "f" st0.now "Analysis timeout" :=
  ⟨(C10_error_conversion_durable_purity envEmpty "Z" "z" st0).2.2.1 rfl rfl,
   (C10_error_conversion_durable_purity envEmpty "Z" "z" st0).2.1,
   (C10_error_conversion_durable_purity envOracleFail "X" "f" st0).2.2.2
      "Analysis timeout" ⟨"/x", "S", "java"⟩ rfl rfl rfl (fun _ _ _ => rfl)⟩


/-! ### Claim C9 (linear-flow invariants): numbering and step-type lemmas -/

theorem range'_append_one (s m n : Nat) :
    List.range' s m ++ List.range' (s + m) n = List.range' s (m + n) := by
  have h := List.range'_append s m n 1
  simp only [Nat.one_mul] at h
  rw [Nat.add_comm n m] at h
  exact h

theorem numberSteps_length (d : Nat) (k : String) (base : Nat)
    (ps : List ProtoStep) : (numberSteps d k base ps).length = ps.length := by
  induction ps generalizing base with
  | nil => rfl
  | cons p t ih => simp [numberSteps, ih]

theorem numberSteps_map (d : Nat) (k : String) (base : Nat) (ps : List ProtoStep) :
    (numberSteps d k base ps).map (fun s => s.stepNumber) =
      List.range' (base + 1) ps.length := by
  induction ps generalizing base with
  | nil => rfl
  | cons p t ih =>
      simp only [numberSteps, List.map_cons, ih, List.length_cons]
      rw [List.range'_succ]

theorem seTypes_append (k : String) (xs ys : List LinearStep) :
    seTypes k (xs ++ ys) = seTypes k xs ++ seTypes k ys := by
  simp [seTypes, List.filter_append]

theorem seTypes_numberSteps_self (k : String) (d base : Nat)
    (ps : List ProtoStep) :
    seTypes k (numberSteps d k base ps) =
      (ps.filter (fun p => p.stepType == LinearStepType.methodStart ||
          p.stepType == LinearStepType.methodEnd)).map (fun p => p.stepType) := by
  induction ps generalizing base with
  | nil => rfl
  | cons p t ih =>
      simp only [numberSteps, seTypes, List.filter_cons] at ih ⊢
      dsimp only
      rw [beq_self_eq_true, Bool.true_and]
      cases ht : (p.stepType == LinearStepType.methodStart ||
          p.stepType == LinearStepType.methodEnd) with
      | true => simp [ih (base + 1), seTypes]
      | false => simp [ih (base + 1), seTypes]

theorem seTypes_numberSteps_ne (k k2 : String) (hk : (k2 == k) = false)
    (d base : Nat) (ps : List ProtoStep) :
    seTypes k (numberSteps d k2 base ps) = [] := by
  induction ps generalizing base with
  | nil => rfl
  | cons p t ih =>
      simp only [numberSteps, seTypes, List.filter_cons] at ih ⊢
      dsimp only
      rw [hk, Bool.false_and]
      simp [ih (base + 1)]

theorem callProtoStep_type (mc : MethodCall) :
    (callProtoStep mc).stepType = LinearStepType.methodCall := by
  unfold callProtoStep
  cases mc.stepInDecision <;> rfl

theorem callProtoStep_not_se (mc : MethodCall) :
    ((callProtoStep mc).stepType == LinearStepType.methodStart ||
     (callProtoStep mc).stepType == LinearStepType.methodEnd) = false := by
  rw [callProtoStep_type]
  rfl

theorem filter_se_methodProtoSteps (a : MethodAnalysis) :
    ((methodProtoSteps a).filter (fun p =>
        p.stepType == LinearStepType.methodStart ||
        p.stepType == LinearStepType.methodEnd)).map (fun p => p.stepType) =
      [LinearStepType.methodStart, LinearStepType.methodEnd] := by
  have hmid : (a.executionBlocks.flatMap (fun b =>
      ({ description := b.description
         stepType := LinearStepType.execution
         originalBlockId := some b.blockId } : ProtoStep) ::
      b.methodCalls.map callProtoStep)).filter (fun p =>
        p.stepType == LinearStepType.methodStart ||
        p.stepType == LinearStepType.methodEnd) = [] := by
    rw [List.filter_eq_nil_iff]
    intro p hp
    rw [List.mem_flatMap] at hp
    obtain ⟨b, hb, hp2⟩ := hp
    rcases List.mem_cons.mp hp2 with h | h
    · rw [h]
      show ¬(LinearStepType.execution == LinearStepType.methodStart ||
          LinearStepType.execution == LinearStepType.methodEnd) = true
      decide
    · obtain ⟨mc, hmc, hmc2⟩ := List.mem_map.mp h
      rw [← hmc2]
      simp [callProtoStep_not_se]
  unfold methodProtoSteps
  rw [List.filter_append, List.filter_cons, hmid, List.filter_cons, List.filter_nil]
  rw [if_pos (by rfl), if_pos (by rfl)]
  rfl

/-! ### Claim C9: invariant preservation by the flow operations -/

theorem mapGet_mapSet_ne {α : Type} (l : List (String × α)) (k k2 : String)
    (v : α) (h : k2 ≠ k) : mapGet (mapSet l k v) k2 = mapGet l k2 := by
  induction l with
  | nil =>
      simp only [mapSet, mapGet]
      rw [if_neg (fun hc => h hc.symm)]
  | cons kv t ih =>
      rcases kv with ⟨k1, v1⟩
      simp only [mapSet]
      by_cases h2 : k1 = k
      · rw [if_pos h2]
        simp only [mapGet]
        have hne : ¬ k1 = k2 := fun hc => h (hc ▸ h2)
        rw [if_neg hne, if_neg hne]
      · rw [if_neg h2]
        simp only [mapGet]
        by_cases h3 : k1 = k2
        · rw [if_pos h3, if_pos h3]
        · rw [if_neg h3, if_neg h3, ih]

theorem flowInv_addReturnStep (f : LinearFlow) (d : Nat) (sm desc : String)
    (hf : FlowInv f) : FlowInv (addReturnStep f d sm desc) := by
  obtain ⟨h1, h2, h3, h4⟩ := hf
  have hsing : ∀ k, seTypes k
      [({ stepNumber := f.totalSteps + 1, depth := d, sourceMethod := sm,
          description := desc, stepType := LinearStepType.methodReturn,
          originalBlockId := none } : LinearStep)] = [] := by
    intro k
    simp [seTypes,
      show (LinearStepType.methodReturn == LinearStepType.methodStart) = false
        from rfl,
      show (LinearStepType.methodReturn == LinearStepType.methodEnd) = false
        from rfl]
  unfold addReturnStep
  refine ⟨?_, ?_, ?_, ?_⟩ <;> dsimp only
  · rw [List.length_append, h1]
    rfl
  · rw [List.map_append, h2, List.length_append]
    show List.range' 1 f.steps.length ++ [f.totalSteps + 1] =
      List.range' 1 (f.steps.length + 1)
    rw [h1]
    rw [show ([f.steps.length + 1] : List Nat) =
        List.range' (1 + f.steps.length) 1 from by
      rw [Nat.add_comm 1 f.steps.length] <;> rfl]
    exact range'_append_one 1 f.steps.length 1
  · intro k
    rw [seTypes_append, hsing k, List.append_nil]
    exact h3 k
  · intro k hk
    rw [seTypes_append, hsing k, List.append_nil] at hk
    exact h4 k hk

theorem flowInv_setRef (f : LinearFlow) (k2 : String) (a : MethodAnalysis)
    (hf : FlowInv f) :
    FlowInv { f with methodReferences := mapSet f.methodReferences k2 a } := by
  obtain ⟨h1, h2, h3, h4⟩ := hf
  refine ⟨h1, h2, h3, ?_⟩
  intro k hk
  by_cases he : k = k2
  · rw [he]
    show (mapGet (mapSet f.methodReferences k2 a) k2).isSome = true
    rw [mapGet_mapSet_self]
    rfl
  · show (mapGet (mapSet f.methodReferences k2 a) k).isSome = true
    rw [mapGet_mapSet_ne f.methodReferences k2 k a he]
    exact h4 k hk

theorem flowInv_addMethodToLinearFlow (a : MethodAnalysis) (depth : Nat)
    (f : LinearFlow) (hf : FlowInv f) :
    FlowInv (addMethodToLinearFlow a depth f) := by
  obtain ⟨h1, h2, h3, h4⟩ := hf
  unfold addMethodToLinearFlow
  dsimp only
  split
  · exact ⟨h1, h2, h3, h4⟩
  · rename_i hdup
    refine ⟨?_, ?_, ?_, ?_⟩ <;> dsimp only
    · rw [List.length_append, numberSteps_length, h1]
    · rw [List.map_append, h2, numberSteps_map, List.length_append,
        numberSteps_length, h1]
      rw [show f.steps.length + 1 = 1 + f.steps.length from
        Nat.add_comm f.steps.length 1]
      exact range'_append_one 1 f.steps.length (methodProtoSteps a).length
    · intro k
      rw [seTypes_append]
      by_cases hke : flowKey a.className a.methodName = k
      · have hempty : seTypes k f.steps = [] := by
          by_contra hne
          apply hdup
          rw [hke]
          exact h4 k hne
        rw [hke, seTypes_numberSteps_self, filter_se_methodProtoSteps, hempty]
        right
        rfl
      · rw [seTypes_numberSteps_ne k (flowKey a.className a.methodName)
          (beq_eq_false_iff_ne.mpr hke) depth f.totalSteps, List.append_nil]
        exact h3 k
    · intro k hk
      rw [seTypes_append] at hk
      by_cases hke : flowKey a.className a.methodName = k
      · rw [← hke, mapGet_mapSet_self]
        rfl
      · rw [mapGet_mapSet_ne f.methodReferences
          (flowKey a.className a.methodName) k a (fun hc => hke hc.symm)]
        apply h4 k
        rw [seTypes_numberSteps_ne k (flowKey a.className a.methodName)
          (beq_eq_false_iff_ne.mpr hke) depth f.totalSteps,
          List.append_nil] at hk
        exact hk

theorem stInv_of_flow_eq {st st' : AState} (h : st'.flow = st.flow)
    (hst : StInv st) : StInv st' := by
  intro f hf
  apply hst f
  rw [← h]
  exact hf

theorem stInv_flow_map (st : AState) (g : LinearFlow → LinearFlow)
    (hg : ∀ f, FlowInv f → FlowInv (g f)) (hst : StInv st) :
    StInv { st with flow := st.flow.map g } := by
  intro f hf
  dsimp only at hf
  rcases Option.map_eq_some'.mp hf with ⟨f0, hf0, hgf⟩
  rw [← hgf]
  exact hg f0 (hst f0 hf0)

theorem integrate_flow_inv (main : MethodAnalysis) (mc : MethodCall)
    (inner : MethodAnalysis) (fo : Option LinearFlow)
    (hfo : ∀ f, fo = some f → FlowInv f) :
    ∀ f, (integrateInnerAnalysis main mc inner fo).2 = some f → FlowInv f := by
  intro f hf
  unfold integrateInnerAnalysis at hf
  dsimp only at hf
  rcases Option.map_eq_some'.mp hf with ⟨f0, hf0, hgf⟩
  rw [← hgf]
  exact flowInv_setRef f0 _ inner (hfo f0 hf0)

/-! ### Claim C9: invariant preservation by the recursion controller -/

theorem stInv_processCallsLoop
    (analyze : String → String → AState → MethodAnalysis × AState)
    (hanalyze : ∀ c2 m2 s2, StInv s2 → StInv (analyze c2 m2 s2).2)
    (depth : Nat) :
    ∀ calls analysis st, StInv st →
      StInv (processCallsLoop analyze depth analysis calls st).2 := by
  intro calls
  induction calls with
  | nil => intro analysis st h; exact h
  | cons mc rest ih =>
      intro analysis st h
      simp only [processCallsLoop]
      cases hin : analyze mc.className mc.methodName st with
      | mk ia is =>
        have h2 : StInv is := by
          have h0 := hanalyze mc.className mc.methodName st h
          rw [hin] at h0
          exact h0
        dsimp only
        split
        · -- inner complete: a methodReturn step is appended before integration
          cases hint : integrateInnerAnalysis analysis mc ia
              ({ is with flow := is.flow.map (fun f =>
                  addReturnStep f depth
                    (flowKey analysis.className analysis.methodName)
                    ("↩️ " ++ mc.className ++ "." ++ mc.methodName ++
                      "() returns: " ++ extractExpectedBehavior ia)) }).flow with
          | mk a2 nf =>
            have hret : StInv { is with flow := is.flow.map (fun f =>
                addReturnStep f depth
                  (flowKey analysis.className analysis.methodName)
                  ("↩️ " ++ mc.className ++ "." ++ mc.methodName ++
                    "() returns: " ++ extractExpectedBehavior ia)) } :=
              stInv_flow_map is _
                (fun f hf => flowInv_addReturnStep f depth _ _ hf) h2
            dsimp only
            apply ih
            intro f hf
            dsimp only at hf
            refine integrate_flow_inv analysis mc ia _
              (fun f0 h0 => hret f0 h0) f ?_
            rw [hint]
            exact hf
        · -- inner not complete: no return step
          cases hint : integrateInnerAnalysis analysis mc ia is.flow with
          | mk a2 nf =>
            dsimp only
            apply ih
            intro f hf
            dsimp only at hf
            refine integrate_flow_inv analysis mc ia _
              (fun f0 h0 => h2 f0 h0) f ?_
            rw [hint]
            exact hf

theorem stInv_analyzeRecFuel (env : Env) (cfg : AnalysisConfig) :
    ∀ fuel c m depth st, StInv st →
      StInv (analyzeRecFuel env cfg fuel c m depth st).2 := by
  intro fuel
  induction fuel with
  | zero => intro c m depth st h; exact h
  | succ n ih =>
      intro c m depth st h
      simp only [analyzeRecFuel]
      split
      · exact h
      · split
        · cases hg : cacheGet st c m with
          | mk oe st1 =>
            have h1 : StInv st1 := by
              refine stInv_of_flow_eq ?_ h
              have h0 := (cacheGet_state st c m).1
              rw [hg] at h0
              exact h0.2.2.2.2
            cases oe with
            | some e => exact h1
            | none => exact h1
        · split
          · exact h
          · split
            · exact h
            · dsimp only
              cases hana : analyzeMethod env c m { st with
                  visited := st.visited ++ [memKey c m]
                  totalAnalyzed := st.totalAnalyzed + 1
                  callStack := st.callStack ++
                    [{ className := c, methodName := m, depth := depth,
                       isConditional := false }] } with
              | mk a1 st1 =>
                have h1 : StInv st1 := by
                  refine stInv_of_flow_eq ?_ (show StInv { st with
                      visited := st.visited ++ [memKey c m]
                      totalAnalyzed := st.totalAnalyzed + 1
                      callStack := st.callStack ++
                        [{ className := c, methodName := m, depth := depth,
                           isConditional := false }] } from fun f hf => h f hf)
                  have h0 := analyzeMethod_sessionEq env c m { st with
                      visited := st.visited ++ [memKey c m]
                      totalAnalyzed := st.totalAnalyzed + 1
                      callStack := st.callStack ++
                        [{ className := c, methodName := m, depth := depth,
                           isConditional := false }] }
                  rw [hana] at h0
                  exact h0.2.2.2.2
                dsimp only
                by_cases hr : depth = 0 ∧ a1.inheritedFrom.isSome = true
                · rw [if_pos hr]
                  have hR : StInv { st1 with flow := st1.flow.map (fun f =>
                      { f with rootMethod :=
                          flowKey a1.className a1.methodName }) } :=
                    stInv_flow_map st1 _ (fun f hf => hf) h1
                  by_cases hc : a1.analysisStatus = "complete"
                  · rw [if_pos hc, if_pos hc]
                    intro f hf
                    refine stInv_processCallsLoop _
                      (fun c2 m2 s2 hs => ih c2 m2 (depth + 1) s2 hs) depth
                      a1.methodCallSummary.stepInto a1 _
                      (stInv_flow_map _ _
                        (fun f2 hf2 =>
                          flowInv_addMethodToLinearFlow a1 depth f2 hf2) hR)
                      f ?_
                    exact hf
                  · rw [if_neg hc, if_neg hc]
                    intro f hf
                    exact hR f hf
                · rw [if_neg hr]
                  by_cases hc : a1.analysisStatus = "complete"
                  · rw [if_pos hc, if_pos hc]
                    have hP : StInv { st1 with
                        flow := st1.flow.map (addMethodToLinearFlow a1 depth) } :=
                      stInv_flow_map _ _
                        (fun f hf => flowInv_addMethodToLinearFlow a1 depth f hf) h1
                    intro f hf
                    refine stInv_processCallsLoop _
                      (fun c2 m2 s2 hs => ih c2 m2 (depth + 1) s2 hs) depth
                      a1.methodCallSummary.stepInto a1 _ hP f ?_
                    exact hf
                  · rw [if_neg hc, if_neg hc]
                    intro f hf
                    exact h1 f hf

/-- Claim C9, counterexample.  The full step projection of the chain session
(`A → B → C` under `maxDepth = 2`): the call step for `B.b` is step 3 at
depth 0, but the inner method's sequence (steps 5 to 8, at depth 1) is NOT
emitted immediately after it — `A.a`'s `methodEnd` (step 4) intervenes,
because the assembler first finishes the caller's own step block and only
then recurses; the `methodReturn` step (9, depth 0) follows the inner
sequence.  This refutes "the inner method's full step sequence is emitted at
depth+1 immediately after the call step". -/
theorem C9_inner_steps_after_method_end :
    (runSession envChain cfgDepth2 "A" "a" st0).2.flow.map (fun f =>
      f.steps.map (fun s => (s.stepNumber, s.depth, s.stepType))) =
    some [(1, 0, LinearStepType.methodStart), (2, 0, LinearStepType.execution),
          (3, 0, LinearStepType.methodCall), (4, 0, LinearStepType.methodEnd),
          (5, 1, LinearStepType.methodStart), (6, 1, LinearStepType.execution),
          (7, 1, LinearStepType.methodCall), (8, 1, LinearStepType.methodEnd),
          (9, 0, LinearStepType.methodReturn)] := by
  rw [chain_run_eq]
  rfl

/-- Claim C9, amended: in every linear flow emitted by a session, the `n`-th
step carries step number `n` (numbers are strictly increasing, gap-free and
repeat-free, and the counter equals the step count), and each method key owns
at most one `methodStart` / `methodEnd` pair, emitted in that order.  The
inner sequence of a step-into call is, however, emitted at `depth+1` only
after the caller's own `methodEnd` (the caller's block is completed first),
with the `methodReturn` step at the original depth after the inner sequence
(see the counterexample). -/
theorem C9_flow_invariant (env : Env) (cfg : AnalysisConfig) (c m : String)
    (st : AState) (f : LinearFlow)
    (hf : (runSession env cfg c m st).2.flow = some f) :
    f.totalSteps = f.steps.length ∧
    f.steps.map (fun s => s.stepNumber) = List.range' 1 f.steps.length ∧
    (∀ k, seTypes k f.steps = [] ∨
        seTypes k f.steps = [LinearStepType.methodStart,
                            LinearStepType.methodEnd]) := by
  have h0 : StInv { st with
      visited := [], totalAnalyzed := 0, callStack := [],
      flow := some (emptyFlow c m) } := by
    intro f0 hf0
    have hf1 : some (emptyFlow c m) = some f0 := hf0
    injection hf1 with h2
    rw [← h2]
    exact ⟨rfl, rfl, fun k => Or.inl rfl, fun k hk => absurd rfl hk⟩
  have h1 := stInv_analyzeRecFuel env cfg (cfg.maxCallStackDepth + 1 - 0)
    c m 0 _ h0
  rw [runSession_init env cfg c m st _ rfl, analyzeMethodRecursively_fuel] at hf
  have h2 := h1 f hf
  exact ⟨h2.1, h2.2.1, h2.2.2.1⟩

/-- Claim C9, witness: the invariant instantiated on a concrete session (the
empty-workspace session, whose emitted flow is the fresh flow). -/
theorem C9_flow_invariant_witness :
    (runSession envEmpty cfgStd "Z" "z" st0).2.flow = some (emptyFlow "Z" "z") ∧
    ((emptyFlow "Z" "z").totalSteps = (emptyFlow "Z" "z").steps.length ∧
     (emptyFlow "Z" "z").steps.map (fun s => s.stepNumber) =
       List.range' 1 (emptyFlow "Z" "z").steps.length ∧
     (∀ k, seTypes k (emptyFlow "Z" "z").steps = [] ∨
         seTypes k (emptyFlow "Z" "z").steps =
           [LinearStepType.methodStart, LinearStepType.methodEnd])) :=
  ⟨by rfl, C9_flow_invariant envEmpty cfgStd "Z" "z" st0 (emptyFlow "Z" "z")
      (by rfl)⟩

end ReqGen
